import Mathlib

/-!
Cross-chain transaction manager

A shallow embedding of `internal/executor/contracts/transaction_manager.go`:
the status enum, the `looplab/fsm` transition table installed by `setFSM`,
the key/value stub, the timeout index and the five entry points, and of the
culprit loop of `GetTssSigns` and the function `RandRangeNumbers` of
`api/grpc/sign.go`, followed by theorems about them.

Conventions of the embedding.

* `uint64` values are `Nat`; additions that can wrap are taken modulo `2 ^ 64`.
  A Go `int` is an `Int` and `wrap64` wraps the result of its arithmetic.
* A Go `map[string]TransactionStatus` is an association list.  Go does not fix
  the order in which `range` walks a map, so every `range` over a map takes its
  order from `Env.rangeOrder`, indexed by the source line of the `range`.  A nil
  map, which a decoded info can hold, reads like the empty list; `Env.nilChildren`
  tells it apart, and a write to it is a panic.
* The byte encodings (`Marshal`, `Unmarshal`, `GetObject`, `SetObject`,
  `[]byte(s)`, `string(b)`) live outside the repository and are the fields of
  `Env`; only their round-trip laws are assumed.
* A Go run-time panic is the result `none`.
-/

namespace Contracts

/-! ## Statuses, events and receipts -/

/-- The enum `pb.TransactionStatus`. -/
inductive TransactionStatus where
  | BEGIN
  | BEGIN_FAILURE
  | BEGIN_ROLLBACK
  | SUCCESS
  | FAILURE
  | ROLLBACK
  deriving DecidableEq, Repr, Inhabited

namespace TransactionStatus

/-- The generated `String()` method of the enum: the name of the value. -/
def name : TransactionStatus → String
  | BEGIN => "BEGIN"
  | BEGIN_FAILURE => "BEGIN_FAILURE"
  | BEGIN_ROLLBACK => "BEGIN_ROLLBACK"
  | SUCCESS => "SUCCESS"
  | FAILURE => "FAILURE"
  | ROLLBACK => "ROLLBACK"

/-- The numeric value of the enum (the `int32` behind it). -/
def toInt : TransactionStatus → Int
  | BEGIN => 0
  | BEGIN_FAILURE => 1
  | BEGIN_ROLLBACK => 2
  | SUCCESS => 3
  | FAILURE => 4
  | ROLLBACK => 5

end TransactionStatus

open TransactionStatus

/-- The generated table `pb.TransactionStatus_value`, read as the source reads it:
a Go map lookup, which yields the zero value `BEGIN` for a missing key. -/
def TransactionStatus_value (s : String) : TransactionStatus :=
  if s = "BEGIN" then BEGIN
  else if s = "BEGIN_FAILURE" then BEGIN_FAILURE
  else if s = "BEGIN_ROLLBACK" then BEGIN_ROLLBACK
  else if s = "SUCCESS" then SUCCESS
  else if s = "FAILURE" then FAILURE
  else if s = "ROLLBACK" then ROLLBACK
  else BEGIN

/-- `type TransactionEvent string`. -/
abbrev TransactionEvent := String

def TransactionEventBegin : TransactionEvent := "begin"
def TransactionEventBeginFailure : TransactionEvent := "begin_failure"
def TransactionEventTimeout : TransactionEvent := "timeout"
def TransactionEventFailure : TransactionEvent := "failure"
def TransactionEventSuccess : TransactionEvent := "success"
def TransactionEventRollback : TransactionEvent := "rollback"
def TransactionEventDstRollback : TransactionEvent := "dst_rollback"
def TransactionEventDstFailure : TransactionEvent := "dst_failure"
def TransactionStateInit : String := "init"

/-- The constant `pb.IBTP_RECEIPT_SUCCESS` of the message package. -/
def IBTP_RECEIPT_SUCCESS : Int := 1
/-- The constant `pb.IBTP_RECEIPT_FAILURE` of the message package. -/
def IBTP_RECEIPT_FAILURE : Int := 2
/-- The constant `pb.IBTP_RECEIPT_ROLLBACK` of the message package. -/
def IBTP_RECEIPT_ROLLBACK : Int := 3

/-- The map `receipt2EventM`, read with a Go map lookup: a receipt that is not a
key yields the zero value of `TransactionEvent`, the empty string. -/
def receipt2EventM (result : Int) : TransactionEvent :=
  if result = IBTP_RECEIPT_FAILURE then TransactionEventFailure
  else if result = IBTP_RECEIPT_SUCCESS then TransactionEventSuccess
  else if result = IBTP_RECEIPT_ROLLBACK then TransactionEventRollback
  else ""

/-- The map `txStatus2EventM`, keyed by the numeric value of a status. -/
def txStatus2EventM (txStatus : Int) : TransactionEvent :=
  if txStatus = BEGIN_FAILURE.toInt then TransactionEventDstFailure
  else if txStatus = BEGIN_ROLLBACK.toInt then TransactionEventDstRollback
  else ""

/-! ## The state machine built by `setFSM` -/

/-- One entry of `fsm.Events`. -/
structure EventDesc where
  Name : String
  Src : List String
  Dst : String
  deriving DecidableEq, Repr

/-- The `fsm.Events` literal of `setFSM`, entry by entry. -/
def fsmEvents : List EventDesc :=
  [ ⟨TransactionEventBegin, [TransactionStateInit], BEGIN.name⟩,
    ⟨TransactionEventBeginFailure, [TransactionStateInit, BEGIN.name], BEGIN_FAILURE.name⟩,
    ⟨TransactionEventTimeout, [BEGIN.name], BEGIN_ROLLBACK.name⟩,
    ⟨TransactionEventSuccess, [BEGIN.name], SUCCESS.name⟩,
    ⟨TransactionEventFailure, [BEGIN.name, BEGIN_FAILURE.name], FAILURE.name⟩,
    ⟨TransactionEventRollback, [BEGIN_ROLLBACK.name], ROLLBACK.name⟩,
    ⟨TransactionEventFailure, [BEGIN_ROLLBACK.name], ROLLBACK.name⟩,
    ⟨TransactionEventDstFailure, [BEGIN.name], FAILURE.name⟩,
    ⟨TransactionEventDstRollback, [BEGIN.name], ROLLBACK.name⟩ ]

/-- The errors `fsm.Event` can return here. -/
inductive FsmError where
  | UnknownEvent
  | InvalidEvent
  | NoTransition
  deriving DecidableEq, Repr

/-- The `transitions` map that `fsm.NewFSM` fills from the events: the entry for
`(event, src)`; a later event entry overwrites an earlier one. -/
def fsmTransition (events : List EventDesc) (event current : String) : Option String :=
  events.foldl
    (fun acc e => if e.Name = event ∧ current ∈ e.Src then some e.Dst else acc) none

/-- The method `fsm.Event` on a machine in state `current`: the new current state
and the error.  An event with no transition from `current` is an invalid event
when some entry has that name and an unknown event otherwise; a transition to the
state the machine is in already is reported as no transition. -/
def fsmEvent (events : List EventDesc) (current event : String) :
    String × Option FsmError :=
  match fsmTransition events event current with
  | none =>
    if events.any (fun e => decide (e.Name = event)) then (current, some .InvalidEvent)
    else (current, some .UnknownEvent)
  | some dst =>
    if current = dst then (current, some .NoTransition) else (dst, none)

/-- The method `setFSM`: the status behind the pointer after the call, and the
error.  The callback, registered for every event name, runs after a transition
and stores the status named by the machine's current state; on an error without
a transition the status is not touched. -/
def setFSM (state : TransactionStatus) (event : TransactionEvent) :
    TransactionStatus × Option FsmError :=
  match fsmEvent fsmEvents state.name event with
  | (cur, none) => (TransactionStatus_value cur, none)
  | (cur, some .NoTransition) => (TransactionStatus_value cur, some .NoTransition)
  | (_, some err) => (state, some err)

/-- The transition table as the specification words it: `(source, event,
destination)`, with `init` standing for the state before a record exists. -/
def specTransitionTable : List (String × String × String) :=
  [ ("init", "begin", "BEGIN"),
    ("init", "begin_failure", "BEGIN_FAILURE"),
    ("BEGIN", "success", "SUCCESS"),
    ("BEGIN", "failure", "FAILURE"),
    ("BEGIN_FAILURE", "failure", "FAILURE"),
    ("BEGIN_ROLLBACK", "failure", "ROLLBACK"),
    ("BEGIN", "timeout", "BEGIN_ROLLBACK"),
    ("BEGIN_ROLLBACK", "rollback", "ROLLBACK"),
    ("BEGIN", "dst_failure", "FAILURE"),
    ("BEGIN", "dst_rollback", "ROLLBACK") ]

/-- The pair `(s, e)` has a row in the table of the specification. -/
abbrev inSpecTable (s : TransactionStatus) (e : String) : Prop :=
  (s.name, e) ∈ specTransitionTable.map (fun r => (r.1, r.2.1))

/-- The pair `(s, e)` has a row in the table of the specification or is the pair
`(BEGIN, begin_failure)` that the events of `setFSM` also list. -/
abbrev inCodeTable (s : TransactionStatus) (e : String) : Prop :=
  inSpecTable s e ∨ (s = BEGIN ∧ e = "begin_failure")

/-! ## Records, the status change and the responses -/

/-- The message `pb.TransactionRecord`. -/
structure TransactionRecord where
  Status : TransactionStatus
  Height : Nat
  deriving DecidableEq, Repr

/-- A Go `map[string]pb.TransactionStatus`, as an association list. -/
abbrev ChildMap := List (String × TransactionStatus)

/-- The struct `TransactionInfo`. -/
structure TransactionInfo where
  GlobalState : TransactionStatus
  Height : Nat
  ChildTxInfo : ChildMap
  ChildTxCount : Nat
  deriving DecidableEq, Repr

/-- The message `pb.StatusChange`; the statuses are the numeric values, so that
the sentinel `-1` fits. -/
structure StatusChange where
  PrevStatus : Int
  CurStatus : Int
  ChildIBTPIDs : List String
  NotifySrcIBTPIDs : List String
  NotifyDstIBTPIDs : List String
  IsFailChildIBTP : Bool
  deriving DecidableEq, Repr

/-- The zero value of `pb.StatusChange`. -/
def StatusChange.zero : StatusChange := ⟨0, 0, [], [], [], false⟩

/-- The comma-ok map read `v, ok := m[k]`. -/
def mapLookup : ChildMap → String → Option TransactionStatus
  | [], _ => none
  | (k, v) :: m, key => if k = key then some v else mapLookup m key

/-- The map read `m[k]`, the zero value `BEGIN` for a missing key. -/
def mapGet (m : ChildMap) (key : String) : TransactionStatus :=
  (mapLookup m key).getD BEGIN

/-- The map write `m[k] = v`. -/
def mapSet : ChildMap → String → TransactionStatus → ChildMap
  | [], key, v => [(key, v)]
  | (k, w) :: m, key, v => if k = key then (k, v) :: m else (k, w) :: mapSet m key v

/-- The keys of a map. -/
def mapKeys (m : ChildMap) : List String := m.map Prod.fst

/-- The error codes of the transaction manager. -/
inductive ErrCode where
  | TransactionNoPermissionCode
  | TransactionInternalErrCode
  | TransactionStateErrCode
  | TransactionExistentChildTxCode
  | TransactionNonexistentTxCode
  | TransactionNonexistentGlobalTxCode
  | TransactionNonexistentGlobalIdCode
  deriving DecidableEq, Repr

/-- The result bytes of a successful response, before serialisation: a status
change, or the text returned by `GetStatus`. -/
inductive Payload where
  | change (c : StatusChange)
  | text (s : String)
  deriving DecidableEq, Repr

/-- The struct `boltvm.Response`: `boltvm.Success(data)` or `boltvm.Error(code, msg)`;
the message is kept as the list of the arguments formatted into it. -/
inductive Response where
  | Success (data : Payload)
  | Error (code : ErrCode) (msg : List String)
  deriving DecidableEq, Repr

/-- The response is an error response (`Ok == false`). -/
def Response.isError : Response → Bool
  | .Success _ => false
  | .Error _ _ => true

/-! ## The host: encodings, map iteration order and the key/value stub -/

/-- What the contract takes from outside the repository: the byte encodings and
the order in which a `range` walks a map.  `rangeOrder n keys` is the order of the
`range` statement at source line `n`.  `nilChildren b` tells whether the info that
`GetObject` decodes from the bytes `b` has a nil `ChildTxInfo` map (the encoding
gives no map); such a map has no entry, and an assignment to an entry of it
panics. -/
structure Env (B : Type) where
  bytesOfString : String → B
  stringOfBytes : B → String
  marshalRecord : TransactionRecord → B
  unmarshalRecord : B → Option TransactionRecord
  marshalInfo : TransactionInfo → B
  unmarshalInfo : B → Option TransactionInfo
  nilChildren : B → Bool
  unmarshalProof : B → Option Int
  rangeOrder : Nat → List String → List String
  string_bytes : ∀ s, stringOfBytes (bytesOfString s) = s
  record_roundtrip : ∀ r, unmarshalRecord (marshalRecord r) = some r
  info_roundtrip : ∀ i, unmarshalInfo (marshalInfo i) = some i
  nil_children : ∀ b i, unmarshalInfo b = some i → nilChildren b = true → i.ChildTxInfo = []
  rangeOrder_perm : ∀ n l, List.Perm (rangeOrder n l) l

/-- The state behind `boltvm.Stub`: the key/value store, the log of the writes
issued so far (oldest first), and the two facts the host injects. -/
structure Stub (B : Type) where
  kv : String → Option B
  writes : List (String × B)
  CurrentHeight : Nat
  CurrentCaller : String

variable {B : Type}

/-- The stub method `Get`: `none` for `ok == false`. -/
def Stub.Get (t : Stub B) (key : String) : Option B := t.kv key

/-- The stub method `Set`. -/
def Stub.Set (t : Stub B) (key : String) (val : B) : Stub B :=
  { t with
    kv := fun k => if k = key then some val else t.kv k
    writes := t.writes ++ [(key, val)] }

/-- The stub method `Add`, a `Set` under another name. -/
def Stub.Add (t : Stub B) (key : String) (val : B) : Stub B := t.Set key val

/-- The stub method `GetObject`: `none` when the key is missing or its bytes do
not decode. -/
def GetObject (e : Env B) (t : Stub B) (key : String) : Option TransactionInfo :=
  (t.Get key).bind e.unmarshalInfo

/-- The stub method `SetObject`. -/
def SetObject (e : Env B) (t : Stub B) (key : String) (v : TransactionInfo) : Stub B :=
  t.Set key (e.marshalInfo v)

/-- The stub method `AddObject`. -/
def AddObject (e : Env B) (t : Stub B) (key : String) (v : TransactionInfo) : Stub B :=
  t.Add key (e.marshalInfo v)

def PREFIX : String := "tx"
def TimeoutPrefix : String := "timeout"
def MaxUint64 : Nat := 2 ^ 64 - 1

/-- The address `constant.InterchainContractAddr.Address().String()`. -/
def InterchainContractAddr : String := "0x000000000000000000000000000000000000000A"

/-- The address `constant.TransactionMgrContractAddr.Address().String()`. -/
def TransactionMgrContractAddr : String := "0x000000000000000000000000000000000000000F"

def TxInfoKey (id : String) : String := PREFIX ++ "-" ++ id

def GlobalTxInfoKey (id : String) : String := "global-" ++ PREFIX ++ "-" ++ id

def TimeoutKey (height : Nat) : String := TimeoutPrefix ++ "-" ++ toString height

/-! ## The timeout index -/

/-- Cutting a string at every comma, on its characters: `strings.Split(s, ",")`. -/
def splitComma : List Char → List (List Char)
  | [] => [[]]
  | c :: cs =>
    if c = ',' then [] :: splitComma cs
    else
      match splitComma cs with
      | [] => [[c]]
      | h :: r => (c :: h) :: r

/-- The call `strings.Split(s, ",")`. -/
def stringsSplit (s : String) : List String := (splitComma s.data).map String.mk

/-- The call `strings.Join(list, ",")`. -/
def stringsJoin (list : List String) : String := String.intercalate "," list

/-- The method `addToTimeoutList`. -/
def addToTimeoutList (e : Env B) (t : Stub B) (height : Nat) (txId : String) : Stub B :=
  match t.Get (TimeoutKey height) with
  | none => t.Set (TimeoutKey height) (e.bytesOfString txId)
  | some val =>
    t.Set (TimeoutKey height) (e.bytesOfString (e.stringOfBytes val ++ "," ++ txId))

/-- The statement `list = append(list[:index], list[index+1:]...)` on a slice of
length `len` over the backing array `arr`: the elements after `index` move one
place down inside the array, the slots from `len - 1` on keep what they held, and
the length drops by one.  `list[index+1:]` is out of range, a panic, when
`index + 1 > len`. -/
def removeAt (arr : List String) (len index : Nat) : Option (List String × Nat) :=
  if index + 1 ≤ len then
    some (arr.take index ++ (arr.drop (index + 1)).take (len - (index + 1)) ++
      arr.drop (len - 1), len - 1)
  else none

/-- The loop of `removeFromTimeoutList`, with `k` iterations left at `index`.  The
`range` fixed its bounds on the slice it was given, so it runs over every index of
the backing array and reads each element when it reaches it. -/
def removeLoop (txId : String) : Nat → Nat → List String → Nat → Option (List String × Nat)
  | 0, _, arr, len => some (arr, len)
  | k + 1, index, arr, len =>
    if arr.getD index "" = txId then
      match removeAt arr len index with
      | none => none
      | some (arr1, len1) => removeLoop txId k (index + 1) arr1 len1
    else removeLoop txId k (index + 1) arr len

/-- The method `removeFromTimeoutList`; `none` when a slice expression panics. -/
def removeFromTimeoutList (e : Env B) (t : Stub B) (height : Nat) (txId : String) :
    Option (Stub B) :=
  match t.Get (TimeoutKey height) with
  | none => some t
  | some timeoutList =>
    let list := stringsSplit (e.stringOfBytes timeoutList)
    match removeLoop txId list.length 0 list list.length with
    | none => none
    | some (arr, len) =>
      some (t.Set (TimeoutKey height) (e.bytesOfString (stringsJoin (arr.take len))))

/-! ## The contract -/

/-- The method `checkCurrentCaller`: the error, if any. -/
def checkCurrentCaller (t : Stub B) : Option (ErrCode × List String) :=
  if t.CurrentCaller ≠ InterchainContractAddr then
    some (.TransactionNoPermissionCode, [t.CurrentCaller])
  else none

/-- The loop of `isMultiTxFinished` over the keys in the order of the `range`:
`none` when it returns `false` early, else the count reached. -/
def isMultiTxFinishedLoop (childStatus : TransactionStatus) (m : ChildMap) :
    List String → Nat → Option Nat
  | [], count => some count
  | k :: ks, count =>
    if mapGet m k ≠ childStatus then none
    else isMultiTxFinishedLoop childStatus m ks (count + 1)

/-- The function `isMultiTxFinished`. -/
def isMultiTxFinished (e : Env B) (childStatus : TransactionStatus)
    (txInfo : TransactionInfo) : Bool :=
  match isMultiTxFinishedLoop childStatus txInfo.ChildTxInfo
      (e.rangeOrder 466 (mapKeys txInfo.ChildTxInfo)) 0 with
  | none => false
  | some count => decide (count = txInfo.ChildTxCount)

/-- The method `changeMultiTxStatus`: the transaction info behind the pointer and
the stub after the call, and the error message if one is returned; `none` when the
call panics. -/
def changeMultiTxStatus (e : Env B) (t : Stub B) (globalID : String)
    (txInfo : TransactionInfo) (txId : String) (result : Int) :
    Option (TransactionInfo × Stub B × Option (List String)) :=
  if txInfo.GlobalState = BEGIN ∧ result = IBTP_RECEIPT_FAILURE then
    let children := (e.rangeOrder 429 (mapKeys txInfo.ChildTxInfo)).foldl
      (fun m childTx => mapSet m childTx BEGIN_FAILURE) txInfo.ChildTxInfo
    let children := mapSet children txId FAILURE
    let txInfo := { txInfo with ChildTxInfo := children, GlobalState := BEGIN_FAILURE }
    match removeFromTimeoutList e t txInfo.Height globalID with
    | none => none
    | some t1 => some (txInfo, t1, none)
  else
    match setFSM (mapGet txInfo.ChildTxInfo txId) (receipt2EventM result) with
    | (status, some _) =>
      some (txInfo, t, some ["child tx", txId, status.name, toString result])
    | (status, none) =>
      let txInfo := { txInfo with ChildTxInfo := mapSet txInfo.ChildTxInfo txId status }
      if isMultiTxFinished e status txInfo then
        match setFSM txInfo.GlobalState (receipt2EventM result) with
        | (globalState, some _) =>
          some ({ txInfo with GlobalState := globalState }, t,
            some ["global tx of child tx", txId, status.name, toString result])
        | (globalState, none) =>
          match removeFromTimeoutList e t txInfo.Height globalID with
          | none => none
          | some t1 => some ({ txInfo with GlobalState := globalState }, t1, none)
      else some (txInfo, t, none)

/-- The body of the loop at line 101 of `BeginMultiTXs`, for one key: the child is
noted for the source chain, a child found at `SUCCESS` also for the destination
chain, and the child is set to `BEGIN_FAILURE`. -/
def massFailStep (acc : StatusChange × ChildMap) (key : String) : StatusChange × ChildMap :=
  let childStatus := mapGet acc.2 key
  let change1 :=
    if childStatus = SUCCESS then
      { acc.1 with NotifyDstIBTPIDs := acc.1.NotifyDstIBTPIDs ++ [key] }
    else acc.1
  ({ change1 with NotifySrcIBTPIDs := change1.NotifySrcIBTPIDs ++ [key] },
    mapSet acc.2 key BEGIN_FAILURE)

/-- The loop at line 101 of `BeginMultiTXs` (the mass failure). -/
def massFailLoop (order : List String) (change : StatusChange) (children : ChildMap) :
    StatusChange × ChildMap :=
  order.foldl massFailStep (change, children)

/-- Lines 120 to 133 of `BeginMultiTXs`: the reverse index entry, the current
status and the child list of the change, and the success response. -/
def beginMultiTail (e : Env B) (t : Stub B) (change : StatusChange)
    (txInfo : TransactionInfo) (globalID ibtpID : String) : Response × Stub B :=
  let t1 := t.Set ibtpID (e.bytesOfString globalID)
  let change1 := { change with CurStatus := (mapGet txInfo.ChildTxInfo ibtpID).toInt }
  let change2 := { change1 with
    ChildIBTPIDs := change1.ChildIBTPIDs ++ e.rangeOrder 124 (mapKeys txInfo.ChildTxInfo) }
  (.Success (.change change2), t1)

/-- The `ChildTxInfo` map of the info that `GetObject` decodes from the entry
under the key is nil. -/
def nilMapAt (e : Env B) (t : Stub B) (key : String) : Bool :=
  match t.Get key with
  | some b => e.nilChildren b
  | none => false

/-- The method `BeginMultiTXs`; `none` when the call panics: in
`removeFromTimeoutList`, or at the first assignment to an entry of the map of a
stored info (lines 98, 111, 115) when that map is nil. -/
def BeginMultiTXs (e : Env B) (t : Stub B) (globalID ibtpID : String) (timeoutHeight : Nat)
    (isFailed : Bool) (count : Nat) : Option (Response × Stub B) :=
  match checkCurrentCaller t with
  | some bxhErr => some (.Error bxhErr.1 bxhErr.2, t)
  | none =>
    let change : StatusChange := { StatusChange.zero with PrevStatus := -1 }
    match GetObject e t (GlobalTxInfoKey globalID) with
    | none =>
      let height :=
        if timeoutHeight = 0 ∨ timeoutHeight ≥ MaxUint64 - t.CurrentHeight then MaxUint64
        else (t.CurrentHeight + timeoutHeight) % 2 ^ 64
      let txInfo : TransactionInfo :=
        { GlobalState := BEGIN, ChildTxInfo := [(ibtpID, BEGIN)], ChildTxCount := count,
          Height := height }
      if isFailed then
        let txInfo1 := { txInfo with
          ChildTxInfo := mapSet txInfo.ChildTxInfo ibtpID BEGIN_FAILURE,
          GlobalState := BEGIN_FAILURE }
        let t1 := AddObject e t (GlobalTxInfoKey globalID) txInfo1
        some (beginMultiTail e t1 change txInfo1 globalID ibtpID)
      else
        let t1 := addToTimeoutList e t txInfo.Height globalID
        let t2 := AddObject e t1 (GlobalTxInfoKey globalID) txInfo
        some (beginMultiTail e t2 change txInfo globalID ibtpID)
    | some txInfo =>
      if (mapLookup txInfo.ChildTxInfo ibtpID).isSome then
        some (.Error .TransactionExistentChildTxCode [ibtpID, globalID], t)
      else if nilMapAt e t (GlobalTxInfoKey globalID) then none
      else if txInfo.GlobalState ≠ BEGIN then
        let txInfo1 := { txInfo with
          ChildTxInfo := mapSet txInfo.ChildTxInfo ibtpID txInfo.GlobalState }
        let t1 := SetObject e t (GlobalTxInfoKey globalID) txInfo1
        some (beginMultiTail e t1 change txInfo1 globalID ibtpID)
      else if isFailed then
        let looped := massFailLoop (e.rangeOrder 101 (mapKeys txInfo.ChildTxInfo)) change
          txInfo.ChildTxInfo
        let txInfo1 := { txInfo with
          ChildTxInfo := mapSet looped.2 ibtpID BEGIN_FAILURE,
          GlobalState := BEGIN_FAILURE }
        match removeFromTimeoutList e t txInfo1.Height globalID with
        | none => none
        | some t1 =>
          let t2 := SetObject e t1 (GlobalTxInfoKey globalID) txInfo1
          some (beginMultiTail e t2 looped.1 txInfo1 globalID ibtpID)
      else
        let txInfo1 := { txInfo with ChildTxInfo := mapSet txInfo.ChildTxInfo ibtpID BEGIN }
        let t1 := SetObject e t (GlobalTxInfoKey globalID) txInfo1
        some (beginMultiTail e t1 change txInfo1 globalID ibtpID)

/-- The method `Begin`. -/
def Begin (e : Env B) (t : Stub B) (txId : String) (timeoutHeight : Nat) (isFailed : Bool) :
    Response × Stub B :=
  match checkCurrentCaller t with
  | some bxhErr => (.Error bxhErr.1 bxhErr.2, t)
  | none =>
    let record : TransactionRecord :=
      { Status := BEGIN, Height := (t.CurrentHeight + timeoutHeight) % 2 ^ 64 }
    let record1 :=
      if timeoutHeight = 0 ∨ timeoutHeight ≥ MaxUint64 - t.CurrentHeight then
        { record with Height := MaxUint64 }
      else record
    let record2 := if isFailed then { record1 with Status := BEGIN_FAILURE } else record1
    let t1 := t.Add (TxInfoKey txId) (e.marshalRecord record2)
    let change : StatusChange :=
      { StatusChange.zero with PrevStatus := -1, CurStatus := record2.Status.toInt }
    (.Success (.change change), t1)

/-- The method `BeginInterBitXHub`.  When a record exists its bytes are dropped
(`ok, _ := t.Get(...)`) and the machine runs on the zero value of the record. -/
def BeginInterBitXHub (e : Env B) (t : Stub B) (txId : String) (timeoutHeight : Nat)
    (proof : B) (isFailed : Bool) : Response × Stub B :=
  match checkCurrentCaller t with
  | some bxhErr => (.Error bxhErr.1 bxhErr.2, t)
  | none =>
    let record : TransactionRecord := { Status := BEGIN, Height := 0 }
    match t.Get (TxInfoKey txId) with
    | some _ =>
      match e.unmarshalProof proof with
      | none => (.Error .TransactionStateErrCode [txId, "unmarshal proof"], t)
      | some txStatus =>
        let change := { StatusChange.zero with PrevStatus := record.Status.toInt }
        match setFSM record.Status (txStatus2EventM txStatus) with
        | (status, some _) =>
          (.Error .TransactionStateErrCode [txId, status.name, toString txStatus], t)
        | (status, none) =>
          let record1 := { record with Status := status }
          let change1 := { change with CurStatus := record1.Status.toInt }
          let t1 := t.Add (TxInfoKey txId) (e.marshalRecord record1)
          (.Success (.change change1), t1)
    | none =>
      let record0 : TransactionRecord :=
        { Status := BEGIN, Height := (t.CurrentHeight + timeoutHeight) % 2 ^ 64 }
      let record1 :=
        if timeoutHeight = 0 ∨ timeoutHeight ≥ MaxUint64 - t.CurrentHeight then
          { record0 with Height := MaxUint64 }
        else record0
      let record2 := if isFailed then { record1 with Status := BEGIN_FAILURE } else record1
      let t1 := t.Add (TxInfoKey txId) (e.marshalRecord record2)
      let change : StatusChange :=
        { StatusChange.zero with PrevStatus := -1, CurStatus := record2.Status.toInt }
      (.Success (.change change), t1)

/-- The body of the loop at line 288 of `Report`, for one key. -/
def reportNotifyStep (children : ChildMap) (txId : String) (change : StatusChange)
    (key : String) : StatusChange :=
  let childStatus := mapGet children key
  if key ≠ txId then
    let change1 :=
      if change.PrevStatus = BEGIN.toInt ∧ change.CurStatus = BEGIN_FAILURE.toInt then
        let change0 := { change with IsFailChildIBTP := true }
        if childStatus = SUCCESS then
          { change0 with NotifyDstIBTPIDs := change0.NotifyDstIBTPIDs ++ [key] }
        else change0
      else change
    { change1 with NotifySrcIBTPIDs := change1.NotifySrcIBTPIDs ++ [key] }
  else change

/-- The loop at line 288 of `Report`, over the children as `changeMultiTxStatus`
left them. -/
def reportNotifyLoop (order : List String) (children : ChildMap) (txId : String)
    (change : StatusChange) : StatusChange :=
  order.foldl (reportNotifyStep children txId) change

/-- Inserting a string into a sorted list of strings, by byte order. -/
def insertSorted (a : String) : List String → List String
  | [] => [a]
  | b :: l => if b.data < a.data then b :: insertSorted a l else a :: b :: l

/-- The call `sort.Strings`. -/
def sortStrings : List String → List String
  | [] => []
  | a :: l => insertSorted a (sortStrings l)

/-- The method `Report`; `none` when the call panics. -/
def Report (e : Env B) (t : Stub B) (txId : String) (result : Int) :
    Option (Response × Stub B) :=
  match checkCurrentCaller t with
  | some bxhErr => some (.Error bxhErr.1 bxhErr.2, t)
  | none =>
    match t.Get (TxInfoKey txId) with
    | some recordData =>
      match e.unmarshalRecord recordData with
      | none => some (.Error .TransactionInternalErrCode ["unmarshal record"], t)
      | some record =>
        let change := { StatusChange.zero with PrevStatus := record.Status.toInt }
        match setFSM record.Status (receipt2EventM result) with
        | (status, some _) =>
          some (.Error .TransactionStateErrCode [txId, status.name, toString result], t)
        | (status, none) =>
          let record1 := { record with Status := status }
          let change1 := { change with CurStatus := record1.Status.toInt }
          let t1 := t.Set (TxInfoKey txId) (e.marshalRecord record1)
          some (.Success (.change change1), t1)
    | none =>
      match t.Get txId with
      | none => some (.Error .TransactionNonexistentTxCode [txId], t)
      | some val =>
        let globalId := e.stringOfBytes val
        match GetObject e t (GlobalTxInfoKey globalId) with
        | none => some (.Error .TransactionNonexistentGlobalTxCode [globalId, txId], t)
        | some txInfo =>
          if (mapLookup txInfo.ChildTxInfo txId).isNone then
            some (.Error .TransactionInternalErrCode [txId, globalId], t)
          else
            let change := { StatusChange.zero with PrevStatus := txInfo.GlobalState.toInt }
            match changeMultiTxStatus e t globalId txInfo txId result with
            | none => none
            | some (_, t1, some err) => some (.Error .TransactionStateErrCode err, t1)
            | some (txInfo1, t1, none) =>
              let change1 := { change with CurStatus := txInfo1.GlobalState.toInt }
              let change2 := reportNotifyLoop
                (e.rangeOrder 288 (mapKeys txInfo1.ChildTxInfo)) txInfo1.ChildTxInfo txId change1
              let change3 := { change2 with
                ChildIBTPIDs := sortStrings (e.rangeOrder 306 (mapKeys txInfo1.ChildTxInfo)) }
              let t2 := SetObject e t1 (GlobalTxInfoKey globalId) txInfo1
              some (.Success (.change change3), t2)

/-- The method `GetStatus`. -/
def GetStatus (e : Env B) (t : Stub B) (txId : String) : Response × Stub B :=
  match t.Get (TxInfoKey txId) with
  | some recordData =>
    match e.unmarshalRecord recordData with
    | none => (.Error .TransactionInternalErrCode ["unmarshal record"], t)
    | some record => (.Success (.text (toString record.Status.toInt)), t)
  | none =>
    match GetObject e t (GlobalTxInfoKey txId) with
    | some txInfo => (.Success (.text (toString txInfo.GlobalState.toInt)), t)
    | none =>
      match t.Get txId with
      | none => (.Error .TransactionNonexistentGlobalIdCode [txId], t)
      | some val =>
        let globalId := e.stringOfBytes val
        match GetObject e t (GlobalTxInfoKey globalId) with
        | none => (.Error .TransactionNonexistentGlobalTxCode [globalId, txId], t)
        | some txInfo => (.Success (.text (toString txInfo.GlobalState.toInt)), t)

/-! ## A concrete host -/

/-- Byte strings that carry what was encoded into them: the bytes of a string,
and the encodings of a record, of an info and of a proof, each kind apart from
the others. -/
inductive Bytes where
  | raw (s : String)
  | record (r : TransactionRecord)
  | info (i : TransactionInfo)
  | proof (txStatus : Int)
  deriving DecidableEq, Repr

/-- The host over `Bytes` in which every `range` walks the keys in the order
given by `order`.  Each decoder accepts the bytes of its encoder; the record and
the proof decoders also accept the empty bytes, as the zero value, and no other
bytes of a string; the info decoder accepts no bytes of a string.  An encoded info
without children decodes with a nil map.  Read as a string, encoded bytes give
the empty string: this host does not render the encodings as text. -/
def hostWith (order : Nat → List String → List String)
    (h : ∀ n l, List.Perm (order n l) l) : Env Bytes where
  bytesOfString := .raw
  stringOfBytes := fun b => match b with
    | .raw s => s
    | _ => ""
  marshalRecord := .record
  unmarshalRecord := fun b => match b with
    | .record r => some r
    | .raw s => if s = "" then some ⟨BEGIN, 0⟩ else none
    | _ => none
  marshalInfo := .info
  unmarshalInfo := fun b => match b with
    | .info i => some i
    | _ => none
  nilChildren := fun b => match b with
    | .info i => i.ChildTxInfo.isEmpty
    | _ => false
  unmarshalProof := fun b => match b with
    | .proof s => some s
    | .raw s => if s = "" then some 0 else none
    | _ => none
  rangeOrder := order
  string_bytes := fun _ => rfl
  record_roundtrip := fun _ => rfl
  info_roundtrip := fun _ => rfl
  nil_children := fun b i hb hn => by
    cases b with
    | info j =>
      cases hb
      exact List.isEmpty_iff.mp hn
    | raw s => cases hb
    | record r => cases hb
    | proof p => cases hb
  rangeOrder_perm := h

/-- The host whose `range` walks a map in the order of the association list. -/
def host : Env Bytes := hostWith (fun _ l => l) (fun _ l => List.Perm.refl l)

/-- The host whose `range` walks a map in the reverse order. -/
def hostRev : Env Bytes := hostWith (fun _ l => l.reverse) (fun _ l => List.reverse_perm l)

/-- The empty store at a given height, called by a given address. -/
def emptyStub (height : Nat) (caller : String) : Stub Bytes :=
  { kv := fun _ => none, writes := [], CurrentHeight := height, CurrentCaller := caller }

/-- A store holding the listed entries (the first entry for a key counts), with
an empty write log. -/
def stubOf (entries : List (String × Bytes)) (height : Nat) (caller : String) : Stub Bytes :=
  { kv := fun k => (entries.find? (fun p => decide (p.1 = k))).map Prod.snd,
    writes := [], CurrentHeight := height, CurrentCaller := caller }

/-! ## Definitions used by the statements -/

/-- The events that occur in the events of `setFSM`. -/
def knownEvent (e : String) : Prop :=
  e = "begin" ∨ e = "begin_failure" ∨ e = "timeout" ∨ e = "success" ∨ e = "failure" ∨
    e = "rollback" ∨ e = "dst_failure" ∨ e = "dst_rollback"

/-- The receipt table of the single-child `Report` as the specification words it:
the status a stored status moves to under a receipt, `none` where the pair is
not allowed. -/
def specReceiptStep (s : TransactionStatus) (r : Int) : Option TransactionStatus :=
  if s = BEGIN ∧ r = IBTP_RECEIPT_SUCCESS then some SUCCESS
  else if s = BEGIN ∧ r = IBTP_RECEIPT_FAILURE then some FAILURE
  else if s = BEGIN_FAILURE ∧ r = IBTP_RECEIPT_FAILURE then some FAILURE
  else if s = BEGIN_ROLLBACK ∧ r = IBTP_RECEIPT_ROLLBACK then some ROLLBACK
  else if s = BEGIN_ROLLBACK ∧ r = IBTP_RECEIPT_FAILURE then some ROLLBACK
  else none

/-- The status is one of `SUCCESS`, `FAILURE`, `ROLLBACK`. -/
def isTerminal (s : TransactionStatus) : Prop := s = SUCCESS ∨ s = FAILURE ∨ s = ROLLBACK

instance (s : TransactionStatus) : Decidable (isTerminal s) := by
  unfold isTerminal; infer_instance

/-- A store with the two-child transaction `g` at `BEGIN`, its child `c1` at
`SUCCESS` and its child `c2` at `BEGIN`, listed in the timeout index at its
height 110; the caller is the interchain contract. -/
def stubOneSuccess : Stub Bytes :=
  stubOf [("c1", .raw "g"), ("c2", .raw "g"),
    ("global-tx-g", .info ⟨BEGIN, 110, [("c1", SUCCESS), ("c2", BEGIN)], 2⟩),
    ("timeout-110", .raw "g")] 100 InterchainContractAddr

/-- The store after the dispatcher has begun the two children `c1` and `c2` of
the transaction `g` (timeout 10 at height 100, two children declared) and has
reported the success receipt for `c1`. -/
def afterFirstSuccess : Option (Stub Bytes) :=
  (BeginMultiTXs host (emptyStub 100 InterchainContractAddr) "g" "c1" 10 false 2).bind
    fun r1 => (BeginMultiTXs host r1.2 "g" "c2" 10 false 2).bind
      fun r2 => (Report host r2.2 "c1" IBTP_RECEIPT_SUCCESS).map Prod.snd

/-- The store after the dispatcher has begun the only child so far, `c1`, of the
transaction `g` (timeout 10 at height 100, two children declared). -/
def afterOneBegin : Option (Stub Bytes) :=
  (BeginMultiTXs host (emptyStub 100 InterchainContractAddr) "g" "c1" 10 false 2).map
    Prod.snd

/-- The store after the dispatcher has begun the one child `c1` of the
transaction `g` (one child declared) and has reported its success receipt: the
global state is `SUCCESS`. -/
def afterAllSuccess : Option (Stub Bytes) :=
  (BeginMultiTXs host (emptyStub 100 InterchainContractAddr) "g" "c1" 10 false 1).bind
    fun r1 => (Report host r1.2 "c1" IBTP_RECEIPT_SUCCESS).map Prod.snd

/-- The stored state of the test suite: the transaction `g` at `SUCCESS` with the
child `c1` at `BEGIN` and the child `c2` at `SUCCESS`. -/
def stubGlobalSuccessChildBegin : Stub Bytes :=
  stubOf [("c1", .raw "g"), ("c2", .raw "g"),
    ("global-tx-g", .info ⟨SUCCESS, 110, [("c1", BEGIN), ("c2", SUCCESS)], 2⟩)]
    100 InterchainContractAddr

set_option linter.unusedTactic false
set_option linter.unreachableTactic false

/-- The condition of `isMultiTxFinished` as the specification words it: every
child has the status and the number of children is the declared count. -/
def specMultiTxFinished (childStatus : TransactionStatus) (txInfo : TransactionInfo) : Prop :=
  (∀ k ∈ mapKeys txInfo.ChildTxInfo, mapGet txInfo.ChildTxInfo k = childStatus) ∧
    (mapKeys txInfo.ChildTxInfo).length = txInfo.ChildTxCount

/-- The status change that lines 282 to 310 of `Report` build from the global
state before the call and the transaction info after `changeMultiTxStatus`. -/
def multiChange (e : Env B) (prev : TransactionStatus) (txInfo1 : TransactionInfo)
    (txId : String) : StatusChange :=
  { reportNotifyLoop (e.rangeOrder 288 (mapKeys txInfo1.ChildTxInfo)) txInfo1.ChildTxInfo txId
      { StatusChange.zero with
        PrevStatus := prev.toInt, CurStatus := txInfo1.GlobalState.toInt } with
    ChildIBTPIDs := sortStrings (e.rangeOrder 306 (mapKeys txInfo1.ChildTxInfo)) }

/-- The stub after the ID has been taken out of the timeout entry of a height:
the entry, when there is one, holds the comma-joined list without the first
occurrence of the ID. -/
def withoutTimeout (e : Env B) (t : Stub B) (height : Nat) (txId : String) : Stub B :=
  match t.Get (TimeoutKey height) with
  | none => t
  | some b => t.Set (TimeoutKey height)
      (e.bytesOfString (stringsJoin ((stringsSplit (e.stringOfBytes b)).erase txId)))

/-- The timeout entry of a height, when there is one, lists the ID at most once. -/
def listedAtMostOnce (e : Env B) (t : Stub B) (height : Nat) (txId : String) : Prop :=
  ∀ b, t.Get (TimeoutKey height) = some b →
    (stringsSplit (e.stringOfBytes b)).count txId ≤ 1

/-- A store with the two-child transaction `g` at `BEGIN`, its child `c1` at
`BEGIN` and its child `c2` at `SUCCESS`, listed in the timeout index at its
height 110; the caller is the interchain contract. -/
def stubLastBegin : Stub Bytes :=
  stubOf [("c1", .raw "g"), ("c2", .raw "g"),
    ("global-tx-g", .info ⟨BEGIN, 110, [("c1", BEGIN), ("c2", SUCCESS)], 2⟩),
    ("timeout-110", .raw "g")] 100 InterchainContractAddr

/-- The timeout height of the specification: the largest `uint64` when the
timeout is zero or the sum would reach it, the sum otherwise. -/
def specTimeoutHeight (currentHeight timeoutHeight : Nat) : Nat :=
  if timeoutHeight = 0 ∨ timeoutHeight ≥ MaxUint64 - currentHeight then MaxUint64
  else currentHeight + timeoutHeight

/-- The status a new transaction or record starts in. -/
def beginStatus (isFailed : Bool) : TransactionStatus :=
  if isFailed then BEGIN_FAILURE else BEGIN

/-- The string `addToTimeoutList` stores for an ID: the ID alone when the entry is
missing, else the stored string, a comma and the ID. -/
def appendedTimeoutList (e : Env B) (t : Stub B) (height : Nat) (txId : String) : String :=
  match t.Get (TimeoutKey height) with
  | none => txId
  | some val => e.stringOfBytes val ++ "," ++ txId

/-- A store with the two-child transaction `g` at `BEGIN` whose only child so far,
`c1`, is at `SUCCESS`, listed in the timeout index at its height 110. -/
def stubFirstSuccess : Stub Bytes :=
  stubOf [("c1", .raw "g"),
    ("global-tx-g", .info ⟨BEGIN, 110, [("c1", SUCCESS)], 2⟩),
    ("timeout-110", .raw "g")] 100 InterchainContractAddr

/-- Joining lists of characters with commas. -/
def joinChars : List (List Char) → List Char
  | [] => []
  | [a] => a
  | a :: b :: r => a ++ ',' :: joinChars (b :: r)

/-- The receipts of a list delivered through `Report` one after the other, each
on the store that the call before left (an error response leaves the store as
it was, as `Report` returns it); `none` when a call does not return. -/
def deliver (e : Env B) (t : Stub B) : List (String × Int) → Option (Stub B)
  | [] => some t
  | p :: l =>
    match Report e t p.1 p.2 with
    | some (_, t1) => deliver e t1 l
    | none => none

/-- The global state stored once the children `keys`, all begun and at `BEGIN`,
have each been sent the receipt `rc` assigns: `FAILURE` or `BEGIN_FAILURE` when a
failure receipt is among them (`FAILURE` only when all are failure receipts and
there are two children or more), else `SUCCESS` when all are success receipts,
else `BEGIN`. -/
def specFinalGlobal (keys : List String) (rc : String → Int) : TransactionStatus :=
  if ∃ k ∈ keys, rc k = IBTP_RECEIPT_FAILURE then
    if (∀ k ∈ keys, rc k = IBTP_RECEIPT_FAILURE) ∧ 2 ≤ keys.length then FAILURE
    else BEGIN_FAILURE
  else if keys ≠ [] ∧ ∀ k ∈ keys, rc k = IBTP_RECEIPT_SUCCESS then SUCCESS
  else BEGIN

/-- The status of the child `k` once the children in `done` have been sent their
receipts. -/
def childAfter (rc : String → Int) (done : List String) (k : String) : TransactionStatus :=
  if ∃ d ∈ done, rc d = IBTP_RECEIPT_FAILURE then
    if k ∈ done ∧ rc k = IBTP_RECEIPT_FAILURE then FAILURE else BEGIN_FAILURE
  else if k ∈ done ∧ rc k = IBTP_RECEIPT_SUCCESS then SUCCESS
  else BEGIN

/-- The global state once the children in `done` have been sent their receipts. -/
def globalAfter (keys : List String) (rc : String → Int) (done : List String) :
    TransactionStatus :=
  if ∃ d ∈ done, rc d = IBTP_RECEIPT_FAILURE then
    if (∀ k ∈ keys, k ∈ done ∧ rc k = IBTP_RECEIPT_FAILURE) ∧ 2 ≤ keys.length then FAILURE
    else BEGIN_FAILURE
  else if keys ≠ [] ∧ ∀ k ∈ keys, k ∈ done ∧ rc k = IBTP_RECEIPT_SUCCESS then SUCCESS
  else BEGIN

/-- What holds of the store while the receipts of the children `keys` of the
transaction `g` are delivered, the children in `done` having been served: the
stored info is the one `childAfter` and `globalAfter` describe, every child is
indexed under `g` and has no record of its own, and the timeout entry of the
height lists `g` at most once. -/
structure DeliveryInv (e : Env B) (g : String) (height : Nat) (keys : List String)
    (rc : String → Int) (done : List String) (t : Stub B) : Prop where
  caller : t.CurrentCaller = InterchainContractAddr
  noRecord : ∀ k ∈ keys, t.Get (TxInfoKey k) = none
  indexed : ∀ k ∈ keys, ∃ val, t.Get k = some val ∧ e.stringOfBytes val = g
  listed : listedAtMostOnce e t height g
  stored : ∃ info, GetObject e t (GlobalTxInfoKey g) = some info ∧
    info.GlobalState = globalAfter keys rc done ∧ info.Height = height ∧
    info.ChildTxCount = keys.length ∧ mapKeys info.ChildTxInfo = keys ∧
    ∀ k ∈ keys, mapLookup info.ChildTxInfo k = some (childAfter rc done k)


/-- A store with the two-child transaction `g` at `BEGIN`, both children `c1` and
`c2` registered and at `BEGIN`, listed in the timeout index at its height 110;
the caller is the interchain contract. -/
def stubTwoBegin : Stub Bytes :=
  stubOf [("c1", .raw "g"), ("c2", .raw "g"),
    ("global-tx-g", .info ⟨BEGIN, 110, [("c1", BEGIN), ("c2", BEGIN)], 2⟩),
    ("timeout-110", .raw "g")] 100 InterchainContractAddr

/-- The receipts of the example: `c1` succeeds, every other child fails. -/
def receiptsOneSuccess (k : String) : Int :=
  if k = "c1" then IBTP_RECEIPT_SUCCESS else IBTP_RECEIPT_FAILURE

/-- The key is one of the transaction index: it starts with `global-tx-` or with
`timeout-`. -/
def isIndexKey (k : String) : Bool :=
  "global-tx-".data.isPrefixOf k.data || "timeout-".data.isPrefixOf k.data

/-- The IDs that the timeout entry of a height lists: the stored string cut at
its commas, and no ID when there is no entry. -/
def timeoutList (e : Env B) (t : Stub B) (height : Nat) : List String :=
  match t.Get (TimeoutKey height) with
  | none => []
  | some b => stringsSplit (e.stringOfBytes b)

/-- A global ID that a comma-separated list can hold: not empty and without a
comma. -/
def plainGlobalID (g : String) : Prop := g ≠ "" ∧ ',' ∉ g.data

instance (g : String) : Decidable (plainGlobalID g) := by
  unfold plainGlobalID; infer_instance

/-- The empty store at a height, called by an address, over any byte type. -/
def Stub.empty (height : Nat) (caller : String) : Stub B :=
  { kv := fun _ => none, writes := [], CurrentHeight := height, CurrentCaller := caller }

/-- The states reachable from the empty store through the entry points, the host
setting the height and the caller between calls, when the global IDs passed to
`BeginMultiTXs` satisfy `okGlobal` and the child IDs passed to it `okChild`.  A
call that panics reaches no state. -/
inductive Reachable (e : Env B) (okGlobal okChild : String → Prop) : Stub B → Prop
  | empty (height : Nat) (caller : String) : Reachable e okGlobal okChild (Stub.empty height caller)
  | host (t : Stub B) (height : Nat) (caller : String) :
    Reachable e okGlobal okChild t →
    Reachable e okGlobal okChild { t with CurrentHeight := height, CurrentCaller := caller }
  | begin (t : Stub B) (txId : String) (timeoutHeight : Nat) (isFailed : Bool) :
    Reachable e okGlobal okChild t →
    Reachable e okGlobal okChild (Begin e t txId timeoutHeight isFailed).2
  | beginInter (t : Stub B) (txId : String) (timeoutHeight : Nat) (proof : B)
      (isFailed : Bool) :
    Reachable e okGlobal okChild t →
    Reachable e okGlobal okChild (BeginInterBitXHub e t txId timeoutHeight proof isFailed).2
  | beginMulti (t : Stub B) (globalID ibtpID : String) (timeoutHeight : Nat)
      (isFailed : Bool) (count : Nat) (resp : Response) (t1 : Stub B) :
    Reachable e okGlobal okChild t → okGlobal globalID → okChild ibtpID →
    BeginMultiTXs e t globalID ibtpID timeoutHeight isFailed count = some (resp, t1) →
    Reachable e okGlobal okChild t1
  | report (t : Stub B) (txId : String) (result : Int) (resp : Response) (t1 : Stub B) :
    Reachable e okGlobal okChild t →
    Report e t txId result = some (resp, t1) →
    Reachable e okGlobal okChild t1
  | getStatus (t : Stub B) (txId : String) :
    Reachable e okGlobal okChild t →
    Reachable e okGlobal okChild (GetStatus e t txId).2

/-- What the proof of the timeout index carries from state to state: a stored
transaction is listed at its height exactly when it is at `BEGIN`, stored IDs are
not empty, a listed ID is stored, and no list holds an ID twice. -/
structure IndexInv (e : Env B) (t : Stub B) : Prop where
  iff_begin : ∀ g info, GetObject e t (GlobalTxInfoKey g) = some info →
    (g ∈ timeoutList e t info.Height ↔ info.GlobalState = BEGIN)
  nonempty : ∀ g, (GetObject e t (GlobalTxInfoKey g)).isSome = true → g ≠ ""
  listed_stored : ∀ h x, x ∈ timeoutList e t h → x ≠ "" →
    (GetObject e t (GlobalTxInfoKey x)).isSome = true
  once : ∀ h x, x ≠ "" → (timeoutList e t h).count x ≤ 1

/-- The two stores hold the same under every key of the transaction index. -/
def sameIndex (t t1 : Stub B) : Prop := ∀ k, isIndexKey k = true → t1.Get k = t.Get k

/-- The store after `BeginMultiTXs` opens the transaction `a,b` with the child
`c1`, timeout 10, at height 100 on the empty store; the empty store itself if
the call did not return. -/
def afterCommaFirst : Stub Bytes :=
  match BeginMultiTXs host (Stub.empty 100 InterchainContractAddr) "a,b" "c1" 10 false 1 with
  | some (_, t1) => t1
  | none => Stub.empty 100 InterchainContractAddr

/-- The store after `BeginMultiTXs` then opens the transaction `a` with the
failed child `c2`, timeout 10. -/
def afterCommaIDs : Stub Bytes :=
  match BeginMultiTXs host afterCommaFirst "a" "c2" 10 true 1 with
  | some (_, t1) => t1
  | none => afterCommaFirst

/-- The store after `BeginMultiTXs` opens the transaction `g` with the child `c1`,
timeout 10, at height 100 on the empty store; the empty store itself if the call
did not return. -/
def afterPlainBegin : Stub Bytes :=
  match BeginMultiTXs host (Stub.empty 100 InterchainContractAddr) "g" "c1" 10 false 2 with
  | some (_, t1) => t1
  | none => Stub.empty 100 InterchainContractAddr

/-- A store holding the single record `tx-a` with a status and a height, at
height 100; the caller is the interchain contract. -/
def stubRecord (status : TransactionStatus) (height : Nat) : Stub Bytes :=
  stubOf [("tx-a", .record ⟨status, height⟩)] 100 InterchainContractAddr

/-- A store in which the child `c1` of the transaction `g` is at `BEGIN` while
the global state of `g` is `BEGIN_FAILURE`; the caller is not the interchain
contract. -/
def stubChildUnderFailedGlobal : Stub Bytes :=
  stubOf [("c1", .raw "g"),
    ("global-tx-g", .info ⟨BEGIN_FAILURE, 110, [("c1", BEGIN), ("c2", FAILURE)], 2⟩)]
    100 "0xc0ffee"

/-- A store whose reverse index maps `c1` to `g` and `c9` to `g` and `c0` to `g0`:
`g` is stored with the only child `c1`, and `g0` is not stored. -/
def stubDanglingIndex : Stub Bytes :=
  stubOf [("c1", .raw "g"), ("c9", .raw "g"), ("c0", .raw "g0"),
    ("global-tx-g", .info ⟨BEGIN, 110, [("c1", BEGIN)], 2⟩)]
    100 InterchainContractAddr

/-- The key starts with `tx-`, `global-tx-` or `timeout-`, as the keys that the
contract builds do. -/
def isContractKey (k : String) : Bool :=
  "tx-".data.isPrefixOf k.data || isIndexKey k

/-- The scenario of two children: `BeginMultiTXs` for the global ID with the
first child and then with the second child, both not failed and with the count
2, then the success receipt reported for `first` and then for `second`.  The
result holds the four responses and the store at the end; `none` when a call
does not return. -/
def twoChildScenario (e : Env B) (t : Stub B) (g c1 c2 : String) (th : Nat)
    (first second : String) : Option (List Response × Stub B) :=
  match BeginMultiTXs e t g c1 th false 2 with
  | none => none
  | some (r1, t1) =>
    match BeginMultiTXs e t1 g c2 th false 2 with
    | none => none
    | some (r2, t2) =>
      match Report e t2 first IBTP_RECEIPT_SUCCESS with
      | none => none
      | some (r3, t3) =>
        match Report e t3 second IBTP_RECEIPT_SUCCESS with
        | none => none
        | some (r4, t4) => some ([r1, r2, r3, r4], t4)

/-- A store with the transaction `g` at `BEGIN`, declared with four children, of
which `c1` and `c2` are at `SUCCESS` and `c3` is at `BEGIN`; `g` is listed in the
timeout index at its height 110 and the caller is the interchain contract. -/
def stubThreeChildren : Stub Bytes :=
  stubOf [("c1", .raw "g"), ("c2", .raw "g"), ("c3", .raw "g"),
    ("global-tx-g", .info ⟨BEGIN, 110, [("c1", SUCCESS), ("c2", SUCCESS), ("c3", BEGIN)], 4⟩),
    ("timeout-110", .raw "g")] 100 InterchainContractAddr

/-- A store whose only entry is the timeout list of height 110, holding the
string `s`. -/
def stubTimeout (s : String) : Stub Bytes :=
  stubOf [("timeout-110", .raw s)] 100 InterchainContractAddr

/-! ## The culprit loop of `GetTssSigns` (src/api/grpc/sign.go, lines 187 to 197) -/

/-- A Go slice of strings: the window of `len` elements at `off` of its backing
array; its capacity is what the array holds from `off` on. -/
structure StrSlice where
  arr : List String
  off : Nat
  len : Nat
  deriving DecidableEq, Repr

/-- The elements of a slice. -/
def StrSlice.toList (s : StrSlice) : List String := (s.arr.drop s.off).take s.len

/-- The statement `signersALL = signersALL[1:]`; out of range, a panic, on a
slice of length 0. -/
def sliceTail (s : StrSlice) : Option StrSlice :=
  if 1 ≤ s.len then some ⟨s.arr, s.off + 1, s.len - 1⟩ else none

/-- The statement `signersALL = append(signersALL[:i-1], signersALL[i+1:]...)`
for `i ≥ 1`: `signersALL[:i-1]` needs `i - 1` within the capacity and
`signersALL[i+1:]` needs `i + 1` within the length; the elements after index `i`
move to index `i - 1` and on inside the backing array, the slots behind them keep
what they held, and the length drops by two. -/
def sliceCut (s : StrSlice) (i : Nat) : Option StrSlice :=
  if i - 1 ≤ s.arr.length - s.off ∧ i + 1 ≤ s.len then
    some ⟨s.arr.take (s.off + (i - 1)) ++
        (s.arr.drop (s.off + i + 1)).take (s.len - (i + 1)) ++
        s.arr.drop (s.off + (i - 1) + (s.len - (i + 1))),
      s.off, s.len - 2⟩
  else none

/-- The inner loop `for i, idS := range signersALL`, with `k` iterations left at
index `i`: the `range` fixed the window, starting at `off0`, when it began, and
reads each element from the backing array when it reaches it. -/
def culpritInner (idC : String) (off0 : Nat) : Nat → Nat → StrSlice → Option StrSlice
  | 0, _, s => some s
  | k + 1, i, s =>
    if s.arr.getD (off0 + i) "" = idC then
      match (if i = 0 then sliceTail s else sliceCut s i) with
      | none => none
      | some s1 => culpritInner idC off0 k (i + 1) s1
    else culpritInner idC off0 k (i + 1) s

/-- The outer loop `for _, idC := range culprits`. -/
def culpritLoop : List String → StrSlice → Option StrSlice
  | [], s => some s
  | idC :: rest, s =>
    match culpritInner idC s.off s.len 0 s with
    | none => none
    | some s1 => culpritLoop rest s1

/-- The signers that the culprit loop of `GetTssSigns` leaves in `signersALL`;
`none` when a slice expression panics. -/
def removeCulprits (signers culprits : List String) : Option (List String) :=
  (culpritLoop culprits ⟨signers, 0, signers.length⟩).map StrSlice.toList

/-! ## Invariants of the reachable states (C32, C35, C36) -/

/-- The status of a child fits the global state of its transaction: `BEGIN` or
`SUCCESS` under `BEGIN`, `BEGIN_FAILURE` or `FAILURE` under `BEGIN_FAILURE`,
`SUCCESS` under `SUCCESS`, `FAILURE` under `FAILURE`; nothing fits the two
rollback states. -/
def childConsistent (global child : TransactionStatus) : Prop :=
  match global with
  | .BEGIN => child = BEGIN ∨ child = SUCCESS
  | .BEGIN_FAILURE => child = BEGIN_FAILURE ∨ child = FAILURE
  | .SUCCESS => child = SUCCESS
  | .FAILURE => child = FAILURE
  | .BEGIN_ROLLBACK => False
  | .ROLLBACK => False

instance (global child : TransactionStatus) : Decidable (childConsistent global child) := by
  unfold childConsistent; cases global <;> infer_instance

/-- The global state of the transaction info is not a rollback state and the
status of every child fits it. -/
def consistentInfo (info : TransactionInfo) : Prop :=
  info.GlobalState ≠ BEGIN_ROLLBACK ∧ info.GlobalState ≠ ROLLBACK ∧
    ∀ k s, mapLookup info.ChildTxInfo k = some s → childConsistent info.GlobalState s

/-- Every transaction info of the store is consistent. -/
def StatusInv (e : Env B) (t : Stub B) : Prop :=
  ∀ g info, GetObject e t (GlobalTxInfoKey g) = some info → consistentInfo info

/-- Every entry under a key that is not a contract key is a reverse index entry:
the global ID it holds names a stored transaction info that has the key among
its children. -/
def ResolveInv (e : Env B) (t : Stub B) : Prop :=
  ∀ c val, isContractKey c = false → t.Get c = some val →
    ∃ info, GetObject e t (GlobalTxInfoKey (e.stringOfBytes val)) = some info ∧
      c ∈ mapKeys info.ChildTxInfo

/-- The text `{"GlobalState":2}`. -/
def textID : String := "\x7b\"GlobalState\":2\x7d"

/-- The text `{"GlobalState":2,"ChildTxInfo":{"d":0},"ChildTxCount":1}`. -/
def textWithChild : String :=
  "\x7b\"GlobalState\":2,\"ChildTxInfo\":\x7b\"d\":0\x7d,\"ChildTxCount\":1\x7d"

/-- A decoder of transaction infos from text that reads two texts:
`{"GlobalState":2}`, as the info whose global state is `BEGIN_ROLLBACK` (2) and
whose other fields are zero, and
`{"GlobalState":2,"ChildTxInfo":{"d":0},"ChildTxCount":1}`, as the info at
`BEGIN_ROLLBACK` with the one child `d` at `BEGIN` (0), the count 1 and the
height zero; it rejects every other text. -/
def infoOfText (s : String) : Option TransactionInfo :=
  if s = textID then some ⟨BEGIN_ROLLBACK, 0, [], 0⟩
  else if s = textWithChild then some ⟨BEGIN_ROLLBACK, 0, [("d", BEGIN)], 1⟩
  else none

/-- The host that also decodes the bytes of a string as a transaction info
when `infoOfText` reads the string, with a nil map of children when the text
names none; otherwise the host `host`. -/
def hostText : Env Bytes where
  bytesOfString := host.bytesOfString
  stringOfBytes := host.stringOfBytes
  marshalRecord := host.marshalRecord
  unmarshalRecord := host.unmarshalRecord
  marshalInfo := host.marshalInfo
  unmarshalInfo := fun b => match b with
    | .info i => some i
    | .raw s => infoOfText s
    | _ => none
  nilChildren := fun b => match b with
    | .info i => i.ChildTxInfo.isEmpty
    | .raw s => decide (s = textID)
    | _ => false
  unmarshalProof := host.unmarshalProof
  rangeOrder := fun _ l => l
  string_bytes := fun _ => rfl
  record_roundtrip := fun _ => rfl
  info_roundtrip := fun _ => rfl
  nil_children := fun b i hb hn => by
    cases b with
    | info j =>
      cases hb
      exact List.isEmpty_iff.mp hn
    | raw s =>
      have hs : s = textID := of_decide_eq_true hn
      subst hs
      cases hb
      rfl
    | record r => cases hb
    | proof p => cases hb
  rangeOrder_perm := fun _ l => List.Perm.refl l

/-- The store after `BeginMultiTXs` opens, on the host `hostText`, the transaction
whose ID is the text `{"GlobalState":2}` with the child whose ID is the key of that
transaction, timeout 10, at height 100 on the empty store; the empty store itself
if the call did not return. -/
def afterTextID : Stub Bytes :=
  match BeginMultiTXs hostText (Stub.empty 100 InterchainContractAddr) textID
      (GlobalTxInfoKey textID) 10 false 1 with
  | some (_, t1) => t1
  | none => Stub.empty 100 InterchainContractAddr

/-- The global IDs that the timeout entry of a height lists, in the order of the
stored string: the pieces between the commas that are not empty. -/
def timeoutIDs (e : Env B) (t : Stub B) (height : Nat) : List String :=
  (timeoutList e t height).filter (fun x => decide (x ≠ ""))

/-- The store after `BeginMultiTXs` opens the transaction `b` with the child `c1`,
timeout 10, at height 100 on the empty store; the empty store itself if the call
did not return. -/
def afterBeginB : Stub Bytes :=
  match BeginMultiTXs host (Stub.empty 100 InterchainContractAddr) "b" "c1" 10 false 1 with
  | some (_, t1) => t1
  | none => Stub.empty 100 InterchainContractAddr

/-- The store after `BeginMultiTXs` then opens the transaction `a` with the child
`c2`, timeout 10. -/
def afterBeginBA : Stub Bytes :=
  match BeginMultiTXs host afterBeginB "a" "c2" 10 false 1 with
  | some (_, t1) => t1
  | none => afterBeginB

/-- The store after `Begin` opens the transaction `c`, timeout 10, at height 100 on
the empty store. -/
def afterBeginC : Stub Bytes :=
  (Begin host (Stub.empty 100 InterchainContractAddr) "c" 10 false).2

/-- The store after `BeginMultiTXs` then opens the transaction `g` with the child
`c`, timeout 10; the store before if the call did not return. -/
def afterBeginCThenMulti : Stub Bytes :=
  match BeginMultiTXs host afterBeginC "g" "c" 10 false 1 with
  | some (_, t1) => t1
  | none => afterBeginC

/-- The store after `BeginMultiTXs` opens the transaction `g1` with the child `c`,
timeout 10, at height 100 on the empty store; the empty store itself if the call
did not return. -/
def afterFirstGlobal : Stub Bytes :=
  match BeginMultiTXs host (Stub.empty 100 InterchainContractAddr) "g1" "c" 10 false 1 with
  | some (_, t1) => t1
  | none => Stub.empty 100 InterchainContractAddr

/-- The store after `BeginMultiTXs` then opens the transaction `g2` with the same
child `c`, timeout 10. -/
def afterSecondGlobal : Stub Bytes :=
  match BeginMultiTXs host afterFirstGlobal "g2" "c" 10 false 1 with
  | some (_, t1) => t1
  | none => afterFirstGlobal

/-- The store after `BeginMultiTXs("g1", "c1", 10, false, 1)` and
`Report("c1", IBTP_RECEIPT_SUCCESS)` at height 100 on the empty store: the only
ID of the timeout list has been removed.  The empty store if a call did not
return. -/
def afterLastRemoved : Stub Bytes :=
  match (BeginMultiTXs host (Stub.empty 100 InterchainContractAddr) "g1" "c1" 10 false 1).bind
      (fun p => Report host p.2 "c1" IBTP_RECEIPT_SUCCESS) with
  | some (_, t1) => t1
  | none => Stub.empty 100 InterchainContractAddr

/-- The store after `BeginMultiTXs("g2", "c2", 10, false, 1)` then opens a second
transaction with the same timeout height. -/
def afterAddOnEmpty : Stub Bytes :=
  match BeginMultiTXs host afterLastRemoved "g2" "c2" 10 false 1 with
  | some (_, t1) => t1
  | none => afterLastRemoved

/-- The store after `BeginMultiTXs("g", "global-tx-g", 10, false, 2)` and
`BeginMultiTXs("g", "c2", 10, false, 2)` at height 100 on the empty store: the
first child ID is the key of the transaction, so the second call opens the
transaction again.  The empty store if a call did not return. -/
def afterDoubleListing : Stub Bytes :=
  match (BeginMultiTXs host (Stub.empty 100 InterchainContractAddr) "g" "global-tx-g" 10
      false 2).bind (fun p => BeginMultiTXs host p.2 "g" "c2" 10 false 2) with
  | some (_, t1) => t1
  | none => Stub.empty 100 InterchainContractAddr

/-- The store after a `BeginMultiTXs` call; the store before it if the call does
not return. -/
def afterBeginMulti (e : Env B) (t : Stub B) (globalID ibtpID : String) (timeoutHeight : Nat)
    (isFailed : Bool) (count : Nat) : Stub B :=
  match BeginMultiTXs e t globalID ibtpID timeoutHeight isFailed count with
  | some (_, t1) => t1
  | none => t

/-- The store after `BeginMultiTXs("g", "global-tx-g", 10, false, 1)` and
`BeginMultiTXs("g", "c2", 10, false, 1)` at height 100 on the empty store: the
one-child transaction `g` is listed twice under `timeout-110`. -/
def afterDoubleListingOne : Stub Bytes :=
  afterBeginMulti host
    (afterBeginMulti host (Stub.empty 100 InterchainContractAddr) "g" "global-tx-g" 10 false 1)
    "g" "c2" 10 false 1

/-- The store after `BeginMultiTXs("g", "timeout-110", 10, false, 2)` and
`BeginMultiTXs("g", "c2", 10, false, 2)` at height 100 on the empty store: the
first child ID is the timeout key of the transaction. -/
def afterTimeoutChild : Stub Bytes :=
  afterBeginMulti host
    (afterBeginMulti host (Stub.empty 100 InterchainContractAddr) "g" "timeout-110" 10 false 2)
    "g" "c2" 10 false 2

/-- The store after `BeginMultiTXs("g1", "c1", 10, false, 2)` and
`BeginMultiTXs("g2", "c2", 10, false, 2)` at height 100 on the empty store: two
transactions listed under `timeout-110`. -/
def afterTwoListed : Stub Bytes :=
  afterBeginMulti host
    (afterBeginMulti host (Stub.empty 100 InterchainContractAddr) "g1" "c1" 10 false 2)
    "g2" "c2" 10 false 2

/-- The store after `BeginMultiTXs("g", "tx-x", 10, false, 1)` at height 100 on the
empty store: the child ID is the record key of the ID `x`. -/
def afterRecordKeyChild : Stub Bytes :=
  afterBeginMulti host (Stub.empty 100 InterchainContractAddr) "g" "tx-x" 10 false 1

/-- The store after, on the host `hostText` at height 100 on the empty store,
`BeginMultiTXs("g", "d", 10, false, 1)` and then `BeginMultiTXs` with the text
`{"GlobalState":2,"ChildTxInfo":{"d":0},"ChildTxCount":1}` as the global ID and
`global-tx-g` as the child ID: the entry of the transaction `g` holds that
text. -/
def afterTextOverwrite : Stub Bytes :=
  afterBeginMulti hostText
    (afterBeginMulti hostText (Stub.empty 100 InterchainContractAddr) "g" "d" 10 false 1)
    textWithChild "global-tx-g" 10 false 1

/-! ## `RandRangeNumbers` (api/grpc/sign.go) -/

/-- The value of an expression of the Go type `int` on a 64-bit platform: the
integer wrapped into the range of `int64`. -/
def wrap64 (x : Int) : Int :=
  (x + 9223372036854775808) % 18446744073709551616 - 9223372036854775808

/-- The index read `a[i]` of a slice; `none` for the panic of an index out of
range. -/
def arrGet (a : List Int) (i : Int) : Option Int :=
  if 0 ≤ i then a[i.toNat]? else none

/-- The index write `a[i] = v` of a slice; `none` for the panic of an index out
of range. -/
def arrSet (a : List Int) (i v : Int) : Option (List Int) :=
  if 0 ≤ i ∧ i.toNat < a.length then some (a.set i.toNat v) else none

/-- The variables `nums` and `position` of `RandRangeNumbers`. -/
structure RandState where
  nums : List Int
  position : Int
  deriving DecidableEq, Repr

/-- The body of the loop of `RandRangeNumbers` at the index `i`, where `n` is
`max - min + 1` and `draw` is what `r.Intn(n)` returns; `none` for a panic
(`Intn` panics when `n <= 0`). -/
def randBody (min n draw i : Int) (s : RandState) : Option RandState :=
  if n ≤ 0 then none
  else
    let num := draw
    (arrGet s.nums i).bind fun x =>
    (if x = 0 then arrSet s.nums i (wrap64 (min + i)) else some s.nums).bind fun nums1 =>
    (arrGet nums1 num).bind fun y =>
    (if y = 0 then arrSet nums1 num (wrap64 (min + num)) else some nums1).bind fun nums2 =>
    let position1 :=
      if s.position ≠ -1 then
        if i = s.position then num
        else if num = s.position then i
        else s.position
      else s.position
    (arrGet nums2 num).bind fun a =>
    (arrGet nums2 i).bind fun b =>
    (arrSet nums2 i a).bind fun nums3 =>
    (arrSet nums3 num b).bind fun nums4 =>
    some ⟨nums4, position1⟩

/-- The loop `for i := 0; i < count; i++` of `RandRangeNumbers` with `k` rounds
left at the index `i`; the round at the index `i` draws `draws i`. -/
def randLoop (min n : Int) (draws : Nat → Int) : Nat → Nat → RandState → Option RandState
  | 0, _, s => some s
  | k + 1, i, s => (randBody min n (draws i) i s).bind (randLoop min n draws k (i + 1))

/-- The function `RandRangeNumbers`, where `draws i` is what the `i`-th call of
`r.Intn` returns and `maxLen` is the length of the longest slice of `int` that
`make` allocates on the platform.  The outer `none` is a panic (`make` panics on
a negative length and on a length beyond `maxLen`), `some none` the result
`nil`. -/
def RandRangeNumbers (maxLen : Nat) (draws : Nat → Int) (min max count : Int) :
    Option (Option (List Int)) :=
  let n := wrap64 (wrap64 (max - min) + 1)
  if max < min ∨ n < count then some none
  else if n < 0 ∨ (maxLen : Int) < n then none
  else
    let nums := List.replicate n.toNat (0 : Int)
    let init : Option RandState :=
      if min ≤ 0 ∧ max ≥ 0 then
        (arrSet nums (wrap64 (-min)) (wrap64 (max + 1))).map
          (fun a => ⟨a, wrap64 (-min)⟩)
      else some ⟨nums, -1⟩
    init.bind fun s0 =>
    (randLoop min n draws count.toNat 0 s0).bind fun s1 =>
    (if s1.position ≠ -1 then arrSet s1.nums s1.position 0 else some s1.nums).bind fun a =>
    if 0 ≤ count ∧ count.toNat ≤ a.length then some (some (a.take count.toNat)) else none

/-- The integer held by the slot `j` of a slice, 0 outside the slice. -/
def slot (a : List Int) (j : Nat) : Int := a.getD j 0

/-- The number that the slot `j` stands for in a state of `RandRangeNumbers`:
`min + j` when nothing has been assigned to the slot (it holds 0), 0 when the
slot is the one that `position` records, and the content otherwise. -/
def randVal (min : Int) (s : RandState) (j : Nat) : Int :=
  if slot s.nums j = 0 then min + j
  else if (j : Int) = s.position then 0
  else slot s.nums j

/-- What the loop of `RandRangeNumbers` keeps, for a slice of `N` slots over the
range from `min` to `max`: the length of the slice; `position` is -1 or the index
of an assigned slot; a slot with nothing assigned does not stand for 0; the
numbers the slots stand for are in the range and pairwise different. -/
structure RandInv (min max : Int) (N : Nat) (s : RandState) : Prop where
  len : s.nums.length = N
  pos : s.position = -1 ∨ ∃ p : Nat, s.position = p ∧ p < N ∧ slot s.nums p ≠ 0
  zero : ∀ j, j < N → slot s.nums j = 0 → min + j ≠ 0
  rng : ∀ j, j < N → min ≤ randVal min s j ∧ randVal min s j ≤ max
  inj : ∀ j k, j < N → k < N → randVal min s j = randVal min s k → j = k

/-- The slice after `if nums[j] == 0 { nums[j] = min + j }`. -/
def materialise (min : Int) (a : List Int) (j : Nat) : List Int :=
  if slot a j = 0 then a.set j (min + j) else a

/-- The slice after `nums[i], nums[num] = nums[num], nums[i]`. -/
def swapSlots (a : List Int) (i num : Nat) : List Int :=
  (a.set i (slot a num)).set num (slot a i)

/-- The variable `position` after the round at the index `i` that drew `num`. -/
def movePosition (position : Int) (i num : Nat) : Int :=
  if position ≠ -1 then
    if (i : Int) = position then num
    else if (num : Int) = position then i
    else position
  else position

/-- The index that the swap of the slots `i` and `num` moves to the index `k`. -/
def swapIndex (i num k : Nat) : Nat := if k = i then num else if k = num then i else k

/-! ## Lemmas on the state machine -/

theorem setFSM_unknown (s : TransactionStatus) (e : String)
    (h1 : e ≠ "begin") (h2 : e ≠ "begin_failure") (h3 : e ≠ "timeout")
    (h4 : e ≠ "success") (h5 : e ≠ "failure") (h6 : e ≠ "rollback")
    (h7 : e ≠ "dst_failure") (h8 : e ≠ "dst_rollback") :
    setFSM s e = (s, some .UnknownEvent) := by
  have g1 : ¬ "begin" = e := fun h => h1 h.symm
  have g2 : ¬ "begin_failure" = e := fun h => h2 h.symm
  have g3 : ¬ "timeout" = e := fun h => h3 h.symm
  have g4 : ¬ "success" = e := fun h => h4 h.symm
  have g5 : ¬ "failure" = e := fun h => h5 h.symm
  have g6 : ¬ "rollback" = e := fun h => h6 h.symm
  have g7 : ¬ "dst_failure" = e := fun h => h7 h.symm
  have g8 : ¬ "dst_rollback" = e := fun h => h8 h.symm
  simp [setFSM, fsmEvent, fsmTransition, fsmEvents, TransactionEventBegin,
    TransactionEventBeginFailure, TransactionEventTimeout, TransactionEventSuccess,
    TransactionEventFailure, TransactionEventRollback, TransactionEventDstFailure,
    TransactionEventDstRollback, g1, g2, g3, g4, g5, g6, g7, g8]

theorem setFSM_known_cases (s : TransactionStatus) (e : String) :
    e = "begin" ∨ e = "begin_failure" ∨ e = "timeout" ∨ e = "success" ∨ e = "failure" ∨
    e = "rollback" ∨ e = "dst_failure" ∨ e = "dst_rollback" ∨
    (¬ knownEvent e ∧ setFSM s e = (s, some .UnknownEvent)) := by
  by_cases h1 : e = "begin"; · exact Or.inl h1
  by_cases h2 : e = "begin_failure"; · exact Or.inr (Or.inl h2)
  by_cases h3 : e = "timeout"; · exact Or.inr (Or.inr (Or.inl h3))
  by_cases h4 : e = "success"; · exact Or.inr (Or.inr (Or.inr (Or.inl h4)))
  by_cases h5 : e = "failure"; · exact Or.inr (Or.inr (Or.inr (Or.inr (Or.inl h5))))
  by_cases h6 : e = "rollback"; · exact Or.inr (Or.inr (Or.inr (Or.inr (Or.inr (Or.inl h6)))))
  by_cases h7 : e = "dst_failure"
  · exact Or.inr (Or.inr (Or.inr (Or.inr (Or.inr (Or.inr (Or.inl h7))))))
  by_cases h8 : e = "dst_rollback"
  · exact Or.inr (Or.inr (Or.inr (Or.inr (Or.inr (Or.inr (Or.inr (Or.inl h8)))))))
  refine Or.inr (Or.inr (Or.inr (Or.inr (Or.inr (Or.inr (Or.inr (Or.inr
    ⟨?_, setFSM_unknown s e h1 h2 h3 h4 h5 h6 h7 h8⟩)))))))
  unfold knownEvent
  tauto

/-- An event outside the events of `setFSM` for the status is refused and the
status stays. -/
theorem setFSM_rejects (s : TransactionStatus) (e : String) (h : ¬ inCodeTable s e) :
    (setFSM s e).2 ≠ none ∧ (setFSM s e).1 = s := by
  rcases setFSM_known_cases s e with h1 | h1 | h1 | h1 | h1 | h1 | h1 | h1 | h1
  case' inr.inr.inr.inr.inr.inr.inr.inr => rw [h1.2]; simp
  all_goals (subst h1; revert h; cases s <;> decide)

/-- An event of the events of `setFSM` for the status is taken. -/
theorem setFSM_accepts (s : TransactionStatus) (e : String) (h : inCodeTable s e) :
    (setFSM s e).2 = none := by
  rcases setFSM_known_cases s e with h1 | h1 | h1 | h1 | h1 | h1 | h1 | h1 | h1
  case' inr.inr.inr.inr.inr.inr.inr.inr =>
    exfalso
    apply h1.1
    unfold knownEvent
    simp [inCodeTable, inSpecTable, specTransitionTable] at h
    tauto
  all_goals (subst h1; revert h; cases s <;> decide)

/-- Whenever `setFSM` returns an error the status is the one it was given. -/
theorem setFSM_error_keeps (s : TransactionStatus) (e : String)
    (h : (setFSM s e).2 ≠ none) : (setFSM s e).1 = s := by
  rcases setFSM_known_cases s e with h1 | h1 | h1 | h1 | h1 | h1 | h1 | h1 | h1
  case' inr.inr.inr.inr.inr.inr.inr.inr => rw [h1.2]
  all_goals (subst h1; revert h; cases s <;> decide)

/-- A status among `SUCCESS`, `FAILURE`, `ROLLBACK` takes no event. -/
theorem setFSM_terminal (s : TransactionStatus) (e : String)
    (hs : s = SUCCESS ∨ s = FAILURE ∨ s = ROLLBACK) :
    ∃ err, setFSM s e = (s, some err) := by
  rcases setFSM_known_cases s e with h1 | h1 | h1 | h1 | h1 | h1 | h1 | h1 | h1
  case' inr.inr.inr.inr.inr.inr.inr.inr => exact ⟨_, h1.2⟩
  all_goals
    (subst h1; rcases hs with hs | hs | hs <;> subst hs <;> exact ⟨.InvalidEvent, by decide⟩)

theorem receipt2EventM_cases (r : Int) :
    (r = IBTP_RECEIPT_FAILURE ∧ receipt2EventM r = "failure") ∨
    (r = IBTP_RECEIPT_SUCCESS ∧ receipt2EventM r = "success") ∨
    (r = IBTP_RECEIPT_ROLLBACK ∧ receipt2EventM r = "rollback") ∨
    (r ≠ IBTP_RECEIPT_FAILURE ∧ r ≠ IBTP_RECEIPT_SUCCESS ∧ r ≠ IBTP_RECEIPT_ROLLBACK ∧
      receipt2EventM r = "") := by
  unfold receipt2EventM
  by_cases h1 : r = IBTP_RECEIPT_FAILURE
  · exact Or.inl ⟨h1, by simp [h1, TransactionEventFailure]⟩
  by_cases h2 : r = IBTP_RECEIPT_SUCCESS
  · exact Or.inr (Or.inl ⟨h2, by simp [h2, TransactionEventSuccess, IBTP_RECEIPT_SUCCESS, IBTP_RECEIPT_FAILURE]⟩)
  by_cases h3 : r = IBTP_RECEIPT_ROLLBACK
  · exact Or.inr (Or.inr (Or.inl ⟨h3, by simp [h3, TransactionEventRollback, IBTP_RECEIPT_SUCCESS, IBTP_RECEIPT_FAILURE, IBTP_RECEIPT_ROLLBACK]⟩))
  · exact Or.inr (Or.inr (Or.inr ⟨h1, h2, h3, by simp [h1, h2, h3]⟩))

/-! ## The transition table (C3, C4) -/

/-- C3, as stated, fails: the pair `(BEGIN, begin_failure)` has no row in the
table of the specification, yet `setFSM` takes it and moves the status to
`BEGIN_FAILURE`. -/
theorem C3_counterexample_begin_failure_from_BEGIN :
    ¬ inSpecTable BEGIN "begin_failure" ∧
      setFSM BEGIN "begin_failure" = (BEGIN_FAILURE, none) ∧
      ¬ (∀ (s : TransactionStatus) (e : String), ¬ inSpecTable s e →
          (setFSM s e).2 ≠ none ∧ (setFSM s e).1 = s) := by
  refine ⟨by decide, by decide, ?_⟩
  intro h
  exact absurd (h BEGIN "begin_failure" (by decide)).1 (by decide)

/-- C3, amended: with the row `begin_failure: BEGIN → BEGIN_FAILURE` added to the
table of the specification, `setFSM` returns no error exactly on the pairs of the
table, and whenever it returns an error (every status, every event, the empty
and the unknown ones included) the status is left as it was. -/
theorem C3_setFSM_accepts_exactly_code_table (s : TransactionStatus) (e : String) :
    ((setFSM s e).2 = none ↔ inCodeTable s e) ∧
      ((setFSM s e).2 ≠ none → (setFSM s e).1 = s) := by
  refine ⟨⟨fun h => ?_, setFSM_accepts s e⟩, setFSM_error_keeps s e⟩
  by_contra hn
  exact (setFSM_rejects s e hn).1 h

/-- C4: each of the eight transitions out of a stored status is taken by `setFSM`
and lands exactly on its destination; the receipt map and the proof map send
the receipts and the destination statuses to the events the specification
names. -/
theorem C4_setFSM_transitions_and_event_maps :
    setFSM BEGIN "success" = (SUCCESS, none) ∧
    setFSM BEGIN "failure" = (FAILURE, none) ∧
    setFSM BEGIN_FAILURE "failure" = (FAILURE, none) ∧
    setFSM BEGIN_ROLLBACK "failure" = (ROLLBACK, none) ∧
    setFSM BEGIN "timeout" = (BEGIN_ROLLBACK, none) ∧
    setFSM BEGIN_ROLLBACK "rollback" = (ROLLBACK, none) ∧
    setFSM BEGIN "dst_failure" = (FAILURE, none) ∧
    setFSM BEGIN "dst_rollback" = (ROLLBACK, none) ∧
    receipt2EventM IBTP_RECEIPT_SUCCESS = "success" ∧
    receipt2EventM IBTP_RECEIPT_FAILURE = "failure" ∧
    receipt2EventM IBTP_RECEIPT_ROLLBACK = "rollback" ∧
    txStatus2EventM BEGIN_FAILURE.toInt = "dst_failure" ∧
    txStatus2EventM BEGIN_ROLLBACK.toInt = "dst_rollback" := by
  decide

/-! ## The single-child report (C2) -/

theorem setFSM_receipt (s : TransactionStatus) (r : Int) :
    setFSM s (receipt2EventM r) =
      match specReceiptStep s r with
      | some d => (d, none)
      | none => (s, (setFSM s (receipt2EventM r)).2) := by
  have hk := setFSM_error_keeps s (receipt2EventM r)
  rcases receipt2EventM_cases r with ⟨h, he⟩ | ⟨h, he⟩ | ⟨h, he⟩ | ⟨h1, h2, h3, he⟩
  · subst h; cases s <;> decide
  · subst h; cases s <;> decide
  · subst h; cases s <;> decide
  · have hs : specReceiptStep s r = none := by simp [specReceiptStep, h1, h2, h3]
    rw [hs, he, setFSM_unknown s "" (by decide) (by decide) (by decide) (by decide)
      (by decide) (by decide) (by decide) (by decide)]

theorem setFSM_receipt_none (s : TransactionStatus) (r : Int)
    (h : specReceiptStep s r = none) : (setFSM s (receipt2EventM r)).2 ≠ none := by
  rcases receipt2EventM_cases r with ⟨h1, he⟩ | ⟨h1, he⟩ | ⟨h1, he⟩ | ⟨h1, h2, h3, he⟩
  · subst h1; revert h; cases s <;> decide
  · subst h1; revert h; cases s <;> decide
  · subst h1; revert h; cases s <;> decide
  · rw [he, setFSM_unknown s "" (by decide) (by decide) (by decide) (by decide)
      (by decide) (by decide) (by decide) (by decide)]
    simp

/-- C2: on a stored single-child record `(s, h)` the report of receipt `r` by the
dispatcher succeeds exactly on the five pairs of `specReceiptStep`; it then
stores `(d, h)` under the same key and returns the change from `s` to `d`; on
every other pair it returns the state error and the stub, its write log
included, is as before. -/
theorem C2_report_single_record (e : Env B) (t : Stub B) (txId : String) (r : Int) (b : B)
    (s : TransactionStatus) (h : Nat)
    (hcaller : t.CurrentCaller = InterchainContractAddr)
    (hget : t.Get (TxInfoKey txId) = some b)
    (hdec : e.unmarshalRecord b = some ⟨s, h⟩) :
    Report e t txId r =
      match specReceiptStep s r with
      | some d =>
        some (.Success (.change ⟨s.toInt, d.toInt, [], [], [], false⟩),
          t.Set (TxInfoKey txId) (e.marshalRecord ⟨d, h⟩))
      | none => some (.Error .TransactionStateErrCode [txId, s.name, toString r], t) := by
  unfold Report checkCurrentCaller
  simp only [hcaller, ne_eq, not_true_eq_false, if_false, hget, hdec]
  rw [setFSM_receipt s r]
  cases hs : specReceiptStep s r with
  | some d => simp [StatusChange.zero]
  | none =>
    have hne := setFSM_receipt_none s r hs
    cases hx : (setFSM s (receipt2EventM r)).2 with
    | none => exact absurd hx hne
    | some err => simp

/-- C2 at a record `(BEGIN, 110)` and the success receipt. -/
theorem C2_report_single_record_witness :
    Report host (stubOf [("tx-a", .record ⟨BEGIN, 110⟩)] 100 InterchainContractAddr) "a"
        IBTP_RECEIPT_SUCCESS =
      some (.Success (.change ⟨0, 3, [], [], [], false⟩),
        (stubOf [("tx-a", .record ⟨BEGIN, 110⟩)] 100 InterchainContractAddr).Set "tx-a"
          (.record ⟨SUCCESS, 110⟩)) :=
  C2_report_single_record host _ "a" IBTP_RECEIPT_SUCCESS (.record ⟨BEGIN, 110⟩) BEGIN 110
    rfl (by decide) rfl

/-! ## Keys and the stub -/

theorem TxInfoKey_ne_GlobalTxInfoKey (x g : String) : TxInfoKey x ≠ GlobalTxInfoKey g := by
  intro h
  have h2 := congrArg String.data h
  simp [TxInfoKey, GlobalTxInfoKey, PREFIX, String.data_append] at h2

theorem TimeoutKey_ne_GlobalTxInfoKey (n : Nat) (g : String) :
    TimeoutKey n ≠ GlobalTxInfoKey g := by
  intro h
  have h2 := congrArg String.data h
  simp [TimeoutKey, GlobalTxInfoKey, PREFIX, TimeoutPrefix, String.data_append] at h2

theorem TimeoutKey_ne_TxInfoKey (n : Nat) (x : String) : TimeoutKey n ≠ TxInfoKey x := by
  intro h
  have h2 := congrArg String.data h
  simp [TimeoutKey, TxInfoKey, PREFIX, TimeoutPrefix, String.data_append] at h2

theorem GlobalTxInfoKey_injective (a b : String) (h : GlobalTxInfoKey a = GlobalTxInfoKey b) :
    a = b := by
  have h2 := congrArg String.data h
  simp [GlobalTxInfoKey, PREFIX, String.data_append] at h2
  exact String.ext h2

theorem TxInfoKey_injective (a b : String) (h : TxInfoKey a = TxInfoKey b) : a = b := by
  have h2 := congrArg String.data h
  simp [TxInfoKey, PREFIX, String.data_append] at h2
  exact String.ext h2

@[simp] theorem Stub.Get_Set_same (t : Stub B) (k : String) (v : B) :
    (t.Set k v).Get k = some v := by
  simp [Stub.Get, Stub.Set]

theorem Stub.Get_Set_other (t : Stub B) (k k2 : String) (v : B) (h : k2 ≠ k) :
    (t.Set k v).Get k2 = t.Get k2 := by
  simp [Stub.Get, Stub.Set, h]

@[simp] theorem Stub.Set_CurrentCaller (t : Stub B) (k : String) (v : B) :
    (t.Set k v).CurrentCaller = t.CurrentCaller := rfl

@[simp] theorem Stub.Set_CurrentHeight (t : Stub B) (k : String) (v : B) :
    (t.Set k v).CurrentHeight = t.CurrentHeight := rfl

@[simp] theorem Stub.Set_writes (t : Stub B) (k : String) (v : B) :
    (t.Set k v).writes = t.writes ++ [(k, v)] := rfl

/-! ## No write on an error, and the caller check (C6, C7) -/

/-- An error of `changeMultiTxStatus` comes with the stub it was given. -/
theorem changeMultiTxStatus_error (e : Env B) (t : Stub B) (g : String)
    (txInfo : TransactionInfo) (txId : String) (r : Int) (info1 : TransactionInfo)
    (t1 : Stub B) (err : List String)
    (h : changeMultiTxStatus e t g txInfo txId r = some (info1, t1, some err)) : t1 = t := by
  unfold changeMultiTxStatus at h
  repeat' first
    | split at h
    | (dsimp only at h; split at h)
  all_goals first
    | (simp at h; done)
    | (simp at h; exact h.2.1.symm)

theorem beginMultiTail_isError (e : Env B) (t : Stub B) (c : StatusChange)
    (i : TransactionInfo) (g x : String) : (beginMultiTail e t c i g x).1.isError = false := rfl

/-- C6: whenever one of the five entry points returns an error response, the
stub after the call, its store and its write log, is the stub before the call. -/
theorem C6_error_response_leaves_store (e : Env B) (t t1 : Stub B) (resp : Response)
    (herr : resp.isError = true) :
    (∀ txId timeoutHeight isFailed,
      Begin e t txId timeoutHeight isFailed = (resp, t1) → t1 = t) ∧
    (∀ globalID ibtpID timeoutHeight isFailed count,
      BeginMultiTXs e t globalID ibtpID timeoutHeight isFailed count = some (resp, t1) →
        t1 = t) ∧
    (∀ txId timeoutHeight proof isFailed,
      BeginInterBitXHub e t txId timeoutHeight proof isFailed = (resp, t1) → t1 = t) ∧
    (∀ txId result, Report e t txId result = some (resp, t1) → t1 = t) ∧
    (∀ txId, GetStatus e t txId = (resp, t1) → t1 = t) := by
  refine ⟨?_, ?_, ?_, ?_, ?_⟩
  · intro txId th f h
    unfold Begin at h
    split at h
    · cases h; rfl
    · cases h; simp [Response.isError] at herr
  · intro g x th f c h
    unfold BeginMultiTXs at h
    repeat' first
      | split at h
      | (dsimp only at h; split at h)
    all_goals first
      | (cases h; rfl)
      | (cases h; simp [Response.isError, beginMultiTail] at herr; done)
      | (simp at h; done)
  · intro txId th p f h
    unfold BeginInterBitXHub at h
    repeat' first
      | split at h
      | (dsimp only at h; split at h)
    all_goals first
      | (cases h; rfl)
      | (cases h; simp [Response.isError] at herr; done)
  · intro txId r h
    unfold Report at h
    repeat' first
      | split at h
      | (dsimp only at h; split at h)
    all_goals first
      | (cases h; rfl)
      | (cases h; simp [Response.isError] at herr; done)
      | (simp at h; done)
      | (rename_i heq; cases h; exact changeMultiTxStatus_error _ _ _ _ _ _ _ _ _ heq)
  · intro txId h
    unfold GetStatus at h
    repeat' first
      | split at h
      | (dsimp only at h; split at h)
    all_goals (cases h; rfl)

/-- C6 at a report that is refused: the child `c1` is at `SUCCESS` and receives
the success receipt again. -/
theorem C6_error_response_leaves_store_witness :
    Report host stubOneSuccess "c1" IBTP_RECEIPT_SUCCESS =
        some (.Error .TransactionStateErrCode ["child tx", "c1", "SUCCESS", "1"],
          stubOneSuccess) ∧
      ((Report host stubOneSuccess "c1" IBTP_RECEIPT_SUCCESS).map Prod.snd =
        some stubOneSuccess) := by
  have h0 : Report host stubOneSuccess "c1" IBTP_RECEIPT_SUCCESS =
      some (.Error .TransactionStateErrCode ["child tx", "c1", "SUCCESS", "1"],
        stubOneSuccess) := by rfl
  refine ⟨h0, ?_⟩
  have h1 := (C6_error_response_leaves_store host stubOneSuccess stubOneSuccess
    (.Error .TransactionStateErrCode ["child tx", "c1", "SUCCESS", "1"]) rfl).2.2.2.1
    "c1" IBTP_RECEIPT_SUCCESS h0
  rw [h0]
  exact congrArg some h1

/-- C7: when the current caller is not the interchain contract, each of the four
mutating entry points returns the no-permission error, whose message names the
caller, and the stub is as before; when the caller is the interchain contract
none of them returns the no-permission error. -/
theorem C7_caller_check (e : Env B) (t : Stub B) (txId globalID ibtpID : String)
    (timeoutHeight count : Nat) (isFailed : Bool) (proof : B) (result : Int) :
    (t.CurrentCaller ≠ InterchainContractAddr →
      Begin e t txId timeoutHeight isFailed =
        (.Error .TransactionNoPermissionCode [t.CurrentCaller], t) ∧
      BeginMultiTXs e t globalID ibtpID timeoutHeight isFailed count =
        some (.Error .TransactionNoPermissionCode [t.CurrentCaller], t) ∧
      BeginInterBitXHub e t txId timeoutHeight proof isFailed =
        (.Error .TransactionNoPermissionCode [t.CurrentCaller], t) ∧
      Report e t txId result =
        some (.Error .TransactionNoPermissionCode [t.CurrentCaller], t)) ∧
    (t.CurrentCaller = InterchainContractAddr → ∀ msg : List String,
      (Begin e t txId timeoutHeight isFailed).1 ≠ .Error .TransactionNoPermissionCode msg ∧
      (∀ r, BeginMultiTXs e t globalID ibtpID timeoutHeight isFailed count = some r →
        r.1 ≠ .Error .TransactionNoPermissionCode msg) ∧
      (BeginInterBitXHub e t txId timeoutHeight proof isFailed).1 ≠
        .Error .TransactionNoPermissionCode msg ∧
      (∀ r, Report e t txId result = some r →
        r.1 ≠ .Error .TransactionNoPermissionCode msg)) := by
  constructor
  · intro hc
    simp [Begin, BeginMultiTXs, BeginInterBitXHub, Report, checkCurrentCaller, hc]
  · intro hc msg
    refine ⟨?_, ?_, ?_, ?_⟩
    · simp [Begin, checkCurrentCaller, hc]
    · intro r h
      unfold BeginMultiTXs checkCurrentCaller at h
      simp only [hc, ne_eq, not_true_eq_false, if_false] at h
      repeat' first
        | split at h
        | (dsimp only at h; split at h)
      all_goals first
        | (cases h; simp [beginMultiTail]; done)
        | (simp at h; done)
    · unfold BeginInterBitXHub checkCurrentCaller
      simp only [hc, ne_eq, not_true_eq_false, if_false]
      repeat' first
        | split
        | (dsimp only; split)
      all_goals simp
    · intro r h
      unfold Report checkCurrentCaller at h
      simp only [hc, ne_eq, not_true_eq_false, if_false] at h
      repeat' first
        | split at h
        | (dsimp only at h; split at h)
      all_goals first
        | (cases h; simp; done)
        | (simp at h; done)

/-- C7 at the caller of the test suite, the transaction manager contract itself. -/
theorem C7_caller_check_witness :
    TransactionMgrContractAddr ≠ InterchainContractAddr ∧
      Report host (emptyStub 100 TransactionMgrContractAddr) "c1" IBTP_RECEIPT_SUCCESS =
        some (.Error .TransactionNoPermissionCode [TransactionMgrContractAddr],
          emptyStub 100 TransactionMgrContractAddr) :=
  ⟨by decide,
    ((C7_caller_check host (emptyStub 100 TransactionMgrContractAddr) "c1" "g" "c1" 10 2
      false (.raw "") IBTP_RECEIPT_SUCCESS).1 (by decide)).2.2.2⟩

/-! ## Lemmas on the maps -/

theorem mapLookup_mapSet_same (m : ChildMap) (k : String) (v : TransactionStatus) :
    mapLookup (mapSet m k v) k = some v := by
  induction m with
  | nil => simp [mapSet, mapLookup]
  | cons p m ih =>
    obtain ⟨a, w⟩ := p
    by_cases h : a = k
    · simp [mapSet, mapLookup, h]
    · simp [mapSet, mapLookup, h, ih]

theorem mapLookup_mapSet_other (m : ChildMap) (k k2 : String) (v : TransactionStatus)
    (h : k2 ≠ k) : mapLookup (mapSet m k v) k2 = mapLookup m k2 := by
  induction m with
  | nil => simp [mapSet, mapLookup, Ne.symm h]
  | cons p m ih =>
    obtain ⟨a, w⟩ := p
    by_cases h1 : a = k
    · subst h1
      simp [mapSet, mapLookup, Ne.symm h]
    · by_cases h2 : a = k2
      · subst h2
        simp [mapSet, mapLookup, h1]
      · simp [mapSet, mapLookup, h1, h2, ih]

theorem mapLookup_isSome_iff (m : ChildMap) (k : String) :
    (mapLookup m k).isSome = true ↔ k ∈ mapKeys m := by
  induction m with
  | nil => simp [mapLookup, mapKeys]
  | cons p m ih =>
    obtain ⟨a, w⟩ := p
    by_cases h : a = k
    · simp [mapLookup, mapKeys, h]
    · have ih2 : (mapLookup m k).isSome = true ↔ k ∈ List.map Prod.fst m := ih
      simp [mapLookup, mapKeys, h, ih2, Ne.symm h]

theorem mapKeys_mapSet_of_mem (m : ChildMap) (k : String) (v : TransactionStatus)
    (h : k ∈ mapKeys m) : mapKeys (mapSet m k v) = mapKeys m := by
  induction m with
  | nil => simp [mapKeys] at h
  | cons p m ih =>
    obtain ⟨a, w⟩ := p
    by_cases h1 : a = k
    · simp [mapSet, mapKeys, h1]
    · have h2 : k ∈ mapKeys m := by
        simp only [mapKeys, List.map_cons, List.mem_cons] at h
        rcases h with h | h
        · exact absurd h.symm h1
        · exact h
      have ih2 := ih h2
      simp only [mapKeys] at ih2
      simp [mapSet, mapKeys, h1, ih2]

theorem mapSet_of_not_mem (m : ChildMap) (k : String) (v : TransactionStatus)
    (h : mapLookup m k = none) : mapSet m k v = m ++ [(k, v)] := by
  induction m with
  | nil => simp [mapSet]
  | cons p m ih =>
    obtain ⟨a, w⟩ := p
    by_cases h1 : a = k
    · simp [mapLookup, h1] at h
    · simp only [mapLookup, h1, if_false] at h
      simp [mapSet, h1, ih h]

/-- Setting every key of a list, all of them keys of the map, to one status: the
keys stay, the listed keys hold the status, the others hold what they held. -/
theorem foldl_mapSet (v : TransactionStatus) (l : List String) (m : ChildMap)
    (hl : ∀ k ∈ l, k ∈ mapKeys m) :
    mapKeys (l.foldl (fun m k => mapSet m k v) m) = mapKeys m ∧
    (∀ k ∈ l, mapLookup (l.foldl (fun m k => mapSet m k v) m) k = some v) ∧
    (∀ k, k ∉ l → mapLookup (l.foldl (fun m k => mapSet m k v) m) k = mapLookup m k) := by
  induction l generalizing m with
  | nil => simp
  | cons a l ih =>
    have ha : a ∈ mapKeys m := hl a (List.mem_cons_self a l)
    have hk : mapKeys (mapSet m a v) = mapKeys m := mapKeys_mapSet_of_mem m a v ha
    have ih2 := ih (mapSet m a v) (fun k hk2 => by
      rw [hk]; exact hl k (List.mem_cons_of_mem a hk2))
    refine ⟨?_, ?_, ?_⟩
    · simp only [List.foldl_cons]
      rw [ih2.1, hk]
    · intro k hk2
      simp only [List.foldl_cons]
      by_cases hkl : k ∈ l
      · exact ih2.2.1 k hkl
      · rw [ih2.2.2 k hkl]
        have hka : k = a := by
          rcases List.mem_cons.mp hk2 with h | h
          · exact h
          · exact absurd h hkl
        rw [hka]
        exact mapLookup_mapSet_same m a v
    · intro k hk2
      simp only [List.foldl_cons]
      have hkl : k ∉ l := fun h => hk2 (List.mem_cons_of_mem a h)
      have hka : k ≠ a := fun h => hk2 (h ▸ List.mem_cons_self a l)
      rw [ih2.2.2 k hkl]
      exact mapLookup_mapSet_other m a k v hka

/-! ## Lemmas on the timeout index -/

/-- The loop of `removeFromTimeoutList` leaves the slice alone when none of the
elements it still reads is the ID. -/
theorem removeLoop_no_match (txId : String) (k : Nat) :
    ∀ (index : Nat) (arr : List String) (len : Nat), index + k ≤ arr.length →
      (∀ y ∈ (arr.drop index).take k, y ≠ txId) →
      removeLoop txId k index arr len = some (arr, len) := by
  induction k with
  | zero => intro index arr len _ _; rfl
  | succ k ih =>
    intro index arr len hlen hne
    have hidx : index < arr.length := by omega
    have hd : arr.drop index = arr[index] :: arr.drop (index + 1) :=
      List.drop_eq_getElem_cons hidx
    have hget : arr.getD index "" = arr[index] := List.getD_eq_getElem arr "" hidx
    have h0 : arr[index] ≠ txId := by
      apply hne
      rw [hd, List.take_succ_cons]
      exact List.mem_cons_self _ _
    unfold removeLoop
    rw [hget, if_neg h0]
    apply ih (index + 1) arr len (by omega)
    intro y hy
    apply hne
    rw [hd]
    simp only [List.take_succ_cons, List.mem_cons]
    exact Or.inr hy

theorem mem_of_mem_drop_length_cons (x : String) (r : List String) (hr : r ≠ [])
    (y : String) (hy : y ∈ (x :: r).drop r.length) : y ∈ r := by
  cases r with
  | nil => exact absurd rfl hr
  | cons a r =>
    simp only [List.length_cons, List.drop_succ_cons] at hy
    exact List.mem_of_mem_drop hy

/-- The loop of `removeFromTimeoutList` on a list that holds the ID at most once:
it does not panic and the slice it leaves is the list without the ID. -/
theorem removeLoop_erase (txId : String) (rest : List String) :
    ∀ (done : List String), rest.count txId ≤ 1 →
      ∃ arr len, removeLoop txId rest.length done.length (done ++ rest)
          (done.length + rest.length) = some (arr, len) ∧
        arr.take len = done ++ rest.erase txId := by
  induction rest with
  | nil =>
    intro done _
    exact ⟨done ++ [], done.length + 0, rfl, by simp⟩
  | cons x r ih =>
    intro done hc
    have hget : (done ++ x :: r).getD done.length "" = x := by
      rw [List.getD_append_right done (x :: r) "" done.length (Nat.le_refl _)]
      simp
    by_cases hx : x = txId
    · have hnot : txId ∉ r := by
        intro hmem
        have h1 : 0 < r.count txId := List.count_pos_iff.mpr hmem
        rw [hx, List.count_cons_self] at hc
        omega
      have hrm : removeAt (done ++ x :: r) (done.length + (r.length + 1)) done.length =
          some (done ++ r ++ (x :: r).drop r.length, done.length + r.length) := by
        unfold removeAt
        have h1 : done.length + 1 ≤ done.length + (r.length + 1) := by omega
        rw [if_pos h1]
        have e1 : (done ++ x :: r).take done.length = done := by simp
        have e2 : (done ++ x :: r).drop (done.length + 1) = r := by
          rw [List.drop_append 1]; rfl
        have e3 : done.length + (r.length + 1) - (done.length + 1) = r.length := by omega
        have e4 : done.length + (r.length + 1) - 1 = done.length + r.length := by omega
        have e5 : (done ++ x :: r).drop (done.length + r.length) = (x :: r).drop r.length :=
          List.drop_append r.length
        rw [e1, e2, e3, e4, e5]
        simp
      refine ⟨done ++ r ++ (x :: r).drop r.length, done.length + r.length, ?_, ?_⟩
      · show removeLoop txId (r.length + 1) done.length (done ++ x :: r)
            (done.length + (r.length + 1)) = _
        unfold removeLoop
        rw [hget, if_pos hx, hrm]
        apply removeLoop_no_match
        · simp
          cases r <;> simp
          omega
        · intro y hy
          by_cases hr : r = []
          · subst hr; simp at hy
          · have hy2 : y ∈ r ++ (x :: r).drop r.length := by
              have h3 := List.mem_of_mem_take hy
              rw [List.append_assoc, List.drop_append 1] at h3
              exact List.mem_of_mem_drop h3
            rcases List.mem_append.mp hy2 with h5 | h5
            · exact fun h => hnot (h ▸ h5)
            · exact fun h => hnot (h ▸ mem_of_mem_drop_length_cons x r hr y h5)
      · have e6 : (done ++ r).length = done.length + r.length := List.length_append done r
        rw [← e6, List.take_left, hx, List.erase_cons_head]
    · have hc2 : r.count txId ≤ 1 := by
        rw [List.count_cons_of_ne (fun h => hx h.symm)] at hc
        exact hc
      obtain ⟨arr, len, h1, h2⟩ := ih (done ++ [x]) hc2
      refine ⟨arr, len, ?_, ?_⟩
      · show removeLoop txId (r.length + 1) done.length (done ++ x :: r)
            (done.length + (r.length + 1)) = _
        unfold removeLoop
        rw [hget, if_neg hx]
        have e1 : (done ++ [x]).length = done.length + 1 := by simp
        have e2 : done ++ [x] ++ r = done ++ x :: r := by simp
        have e3 : done.length + 1 + r.length = done.length + (r.length + 1) := by omega
        rw [e1, e2, e3] at h1
        exact h1
      · rw [h2, List.erase_cons_tail (by simpa using hx)]
        simp

/-- The method `removeFromTimeoutList` on an index entry that holds the ID at
most once: it does not panic, and an entry that exists is rewritten to the
comma-joined list without the ID. -/
theorem removeFromTimeoutList_erase (e : Env B) (t : Stub B) (height : Nat) (txId : String)
    (hdup : ∀ b, t.Get (TimeoutKey height) = some b →
      (stringsSplit (e.stringOfBytes b)).count txId ≤ 1) :
    removeFromTimeoutList e t height txId =
      some (match t.Get (TimeoutKey height) with
        | none => t
        | some b => t.Set (TimeoutKey height)
            (e.bytesOfString (stringsJoin ((stringsSplit (e.stringOfBytes b)).erase txId)))) := by
  unfold removeFromTimeoutList
  cases hb : t.Get (TimeoutKey height) with
  | none => rfl
  | some b =>
    obtain ⟨arr, len, h1, h2⟩ :=
      removeLoop_erase txId (stringsSplit (e.stringOfBytes b)) [] (hdup b hb)
    simp only [List.length_nil, List.nil_append, Nat.zero_add] at h1 h2
    simp only [h1, h2]

/-! ## The fast failure of a multi-child transaction (C8) -/

/-- The fast-failing branch of `changeMultiTxStatus`. -/
theorem changeMultiTxStatus_fast_fail (e : Env B) (t : Stub B) (g : String)
    (info : TransactionInfo) (txId : String) (hglobal : info.GlobalState = BEGIN) :
    changeMultiTxStatus e t g info txId IBTP_RECEIPT_FAILURE =
      (removeFromTimeoutList e t info.Height g).map (fun t1 =>
        (⟨BEGIN_FAILURE, info.Height,
          mapSet ((e.rangeOrder 429 (mapKeys info.ChildTxInfo)).foldl
            (fun m childTx => mapSet m childTx BEGIN_FAILURE) info.ChildTxInfo) txId FAILURE,
          info.ChildTxCount⟩, t1, none)) := by
  unfold changeMultiTxStatus
  simp only [hglobal, and_self, if_true]
  cases removeFromTimeoutList e t info.Height g <;> rfl

/-- The children after the fast failure: the keys are the same, the reported
child is at `FAILURE` and every other child at `BEGIN_FAILURE`. -/
theorem fast_fail_children (e : Env B) (m : ChildMap) (txId : String)
    (hchild : txId ∈ mapKeys m) :
    mapKeys (mapSet ((e.rangeOrder 429 (mapKeys m)).foldl
        (fun m childTx => mapSet m childTx BEGIN_FAILURE) m) txId FAILURE) = mapKeys m ∧
    mapLookup (mapSet ((e.rangeOrder 429 (mapKeys m)).foldl
        (fun m childTx => mapSet m childTx BEGIN_FAILURE) m) txId FAILURE) txId =
      some FAILURE ∧
    (∀ k ∈ mapKeys m, k ≠ txId →
      mapLookup (mapSet ((e.rangeOrder 429 (mapKeys m)).foldl
        (fun m childTx => mapSet m childTx BEGIN_FAILURE) m) txId FAILURE) k =
      some BEGIN_FAILURE) := by
  have hperm := e.rangeOrder_perm 429 (mapKeys m)
  have hf := foldl_mapSet BEGIN_FAILURE (e.rangeOrder 429 (mapKeys m)) m
    (fun k hk => hperm.mem_iff.mp hk)
  refine ⟨?_, mapLookup_mapSet_same _ _ _, ?_⟩
  · rw [mapKeys_mapSet_of_mem _ _ _ (by rw [hf.1]; exact hchild), hf.1]
  · intro k hk hne
    rw [mapLookup_mapSet_other _ _ _ _ hne]
    exact hf.2.1 k (hperm.mem_iff.mpr hk)

theorem reportNotifyStep_statuses (children : ChildMap) (txId : String)
    (change : StatusChange) (key : String) :
    (reportNotifyStep children txId change key).PrevStatus = change.PrevStatus ∧
    (reportNotifyStep children txId change key).CurStatus = change.CurStatus := by
  unfold reportNotifyStep
  dsimp only
  repeat' split
  all_goals exact ⟨rfl, rfl⟩

theorem reportNotifyLoop_statuses (order : List String) (children : ChildMap)
    (txId : String) (change : StatusChange) :
    (reportNotifyLoop order children txId change).PrevStatus = change.PrevStatus ∧
    (reportNotifyLoop order children txId change).CurStatus = change.CurStatus := by
  unfold reportNotifyLoop
  induction order generalizing change with
  | nil => exact ⟨rfl, rfl⟩
  | cons k l ih =>
    simp only [List.foldl_cons]
    have hs := reportNotifyStep_statuses children txId change k
    exact ⟨(ih _).1.trans hs.1, (ih _).2.trans hs.2⟩

/-- C8, amended: on a stored transaction info at `BEGIN` that contains the child
`txId`, when `txId` has no record of its own, its reverse index entry names the
transaction, and the timeout entry of the height lists the global ID at most
once, the report of the failure receipt by the dispatcher succeeds; it stores the info with `txId` at `FAILURE`,
every other child at `BEGIN_FAILURE`, the global state at `BEGIN_FAILURE` and the
height and the child count as they were; the timeout entry at that height, if
there is one, is rewritten without the global ID; the change goes from `BEGIN` to
`BEGIN_FAILURE`. -/
theorem C8_report_fast_fail (e : Env B) (t : Stub B) (txId : String) (val : B)
    (info : TransactionInfo)
    (hcaller : t.CurrentCaller = InterchainContractAddr)
    (hrec : t.Get (TxInfoKey txId) = none)
    (hidx : t.Get txId = some val)
    (hinfo : GetObject e t (GlobalTxInfoKey (e.stringOfBytes val)) = some info)
    (hglobal : info.GlobalState = BEGIN)
    (hchild : txId ∈ mapKeys info.ChildTxInfo)
    (hdup : ∀ b, t.Get (TimeoutKey info.Height) = some b →
      (stringsSplit (e.stringOfBytes b)).count (e.stringOfBytes val) ≤ 1) :
    ∃ change children t1,
      Report e t txId IBTP_RECEIPT_FAILURE = some (.Success (.change change), t1) ∧
      GetObject e t1 (GlobalTxInfoKey (e.stringOfBytes val)) =
        some ⟨BEGIN_FAILURE, info.Height, children, info.ChildTxCount⟩ ∧
      mapKeys children = mapKeys info.ChildTxInfo ∧
      mapLookup children txId = some FAILURE ∧
      (∀ k ∈ mapKeys info.ChildTxInfo, k ≠ txId →
        mapLookup children k = some BEGIN_FAILURE) ∧
      change.PrevStatus = BEGIN.toInt ∧ change.CurStatus = BEGIN_FAILURE.toInt ∧
      t1.Get (TimeoutKey info.Height) = (t.Get (TimeoutKey info.Height)).map (fun b =>
        e.bytesOfString (stringsJoin
          ((stringsSplit (e.stringOfBytes b)).erase (e.stringOfBytes val)))) ∧
      (∀ b, t.Get (TimeoutKey info.Height) = some b →
        e.stringOfBytes val ∉
          (stringsSplit (e.stringOfBytes b)).erase (e.stringOfBytes val)) := by
  have hc := fast_fail_children e info.ChildTxInfo txId hchild
  have hlook : (mapLookup info.ChildTxInfo txId).isNone = false := by
    have := (mapLookup_isSome_iff info.ChildTxInfo txId).mpr hchild
    cases hx : mapLookup info.ChildTxInfo txId with
    | none => rw [hx] at this; simp at this
    | some v => rfl
  have hrm := removeFromTimeoutList_erase e t info.Height (e.stringOfBytes val) hdup
  have hrep : ∃ change t0,
      Report e t txId IBTP_RECEIPT_FAILURE = some (.Success (.change change),
        SetObject e t0 (GlobalTxInfoKey (e.stringOfBytes val))
          ⟨BEGIN_FAILURE, info.Height,
            mapSet ((e.rangeOrder 429 (mapKeys info.ChildTxInfo)).foldl
              (fun m childTx => mapSet m childTx BEGIN_FAILURE) info.ChildTxInfo) txId FAILURE,
            info.ChildTxCount⟩) ∧
      change.PrevStatus = BEGIN.toInt ∧ change.CurStatus = BEGIN_FAILURE.toInt ∧
      t0 = (match t.Get (TimeoutKey info.Height) with
        | none => t
        | some b => t.Set (TimeoutKey info.Height)
            (e.bytesOfString (stringsJoin
              ((stringsSplit (e.stringOfBytes b)).erase (e.stringOfBytes val))))) := by
    unfold Report checkCurrentCaller
    simp only [hcaller, ne_eq, not_true_eq_false, if_false, hrec, hidx, hinfo, hlook,
      Bool.false_eq_true, changeMultiTxStatus_fast_fail e t _ info txId hglobal, hrm,
      Option.map_some']
    exact ⟨_, _, rfl, (reportNotifyLoop_statuses _ _ _ _).1.trans (by rw [hglobal]),
      (reportNotifyLoop_statuses _ _ _ _).2, rfl⟩
  obtain ⟨change, t0, h1, h2, h3, h4⟩ := hrep
  refine ⟨change, _, _, h1, ?_, hc.1, hc.2.1, hc.2.2, h2, h3, ?_, ?_⟩
  · simp only [GetObject, SetObject, Stub.Get_Set_same, Option.some_bind, e.info_roundtrip]
  · rw [SetObject, Stub.Get_Set_other _ _ _ _ (TimeoutKey_ne_GlobalTxInfoKey _ _), h4]
    cases hb : t.Get (TimeoutKey info.Height) with
    | none => simp [hb]
    | some b => simp
  · intro b hb hmem
    have h5 := hdup b hb
    have h6 := List.count_erase_self (e.stringOfBytes val) (stringsSplit (e.stringOfBytes b))
    have h7 : 0 < List.count (e.stringOfBytes val)
        ((stringsSplit (e.stringOfBytes b)).erase (e.stringOfBytes val)) :=
      List.count_pos_iff.mpr hmem
    omega

/-- Witness of C8 amended, at the transaction `g` with the children `c1`, at
`SUCCESS`, and `c2`, at `BEGIN`: the failure receipt for `c2`. -/
theorem C8_report_fast_fail_witness :
    ∃ change children t1,
      Report host stubOneSuccess "c2" IBTP_RECEIPT_FAILURE =
        some (.Success (.change change), t1) ∧
      GetObject host t1 (GlobalTxInfoKey "g") = some ⟨BEGIN_FAILURE, 110, children, 2⟩ ∧
      mapKeys children = ["c1", "c2"] ∧
      mapLookup children "c2" = some FAILURE ∧
      (∀ k ∈ ["c1", "c2"], k ≠ "c2" → mapLookup children k = some BEGIN_FAILURE) ∧
      change.PrevStatus = 0 ∧ change.CurStatus = 1 ∧
      t1.Get (TimeoutKey 110) = some (.raw "") ∧
      (∀ b, stubOneSuccess.Get (TimeoutKey 110) = some b → "g" ∉ (stringsSplit "g").erase "g") :=
  by
  obtain ⟨change, children, t1, h1, h2, h3, h4, h5, h6, h7, h8, h9⟩ :=
    C8_report_fast_fail host stubOneSuccess "c2" (.raw "g")
      ⟨BEGIN, 110, [("c1", SUCCESS), ("c2", BEGIN)], 2⟩ rfl (by decide) (by decide)
      (by decide) rfl (by decide)
      (by
        intro b hb
        have hb2 : b = .raw "g" := by
          have h0 : stubOneSuccess.Get (TimeoutKey 110) = some (.raw "g") := by decide
          rw [h0] at hb
          exact (Option.some.inj hb).symm
        subst hb2
        decide)
  refine ⟨change, children, t1, h1, h2, h3, h4, h5, h6, h7, ?_, ?_⟩
  · rw [h8]; decide
  · intro b hb
    have hb2 : b = .raw "g" := by
      have h0 : stubOneSuccess.Get (TimeoutKey 110) = some (.raw "g") := by decide
      rw [h0] at hb
      exact (Option.some.inj hb).symm
    subst hb2
    exact h9 _ hb

/-! ## A transaction in a terminal state (C1) -/

/-- The method `removeFromTimeoutList` writes the timeout key of the height only. -/
theorem removeFromTimeoutList_frame (e : Env B) (t t1 : Stub B) (height : Nat)
    (txId : String) (h : removeFromTimeoutList e t height txId = some t1) (k : String)
    (hk : k ≠ TimeoutKey height) : t1.Get k = t.Get k := by
  unfold removeFromTimeoutList at h
  repeat' first
    | split at h
    | (dsimp only at h; split at h)
  all_goals first
    | (cases h; rfl)
    | (simp at h; done)
    | (cases h; exact Stub.Get_Set_other _ _ _ _ hk)

/-- The method `changeMultiTxStatus` writes the timeout key of the height only. -/
theorem changeMultiTxStatus_frame (e : Env B) (t t1 : Stub B) (g : String)
    (info info1 : TransactionInfo) (txId : String) (r : Int) (x : Option (List String))
    (h : changeMultiTxStatus e t g info txId r = some (info1, t1, x)) (k : String)
    (hk : k ≠ TimeoutKey info.Height) : t1.Get k = t.Get k := by
  unfold changeMultiTxStatus at h
  repeat' first
    | split at h
    | (dsimp only at h; split at h)
  all_goals first
    | (simp at h; done)
    | (cases h; rfl)
    | (rename_i heq; cases h; exact removeFromTimeoutList_frame _ _ _ _ _ heq k hk)

/-- On a transaction info in a terminal state whose children are all in terminal
states, `changeMultiTxStatus` returns an error and touches nothing. -/
theorem changeMultiTxStatus_terminal (e : Env B) (t : Stub B) (g : String)
    (info : TransactionInfo) (txId : String) (r : Int)
    (hterm : isTerminal info.GlobalState)
    (hchildren : ∀ k s, mapLookup info.ChildTxInfo k = some s → isTerminal s)
    (hmem : (mapLookup info.ChildTxInfo txId).isNone = false) :
    ∃ err, changeMultiTxStatus e t g info txId r = some (info, t, some err) := by
  have hg : ¬ (info.GlobalState = BEGIN ∧ r = IBTP_RECEIPT_FAILURE) := by
    intro h
    rw [h.1] at hterm
    exact absurd hterm (by decide)
  cases hl : mapLookup info.ChildTxInfo txId with
  | none => rw [hl] at hmem; simp at hmem
  | some s =>
    obtain ⟨err, herr⟩ := setFSM_terminal s (receipt2EventM r) (hchildren txId s hl)
    have hget : mapGet info.ChildTxInfo txId = s := by simp [mapGet, hl]
    unfold changeMultiTxStatus
    simp only [hg, if_false, hget, herr]
    exact ⟨_, rfl⟩

/-- C1, amended: for a stored transaction info whose global state is `SUCCESS`,
`FAILURE` or `ROLLBACK`: when its children are all in such states too, no report
that returns changes the bytes stored under its key; a `BeginMultiTXs` call on it
by the dispatcher with a child that is present returns the existent-child error
and the stub is as before; with a new child (whose ID is not the key of the info
itself), the map of children of the decoded info not being nil, it stores the info
with that child appended at the global state, and the global state, the height,
the child count and the children it had as they were. -/
theorem C1_terminal_entry_frozen (e : Env B) (t : Stub B) (g : String)
    (info : TransactionInfo)
    (hinfo : GetObject e t (GlobalTxInfoKey g) = some info)
    (hterm : isTerminal info.GlobalState) :
    ((∀ k s, mapLookup info.ChildTxInfo k = some s → isTerminal s) →
      ∀ txId result r, Report e t txId result = some r →
        r.2.Get (GlobalTxInfoKey g) = t.Get (GlobalTxInfoKey g)) ∧
    (∀ ibtpID timeoutHeight isFailed count,
      t.CurrentCaller = InterchainContractAddr → ibtpID ∈ mapKeys info.ChildTxInfo →
        BeginMultiTXs e t g ibtpID timeoutHeight isFailed count =
          some (.Error .TransactionExistentChildTxCode [ibtpID, g], t)) ∧
    (∀ ibtpID timeoutHeight isFailed count,
      t.CurrentCaller = InterchainContractAddr → ibtpID ∉ mapKeys info.ChildTxInfo →
        ibtpID ≠ GlobalTxInfoKey g → nilMapAt e t (GlobalTxInfoKey g) = false →
        ∃ resp t1, BeginMultiTXs e t g ibtpID timeoutHeight isFailed count = some (resp, t1) ∧
          GetObject e t1 (GlobalTxInfoKey g) =
            some ⟨info.GlobalState, info.Height,
              info.ChildTxInfo ++ [(ibtpID, info.GlobalState)], info.ChildTxCount⟩) := by
  have hnb : info.GlobalState ≠ BEGIN := by
    intro h
    rw [h] at hterm
    exact absurd hterm (by decide)
  refine ⟨?_, ?_, ?_⟩
  · intro hchildren txId result r h
    unfold Report at h
    cases hcc : checkCurrentCaller t with
    | some err => simp only [hcc] at h; cases h; rfl
    | none =>
      simp only [hcc] at h
      cases hrec : t.Get (TxInfoKey txId) with
      | some b =>
        simp only [hrec] at h
        repeat' first
          | split at h
          | (dsimp only at h; split at h)
        all_goals (cases h; rfl)
      | none =>
        simp only [hrec] at h
        cases hidx : t.Get txId with
        | none => simp only [hidx] at h; cases h; rfl
        | some val =>
          simp only [hidx] at h
          cases hobj : GetObject e t (GlobalTxInfoKey (e.stringOfBytes val)) with
          | none => simp only [hobj] at h; cases h; rfl
          | some txInfo =>
            simp only [hobj] at h
            by_cases hmem : (mapLookup txInfo.ChildTxInfo txId).isNone = true
            · simp only [hmem, if_true] at h; cases h; rfl
            · simp only [hmem, Bool.false_eq_true, if_false] at h
              cases hcm : changeMultiTxStatus e t (e.stringOfBytes val) txInfo txId result with
              | none => simp only [hcm] at h; cases h
              | some p =>
                obtain ⟨i1, t1, x⟩ := p
                have hfr := changeMultiTxStatus_frame e t t1 _ txInfo i1 txId result x hcm
                  (GlobalTxInfoKey g) (fun hh => TimeoutKey_ne_GlobalTxInfoKey _ _ hh.symm)
                cases x with
                | some err => simp only [hcm] at h; cases h; exact hfr
                | none =>
                  simp only [hcm] at h
                  cases h
                  by_cases hgg : e.stringOfBytes val = g
                  · rw [hgg, hinfo] at hobj
                    cases hobj
                    obtain ⟨err, herr⟩ := changeMultiTxStatus_terminal e t g info txId result
                      hterm hchildren
                      (by cases hx : mapLookup info.ChildTxInfo txId <;> simp [hx] at hmem ⊢)
                    rw [hgg, herr] at hcm
                    simp at hcm
                  · rw [SetObject, Stub.Get_Set_other _ _ _ _
                      (fun hh => hgg (GlobalTxInfoKey_injective _ _ hh).symm)]
                    exact hfr
  · intro ibtpID timeoutHeight isFailed count hcaller hmem
    have hl : (mapLookup info.ChildTxInfo ibtpID).isSome = true :=
      (mapLookup_isSome_iff _ _).mpr hmem
    unfold BeginMultiTXs checkCurrentCaller
    simp only [hcaller, ne_eq, not_true_eq_false, if_false, hinfo, hl, if_true]
  · intro ibtpID timeoutHeight isFailed count hcaller hmem hkey hnil
    have hl : (mapLookup info.ChildTxInfo ibtpID).isSome = false := by
      cases hx : (mapLookup info.ChildTxInfo ibtpID).isSome with
      | false => rfl
      | true => exact absurd ((mapLookup_isSome_iff _ _).mp hx) hmem
    have hl2 : mapLookup info.ChildTxInfo ibtpID = none := by
      cases hx : mapLookup info.ChildTxInfo ibtpID with
      | none => rfl
      | some v => rw [hx] at hl; simp at hl
    unfold BeginMultiTXs checkCurrentCaller
    simp only [hcaller, ne_eq, not_true_eq_false, if_false, hinfo, hl, Bool.false_eq_true,
      hnil, hnb, if_true]
    refine ⟨_, _, rfl, ?_⟩
    simp only [beginMultiTail, GetObject, SetObject]
    rw [Stub.Get_Set_other _ _ _ _ (Ne.symm hkey), Stub.Get_Set_same, Option.some_bind,
      e.info_roundtrip, mapSet_of_not_mem _ _ _ hl2]

/-- C1, amended, at the transaction `g` at `SUCCESS` with its one child `c1` at
`SUCCESS`: the new child `c2` is appended at `SUCCESS`. -/
theorem C1_terminal_entry_frozen_witness :
    ∃ resp t1,
      BeginMultiTXs host
          (stubOf [("c1", .raw "g"), ("global-tx-g", .info ⟨SUCCESS, 110, [("c1", SUCCESS)], 1⟩)]
            100 InterchainContractAddr) "g" "c2" 10 false 1 = some (resp, t1) ∧
        GetObject host t1 (GlobalTxInfoKey "g") =
          some ⟨SUCCESS, 110, [("c1", SUCCESS), ("c2", SUCCESS)], 1⟩ :=
  (C1_terminal_entry_frozen host
    (stubOf [("c1", .raw "g"), ("global-tx-g", .info ⟨SUCCESS, 110, [("c1", SUCCESS)], 1⟩)]
      100 InterchainContractAddr) "g" ⟨SUCCESS, 110, [("c1", SUCCESS)], 1⟩
    (by decide) (by decide)).2.2 "c2" 10 false 1 rfl (by decide) (by decide) (by decide)

/-- Outside the fast failure, a receipt whose event the child's status does not
take makes the report return the state error, and the stub is as before. -/
theorem report_multi_rejects_illegal_child (e : Env B) (t : Stub B) (txId : String) (val : B)
    (info : TransactionInfo) (s : TransactionStatus) (r : Int)
    (hcaller : t.CurrentCaller = InterchainContractAddr)
    (hrec : t.Get (TxInfoKey txId) = none)
    (hidx : t.Get txId = some val)
    (hinfo : GetObject e t (GlobalTxInfoKey (e.stringOfBytes val)) = some info)
    (hs : mapLookup info.ChildTxInfo txId = some s)
    (hnf : ¬ (info.GlobalState = BEGIN ∧ r = IBTP_RECEIPT_FAILURE))
    (hill : (setFSM s (receipt2EventM r)).2 ≠ none) :
    Report e t txId r =
      some (.Error .TransactionStateErrCode ["child tx", txId, s.name, toString r], t) := by
  have hget : mapGet info.ChildTxInfo txId = s := by simp [mapGet, hs]
  have hkeep := setFSM_error_keeps s (receipt2EventM r) hill
  unfold Report checkCurrentCaller changeMultiTxStatus
  simp only [hcaller, ne_eq, not_true_eq_false, if_false, hrec, hidx, hinfo, hs,
    Option.isNone_some, Bool.false_eq_true, hnf, hget]
  cases hx : setFSM s (receipt2EventM r) with
  | mk s1 err =>
    rw [hx] at hill hkeep
    cases err with
    | none => exact absurd rfl hill
    | some er =>
      simp only at hkeep
      subst hkeep
      rfl

/-! ## What the notify loop of `Report` returns after a fast failure -/

/-- The loop at line 288 adds nothing to the destination list when no child it
reads is at `SUCCESS`, and raises the failing-child flag exactly when the change
goes from `BEGIN` to `BEGIN_FAILURE` and the loop meets a child other than the
reported one. -/
theorem reportNotifyLoop_dst_flag (order : List String) (children : ChildMap)
    (txId : String) (change : StatusChange)
    (hns : ∀ k ∈ order, mapGet children k ≠ SUCCESS) :
    (reportNotifyLoop order children txId change).NotifyDstIBTPIDs =
        change.NotifyDstIBTPIDs ∧
      (reportNotifyLoop order children txId change).IsFailChildIBTP =
        (change.IsFailChildIBTP ||
          (decide (change.PrevStatus = BEGIN.toInt ∧ change.CurStatus = BEGIN_FAILURE.toInt) &&
            order.any (fun k => decide (k ≠ txId)))) := by
  unfold reportNotifyLoop
  induction order generalizing change with
  | nil => simp
  | cons k l ih =>
    have hk : mapGet children k ≠ SUCCESS := hns k (List.mem_cons_self k l)
    have hl : ∀ k2 ∈ l, mapGet children k2 ≠ SUCCESS :=
      fun k2 h2 => hns k2 (List.mem_cons_of_mem k h2)
    have hs := reportNotifyStep_statuses children txId change k
    have ih2 := ih (reportNotifyStep children txId change k) hl
    simp only [List.foldl_cons, List.any_cons]
    rw [ih2.1, ih2.2, hs.1, hs.2]
    by_cases h1 : k = txId
    · simp [reportNotifyStep, h1]
    · by_cases h2 : change.PrevStatus = BEGIN.toInt ∧ change.CurStatus = BEGIN_FAILURE.toInt
      · simp [reportNotifyStep, h1, h2, hk]
      · simp [reportNotifyStep, h1, h2]

/-- Every fast-failing report that returns comes with an empty list of children
to notify on the destination chain, and with the failing-child flag raised
exactly when the transaction has a child other than the reported one. -/
theorem report_fast_fail_dst_and_flag (e : Env B) (t t1 : Stub B) (txId : String) (val : B)
    (info : TransactionInfo) (change : StatusChange)
    (hcaller : t.CurrentCaller = InterchainContractAddr)
    (hrec : t.Get (TxInfoKey txId) = none)
    (hidx : t.Get txId = some val)
    (hinfo : GetObject e t (GlobalTxInfoKey (e.stringOfBytes val)) = some info)
    (hglobal : info.GlobalState = BEGIN)
    (hchild : txId ∈ mapKeys info.ChildTxInfo)
    (hrep : Report e t txId IBTP_RECEIPT_FAILURE = some (.Success (.change change), t1)) :
    change.NotifyDstIBTPIDs = [] ∧
      (change.IsFailChildIBTP = true ↔ ∃ k ∈ mapKeys info.ChildTxInfo, k ≠ txId) := by
  obtain ⟨gs, height, childMap, childCount⟩ := info
  simp only at hglobal
  subst hglobal
  have hc := fast_fail_children e childMap txId hchild
  have hlook : (mapLookup childMap txId).isNone = false := by
    have := (mapLookup_isSome_iff childMap txId).mpr hchild
    cases hx : mapLookup childMap txId with
    | none => rw [hx] at this; simp at this
    | some v => rfl
  unfold Report checkCurrentCaller at hrep
  simp only [hcaller, ne_eq, not_true_eq_false, if_false, hrec, hidx, hinfo, hlook,
    Bool.false_eq_true, changeMultiTxStatus_fast_fail e t _ ⟨BEGIN, height, childMap, childCount⟩ txId rfl] at hrep
  cases hrm : removeFromTimeoutList e t height (e.stringOfBytes val) with
  | none => simp [hrm] at hrep
  | some t0 =>
    simp only [hrm, Option.map_some', Option.some.injEq, Prod.mk.injEq, Response.Success.injEq,
      Payload.change.injEq] at hrep
    obtain ⟨hch, _⟩ := hrep
    have hperm := e.rangeOrder_perm 288 (mapKeys (mapSet ((e.rangeOrder 429
      (mapKeys childMap)).foldl (fun m childTx => mapSet m childTx BEGIN_FAILURE)
      childMap) txId FAILURE))
    have hns : ∀ k ∈ e.rangeOrder 288 (mapKeys (mapSet ((e.rangeOrder 429
        (mapKeys childMap)).foldl (fun m childTx => mapSet m childTx BEGIN_FAILURE)
        childMap) txId FAILURE)),
        mapGet (mapSet ((e.rangeOrder 429 (mapKeys childMap)).foldl
          (fun m childTx => mapSet m childTx BEGIN_FAILURE) childMap) txId FAILURE) k ≠
          SUCCESS := by
      intro k hk
      have hk2 : k ∈ mapKeys childMap := by
        rw [← hc.1]; exact hperm.mem_iff.mp hk
      by_cases hkt : k = txId
      · rw [hkt, mapGet, hc.2.1]; decide
      · rw [mapGet, hc.2.2 k hk2 hkt]; decide
    have hloop := reportNotifyLoop_dst_flag _ _ txId
      (⟨BEGIN.toInt, BEGIN_FAILURE.toInt, [], [], [], false⟩ : StatusChange) hns
    have e1 := congrArg StatusChange.NotifyDstIBTPIDs hch
    have e2 := congrArg StatusChange.IsFailChildIBTP hch
    simp only [StatusChange.zero] at e1 e2
    rw [← e1, ← e2, hloop.1, hloop.2]
    simp only [and_self, decide_True, Bool.true_and, Bool.false_or, List.any_eq_true,
      decide_eq_true_eq, true_and]
    constructor
    · rintro ⟨k, hk, hne⟩
      exact ⟨k, by rw [← hc.1]; exact hperm.mem_iff.mp hk, hne⟩
    · rintro ⟨k, hk, hne⟩
      exact ⟨k, hperm.mem_iff.mpr (by rw [hc.1]; exact hk), hne⟩

/-! ## Divergences of the multi-child report (C5, C9, C10) -/

/-- C5, the code at the failing input: after `c1` has reached `SUCCESS`, the
failure receipt for `c1` is not a legal event for it (`setFSM` refuses it), yet
the report succeeds, moves `c1` from `SUCCESS` to `FAILURE`, `c2` to
`BEGIN_FAILURE` and the global state to `BEGIN_FAILURE`, and rewrites the timeout
entry. -/
theorem C5_fast_fail_skips_child_state_machine :
    afterFirstSuccess.bind (fun t => GetObject host t (GlobalTxInfoKey "g")) =
        some ⟨BEGIN, 110, [("c1", SUCCESS), ("c2", BEGIN)], 2⟩ ∧
      (setFSM SUCCESS (receipt2EventM IBTP_RECEIPT_FAILURE)).2 = some .InvalidEvent ∧
      (afterFirstSuccess.bind fun t => (Report host t "c1" IBTP_RECEIPT_FAILURE).map
        fun r => (r.1, GetObject host r.2 (GlobalTxInfoKey "g"), r.2.Get (TimeoutKey 110))) =
        some (.Success (.change ⟨0, 1, ["c1", "c2"], ["c2"], [], true⟩),
          some ⟨BEGIN_FAILURE, 110, [("c1", FAILURE), ("c2", BEGIN_FAILURE)], 2⟩,
          some (.raw "")) := by
  decide

/-- C9, the code at the failing input: `c1` is at `SUCCESS` when the failure
receipt for its sibling `c2` arrives, yet the returned list of children to notify
on the destination chain is empty. -/
theorem C9_fast_fail_notify_dst_empty :
    afterFirstSuccess.bind (fun t => GetObject host t (GlobalTxInfoKey "g")) =
        some ⟨BEGIN, 110, [("c1", SUCCESS), ("c2", BEGIN)], 2⟩ ∧
      (afterFirstSuccess.bind fun t => (Report host t "c2" IBTP_RECEIPT_FAILURE).map
        Prod.fst) =
        some (.Success (.change ⟨0, 1, ["c1", "c2"], ["c1"], [], true⟩)) := by
  decide

/-- C10, the code at the failing input: the failure receipt for the only
registered child moves the global state from `BEGIN` to `BEGIN_FAILURE`, yet the
returned change does not carry the failing-child flag. -/
theorem C10_fast_fail_single_child_flag_false :
    afterOneBegin.bind (fun t => GetObject host t (GlobalTxInfoKey "g")) =
        some ⟨BEGIN, 110, [("c1", BEGIN)], 2⟩ ∧
      (afterOneBegin.bind fun t => (Report host t "c1" IBTP_RECEIPT_FAILURE).map
        fun r => (r.1, GetObject host r.2 (GlobalTxInfoKey "g"))) =
        some (.Success (.change ⟨0, 1, ["c1"], [], [], false⟩),
          some ⟨BEGIN_FAILURE, 110, [("c1", FAILURE)], 2⟩) := by
  decide

/-- C1, as stated, fails. A `BeginMultiTXs` call on a transaction at `SUCCESS`
adds the new child to the stored info; and on the stored state of the test
suite, a global state `SUCCESS` over a child at `BEGIN`, a report moves that
child. -/
theorem C1_counterexample_terminal_entry_changes :
    afterAllSuccess.bind (fun t => GetObject host t (GlobalTxInfoKey "g")) =
        some ⟨SUCCESS, 110, [("c1", SUCCESS)], 1⟩ ∧
      (afterAllSuccess.bind fun t => (BeginMultiTXs host t "g" "c2" 10 false 1).map
        fun r => (r.1, GetObject host r.2 (GlobalTxInfoKey "g"))) =
        some (.Success (.change ⟨-1, 3, ["c1", "c2"], [], [], false⟩),
          some ⟨SUCCESS, 110, [("c1", SUCCESS), ("c2", SUCCESS)], 1⟩) ∧
      GetObject host stubGlobalSuccessChildBegin (GlobalTxInfoKey "g") =
        some ⟨SUCCESS, 110, [("c1", BEGIN), ("c2", SUCCESS)], 2⟩ ∧
      ((Report host stubGlobalSuccessChildBegin "c1" IBTP_RECEIPT_FAILURE).map
        fun r => (r.1, GetObject host r.2 (GlobalTxInfoKey "g"))) =
        some (.Success (.change ⟨3, 3, ["c1", "c2"], ["c2"], [], false⟩),
          some ⟨SUCCESS, 110, [("c1", FAILURE), ("c2", SUCCESS)], 2⟩) := by
  decide

/-! ## The report on a child outside the fast failure (C11, C12) -/

theorem isMultiTxFinishedLoop_all (s : TransactionStatus) (m : ChildMap) (l : List String)
    (c : Nat) (h : ∀ k ∈ l, mapGet m k = s) :
    isMultiTxFinishedLoop s m l c = some (c + l.length) := by
  induction l generalizing c with
  | nil => rfl
  | cons a l ih =>
    have ha : mapGet m a = s := h a (List.mem_cons_self a l)
    unfold isMultiTxFinishedLoop
    simp only [ha, ne_eq, not_true_eq_false, if_false]
    rw [ih (c + 1) (fun k hk => h k (List.mem_cons_of_mem a hk))]
    simp only [List.length_cons]
    congr 1
    omega

theorem isMultiTxFinishedLoop_some (s : TransactionStatus) (m : ChildMap) (l : List String)
    (c n : Nat) (h : isMultiTxFinishedLoop s m l c = some n) :
    ∀ k ∈ l, mapGet m k = s := by
  induction l generalizing c with
  | nil => intro k hk; cases hk
  | cons a l ih =>
    unfold isMultiTxFinishedLoop at h
    by_cases ha : mapGet m a = s
    · simp only [ha, ne_eq, not_true_eq_false, if_false] at h
      intro k hk
      rcases List.mem_cons.mp hk with hk | hk
      · rw [hk]; exact ha
      · exact ih (c + 1) h k hk
    · simp [ha] at h

/-- The function `isMultiTxFinished` decides the condition of the specification,
whatever the order of the `range`. -/
theorem isMultiTxFinished_iff (e : Env B) (s : TransactionStatus) (txInfo : TransactionInfo) :
    isMultiTxFinished e s txInfo = true ↔ specMultiTxFinished s txInfo := by
  have hperm := e.rangeOrder_perm 466 (mapKeys txInfo.ChildTxInfo)
  unfold isMultiTxFinished specMultiTxFinished
  constructor
  · intro h
    cases hl : isMultiTxFinishedLoop s txInfo.ChildTxInfo
        (e.rangeOrder 466 (mapKeys txInfo.ChildTxInfo)) 0 with
    | none => rw [hl] at h; simp at h
    | some n =>
      rw [hl] at h
      have hall := isMultiTxFinishedLoop_some s _ _ 0 n hl
      have hall2 : ∀ k ∈ mapKeys txInfo.ChildTxInfo, mapGet txInfo.ChildTxInfo k = s :=
        fun k hk => hall k (hperm.mem_iff.mpr hk)
      refine ⟨hall2, ?_⟩
      rw [isMultiTxFinishedLoop_all s _ _ 0 hall] at hl
      simp only [Nat.zero_add, Option.some.injEq] at hl
      simp only [decide_eq_true_eq] at h
      rw [← h, ← hl]
      exact hperm.length_eq.symm
  · rintro ⟨hall, hlen⟩
    rw [isMultiTxFinishedLoop_all s _ _ 0 (fun k hk => hall k (hperm.mem_iff.mp hk))]
    simp only [Nat.zero_add, decide_eq_true_eq]
    rw [hperm.length_eq]
    exact hlen

/-- The multi-child branch of `Report`, once the transaction info is found and
holds the child. -/
theorem Report_multi (e : Env B) (t : Stub B) (txId : String) (val : B)
    (info : TransactionInfo) (r : Int)
    (hcaller : t.CurrentCaller = InterchainContractAddr)
    (hrec : t.Get (TxInfoKey txId) = none)
    (hidx : t.Get txId = some val)
    (hinfo : GetObject e t (GlobalTxInfoKey (e.stringOfBytes val)) = some info)
    (hchild : txId ∈ mapKeys info.ChildTxInfo) :
    Report e t txId r =
      match changeMultiTxStatus e t (e.stringOfBytes val) info txId r with
      | none => none
      | some (_, t1, some err) => some (.Error .TransactionStateErrCode err, t1)
      | some (info1, t1, none) =>
        some (.Success (.change (multiChange e info.GlobalState info1 txId)),
          SetObject e t1 (GlobalTxInfoKey (e.stringOfBytes val)) info1) := by
  have hlook : (mapLookup info.ChildTxInfo txId).isNone = false := by
    have := (mapLookup_isSome_iff info.ChildTxInfo txId).mpr hchild
    cases hx : mapLookup info.ChildTxInfo txId with
    | none => rw [hx] at this; simp at this
    | some v => rfl
  unfold Report checkCurrentCaller
  simp only [hcaller, ne_eq, not_true_eq_false, if_false, hrec, hidx, hinfo, hlook,
    Bool.false_eq_true]
  rfl

theorem multiChange_statuses (e : Env B) (prev : TransactionStatus) (info1 : TransactionInfo)
    (txId : String) :
    (multiChange e prev info1 txId).PrevStatus = prev.toInt ∧
      (multiChange e prev info1 txId).CurStatus = info1.GlobalState.toInt :=
  ⟨(reportNotifyLoop_statuses _ _ _ _).1, (reportNotifyLoop_statuses _ _ _ _).2⟩

/-- The branch of `changeMultiTxStatus` outside the fast failure, when the child
takes the event. -/
theorem changeMultiTxStatus_child_event (e : Env B) (t : Stub B) (g : String)
    (info : TransactionInfo) (txId : String) (r : Int) (s s1 : TransactionStatus)
    (hs : mapLookup info.ChildTxInfo txId = some s)
    (hnf : ¬ (info.GlobalState = BEGIN ∧ r = IBTP_RECEIPT_FAILURE))
    (hleg : setFSM s (receipt2EventM r) = (s1, none)) :
    changeMultiTxStatus e t g info txId r =
      if isMultiTxFinished e s1
          ⟨info.GlobalState, info.Height, mapSet info.ChildTxInfo txId s1, info.ChildTxCount⟩
      then
        match setFSM info.GlobalState (receipt2EventM r) with
        | (gs1, some _) =>
          some (⟨gs1, info.Height, mapSet info.ChildTxInfo txId s1, info.ChildTxCount⟩, t,
            some ["global tx of child tx", txId, s1.name, toString r])
        | (gs1, none) =>
          (removeFromTimeoutList e t info.Height g).map fun t1 =>
            (⟨gs1, info.Height, mapSet info.ChildTxInfo txId s1, info.ChildTxCount⟩, t1, none)
      else
        some (⟨info.GlobalState, info.Height, mapSet info.ChildTxInfo txId s1,
          info.ChildTxCount⟩, t, none) := by
  have hget : mapGet info.ChildTxInfo txId = s := by simp [mapGet, hs]
  unfold changeMultiTxStatus
  simp only [hnf, if_false, hget, hleg]
  split
  · split
    · rfl
    · cases removeFromTimeoutList e t info.Height g <;> rfl
  · rfl

/-- C11, amended: for a stored transaction info that holds the child, the child
having no record of its own and its reverse index entry naming the transaction,
a receipt that is not a fast failure and whose event the child's status `s`
takes to `s1`, and the dispatcher calling: the report sets that child to `s1` and keeps the keys and every other child; when
not every child is then at `s1`, or the number of children is not the declared
count, it stores the info with the global state as it was and writes no timeout
entry, and the change reports the global state as both statuses; when the
transaction is finished and the global state refuses the event, it returns the
state error and the stub is as before; when the transaction is finished and the
global state takes the event to `gs1` (the timeout entry listing the global ID
at most once), it stores the info at `gs1`, rewrites the timeout entry without
the global ID, and the change goes from the former global state to `gs1`. -/
theorem C11_report_child_event (e : Env B) (t : Stub B) (txId : String) (val : B)
    (info : TransactionInfo) (r : Int) (s s1 : TransactionStatus)
    (hcaller : t.CurrentCaller = InterchainContractAddr)
    (hrec : t.Get (TxInfoKey txId) = none)
    (hidx : t.Get txId = some val)
    (hinfo : GetObject e t (GlobalTxInfoKey (e.stringOfBytes val)) = some info)
    (hs : mapLookup info.ChildTxInfo txId = some s)
    (hnf : ¬ (info.GlobalState = BEGIN ∧ r = IBTP_RECEIPT_FAILURE))
    (hleg : setFSM s (receipt2EventM r) = (s1, none)) :
    (mapKeys (mapSet info.ChildTxInfo txId s1) = mapKeys info.ChildTxInfo ∧
      mapLookup (mapSet info.ChildTxInfo txId s1) txId = some s1 ∧
      ∀ k, k ≠ txId →
        mapLookup (mapSet info.ChildTxInfo txId s1) k = mapLookup info.ChildTxInfo k) ∧
    (¬ specMultiTxFinished s1
        ⟨info.GlobalState, info.Height, mapSet info.ChildTxInfo txId s1, info.ChildTxCount⟩ →
      ∃ change, Report e t txId r = some (.Success (.change change),
          SetObject e t (GlobalTxInfoKey (e.stringOfBytes val))
            ⟨info.GlobalState, info.Height, mapSet info.ChildTxInfo txId s1,
              info.ChildTxCount⟩) ∧
        change.PrevStatus = info.GlobalState.toInt ∧
        change.CurStatus = info.GlobalState.toInt ∧
        ∀ n, (SetObject e t (GlobalTxInfoKey (e.stringOfBytes val))
            ⟨info.GlobalState, info.Height, mapSet info.ChildTxInfo txId s1,
              info.ChildTxCount⟩).Get (TimeoutKey n) = t.Get (TimeoutKey n)) ∧
    (specMultiTxFinished s1
        ⟨info.GlobalState, info.Height, mapSet info.ChildTxInfo txId s1, info.ChildTxCount⟩ →
      (setFSM info.GlobalState (receipt2EventM r)).2 ≠ none →
      Report e t txId r = some (.Error .TransactionStateErrCode
        ["global tx of child tx", txId, s1.name, toString r], t)) ∧
    (specMultiTxFinished s1
        ⟨info.GlobalState, info.Height, mapSet info.ChildTxInfo txId s1, info.ChildTxCount⟩ →
      ∀ gs1, setFSM info.GlobalState (receipt2EventM r) = (gs1, none) →
      listedAtMostOnce e t info.Height (e.stringOfBytes val) →
      ∃ change, Report e t txId r = some (.Success (.change change),
          SetObject e (withoutTimeout e t info.Height (e.stringOfBytes val))
            (GlobalTxInfoKey (e.stringOfBytes val))
            ⟨gs1, info.Height, mapSet info.ChildTxInfo txId s1, info.ChildTxCount⟩) ∧
        change.PrevStatus = info.GlobalState.toInt ∧ change.CurStatus = gs1.toInt) := by
  have hchild : txId ∈ mapKeys info.ChildTxInfo :=
    (mapLookup_isSome_iff _ _).mp (by rw [hs]; rfl)
  have hrep := Report_multi e t txId val info r hcaller hrec hidx hinfo hchild
  have hcm := changeMultiTxStatus_child_event e t (e.stringOfBytes val) info txId r s s1
    hs hnf hleg
  refine ⟨⟨mapKeys_mapSet_of_mem _ _ _ hchild, mapLookup_mapSet_same _ _ _,
    fun k hk => mapLookup_mapSet_other _ _ _ _ hk⟩, ?_, ?_, ?_⟩
  · intro hfin
    have hb : isMultiTxFinished e s1 ⟨info.GlobalState, info.Height,
        mapSet info.ChildTxInfo txId s1, info.ChildTxCount⟩ = false := by
      cases hx : isMultiTxFinished e s1 ⟨info.GlobalState, info.Height,
        mapSet info.ChildTxInfo txId s1, info.ChildTxCount⟩ with
      | false => rfl
      | true => exact absurd ((isMultiTxFinished_iff e s1 _).mp hx) hfin
    rw [hb] at hcm
    simp only [Bool.false_eq_true, if_false] at hcm
    rw [hcm] at hrep
    refine ⟨_, hrep, (multiChange_statuses _ _ _ _).1, (multiChange_statuses _ _ _ _).2, ?_⟩
    intro n
    exact Stub.Get_Set_other _ _ _ _ (TimeoutKey_ne_GlobalTxInfoKey _ _)
  · intro hfin hbad
    have hb := (isMultiTxFinished_iff e s1 _).mpr hfin
    rw [hb] at hcm
    simp only [if_true] at hcm
    cases hx : setFSM info.GlobalState (receipt2EventM r) with
    | mk gs1 err =>
      rw [hx] at hcm hbad
      cases err with
      | none => exact absurd rfl hbad
      | some er =>
        simp only at hcm
        rw [hcm] at hrep
        exact hrep
  · intro hfin gs1 hgs hdup
    have hb := (isMultiTxFinished_iff e s1 _).mpr hfin
    have hrm := removeFromTimeoutList_erase e t info.Height (e.stringOfBytes val) hdup
    rw [hb, hgs] at hcm
    simp only [if_true, hrm, Option.map_some'] at hcm
    rw [hcm] at hrep
    exact ⟨_, hrep, (multiChange_statuses _ _ _ _).1, (multiChange_statuses _ _ _ _).2⟩

/-- Witness of C11 amended, at the last missing success receipt: `c2` is at
`SUCCESS` and `c1` receives the success receipt, two children being declared. -/
theorem C11_report_child_event_witness :
    ∃ change, Report host stubLastBegin "c1" IBTP_RECEIPT_SUCCESS =
        some (.Success (.change change),
          SetObject host (withoutTimeout host stubLastBegin 110 "g") (GlobalTxInfoKey "g")
            ⟨SUCCESS, 110, [("c1", SUCCESS), ("c2", SUCCESS)], 2⟩) ∧
      change.PrevStatus = 0 ∧ change.CurStatus = 3 :=
  (C11_report_child_event host stubLastBegin "c1" (.raw "g")
    ⟨BEGIN, 110, [("c1", BEGIN), ("c2", SUCCESS)], 2⟩ IBTP_RECEIPT_SUCCESS BEGIN SUCCESS
    rfl (by decide) (by decide) (by decide) (by decide) (by decide) (by decide)).2.2.2
    (by unfold specMultiTxFinished; decide) SUCCESS (by decide)
    (by
      intro b hb
      have h0 : stubLastBegin.Get (TimeoutKey 110) = some (.raw "g") := by decide
      rw [h0] at hb
      cases hb
      decide)

theorem specReceiptStep_some (s d : TransactionStatus) (r : Int)
    (h : specReceiptStep s r = some d) :
    (s = BEGIN ∧ r = IBTP_RECEIPT_SUCCESS ∧ d = SUCCESS) ∨
    (s = BEGIN ∧ r = IBTP_RECEIPT_FAILURE ∧ d = FAILURE) ∨
    (s = BEGIN_FAILURE ∧ r = IBTP_RECEIPT_FAILURE ∧ d = FAILURE) ∨
    (s = BEGIN_ROLLBACK ∧ r = IBTP_RECEIPT_ROLLBACK ∧ d = ROLLBACK) ∨
    (s = BEGIN_ROLLBACK ∧ r = IBTP_RECEIPT_FAILURE ∧ d = ROLLBACK) := by
  by_cases h1 : r = IBTP_RECEIPT_SUCCESS
  · subst h1
    revert h
    cases s <;> cases d <;> decide
  by_cases h2 : r = IBTP_RECEIPT_FAILURE
  · subst h2
    revert h
    cases s <;> cases d <;> decide
  by_cases h3 : r = IBTP_RECEIPT_ROLLBACK
  · subst h3
    revert h
    cases s <;> cases d <;> decide
  simp [specReceiptStep, h1, h2, h3] at h

theorem setFSM_receipt_ok (s s1 : TransactionStatus) (r : Int)
    (h : setFSM s (receipt2EventM r) = (s1, none)) : specReceiptStep s r = some s1 := by
  cases hx : specReceiptStep s r with
  | none =>
    have := setFSM_receipt_none s r hx
    rw [h] at this
    exact absurd rfl this
  | some d =>
    have h2 := setFSM_receipt s r
    rw [hx, h] at h2
    simp only [Prod.mk.injEq, and_true] at h2
    rw [h2]

/-- A receipt event never lands on a status that is not terminal. -/
theorem setFSM_receipt_terminal (s s1 : TransactionStatus) (r : Int)
    (h : setFSM s (receipt2EventM r) = (s1, none)) : isTerminal s1 := by
  have h2 := specReceiptStep_some s s1 r (setFSM_receipt_ok s s1 r h)
  unfold isTerminal
  rcases h2 with ⟨_, _, h3⟩ | ⟨_, _, h3⟩ | ⟨_, _, h3⟩ | ⟨_, _, h3⟩ | ⟨_, _, h3⟩ <;> simp [h3]

theorem mapLookup_of_mem (m : ChildMap) (k : String) (h : k ∈ mapKeys m) :
    mapLookup m k = some (mapGet m k) := by
  have h2 := (mapLookup_isSome_iff m k).mpr h
  unfold mapGet
  cases hx : mapLookup m k with
  | none => rw [hx] at h2; simp at h2
  | some v => rfl

theorem GetObject_SetObject_same (e : Env B) (t : Stub B) (k : String) (i : TransactionInfo) :
    GetObject e (SetObject e t k i) k = some i := by
  simp only [GetObject, SetObject, Stub.Get_Set_same, Option.some_bind, e.info_roundtrip]

/-- After the tail of `BeginMultiTXs` the key of the transaction info still holds
the info just stored, unless the child ID is that very key. -/
theorem GetObject_beginMultiTail (e : Env B) (t : Stub B) (ch : StatusChange)
    (i : TransactionInfo) (g c : String) (hc : c ≠ GlobalTxInfoKey g) :
    GetObject e (beginMultiTail e (SetObject e t (GlobalTxInfoKey g) i) ch i g c).2
      (GlobalTxInfoKey g) = some i := by
  simp only [beginMultiTail, GetObject, SetObject]
  rw [Stub.Get_Set_other _ _ _ _ (Ne.symm hc), Stub.Get_Set_same, Option.some_bind,
    e.info_roundtrip]

theorem stored_after_tail (e : Env B) (t0 t1 : Stub B) (ch : StatusChange)
    (i info1 : TransactionInfo) (g c : String) (resp : Response)
    (h : beginMultiTail e (SetObject e t0 (GlobalTxInfoKey g) i) ch i g c = (resp, t1))
    (hc : c ≠ GlobalTxInfoKey g)
    (hstored : GetObject e t1 (GlobalTxInfoKey g) = some info1) : info1 = i := by
  have ht : t1 = (beginMultiTail e (SetObject e t0 (GlobalTxInfoKey g) i) ch i g c).2 := by
    rw [h]
  rw [ht, GetObject_beginMultiTail e t0 ch i g c hc] at hstored
  exact (Option.some.inj hstored).symm

/-- The global state that `BeginMultiTXs` stores is `BEGIN`, `BEGIN_FAILURE` or
the global state that was stored before. -/
theorem BeginMultiTXs_stored_global (e : Env B) (t t1 : Stub B) (g c : String)
    (th n : Nat) (f : Bool) (resp : Response) (info1 : TransactionInfo)
    (h : BeginMultiTXs e t g c th f n = some (resp, t1))
    (hc : c ≠ GlobalTxInfoKey g)
    (hstored : GetObject e t1 (GlobalTxInfoKey g) = some info1) :
    info1.GlobalState = BEGIN ∨ info1.GlobalState = BEGIN_FAILURE ∨
      ∃ info0, GetObject e t (GlobalTxInfoKey g) = some info0 ∧
        info0.GlobalState = info1.GlobalState := by
  unfold BeginMultiTXs at h
  cases hcc : checkCurrentCaller t with
  | some err =>
    simp only [hcc] at h
    cases h
    exact Or.inr (Or.inr ⟨info1, hstored, rfl⟩)
  | none =>
    simp only [hcc] at h
    cases hobj : GetObject e t (GlobalTxInfoKey g) with
    | none =>
      simp only [hobj] at h
      by_cases hf : f = true
      · simp only [hf, if_true, Option.some.injEq] at h
        have h2 := stored_after_tail e _ _ _ _ _ g c resp h hc hstored
        exact Or.inr (Or.inl (by rw [h2]))
      · simp only [hf, Bool.false_eq_true, if_false, Option.some.injEq] at h
        have h2 := stored_after_tail e _ _ _ _ _ g c resp h hc hstored
        exact Or.inl (by rw [h2])
    | some txInfo =>
      simp only [hobj] at h
      by_cases hmem : (mapLookup txInfo.ChildTxInfo c).isSome = true
      · simp only [hmem, if_true, Option.some.injEq, Prod.mk.injEq] at h
        rw [← h.2, hobj] at hstored
        exact Or.inr (Or.inr ⟨txInfo, rfl, by cases hstored; rfl⟩)
      · simp only [hmem, Bool.false_eq_true, if_false] at h
        by_cases hnil : nilMapAt e t (GlobalTxInfoKey g) = true
        · simp only [hnil, if_true] at h
          cases h
        simp only [hnil, Bool.false_eq_true, if_false] at h
        by_cases hb : txInfo.GlobalState = BEGIN
        · simp only [hb, ne_eq, not_true_eq_false, if_false] at h
          by_cases hf : f = true
          · simp only [hf, if_true] at h
            cases hrm : removeFromTimeoutList e t txInfo.Height g with
            | none => simp only [hrm] at h; cases h
            | some t0 =>
              simp only [hrm, Option.some.injEq] at h
              have h2 := stored_after_tail e _ _ _ _ _ g c resp h hc hstored
              exact Or.inr (Or.inl (by rw [h2]))
          · simp only [hf, Bool.false_eq_true, if_false, Option.some.injEq] at h
            have h2 := stored_after_tail e _ _ _ _ _ g c resp h hc hstored
            exact Or.inl (by rw [h2])
        · simp only [ne_eq, hb, not_false_eq_true, if_true, Option.some.injEq] at h
          have h2 := stored_after_tail e _ _ _ _ _ g c resp h hc hstored
          exact Or.inr (Or.inr ⟨txInfo, rfl, by rw [h2]⟩)

/-- C12, amended: whenever a report moves the global state of the transaction it
reaches into `SUCCESS`, `FAILURE` or `ROLLBACK`, the info it stores has as many
children as declared, and all of them at one terminal status; that status is the
stored global state whenever the receipt is not the failure receipt, or the
former global state and the former status of the reported child are both
`BEGIN_ROLLBACK` or both not. `BeginMultiTXs` with a child ID that is not the key
of the transaction never moves a global state into a terminal status: a terminal
global state it leaves stored was stored before. -/
theorem C12_terminal_global_children (e : Env B) (t t1 t2 : Stub B) (txId : String) (val : B)
    (info info1 info2 : TransactionInfo) (r : Int) (resp resp2 : Response)
    (g c : String) (th n : Nat) (f : Bool) :
    (t.CurrentCaller = InterchainContractAddr → t.Get (TxInfoKey txId) = none →
      t.Get txId = some val →
      GetObject e t (GlobalTxInfoKey (e.stringOfBytes val)) = some info →
      txId ∈ mapKeys info.ChildTxInfo →
      Report e t txId r = some (resp, t1) →
      GetObject e t1 (GlobalTxInfoKey (e.stringOfBytes val)) = some info1 →
      ¬ isTerminal info.GlobalState → isTerminal info1.GlobalState →
      (mapKeys info1.ChildTxInfo).length = info1.ChildTxCount ∧
        ∃ s1, isTerminal s1 ∧
          (∀ k ∈ mapKeys info1.ChildTxInfo, mapLookup info1.ChildTxInfo k = some s1) ∧
          ((r ≠ IBTP_RECEIPT_FAILURE ∨
              (info.GlobalState = BEGIN_ROLLBACK ↔
                mapLookup info.ChildTxInfo txId = some BEGIN_ROLLBACK)) →
            s1 = info1.GlobalState)) ∧
    (BeginMultiTXs e t g c th f n = some (resp2, t2) → c ≠ GlobalTxInfoKey g →
      GetObject e t2 (GlobalTxInfoKey g) = some info2 → isTerminal info2.GlobalState →
      ∃ info0, GetObject e t (GlobalTxInfoKey g) = some info0 ∧
        info0.GlobalState = info2.GlobalState) := by
  constructor
  · intro hcaller hrec hidx hinfo hchild hrep hstored hnt hterm
    have hrm := Report_multi e t txId val info r hcaller hrec hidx hinfo hchild
    rw [hrep] at hrm
    have hl := mapLookup_of_mem info.ChildTxInfo txId hchild
    by_cases hff : info.GlobalState = BEGIN ∧ r = IBTP_RECEIPT_FAILURE
    · exfalso
      rw [hff.2, changeMultiTxStatus_fast_fail e t _ info txId hff.1] at hrm
      cases hx : removeFromTimeoutList e t info.Height (e.stringOfBytes val) with
      | none => rw [hx] at hrm; cases hrm
      | some t0 =>
        rw [hx] at hrm
        simp only [Option.map_some', Option.some.injEq, Prod.mk.injEq] at hrm
        rw [hrm.2, GetObject_SetObject_same] at hstored
        cases hstored
        have hbf : ¬ isTerminal BEGIN_FAILURE := by decide
        exact hbf hterm
    · cases hx : setFSM (mapGet info.ChildTxInfo txId) (receipt2EventM r) with
      | mk s1 err =>
        cases err with
        | some er =>
          exfalso
          have h2 := report_multi_rejects_illegal_child e t txId val info _ r hcaller hrec
            hidx hinfo hl hff (by rw [hx]; simp)
          rw [h2] at hrep
          cases hrep
          rw [hinfo] at hstored
          cases hstored
          exact hnt hterm
        | none =>
          have hcm := changeMultiTxStatus_child_event e t (e.stringOfBytes val) info txId r
            _ s1 hl hff hx
          rw [hcm] at hrm
          by_cases hfin : isMultiTxFinished e s1 ⟨info.GlobalState, info.Height,
              mapSet info.ChildTxInfo txId s1, info.ChildTxCount⟩ = true
          · simp only [hfin, if_true] at hrm
            cases hg : setFSM info.GlobalState (receipt2EventM r) with
            | mk gs1 gerr =>
              rw [hg] at hrm
              cases gerr with
              | some er =>
                exfalso
                simp only [Option.some.injEq, Prod.mk.injEq] at hrm
                rw [hrm.2, hinfo] at hstored
                cases hstored
                exact hnt hterm
              | none =>
                simp only at hrm
                cases hx2 : removeFromTimeoutList e t info.Height (e.stringOfBytes val) with
                | none => rw [hx2] at hrm; cases hrm
                | some t0 =>
                  rw [hx2] at hrm
                  simp only [Option.map_some', Option.some.injEq, Prod.mk.injEq] at hrm
                  rw [hrm.2, GetObject_SetObject_same] at hstored
                  cases hstored
                  have hspec := (isMultiTxFinished_iff e s1 _).mp hfin
                  refine ⟨hspec.2, s1, setFSM_receipt_terminal _ _ _ hx, ?_, ?_⟩
                  · intro k hk
                    rw [mapLookup_of_mem _ k hk]
                    exact congrArg some (hspec.1 k hk)
                  · intro hcond
                    have hc1 := specReceiptStep_some _ _ _ (setFSM_receipt_ok _ _ _ hx)
                    have hc2 := specReceiptStep_some _ _ _ (setFSM_receipt_ok _ _ _ hg)
                    rw [hl] at hcond
                    simp only [Option.some.injEq] at hcond
                    rcases hc1 with ⟨a1, a2, a3⟩ | ⟨a1, a2, a3⟩ | ⟨a1, a2, a3⟩ |
                      ⟨a1, a2, a3⟩ | ⟨a1, a2, a3⟩ <;>
                    rcases hc2 with ⟨b1, b2, b3⟩ | ⟨b1, b2, b3⟩ | ⟨b1, b2, b3⟩ |
                      ⟨b1, b2, b3⟩ | ⟨b1, b2, b3⟩ <;>
                    first
                      | (rw [a3, b3]; done)
                      | (exfalso; rw [a2] at b2; revert b2; decide)
                      | (exfalso; rw [a1, b1, a2] at hcond; revert hcond; decide)
          · exfalso
            simp only [hfin, Bool.false_eq_true, if_false, Option.some.injEq,
              Prod.mk.injEq] at hrm
            rw [hrm.2, GetObject_SetObject_same] at hstored
            cases hstored
            exact hnt hterm
  · intro h hc hstored hterm
    rcases BeginMultiTXs_stored_global e t t2 g c th n f resp2 info2 h hc hstored with
      h1 | h1 | h1
    · rw [h1] at hterm; exact absurd hterm (by decide)
    · rw [h1] at hterm; exact absurd hterm (by decide)
    · exact h1

/-- C12, amended, at the last missing success receipt: the stored info has its
two declared children, both at `SUCCESS`, the stored global state. -/
theorem C12_terminal_global_children_witness :
    (mapKeys [("c1", SUCCESS), ("c2", SUCCESS)]).length = 2 ∧
      ∃ s1, isTerminal s1 ∧
        (∀ k ∈ mapKeys [("c1", SUCCESS), ("c2", SUCCESS)],
          mapLookup [("c1", SUCCESS), ("c2", SUCCESS)] k = some s1) ∧
        ((IBTP_RECEIPT_SUCCESS ≠ IBTP_RECEIPT_FAILURE ∨
            (BEGIN = BEGIN_ROLLBACK ↔
              mapLookup [("c1", BEGIN), ("c2", SUCCESS)] "c1" = some BEGIN_ROLLBACK)) →
          s1 = SUCCESS) :=
  (C12_terminal_global_children host stubLastBegin
    (SetObject host (withoutTimeout host stubLastBegin 110 "g") (GlobalTxInfoKey "g")
      ⟨SUCCESS, 110, [("c1", SUCCESS), ("c2", SUCCESS)], 2⟩)
    stubLastBegin "c1" (.raw "g") ⟨BEGIN, 110, [("c1", BEGIN), ("c2", SUCCESS)], 2⟩
    ⟨SUCCESS, 110, [("c1", SUCCESS), ("c2", SUCCESS)], 2⟩
    ⟨BEGIN, 110, [("c1", BEGIN), ("c2", SUCCESS)], 2⟩ IBTP_RECEIPT_SUCCESS
    (.Success (.change (multiChange host BEGIN
      ⟨SUCCESS, 110, [("c1", SUCCESS), ("c2", SUCCESS)], 2⟩ "c1")))
    (.Error .TransactionExistentChildTxCode ["c1", "g"]) "g" "c1" 10 2 false).1
    rfl (by decide) (by decide) (by decide) (by decide) (by rfl) (by decide) (by decide)
    (by decide)

/-! ## The entry point `BeginMultiTXs` (C14 to C18, C20) -/

theorem mapGet_mapSet_same (m : ChildMap) (k : String) (v : TransactionStatus) :
    mapGet (mapSet m k v) k = v := by
  simp [mapGet, mapLookup_mapSet_same]

theorem mapGet_mapSet_other (m : ChildMap) (k k2 : String) (v : TransactionStatus)
    (h : k2 ≠ k) : mapGet (mapSet m k v) k2 = mapGet m k2 := by
  simp [mapGet, mapLookup_mapSet_other m k k2 v h]

/-- The loop at line 101: the change keeps its statuses, its child list and its
flag, every key of the order is added to the source list, and the map gets every
key of the order set to `BEGIN_FAILURE`. -/
theorem massFailLoop_frame (order : List String) (change : StatusChange)
    (children : ChildMap) :
    (massFailLoop order change children).1.PrevStatus = change.PrevStatus ∧
    (massFailLoop order change children).1.CurStatus = change.CurStatus ∧
    (massFailLoop order change children).1.ChildIBTPIDs = change.ChildIBTPIDs ∧
    (massFailLoop order change children).1.IsFailChildIBTP = change.IsFailChildIBTP ∧
    (massFailLoop order change children).1.NotifySrcIBTPIDs =
      change.NotifySrcIBTPIDs ++ order ∧
    (massFailLoop order change children).2 =
      order.foldl (fun m k => mapSet m k BEGIN_FAILURE) children := by
  unfold massFailLoop
  induction order generalizing change children with
  | nil => simp
  | cons a l ih =>
    simp only [List.foldl_cons]
    have h := ih (massFailStep (change, children) a).1 (massFailStep (change, children) a).2
    simp only [Prod.mk.eta] at h
    obtain ⟨h1, h2, h3, h4, h5, h6⟩ := h
    refine ⟨h1.trans ?_, h2.trans ?_, h3.trans ?_, h4.trans ?_, h5.trans ?_, h6.trans ?_⟩
    all_goals first
      | rfl
      | (simp only [massFailStep]; split <;> simp)

/-- The loop at line 101 adds to the destination list exactly the keys of the
order that the map holds at `SUCCESS`. -/
theorem massFailLoop_dst (order : List String) (change : StatusChange)
    (children : ChildMap) (k : String) :
    k ∈ (massFailLoop order change children).1.NotifyDstIBTPIDs ↔
      k ∈ change.NotifyDstIBTPIDs ∨ (k ∈ order ∧ mapGet children k = SUCCESS) := by
  unfold massFailLoop
  induction order generalizing change children with
  | nil => simp
  | cons a l ih =>
    simp only [List.foldl_cons]
    have h := ih (massFailStep (change, children) a).1 (massFailStep (change, children) a).2
    simp only [Prod.mk.eta] at h
    rw [h]
    have hd : k ∈ (massFailStep (change, children) a).1.NotifyDstIBTPIDs ↔
        k ∈ change.NotifyDstIBTPIDs ∨ (k = a ∧ mapGet children a = SUCCESS) := by
      unfold massFailStep
      dsimp only
      split
      · rename_i hs
        simp [hs]
      · rename_i hs
        simp [hs]
    have hm : (massFailStep (change, children) a).2 = mapSet children a BEGIN_FAILURE := rfl
    rw [hd, hm]
    by_cases hka : k = a
    · subst hka
      rw [mapGet_mapSet_same]
      simp
    · rw [mapGet_mapSet_other _ _ _ _ hka]
      simp [hka]

theorem specTimeoutHeight_eq (cur th : Nat) :
    (if th = 0 ∨ th ≥ MaxUint64 - cur then MaxUint64 else (cur + th) % 2 ^ 64) =
      specTimeoutHeight cur th := by
  unfold specTimeoutHeight
  split
  · rfl
  · rename_i h
    have h2 : cur + th < 2 ^ 64 := by
      have : MaxUint64 = 2 ^ 64 - 1 := rfl
      omega
    exact Nat.mod_eq_of_lt h2

theorem addToTimeoutList_eq (e : Env B) (t : Stub B) (height : Nat) (txId : String) :
    addToTimeoutList e t height txId =
      t.Set (TimeoutKey height) (e.bytesOfString (appendedTimeoutList e t height txId)) := by
  unfold addToTimeoutList appendedTimeoutList
  cases t.Get (TimeoutKey height) <;> rfl

/-- The branch of `BeginMultiTXs` that creates the transaction info. -/
theorem BeginMultiTXs_create (e : Env B) (t : Stub B) (g c : String) (th n : Nat) (f : Bool)
    (hcaller : t.CurrentCaller = InterchainContractAddr)
    (hnone : GetObject e t (GlobalTxInfoKey g) = none) :
    BeginMultiTXs e t g c th f n =
      some (.Success (.change ⟨-1, (beginStatus f).toInt, [c], [], [], false⟩),
        ((if f = true then t
            else addToTimeoutList e t (specTimeoutHeight t.CurrentHeight th) g).Set
          (GlobalTxInfoKey g)
          (e.marshalInfo ⟨beginStatus f, specTimeoutHeight t.CurrentHeight th,
            [(c, beginStatus f)], n⟩)).Set c (e.bytesOfString g)) := by
  have hone : e.rangeOrder 124 [c] = [c] := List.perm_singleton.mp (e.rangeOrder_perm 124 [c])
  unfold BeginMultiTXs checkCurrentCaller
  simp only [hcaller, ne_eq, not_true_eq_false, if_false, hnone, specTimeoutHeight_eq]
  cases f
  · simp [beginMultiTail, beginStatus, AddObject, Stub.Add, mapGet, mapLookup, mapKeys,
      StatusChange.zero, hone, TransactionStatus.toInt]
  · simp [beginMultiTail, beginStatus, AddObject, Stub.Add, mapGet, mapLookup, mapKeys,
      mapSet, StatusChange.zero, hone, TransactionStatus.toInt]

/-- C15: when no transaction info is stored for the global ID, `BeginMultiTXs` by
the dispatcher returns the change from `-1` to the begin status with the child
as only child and empty notify lists; it writes, in this order, the timeout entry
of the height with the global ID appended (only when the call is not failed), the
info with the single child at the begin status, the global state at the same
status, the count as given and the height of the specification, and the reverse
index entry of the child. -/
theorem C15_begin_multi_creates (e : Env B) (t : Stub B) (g c : String) (th n : Nat)
    (f : Bool)
    (hcaller : t.CurrentCaller = InterchainContractAddr)
    (hnone : GetObject e t (GlobalTxInfoKey g) = none) :
    ∃ t1, BeginMultiTXs e t g c th f n =
        some (.Success (.change ⟨-1, (beginStatus f).toInt, [c], [], [], false⟩), t1) ∧
      t1.writes = t.writes ++
        (if f = true then []
          else [(TimeoutKey (specTimeoutHeight t.CurrentHeight th),
            e.bytesOfString
              (appendedTimeoutList e t (specTimeoutHeight t.CurrentHeight th) g))]) ++
        [(GlobalTxInfoKey g,
            e.marshalInfo ⟨beginStatus f, specTimeoutHeight t.CurrentHeight th,
              [(c, beginStatus f)], n⟩),
          (c, e.bytesOfString g)] ∧
      t1.Get c = some (e.bytesOfString g) ∧
      (c ≠ GlobalTxInfoKey g → GetObject e t1 (GlobalTxInfoKey g) =
        some ⟨beginStatus f, specTimeoutHeight t.CurrentHeight th, [(c, beginStatus f)], n⟩) := by
  refine ⟨_, BeginMultiTXs_create e t g c th n f hcaller hnone, ?_, Stub.Get_Set_same _ _ _, ?_⟩
  · cases f
    · simp [addToTimeoutList_eq]
    · simp
  · intro hc
    rw [GetObject, Stub.Get_Set_other _ _ _ _ (Ne.symm hc), Stub.Get_Set_same,
      Option.some_bind, e.info_roundtrip]

/-- C15 at the first call of the test suite: `g` with the child `c1`, timeout 10
at height 100, two children declared, on the empty store. -/
theorem C15_begin_multi_creates_witness :
    ∃ t1, BeginMultiTXs host (emptyStub 100 InterchainContractAddr) "g" "c1" 10 false 2 =
        some (.Success (.change ⟨-1, 0, ["c1"], [], [], false⟩), t1) ∧
      t1.writes = [("timeout-110", .raw "g"),
        ("global-tx-g", .info ⟨BEGIN, 110, [("c1", BEGIN)], 2⟩), ("c1", .raw "g")] ∧
      t1.Get "c1" = some (.raw "g") ∧
      ("c1" ≠ GlobalTxInfoKey "g" → GetObject host t1 (GlobalTxInfoKey "g") =
        some ⟨BEGIN, 110, [("c1", BEGIN)], 2⟩) :=
  C15_begin_multi_creates host (emptyStub 100 InterchainContractAddr) "g" "c1" 10 2 false
    rfl (by decide)

/-- C20, as stated, fails: a transaction created with timeout 0, hence with the
height `MAX_UINT64`, and not failed is written into the timeout entry of that
height. -/
theorem C20_counterexample_max_height_indexed :
    specTimeoutHeight 100 0 = MaxUint64 ∧
      ((BeginMultiTXs host (emptyStub 100 InterchainContractAddr) "g" "c1" 0 false 2).map
        fun r => (r.2.writes, r.2.Get "timeout-18446744073709551615")) =
        some ([("timeout-18446744073709551615", .raw "g"),
            ("global-tx-g", .info ⟨BEGIN, 18446744073709551615, [("c1", BEGIN)], 2⟩),
            ("c1", .raw "g")],
          some (.raw "g")) := by
  decide

/-- C20, amended: when `BeginMultiTXs` creates a transaction info whose height
is `MAX_UINT64`, a call that is not failed appends the global ID to the timeout
entry of that height, as for every other height; only a failed call writes no
timeout entry. -/
theorem C20_max_height_is_indexed (e : Env B) (t : Stub B) (g c : String) (th n : Nat)
    (f : Bool)
    (hcaller : t.CurrentCaller = InterchainContractAddr)
    (hnone : GetObject e t (GlobalTxInfoKey g) = none)
    (hmax : specTimeoutHeight t.CurrentHeight th = MaxUint64) :
    ∃ resp t1, BeginMultiTXs e t g c th f n = some (resp, t1) ∧
      (f = false →
        t1.writes = t.writes ++
          [(TimeoutKey MaxUint64, e.bytesOfString (appendedTimeoutList e t MaxUint64 g)),
            (GlobalTxInfoKey g, e.marshalInfo ⟨BEGIN, MaxUint64, [(c, BEGIN)], n⟩),
            (c, e.bytesOfString g)] ∧
        (c ≠ TimeoutKey MaxUint64 → t1.Get (TimeoutKey MaxUint64) =
          some (e.bytesOfString (appendedTimeoutList e t MaxUint64 g)))) ∧
      (f = true →
        t1.writes = t.writes ++
          [(GlobalTxInfoKey g,
              e.marshalInfo ⟨BEGIN_FAILURE, MaxUint64, [(c, BEGIN_FAILURE)], n⟩),
            (c, e.bytesOfString g)]) := by
  refine ⟨_, _, BeginMultiTXs_create e t g c th n f hcaller hnone, ?_, ?_⟩
  · intro hf
    subst hf
    rw [hmax]
    refine ⟨by simp [addToTimeoutList_eq, beginStatus], ?_⟩
    intro hc
    rw [Stub.Get_Set_other _ _ _ _ (Ne.symm hc),
      Stub.Get_Set_other _ _ _ _ (TimeoutKey_ne_GlobalTxInfoKey _ _)]
    simp [addToTimeoutList_eq]
  · intro hf
    subst hf
    rw [hmax]
    simp [beginStatus]

/-- C20, amended, at timeout 0 on the empty store. -/
theorem C20_max_height_is_indexed_witness :
    ∃ resp t1,
      BeginMultiTXs host (emptyStub 100 InterchainContractAddr) "g" "c1" 0 false 2 =
        some (resp, t1) ∧
      (false = false →
        t1.writes = [("timeout-18446744073709551615", .raw "g"),
            ("global-tx-g", .info ⟨BEGIN, 18446744073709551615, [("c1", BEGIN)], 2⟩),
            ("c1", .raw "g")] ∧
        ("c1" ≠ TimeoutKey MaxUint64 →
          t1.Get (TimeoutKey MaxUint64) = some (.raw "g"))) ∧
      (false = true →
        t1.writes = [("global-tx-g",
            .info ⟨BEGIN_FAILURE, 18446744073709551615, [("c1", BEGIN_FAILURE)], 2⟩),
          ("c1", .raw "g")]) :=
  C20_max_height_is_indexed host (emptyStub 100 InterchainContractAddr) "g" "c1" 0 2 false
    rfl (by decide) (by decide)

theorem not_mem_lookup_none (m : ChildMap) (k : String) (h : k ∉ mapKeys m) :
    mapLookup m k = none := by
  cases hx : mapLookup m k with
  | none => rfl
  | some v => exact absurd ((mapLookup_isSome_iff m k).mp (by rw [hx]; rfl)) h

/-- The map of an info decoded with a child is not nil. -/
theorem nilMapAt_of_children (e : Env B) (t : Stub B) (key : String) (info : TransactionInfo)
    (hinfo : GetObject e t key = some info) (hne : info.ChildTxInfo ≠ []) :
    nilMapAt e t key = false := by
  unfold nilMapAt
  unfold GetObject at hinfo
  cases hb : t.Get key with
  | none => rfl
  | some b =>
    rw [hb] at hinfo
    show e.nilChildren b = false
    cases hn : e.nilChildren b with
    | false => rfl
    | true => exact absurd (e.nil_children b info hinfo hn) hne

/-- On a stored info whose map of children is nil, `BeginMultiTXs` with a child
(which the map does not hold, having no entry) panics at the assignment to the
entry of the child. -/
theorem BeginMultiTXs_nil (e : Env B) (t : Stub B) (g c : String) (th n : Nat) (f : Bool)
    (info : TransactionInfo)
    (hcaller : t.CurrentCaller = InterchainContractAddr)
    (hinfo : GetObject e t (GlobalTxInfoKey g) = some info)
    (hnil : nilMapAt e t (GlobalTxInfoKey g) = true) :
    BeginMultiTXs e t g c th f n = none := by
  have hempty : info.ChildTxInfo = [] := by
    unfold nilMapAt at hnil
    unfold GetObject at hinfo
    cases hb : t.Get (GlobalTxInfoKey g) with
    | none => rw [hb] at hnil; cases hnil
    | some b =>
      rw [hb] at hnil hinfo
      exact e.nil_children b info hinfo hnil
  have hl : mapLookup info.ChildTxInfo c = none := by
    rw [hempty]
    rfl
  unfold BeginMultiTXs checkCurrentCaller
  simp only [hcaller, ne_eq, not_true_eq_false, if_false, hinfo, hl, Option.isSome_none,
    Bool.false_eq_true, hnil, if_true]

/-- The branch of `BeginMultiTXs` that adds a child without the mass failure. -/
theorem BeginMultiTXs_add (e : Env B) (t : Stub B) (g c : String) (th n : Nat) (f : Bool)
    (info : TransactionInfo)
    (hcaller : t.CurrentCaller = InterchainContractAddr)
    (hinfo : GetObject e t (GlobalTxInfoKey g) = some info)
    (hnew : c ∉ mapKeys info.ChildTxInfo)
    (hcase : ¬ (info.GlobalState = BEGIN ∧ f = true))
    (hnil : nilMapAt e t (GlobalTxInfoKey g) = false) :
    BeginMultiTXs e t g c th f n =
      some (.Success (.change ⟨-1, info.GlobalState.toInt,
          e.rangeOrder 124 (mapKeys info.ChildTxInfo ++ [c]), [], [], false⟩),
        (SetObject e t (GlobalTxInfoKey g)
          ⟨info.GlobalState, info.Height, info.ChildTxInfo ++ [(c, info.GlobalState)],
            info.ChildTxCount⟩).Set c (e.bytesOfString g)) := by
  have hl := not_mem_lookup_none _ _ hnew
  have hset : ∀ v, mapSet info.ChildTxInfo c v = info.ChildTxInfo ++ [(c, v)] :=
    fun v => mapSet_of_not_mem _ _ v hl
  have hk : ∀ v, mapKeys (info.ChildTxInfo ++ [(c, v)]) = mapKeys info.ChildTxInfo ++ [c] := by
    intro v; simp [mapKeys]
  have hg : ∀ v, mapGet (info.ChildTxInfo ++ [(c, v)]) c = v := by
    intro v; rw [← hset v]; exact mapGet_mapSet_same _ _ _
  unfold BeginMultiTXs checkCurrentCaller
  simp only [hcaller, ne_eq, not_true_eq_false, if_false, hinfo, hl, Option.isSome_none,
    Bool.false_eq_true, hnil]
  by_cases hb : info.GlobalState = BEGIN
  · have hf : f = false := by
      cases f
      · rfl
      · exact absurd ⟨hb, rfl⟩ hcase
    simp only [hb, not_true_eq_false, if_false, hf, Bool.false_eq_true, hset, beginMultiTail,
      hk, hg, StatusChange.zero, List.nil_append]
  · simp only [hb, not_false_eq_true, if_true, hset, beginMultiTail, hk, hg,
      StatusChange.zero, List.nil_append]

/-- C16, amended: when a transaction info is stored whose decoded map of children
is not nil, the child is new and the call is not a mass failure, `BeginMultiTXs`
by the dispatcher stores the info with the child appended at the stored global
state and everything else as it was, then the reverse index entry; it writes
nothing else, so no timeout entry unless the child ID is itself a timeout key;
the change goes from `-1` to the global state, lists the children in the order
of the `range`, and both notify lists are empty. -/
theorem C16_begin_multi_adds_child (e : Env B) (t : Stub B) (g c : String) (th n : Nat)
    (f : Bool) (info : TransactionInfo)
    (hcaller : t.CurrentCaller = InterchainContractAddr)
    (hinfo : GetObject e t (GlobalTxInfoKey g) = some info)
    (hnil : nilMapAt e t (GlobalTxInfoKey g) = false)
    (hnew : c ∉ mapKeys info.ChildTxInfo)
    (hcase : ¬ (info.GlobalState = BEGIN ∧ f = true)) :
    ∃ ids t1,
      BeginMultiTXs e t g c th f n =
        some (.Success (.change ⟨-1, info.GlobalState.toInt, ids, [], [], false⟩), t1) ∧
      ids.Perm (mapKeys info.ChildTxInfo ++ [c]) ∧
      t1.writes = t.writes ++
        [(GlobalTxInfoKey g,
            e.marshalInfo ⟨info.GlobalState, info.Height,
              info.ChildTxInfo ++ [(c, info.GlobalState)], info.ChildTxCount⟩),
          (c, e.bytesOfString g)] ∧
      (c ≠ GlobalTxInfoKey g → GetObject e t1 (GlobalTxInfoKey g) =
        some ⟨info.GlobalState, info.Height, info.ChildTxInfo ++ [(c, info.GlobalState)],
          info.ChildTxCount⟩) ∧
      (∀ k, mapLookup (info.ChildTxInfo ++ [(c, info.GlobalState)]) k =
        if k = c then some info.GlobalState else mapLookup info.ChildTxInfo k) ∧
      (∀ h, c ≠ TimeoutKey h → t1.Get (TimeoutKey h) = t.Get (TimeoutKey h)) := by
  refine ⟨_, _, BeginMultiTXs_add e t g c th n f info hcaller hinfo hnew hcase hnil,
    e.rangeOrder_perm 124 _, ?_, ?_, ?_, ?_⟩
  · simp [SetObject]
  · intro hc
    rw [GetObject, Stub.Get_Set_other _ _ _ _ (Ne.symm hc), SetObject, Stub.Get_Set_same,
      Option.some_bind, e.info_roundtrip]
  · intro k
    rw [← mapSet_of_not_mem _ _ _ (not_mem_lookup_none _ _ hnew)]
    by_cases hk : k = c
    · rw [hk, mapLookup_mapSet_same]; simp
    · rw [mapLookup_mapSet_other _ _ _ _ hk]; simp [hk]
  · intro h hc
    rw [Stub.Get_Set_other _ _ _ _ (Ne.symm hc), SetObject,
      Stub.Get_Set_other _ _ _ _ (TimeoutKey_ne_GlobalTxInfoKey _ _)]

/-- Witness of C16 amended, at the sixth case of the test suite: `g` at `BEGIN`
with the child `c1`, the new child `c2`, not failed. -/
theorem C16_begin_multi_adds_child_witness :
    ∃ ids t1,
      BeginMultiTXs host (stubOf [("c1", .raw "g"),
          ("global-tx-g", .info ⟨BEGIN, 110, [("c1", BEGIN)], 2⟩), ("timeout-110", .raw "g")]
          100 InterchainContractAddr) "g" "c2" 10 false 2 =
        some (.Success (.change ⟨-1, 0, ids, [], [], false⟩), t1) ∧
      ids.Perm ["c1", "c2"] ∧
      t1.writes = [("global-tx-g", .info ⟨BEGIN, 110, [("c1", BEGIN), ("c2", BEGIN)], 2⟩),
        ("c2", .raw "g")] ∧
      ("c2" ≠ GlobalTxInfoKey "g" → GetObject host t1 (GlobalTxInfoKey "g") =
        some ⟨BEGIN, 110, [("c1", BEGIN), ("c2", BEGIN)], 2⟩) ∧
      (∀ k, mapLookup [("c1", BEGIN), ("c2", BEGIN)] k =
        if k = "c2" then some BEGIN else mapLookup [("c1", BEGIN)] k) ∧
      (∀ h, "c2" ≠ TimeoutKey h → t1.Get (TimeoutKey h) =
        (stubOf [("c1", .raw "g"),
          ("global-tx-g", .info ⟨BEGIN, 110, [("c1", BEGIN)], 2⟩), ("timeout-110", .raw "g")]
          100 InterchainContractAddr).Get (TimeoutKey h)) :=
  C16_begin_multi_adds_child host _ "g" "c2" 10 2 false ⟨BEGIN, 110, [("c1", BEGIN)], 2⟩
    rfl (by decide) (by decide) (by decide) (by decide)

/-- C17: `BeginMultiTXs` by the dispatcher returns the existent-child error exactly
when a transaction info is stored for the global ID and holds the child, whatever
the other arguments; the stub, its write log included, is then as before. -/
theorem C17_existent_child_iff (e : Env B) (t : Stub B) (g c : String) (th n : Nat)
    (f : Bool) (hcaller : t.CurrentCaller = InterchainContractAddr) :
    ((∃ msg t1, BeginMultiTXs e t g c th f n =
        some (.Error .TransactionExistentChildTxCode msg, t1)) ↔
      ∃ info, GetObject e t (GlobalTxInfoKey g) = some info ∧ c ∈ mapKeys info.ChildTxInfo) ∧
    (∀ info, GetObject e t (GlobalTxInfoKey g) = some info → c ∈ mapKeys info.ChildTxInfo →
      BeginMultiTXs e t g c th f n =
        some (.Error .TransactionExistentChildTxCode [c, g], t)) := by
  have hpos : ∀ info, GetObject e t (GlobalTxInfoKey g) = some info →
      c ∈ mapKeys info.ChildTxInfo →
      BeginMultiTXs e t g c th f n =
        some (.Error .TransactionExistentChildTxCode [c, g], t) := by
    intro info hinfo hmem
    have hl := (mapLookup_isSome_iff _ _).mpr hmem
    unfold BeginMultiTXs checkCurrentCaller
    simp only [hcaller, ne_eq, not_true_eq_false, if_false, hinfo, hl, if_true]
  refine ⟨⟨?_, fun ⟨info, h1, h2⟩ => ⟨_, _, hpos info h1 h2⟩⟩, hpos⟩
  rintro ⟨msg, t1, h⟩
  cases hobj : GetObject e t (GlobalTxInfoKey g) with
  | none =>
    rw [BeginMultiTXs_create e t g c th n f hcaller hobj] at h
    simp at h
  | some info =>
    by_cases hmem : c ∈ mapKeys info.ChildTxInfo
    · exact ⟨info, rfl, hmem⟩
    · exfalso
      cases hnil : nilMapAt e t (GlobalTxInfoKey g) with
      | true =>
        rw [BeginMultiTXs_nil e t g c th n f info hcaller hobj hnil] at h
        cases h
      | false =>
        by_cases hcase : info.GlobalState = BEGIN ∧ f = true
        · have hl := not_mem_lookup_none _ _ hmem
          unfold BeginMultiTXs checkCurrentCaller at h
          simp only [hcaller, ne_eq, not_true_eq_false, if_false, hobj, hl,
            Option.isSome_none, Bool.false_eq_true, hnil, hcase.1, hcase.2, if_true] at h
          cases hrm : removeFromTimeoutList e t info.Height g with
          | none => rw [hrm] at h; cases h
          | some t0 =>
            rw [hrm] at h
            simp [beginMultiTail] at h
        · rw [BeginMultiTXs_add e t g c th n f info hcaller hobj hmem hcase hnil] at h
          simp at h

/-- C17 at the fourth case of the test suite: the child `c1` is begun again. -/
theorem C17_existent_child_iff_witness :
    ((∃ msg t1, BeginMultiTXs host (stubOf [("c1", .raw "g"),
          ("global-tx-g", .info ⟨BEGIN_FAILURE, 110, [("c1", BEGIN_FAILURE)], 2⟩)]
          100 InterchainContractAddr) "g" "c1" 10 false 2 =
        some (.Error .TransactionExistentChildTxCode msg, t1)) ↔
      ∃ info, GetObject host (stubOf [("c1", .raw "g"),
          ("global-tx-g", .info ⟨BEGIN_FAILURE, 110, [("c1", BEGIN_FAILURE)], 2⟩)]
          100 InterchainContractAddr) (GlobalTxInfoKey "g") = some info ∧
        "c1" ∈ mapKeys info.ChildTxInfo) ∧
    (∀ info, GetObject host (stubOf [("c1", .raw "g"),
          ("global-tx-g", .info ⟨BEGIN_FAILURE, 110, [("c1", BEGIN_FAILURE)], 2⟩)]
          100 InterchainContractAddr) (GlobalTxInfoKey "g") = some info →
      "c1" ∈ mapKeys info.ChildTxInfo →
      BeginMultiTXs host (stubOf [("c1", .raw "g"),
          ("global-tx-g", .info ⟨BEGIN_FAILURE, 110, [("c1", BEGIN_FAILURE)], 2⟩)]
          100 InterchainContractAddr) "g" "c1" 10 false 2 =
        some (.Error .TransactionExistentChildTxCode ["c1", "g"],
          stubOf [("c1", .raw "g"),
            ("global-tx-g", .info ⟨BEGIN_FAILURE, 110, [("c1", BEGIN_FAILURE)], 2⟩)]
            100 InterchainContractAddr)) :=
  C17_existent_child_iff host _ "g" "c1" 10 2 false rfl

/-- The mass-failing branch of `BeginMultiTXs`. -/
theorem BeginMultiTXs_mass_fail (e : Env B) (t : Stub B) (g c : String) (th n : Nat)
    (info : TransactionInfo)
    (hcaller : t.CurrentCaller = InterchainContractAddr)
    (hinfo : GetObject e t (GlobalTxInfoKey g) = some info)
    (hglobal : info.GlobalState = BEGIN)
    (hnew : c ∉ mapKeys info.ChildTxInfo)
    (hnil : nilMapAt e t (GlobalTxInfoKey g) = false) :
    BeginMultiTXs e t g c th true n =
      (removeFromTimeoutList e t info.Height g).map fun t0 =>
        beginMultiTail e
          (SetObject e t0 (GlobalTxInfoKey g)
            ⟨BEGIN_FAILURE, info.Height,
              mapSet (massFailLoop (e.rangeOrder 101 (mapKeys info.ChildTxInfo))
                ⟨-1, 0, [], [], [], false⟩ info.ChildTxInfo).2 c BEGIN_FAILURE,
              info.ChildTxCount⟩)
          (massFailLoop (e.rangeOrder 101 (mapKeys info.ChildTxInfo))
            ⟨-1, 0, [], [], [], false⟩ info.ChildTxInfo).1
          ⟨BEGIN_FAILURE, info.Height,
            mapSet (massFailLoop (e.rangeOrder 101 (mapKeys info.ChildTxInfo))
              ⟨-1, 0, [], [], [], false⟩ info.ChildTxInfo).2 c BEGIN_FAILURE,
            info.ChildTxCount⟩ g c := by
  have hl := not_mem_lookup_none _ _ hnew
  unfold BeginMultiTXs checkCurrentCaller
  simp only [hcaller, ne_eq, not_true_eq_false, if_false, hinfo, hl, Option.isSome_none,
    Bool.false_eq_true, hnil, hglobal, if_true, StatusChange.zero]
  cases removeFromTimeoutList e t info.Height g <;> rfl

/-- C14, amended: when the stored transaction info is at `BEGIN` and its decoded
map of children is not nil, the child is new and the call is failed, the timeout
entry listing the global ID at most once, `BeginMultiTXs` by the dispatcher
rewrites the timeout entry of the height
without the global ID, stores the info with every former child and the new child
at `BEGIN_FAILURE`, the global state at `BEGIN_FAILURE`, the height and the count
as they were, and writes the reverse index entry; the change goes from `-1` to
`BEGIN_FAILURE`, its source list is a listing of the former children and its
destination list holds exactly the former children that were at `SUCCESS`. -/
theorem C14_begin_multi_mass_fail (e : Env B) (t : Stub B) (g c : String) (th n : Nat)
    (info : TransactionInfo)
    (hcaller : t.CurrentCaller = InterchainContractAddr)
    (hinfo : GetObject e t (GlobalTxInfoKey g) = some info)
    (hglobal : info.GlobalState = BEGIN)
    (hnil : nilMapAt e t (GlobalTxInfoKey g) = false)
    (hnew : c ∉ mapKeys info.ChildTxInfo)
    (hdup : listedAtMostOnce e t info.Height g) :
    ∃ change children,
      BeginMultiTXs e t g c th true n =
        some (.Success (.change change),
          (SetObject e (withoutTimeout e t info.Height g) (GlobalTxInfoKey g)
            ⟨BEGIN_FAILURE, info.Height, children, info.ChildTxCount⟩).Set c
            (e.bytesOfString g)) ∧
      mapKeys children = mapKeys info.ChildTxInfo ++ [c] ∧
      (∀ k ∈ mapKeys children, mapLookup children k = some BEGIN_FAILURE) ∧
      change.PrevStatus = -1 ∧ change.CurStatus = BEGIN_FAILURE.toInt ∧
      change.NotifySrcIBTPIDs.Perm (mapKeys info.ChildTxInfo) ∧
      (∀ k, k ∈ change.NotifyDstIBTPIDs ↔
        k ∈ mapKeys info.ChildTxInfo ∧ mapLookup info.ChildTxInfo k = some SUCCESS) := by
  have hperm := e.rangeOrder_perm 101 (mapKeys info.ChildTxInfo)
  have hfr := massFailLoop_frame (e.rangeOrder 101 (mapKeys info.ChildTxInfo))
    ⟨-1, 0, [], [], [], false⟩ info.ChildTxInfo
  obtain ⟨f1, f2, f3, f4, f5, f6⟩ := hfr
  have hfold := foldl_mapSet BEGIN_FAILURE (e.rangeOrder 101 (mapKeys info.ChildTxInfo))
    info.ChildTxInfo (fun k hk => hperm.mem_iff.mp hk)
  have hcnot : c ∉ mapKeys ((e.rangeOrder 101 (mapKeys info.ChildTxInfo)).foldl
      (fun m k => mapSet m k BEGIN_FAILURE) info.ChildTxInfo) := by
    rw [hfold.1]; exact hnew
  have hset := mapSet_of_not_mem _ c BEGIN_FAILURE (not_mem_lookup_none _ _ hcnot)
  have hrm := removeFromTimeoutList_erase e t info.Height g hdup
  have hmf := BeginMultiTXs_mass_fail e t g c th n info hcaller hinfo hglobal hnew hnil
  rw [hrm, f6, hset] at hmf
  simp only [Option.map_some'] at hmf
  refine ⟨_, _, hmf, ?_, ?_, ?_, ?_, ?_, ?_⟩
  · simp only [mapKeys, List.map_append, List.map_cons, List.map_nil]
    have h1 := hfold.1
    simp only [mapKeys] at h1
    rw [h1]
  · intro k hk
    rw [← hset] at hk ⊢
    by_cases hkc : k = c
    · rw [hkc]; exact mapLookup_mapSet_same _ _ _
    · rw [mapLookup_mapSet_other _ _ _ _ hkc]
      apply hfold.2.1
      have hk2 : k ∈ mapKeys info.ChildTxInfo ++ [c] := by
        rw [hset] at hk
        simp only [mapKeys, List.map_append, List.map_cons, List.map_nil] at hk
        have h1 := hfold.1
        simp only [mapKeys] at h1
        rw [h1] at hk
        exact hk
      rcases List.mem_append.mp hk2 with h3 | h3
      · exact hperm.mem_iff.mpr h3
      · simp only [List.mem_singleton] at h3
        exact absurd h3 hkc
  · exact f1
  · simp only [beginMultiTail]
    rw [← hset, mapGet_mapSet_same]
  · simp only [beginMultiTail]
    rw [f5]
    simpa using hperm
  · intro k
    simp only [beginMultiTail]
    rw [massFailLoop_dst]
    simp only [List.not_mem_nil, false_or]
    constructor
    · rintro ⟨h1, h2⟩
      have h3 := hperm.mem_iff.mp h1
      exact ⟨h3, by rw [mapLookup_of_mem _ _ h3, h2]⟩
    · rintro ⟨h1, h2⟩
      refine ⟨hperm.mem_iff.mpr h1, ?_⟩
      simp [mapGet, h2]

/-- Witness of C14 amended, at a transaction whose only child so far is at
`SUCCESS`: the failed begin of `c2`. -/
theorem C14_begin_multi_mass_fail_witness :
    ∃ change children,
      BeginMultiTXs host stubFirstSuccess "g" "c2" 10 true 2 =
        some (.Success (.change change),
          (SetObject host (withoutTimeout host stubFirstSuccess 110 "g") (GlobalTxInfoKey "g")
            ⟨BEGIN_FAILURE, 110, children, 2⟩).Set "c2" (.raw "g")) ∧
      mapKeys children = ["c1"] ++ ["c2"] ∧
      (∀ k ∈ mapKeys children, mapLookup children k = some BEGIN_FAILURE) ∧
      change.PrevStatus = -1 ∧ change.CurStatus = 1 ∧
      change.NotifySrcIBTPIDs.Perm ["c1"] ∧
      (∀ k, k ∈ change.NotifyDstIBTPIDs ↔
        k ∈ ["c1"] ∧ mapLookup [("c1", SUCCESS)] k = some SUCCESS) :=
  C14_begin_multi_mass_fail host stubFirstSuccess "g" "c2" 10 2
    ⟨BEGIN, 110, [("c1", SUCCESS)], 2⟩ rfl (by decide) rfl (by decide) (by decide)
    (by
      intro b hb
      have h0 : stubFirstSuccess.Get (TimeoutKey 110) = some (.raw "g") := by decide
      rw [h0] at hb
      cases hb
      decide)

/-- The change returned by the tail of `BeginMultiTXs`. -/
theorem beginMultiTail_change (e : Env B) (t t1 : Stub B) (ch change : StatusChange)
    (i : TransactionInfo) (g c : String)
    (h : beginMultiTail e t ch i g c = (.Success (.change change), t1)) :
    change.PrevStatus = ch.PrevStatus ∧
      change.CurStatus = (mapGet i.ChildTxInfo c).toInt := by
  unfold beginMultiTail at h
  simp only [Prod.mk.injEq, Response.Success.injEq, Payload.change.injEq] at h
  rw [← h.1]
  exact ⟨rfl, rfl⟩

/-- C18: every successful `BeginMultiTXs` call returns a change from `-1` to the
status it gave to the new child, and that status is the global state of the
info the call leaves stored (the child ID not being the key of the info). -/
theorem C18_begin_multi_change (e : Env B) (t t1 : Stub B) (g c : String) (th n : Nat)
    (f : Bool) (change : StatusChange)
    (h : BeginMultiTXs e t g c th f n = some (.Success (.change change), t1))
    (hc : c ≠ GlobalTxInfoKey g) :
    change.PrevStatus = -1 ∧
      ∃ info1, GetObject e t1 (GlobalTxInfoKey g) = some info1 ∧
        mapLookup info1.ChildTxInfo c = some info1.GlobalState ∧
        change.CurStatus = info1.GlobalState.toInt := by
  unfold BeginMultiTXs at h
  cases hcc : checkCurrentCaller t with
  | some err => simp only [hcc] at h; cases h
  | none =>
    simp only [hcc] at h
    cases hobj : GetObject e t (GlobalTxInfoKey g) with
    | none =>
      simp only [hobj] at h
      by_cases hf : f = true
      · simp only [hf, if_true, Option.some.injEq] at h
        have hch := beginMultiTail_change e _ _ _ _ _ g c h
        have ht : t1 = _ := (congrArg Prod.snd h).symm
        refine ⟨hch.1, _, by rw [ht]; exact GetObject_beginMultiTail e t _ _ g c hc, ?_, ?_⟩
        · simp [mapSet, mapLookup]
        · rw [hch.2]; simp [mapSet, mapGet, mapLookup]
      · simp only [hf, Bool.false_eq_true, if_false, Option.some.injEq] at h
        have hch := beginMultiTail_change e _ _ _ _ _ g c h
        have ht : t1 = _ := (congrArg Prod.snd h).symm
        refine ⟨hch.1, _, by rw [ht]; exact GetObject_beginMultiTail e _ _ _ g c hc, ?_, ?_⟩
        · simp [mapLookup]
        · rw [hch.2]; simp [mapGet, mapLookup]
    | some txInfo =>
      simp only [hobj] at h
      by_cases hmem : (mapLookup txInfo.ChildTxInfo c).isSome = true
      · simp only [hmem, if_true, Option.some.injEq, Prod.mk.injEq] at h
        cases h.1
      · simp only [hmem, Bool.false_eq_true, if_false] at h
        by_cases hnil : nilMapAt e t (GlobalTxInfoKey g) = true
        · simp only [hnil, if_true] at h
          cases h
        simp only [hnil, Bool.false_eq_true, if_false] at h
        by_cases hb : txInfo.GlobalState = BEGIN
        · simp only [hb, ne_eq, not_true_eq_false, if_false] at h
          by_cases hf : f = true
          · simp only [hf, if_true] at h
            cases hrm : removeFromTimeoutList e t txInfo.Height g with
            | none => simp only [hrm] at h; cases h
            | some t0 =>
              simp only [hrm, Option.some.injEq] at h
              have hch := beginMultiTail_change e _ _ _ _ _ g c h
              have ht : t1 = _ := (congrArg Prod.snd h).symm
              refine ⟨hch.1.trans (massFailLoop_frame _ _ _).1, _,
                by rw [ht]; exact GetObject_beginMultiTail e t0 _ _ g c hc, ?_, ?_⟩
              · exact mapLookup_mapSet_same _ _ _
              · rw [hch.2]; simp only [mapGet_mapSet_same]
          · simp only [hf, Bool.false_eq_true, if_false, Option.some.injEq] at h
            have hch := beginMultiTail_change e _ _ _ _ _ g c h
            have ht : t1 = _ := (congrArg Prod.snd h).symm
            refine ⟨hch.1, _, by rw [ht]; exact GetObject_beginMultiTail e t _ _ g c hc,
              ?_, ?_⟩
            · simp only [mapLookup_mapSet_same, hb]
            · rw [hch.2]; simp only [mapGet_mapSet_same, hb]
        · simp only [ne_eq, hb, not_false_eq_true, if_true, Option.some.injEq] at h
          have hch := beginMultiTail_change e _ _ _ _ _ g c h
          have ht : t1 = _ := (congrArg Prod.snd h).symm
          refine ⟨hch.1, _, by rw [ht]; exact GetObject_beginMultiTail e t _ _ g c hc, ?_, ?_⟩
          · exact mapLookup_mapSet_same _ _ _
          · rw [hch.2]; simp only [mapGet_mapSet_same]

/-- C18 at the first call of the test suite, on the empty store. -/
theorem C18_begin_multi_change_witness :
    (-1 : Int) = -1 ∧
      ∃ info1, GetObject host
          ((((emptyStub 100 InterchainContractAddr).Set "timeout-110" (.raw "g")).Set
            "global-tx-g" (.info ⟨BEGIN, 110, [("c1", BEGIN)], 2⟩)).Set "c1" (.raw "g"))
          (GlobalTxInfoKey "g") = some info1 ∧
        mapLookup info1.ChildTxInfo "c1" = some info1.GlobalState ∧
        (0 : Int) = info1.GlobalState.toInt :=
  C18_begin_multi_change host (emptyStub 100 InterchainContractAddr)
    ((((emptyStub 100 InterchainContractAddr).Set "timeout-110" (.raw "g")).Set
      "global-tx-g" (.info ⟨BEGIN, 110, [("c1", BEGIN)], 2⟩)).Set "c1" (.raw "g"))
    "g" "c1" 10 2 false ⟨-1, 0, ["c1"], [], [], false⟩ (by rfl) (by decide)

/-! ## Splitting and joining the timeout list -/

theorem intercalate_go_data (acc s : String) (l : List String) :
    (String.intercalate.go acc s l).data =
      acc.data ++ (l.map fun a => s.data ++ a.data).flatten := by
  induction l generalizing acc with
  | nil => simp [String.intercalate.go]
  | cons a l ih =>
    rw [String.intercalate.go, ih]
    simp [String.data_append, List.append_assoc]

theorem joinChars_cons (a : List Char) (l : List (List Char)) :
    joinChars (a :: l) = a ++ (l.map fun b => ',' :: b).flatten := by
  induction l generalizing a with
  | nil => simp [joinChars]
  | cons b l ih =>
    rw [joinChars, ih b]
    simp

theorem stringsJoin_data (l : List String) :
    (stringsJoin l).data = joinChars (l.map String.data) := by
  cases l with
  | nil => rfl
  | cons a l =>
    unfold stringsJoin
    rw [String.intercalate, intercalate_go_data, List.map_cons, joinChars_cons, List.map_map]
    rfl

theorem splitComma_ne_nil (cs : List Char) : splitComma cs ≠ [] := by
  induction cs with
  | nil => simp [splitComma]
  | cons c cs ih =>
    unfold splitComma
    split
    · simp
    · split
      · simp
      · simp

theorem splitComma_no_comma (a : List Char) (h : ',' ∉ a) : splitComma a = [a] := by
  induction a with
  | nil => rfl
  | cons x a ih =>
    have hx : x ≠ ',' := fun hh => h (hh ▸ List.mem_cons_self _ _)
    have ha : ',' ∉ a := fun hh => h (List.mem_cons_of_mem _ hh)
    unfold splitComma
    rw [if_neg hx, ih ha]

theorem splitComma_append_comma (a rest : List Char) (h : ',' ∉ a) :
    splitComma (a ++ ',' :: rest) = a :: splitComma rest := by
  induction a with
  | nil => simp [splitComma]
  | cons x a ih =>
    have hx : x ≠ ',' := fun hh => h (hh ▸ List.mem_cons_self _ _)
    have ha : ',' ∉ a := fun hh => h (List.mem_cons_of_mem _ hh)
    rw [List.cons_append, splitComma, if_neg hx, ih ha]

/-- Splitting a comma-joined list of comma-free pieces gives the pieces back. -/
theorem splitComma_joinChars (ls : List (List Char)) (hne : ls ≠ [])
    (h : ∀ a ∈ ls, ',' ∉ a) : splitComma (joinChars ls) = ls := by
  induction ls with
  | nil => exact absurd rfl hne
  | cons a l ih =>
    cases l with
    | nil => exact splitComma_no_comma a (h a (List.mem_cons_self _ _))
    | cons b r =>
      rw [joinChars, splitComma_append_comma _ _ (h a (List.mem_cons_self _ _)),
        ih (by simp) (fun x hx => h x (List.mem_cons_of_mem _ hx))]

/-- The pieces of a split hold no comma. -/
theorem splitComma_pieces (cs : List Char) : ∀ a ∈ splitComma cs, ',' ∉ a := by
  induction cs with
  | nil => intro a ha; simp [splitComma] at ha; simp [ha]
  | cons c cs ih =>
    intro a ha
    unfold splitComma at ha
    split at ha
    · rcases List.mem_cons.mp ha with h1 | h1
      · simp [h1]
      · exact ih a h1
    · rename_i hc
      split at ha
      · simp only [List.mem_singleton] at ha
        rename_i heq
        exact absurd heq (splitComma_ne_nil cs)
      · rename_i hd r heq
        rcases List.mem_cons.mp ha with h1 | h1
        · rw [h1]
          intro hmem
          rcases List.mem_cons.mp hmem with h2 | h2
          · exact hc h2.symm
          · exact ih hd (by rw [heq]; exact List.mem_cons_self _ _) h2
        · exact ih a (by rw [heq]; exact List.mem_cons_of_mem _ h1)

theorem stringsSplit_pieces (s : String) : ∀ x ∈ stringsSplit s, ',' ∉ x.data := by
  intro x hx
  unfold stringsSplit at hx
  obtain ⟨a, ha, rfl⟩ := List.mem_map.mp hx
  exact splitComma_pieces _ a ha

/-- Splitting the join of a non-empty list of comma-free strings gives the list
back. -/
theorem stringsSplit_stringsJoin (l : List String) (hne : l ≠ [])
    (h : ∀ x ∈ l, ',' ∉ x.data) : stringsSplit (stringsJoin l) = l := by
  unfold stringsSplit
  rw [stringsJoin_data, splitComma_joinChars _ (by simpa using hne)
    (by
      intro a ha
      obtain ⟨x, hx, rfl⟩ := List.mem_map.mp ha
      exact h x hx), List.map_map]
  have : (String.mk ∘ String.data) = id := by
    funext s
    rfl
  rw [this, List.map_id]

/-- After the first occurrence of an ID listed at most once is taken out and the
list is joined and split again, the ID is listed at most once (not at all, unless
the list became empty and the ID is the empty string). -/
theorem count_split_join_erase (s g : String)
    (h : (stringsSplit s).count g ≤ 1) :
    (stringsSplit (stringsJoin ((stringsSplit s).erase g))).count g ≤ 1 := by
  by_cases hne : (stringsSplit s).erase g = []
  · rw [hne]
    have : stringsSplit (stringsJoin []) = [""] := by decide
    rw [this]
    by_cases hg : "" = g
    · simp [hg]
    · simp [List.count_cons, hg]
  · rw [stringsSplit_stringsJoin _ hne
      (fun x hx => stringsSplit_pieces s x (List.mem_of_mem_erase hx))]
    have := List.count_erase_self g (stringsSplit s)
    omega

/-! ## Delivering the receipts of a transaction in any order (C13) -/

theorem withoutTimeout_Get_other (e : Env B) (t : Stub B) (height : Nat) (g k : String)
    (hk : k ≠ TimeoutKey height) : (withoutTimeout e t height g).Get k = t.Get k := by
  unfold withoutTimeout
  cases hb : t.Get (TimeoutKey height) with
  | none => rfl
  | some b => exact Stub.Get_Set_other _ _ _ _ hk

theorem withoutTimeout_caller (e : Env B) (t : Stub B) (height : Nat) (g : String) :
    (withoutTimeout e t height g).CurrentCaller = t.CurrentCaller := by
  unfold withoutTimeout
  cases t.Get (TimeoutKey height) <;> rfl

theorem listedAtMostOnce_withoutTimeout (e : Env B) (t : Stub B) (height : Nat) (g : String)
    (h : listedAtMostOnce e t height g) :
    listedAtMostOnce e (withoutTimeout e t height g) height g := by
  unfold withoutTimeout
  cases hb : t.Get (TimeoutKey height) with
  | none => exact h
  | some b =>
    intro b2 hb2
    rw [Stub.Get_Set_same] at hb2
    cases hb2
    rw [e.string_bytes]
    exact count_split_join_erase _ _ (h b hb)

theorem listedAtMostOnce_SetObject (e : Env B) (t : Stub B) (height : Nat) (g g2 : String)
    (i : TransactionInfo) (h : listedAtMostOnce e t height g) :
    listedAtMostOnce e (SetObject e t (GlobalTxInfoKey g2) i) height g := by
  intro b hb
  rw [SetObject, Stub.Get_Set_other _ _ _ _ (TimeoutKey_ne_GlobalTxInfoKey _ _)] at hb
  exact h b hb

/-- The fast-failing report, as an equation. -/
theorem Report_fast_fail_eq (e : Env B) (t : Stub B) (txId : String) (val : B)
    (info : TransactionInfo)
    (hcaller : t.CurrentCaller = InterchainContractAddr)
    (hrec : t.Get (TxInfoKey txId) = none)
    (hidx : t.Get txId = some val)
    (hinfo : GetObject e t (GlobalTxInfoKey (e.stringOfBytes val)) = some info)
    (hglobal : info.GlobalState = BEGIN)
    (hchild : txId ∈ mapKeys info.ChildTxInfo)
    (hdup : listedAtMostOnce e t info.Height (e.stringOfBytes val)) :
    Report e t txId IBTP_RECEIPT_FAILURE =
      some (.Success (.change (multiChange e info.GlobalState
          ⟨BEGIN_FAILURE, info.Height,
            mapSet ((e.rangeOrder 429 (mapKeys info.ChildTxInfo)).foldl
              (fun m childTx => mapSet m childTx BEGIN_FAILURE) info.ChildTxInfo) txId FAILURE,
            info.ChildTxCount⟩ txId)),
        SetObject e (withoutTimeout e t info.Height (e.stringOfBytes val))
          (GlobalTxInfoKey (e.stringOfBytes val))
          ⟨BEGIN_FAILURE, info.Height,
            mapSet ((e.rangeOrder 429 (mapKeys info.ChildTxInfo)).foldl
              (fun m childTx => mapSet m childTx BEGIN_FAILURE) info.ChildTxInfo) txId FAILURE,
            info.ChildTxCount⟩) := by
  rw [Report_multi e t txId val info _ hcaller hrec hidx hinfo hchild,
    changeMultiTxStatus_fast_fail e t _ info txId hglobal,
    removeFromTimeoutList_erase e t info.Height _ hdup]
  rfl

/-- The report of a receipt whose event the child takes, outside the fast
failure, as an equation. -/
theorem Report_child_event_eq (e : Env B) (t : Stub B) (txId : String) (val : B)
    (info : TransactionInfo) (r : Int) (s s1 : TransactionStatus)
    (hcaller : t.CurrentCaller = InterchainContractAddr)
    (hrec : t.Get (TxInfoKey txId) = none)
    (hidx : t.Get txId = some val)
    (hinfo : GetObject e t (GlobalTxInfoKey (e.stringOfBytes val)) = some info)
    (hs : mapLookup info.ChildTxInfo txId = some s)
    (hnf : ¬ (info.GlobalState = BEGIN ∧ r = IBTP_RECEIPT_FAILURE))
    (hleg : setFSM s (receipt2EventM r) = (s1, none))
    (hdup : listedAtMostOnce e t info.Height (e.stringOfBytes val)) :
    (¬ specMultiTxFinished s1
        ⟨info.GlobalState, info.Height, mapSet info.ChildTxInfo txId s1, info.ChildTxCount⟩ →
      Report e t txId r = some (.Success (.change (multiChange e info.GlobalState
          ⟨info.GlobalState, info.Height, mapSet info.ChildTxInfo txId s1,
            info.ChildTxCount⟩ txId)),
        SetObject e t (GlobalTxInfoKey (e.stringOfBytes val))
          ⟨info.GlobalState, info.Height, mapSet info.ChildTxInfo txId s1,
            info.ChildTxCount⟩)) ∧
    (specMultiTxFinished s1
        ⟨info.GlobalState, info.Height, mapSet info.ChildTxInfo txId s1, info.ChildTxCount⟩ →
      ∀ gs1, setFSM info.GlobalState (receipt2EventM r) = (gs1, none) →
      Report e t txId r = some (.Success (.change (multiChange e info.GlobalState
          ⟨gs1, info.Height, mapSet info.ChildTxInfo txId s1, info.ChildTxCount⟩ txId)),
        SetObject e (withoutTimeout e t info.Height (e.stringOfBytes val))
          (GlobalTxInfoKey (e.stringOfBytes val))
          ⟨gs1, info.Height, mapSet info.ChildTxInfo txId s1, info.ChildTxCount⟩)) := by
  have hchild : txId ∈ mapKeys info.ChildTxInfo :=
    (mapLookup_isSome_iff _ _).mp (by rw [hs]; rfl)
  have hrep := Report_multi e t txId val info r hcaller hrec hidx hinfo hchild
  have hcm := changeMultiTxStatus_child_event e t (e.stringOfBytes val) info txId r s s1
    hs hnf hleg
  constructor
  · intro hfin
    have hb : isMultiTxFinished e s1 ⟨info.GlobalState, info.Height,
        mapSet info.ChildTxInfo txId s1, info.ChildTxCount⟩ = false := by
      cases hx : isMultiTxFinished e s1 ⟨info.GlobalState, info.Height,
        mapSet info.ChildTxInfo txId s1, info.ChildTxCount⟩ with
      | false => rfl
      | true => exact absurd ((isMultiTxFinished_iff e s1 _).mp hx) hfin
    rw [hb] at hcm
    simp only [Bool.false_eq_true, if_false] at hcm
    rw [hcm] at hrep
    exact hrep
  · intro hfin gs1 hgs
    have hb := (isMultiTxFinished_iff e s1 _).mpr hfin
    have hrm := removeFromTimeoutList_erase e t info.Height (e.stringOfBytes val) hdup
    rw [hb, hgs] at hcm
    simp only [if_true, hrm, Option.map_some'] at hcm
    rw [hcm] at hrep
    exact hrep

/-- Writing the transaction info of the next step, over the stub itself or over
the stub with the timeout entry rewritten, keeps the facts about the rest of the
store. -/
theorem DeliveryInv_write (e : Env B) (g : String) (height : Nat) (keys : List String)
    (rc : String → Int) (done done1 : List String) (t t0 : Stub B) (info1 : TransactionInfo)
    (hfree : ∀ k ∈ keys, k ≠ GlobalTxInfoKey g ∧ k ≠ TimeoutKey height)
    (inv : DeliveryInv e g height keys rc done t)
    (ht0 : t0 = t ∨ t0 = withoutTimeout e t height g)
    (hgl : info1.GlobalState = globalAfter keys rc done1)
    (hh : info1.Height = height) (hn : info1.ChildTxCount = keys.length)
    (hk : mapKeys info1.ChildTxInfo = keys)
    (hch : ∀ k ∈ keys, mapLookup info1.ChildTxInfo k = some (childAfter rc done1 k)) :
    DeliveryInv e g height keys rc done1 (SetObject e t0 (GlobalTxInfoKey g) info1) := by
  have hget : ∀ k, k ≠ TimeoutKey height → t0.Get k = t.Get k := by
    intro k hk2
    rcases ht0 with h | h
    · rw [h]
    · rw [h]; exact withoutTimeout_Get_other e t height g k hk2
  have hcal : t0.CurrentCaller = t.CurrentCaller := by
    rcases ht0 with h | h
    · rw [h]
    · rw [h]; exact withoutTimeout_caller e t height g
  have hlist : listedAtMostOnce e t0 height g := by
    rcases ht0 with h | h
    · rw [h]; exact inv.listed
    · rw [h]; exact listedAtMostOnce_withoutTimeout e t height g inv.listed
  refine ⟨?_, ?_, ?_, ?_, ?_⟩
  · exact hcal.trans inv.caller
  · intro k hk2
    rw [SetObject, Stub.Get_Set_other _ _ _ _ (TxInfoKey_ne_GlobalTxInfoKey _ _),
      hget _ (fun hh2 => TimeoutKey_ne_TxInfoKey _ _ hh2.symm)]
    exact inv.noRecord k hk2
  · intro k hk2
    rw [SetObject, Stub.Get_Set_other _ _ _ _ (hfree k hk2).1, hget _ (hfree k hk2).2]
    exact inv.indexed k hk2
  · exact listedAtMostOnce_SetObject e t0 height g g info1 hlist
  · exact ⟨info1, GetObject_SetObject_same e t0 _ info1, hgl, hh, hn, hk, hch⟩

theorem childAfter_not_done (rc : String → Int) (done : List String) (k : String)
    (hk : k ∉ done) :
    childAfter rc done k =
      if ∃ d ∈ done, rc d = IBTP_RECEIPT_FAILURE then BEGIN_FAILURE else BEGIN := by
  unfold childAfter
  simp [hk]

theorem globalAfter_not_done (keys : List String) (rc : String → Int) (done : List String)
    (c : String) (hc : c ∈ keys) (hcd : c ∉ done) :
    globalAfter keys rc done =
      if ∃ d ∈ done, rc d = IBTP_RECEIPT_FAILURE then BEGIN_FAILURE else BEGIN := by
  unfold globalAfter
  have h1 : ¬ ∀ k ∈ keys, k ∈ done ∧ rc k = IBTP_RECEIPT_FAILURE :=
    fun h => hcd (h c hc).1
  have h2 : ¬ ∀ k ∈ keys, k ∈ done ∧ rc k = IBTP_RECEIPT_SUCCESS :=
    fun h => hcd (h c hc).1
  simp [h1, h2]

/-- A receipt that the state machine refuses leaves the expected statuses as
they are. -/
theorem after_skip (keys : List String) (rc : String → Int) (done : List String) (c : String)
    (h1 : rc c ≠ IBTP_RECEIPT_FAILURE)
    (h2 : rc c ≠ IBTP_RECEIPT_SUCCESS ∨ ∃ d ∈ done, rc d = IBTP_RECEIPT_FAILURE) :
    (∀ k, childAfter rc (c :: done) k = childAfter rc done k) ∧
    globalAfter keys rc (c :: done) = globalAfter keys rc done := by
  have hex : (∃ d ∈ c :: done, rc d = IBTP_RECEIPT_FAILURE) ↔
      ∃ d ∈ done, rc d = IBTP_RECEIPT_FAILURE := by
    simp [h1]
  have hf : ∀ k, (k ∈ c :: done ∧ rc k = IBTP_RECEIPT_FAILURE) ↔
      (k ∈ done ∧ rc k = IBTP_RECEIPT_FAILURE) := by
    intro k
    constructor
    · rintro ⟨hm, hr⟩
      rcases List.mem_cons.mp hm with h | h
      · subst h; exact absurd hr h1
      · exact ⟨h, hr⟩
    · rintro ⟨hm, hr⟩
      exact ⟨List.mem_cons_of_mem _ hm, hr⟩
  by_cases hF : ∃ d ∈ done, rc d = IBTP_RECEIPT_FAILURE
  · constructor
    · intro k
      unfold childAfter
      simp only [hex, hF, if_true, hf]
    · unfold globalAfter
      simp only [hex, hF, if_true, hf]
  · have h3 : rc c ≠ IBTP_RECEIPT_SUCCESS := by
      rcases h2 with h | h
      · exact h
      · exact absurd h hF
    have hs : ∀ k, (k ∈ c :: done ∧ rc k = IBTP_RECEIPT_SUCCESS) ↔
        (k ∈ done ∧ rc k = IBTP_RECEIPT_SUCCESS) := by
      intro k
      constructor
      · rintro ⟨hm, hr⟩
        rcases List.mem_cons.mp hm with h | h
        · subst h; exact absurd hr h3
        · exact ⟨h, hr⟩
      · rintro ⟨hm, hr⟩
        exact ⟨List.mem_cons_of_mem _ hm, hr⟩
    constructor
    · intro k
      unfold childAfter
      simp only [hex, hF, if_false, hs]
    · unfold globalAfter
      simp only [hex, hF, if_false, hs]

/-- The expected status of a child other than the one whose receipt is
delivered does not move, unless the receipt is the first failure. -/
theorem childAfter_other (rc : String → Int) (done : List String) (c k : String)
    (hk : k ≠ c)
    (h : rc c ≠ IBTP_RECEIPT_FAILURE ∨ ∃ d ∈ done, rc d = IBTP_RECEIPT_FAILURE) :
    childAfter rc (c :: done) k = childAfter rc done k := by
  have hm : k ∈ c :: done ↔ k ∈ done := by simp [hk]
  have hex : (∃ d ∈ c :: done, rc d = IBTP_RECEIPT_FAILURE) ↔
      ∃ d ∈ done, rc d = IBTP_RECEIPT_FAILURE := by
    constructor
    · rintro ⟨d, hd, hr⟩
      rcases List.mem_cons.mp hd with h1 | h1
      · subst h1
        rcases h with h | h
        · exact absurd hr h
        · exact h
      · exact ⟨d, h1, hr⟩
    · rintro ⟨d, hd, hr⟩
      exact ⟨d, List.mem_cons_of_mem _ hd, hr⟩
  unfold childAfter
  simp only [hm, hex]

theorem two_le_length_of_ne (l : List String) (a b : String) (ha : a ∈ l) (hb : b ∈ l)
    (hab : a ≠ b) : 2 ≤ l.length := by
  match l, ha, hb with
  | [x], ha, hb =>
    simp only [List.mem_singleton] at ha hb
    exact absurd (ha.trans hb.symm) hab
  | _ :: _ :: _, _, _ => simp

theorem length_le_one_of_all_eq (l : List String) (c : String) (hn : l.Nodup)
    (h : ∀ k ∈ l, k = c) : l.length ≤ 1 := by
  match l, hn, h with
  | [], _, _ => simp
  | [_], _, _ => simp
  | x :: y :: l, hn, h =>
    have hx := h x (List.mem_cons_self _ _)
    have hy := h y (List.mem_cons_of_mem _ (List.mem_cons_self _ _))
    rw [List.nodup_cons] at hn
    exact absurd (hx.trans hy.symm ▸ List.mem_cons_self _ _) hn.1

theorem finished_after_set (info : TransactionInfo) (keys : List String) (c : String)
    (s1 gs : TransactionStatus) (f : String → TransactionStatus)
    (hk : mapKeys info.ChildTxInfo = keys) (hc : c ∈ keys)
    (hn : info.ChildTxCount = keys.length)
    (hch : ∀ k ∈ keys, mapLookup info.ChildTxInfo k = some (f k)) :
    specMultiTxFinished s1
        ⟨gs, info.Height, mapSet info.ChildTxInfo c s1, info.ChildTxCount⟩ ↔
      ∀ k ∈ keys, k ≠ c → f k = s1 := by
  have hks : mapKeys (mapSet info.ChildTxInfo c s1) = keys := by
    rw [mapKeys_mapSet_of_mem _ _ _ (by rw [hk]; exact hc), hk]
  unfold specMultiTxFinished
  simp only [hks, hn, and_true]
  constructor
  · intro h k hkk hne
    have := h k hkk
    rw [mapGet_mapSet_other _ _ _ _ hne, mapGet, hch k hkk] at this
    exact this
  · intro h k hkk
    by_cases hne : k = c
    · subst hne; exact mapGet_mapSet_same _ _ _
    · rw [mapGet_mapSet_other _ _ _ _ hne, mapGet, hch k hkk]
      exact h k hkk hne

theorem childAfter_eq_FAILURE (rc : String → Int) (done : List String) (k : String) :
    childAfter rc done k = FAILURE ↔ k ∈ done ∧ rc k = IBTP_RECEIPT_FAILURE := by
  unfold childAfter
  constructor
  · intro h
    repeat' split at h
    all_goals first | assumption | cases h
  · intro h
    rw [if_pos ⟨k, h.1, h.2⟩, if_pos h]

theorem childAfter_eq_SUCCESS (rc : String → Int) (done : List String) (k : String) :
    childAfter rc done k = SUCCESS ↔
      (¬ ∃ d ∈ done, rc d = IBTP_RECEIPT_FAILURE) ∧ k ∈ done ∧ rc k = IBTP_RECEIPT_SUCCESS := by
  unfold childAfter
  constructor
  · intro h
    repeat' split at h
    all_goals first | exact ⟨by assumption, by assumption⟩ | cases h
  · intro h
    rw [if_neg h.1, if_pos h.2]

/-- One delivery: whatever the receipt of a child that has not reported yet, the
store after `Report` holds the expected statuses of the longer history. -/
theorem Report_DeliveryInv (e : Env B) (g : String) (height : Nat) (keys : List String)
    (rc : String → Int) (done : List String) (t : Stub B) (c : String)
    (hnodup : keys.Nodup)
    (hfree : ∀ k ∈ keys, k ≠ GlobalTxInfoKey g ∧ k ≠ TimeoutKey height)
    (hsub : ∀ d ∈ done, d ∈ keys) (hc : c ∈ keys) (hcd : c ∉ done)
    (inv : DeliveryInv e g height keys rc done t) :
    ∃ resp t1, Report e t c (rc c) = some (resp, t1) ∧
      DeliveryInv e g height keys rc (c :: done) t1 := by
  obtain ⟨info, hinfo, hgl, hh, hn, hk, hch⟩ := inv.stored
  obtain ⟨val, hidx, hval⟩ := inv.indexed c hc
  have hrec := inv.noRecord c hc
  have hcaller := inv.caller
  have hlist := inv.listed
  subst hval
  subst hh
  have hcs := hch c hc
  rw [childAfter_not_done rc done c hcd] at hcs
  rw [globalAfter_not_done keys rc done c hc hcd] at hgl
  have hckeys : c ∈ mapKeys info.ChildTxInfo := by rw [hk]; exact hc
  have hks : ∀ s1, mapKeys (mapSet info.ChildTxInfo c s1) = keys := by
    intro s1
    rw [mapKeys_mapSet_of_mem _ _ _ hckeys, hk]
  by_cases hF : ∃ d ∈ done, rc d = IBTP_RECEIPT_FAILURE
  · rw [if_pos hF] at hcs hgl
    have hF1 : ∃ d ∈ c :: done, rc d = IBTP_RECEIPT_FAILURE := by
      obtain ⟨d, hd, hr⟩ := hF
      exact ⟨d, List.mem_cons_of_mem _ hd, hr⟩
    have hnf : ¬ (info.GlobalState = BEGIN ∧ rc c = IBTP_RECEIPT_FAILURE) := by
      rw [hgl]; intro h; exact absurd h.1 (by decide)
    by_cases hr : rc c = IBTP_RECEIPT_FAILURE
    · have hleg : setFSM BEGIN_FAILURE (receipt2EventM (rc c)) = (FAILURE, none) := by
        rw [hr]; decide
      have heq := Report_child_event_eq e t c val info (rc c) BEGIN_FAILURE FAILURE
        hcaller hrec hidx hinfo hcs hnf hleg hlist
      have hfi := finished_after_set info keys c FAILURE info.GlobalState
        (childAfter rc done) hk hc hn hch
      have hchild : ∀ k ∈ keys, mapLookup (mapSet info.ChildTxInfo c FAILURE) k =
          some (childAfter rc (c :: done) k) := by
        intro k hkk
        by_cases hne : k = c
        · subst hne
          rw [mapLookup_mapSet_same,
            (childAfter_eq_FAILURE rc (k :: done) k).mpr ⟨List.mem_cons_self _ _, hr⟩]
        · rw [mapLookup_mapSet_other _ _ _ _ hne, childAfter_other rc done c k hne (Or.inr hF)]
          exact hch k hkk
      by_cases hfin : specMultiTxFinished FAILURE
          ⟨info.GlobalState, info.Height, mapSet info.ChildTxInfo c FAILURE, info.ChildTxCount⟩
      · have hrep := heq.2 hfin FAILURE (by rw [hgl]; exact hleg)
        refine ⟨_, _, hrep, ?_⟩
        refine DeliveryInv_write e _ _ keys rc done (c :: done) t _ _ hfree inv (Or.inr rfl)
          ?_ rfl hn (hks FAILURE) hchild
        have hall : ∀ k ∈ keys, k ∈ c :: done ∧ rc k = IBTP_RECEIPT_FAILURE := by
          intro k hkk
          by_cases hne : k = c
          · subst hne; exact ⟨List.mem_cons_self _ _, hr⟩
          · have := (childAfter_eq_FAILURE rc done k).mp (hfi.mp hfin k hkk hne)
            exact ⟨List.mem_cons_of_mem _ this.1, this.2⟩
        have h2 : 2 ≤ keys.length := by
          obtain ⟨d, hd, _⟩ := hF
          exact two_le_length_of_ne keys d c (hsub d hd) hc (fun h => hcd (h ▸ hd))
        show FAILURE = globalAfter keys rc (c :: done)
        unfold globalAfter
        rw [if_pos hF1, if_pos ⟨hall, h2⟩]
      · have hrep := heq.1 hfin
        refine ⟨_, _, hrep, ?_⟩
        refine DeliveryInv_write e _ _ keys rc done (c :: done) t _ _ hfree inv (Or.inl rfl)
          ?_ rfl hn (hks FAILURE) hchild
        show info.GlobalState = globalAfter keys rc (c :: done)
        rw [hgl]
        unfold globalAfter
        rw [if_pos hF1, if_neg]
        rintro ⟨hall, _⟩
        apply hfin
        rw [hfi]
        intro k hkk hne
        have := hall k hkk
        rw [childAfter_eq_FAILURE]
        exact ⟨(List.mem_cons.mp this.1).resolve_left hne, this.2⟩
    · have hskip := after_skip keys rc done c hr (Or.inr hF)
      have hill : (setFSM BEGIN_FAILURE (receipt2EventM (rc c))).2 ≠ none := by
        apply setFSM_receipt_none
        simp [specReceiptStep, hr]
      have hrep := report_multi_rejects_illegal_child e t c val info BEGIN_FAILURE (rc c)
        hcaller hrec hidx hinfo hcs hnf hill
      refine ⟨_, _, hrep, ?_⟩
      refine ⟨inv.caller, inv.noRecord, inv.indexed, inv.listed, info, hinfo, ?_, rfl, hn, hk, ?_⟩
      · rw [hskip.2, globalAfter_not_done keys rc done c hc hcd, if_pos hF]; exact hgl
      · intro k hkk
        rw [hskip.1]
        exact hch k hkk
  · rw [if_neg hF] at hcs hgl
    by_cases hr : rc c = IBTP_RECEIPT_FAILURE
    · have hrep := Report_fast_fail_eq e t c val info hcaller hrec hidx hinfo hgl hckeys hlist
      rw [← hr] at hrep
      have hff := fast_fail_children e info.ChildTxInfo c hckeys
      have hF1 : ∃ d ∈ c :: done, rc d = IBTP_RECEIPT_FAILURE :=
        ⟨c, List.mem_cons_self _ _, hr⟩
      refine ⟨_, _, hrep, ?_⟩
      refine DeliveryInv_write e _ _ keys rc done (c :: done) t _ _ hfree inv (Or.inr rfl)
        ?_ rfl hn (hff.1.trans hk) ?_
      · show BEGIN_FAILURE = globalAfter keys rc (c :: done)
        unfold globalAfter
        rw [if_pos hF1, if_neg]
        rintro ⟨hall, h2⟩
        have hone : ∀ k ∈ keys, k = c := by
          intro k hkk
          have := hall k hkk
          rcases List.mem_cons.mp this.1 with h | h
          · exact h
          · exact absurd ⟨k, h, this.2⟩ hF
        have := length_le_one_of_all_eq keys c hnodup hone
        omega
      · intro k hkk
        by_cases hne : k = c
        · subst hne
          rw [(childAfter_eq_FAILURE rc (k :: done) k).mpr ⟨List.mem_cons_self _ _, hr⟩]
          exact hff.2.1
        · have hkm : k ∈ mapKeys info.ChildTxInfo := by rw [hk]; exact hkk
          rw [hff.2.2 k hkm hne]
          unfold childAfter
          rw [if_pos hF1, if_neg]
          rintro ⟨hm, hrk⟩
          exact hF ⟨k, (List.mem_cons.mp hm).resolve_left hne, hrk⟩
    · have hnf : ¬ (info.GlobalState = BEGIN ∧ rc c = IBTP_RECEIPT_FAILURE) :=
        fun h => hr h.2
      have hF1 : ¬ ∃ d ∈ c :: done, rc d = IBTP_RECEIPT_FAILURE := by
        rintro ⟨d, hd, hrd⟩
        rcases List.mem_cons.mp hd with h | h
        · subst h; exact hr hrd
        · exact hF ⟨d, h, hrd⟩
      by_cases hs : rc c = IBTP_RECEIPT_SUCCESS
      · have hleg : setFSM BEGIN (receipt2EventM (rc c)) = (SUCCESS, none) := by
          rw [hs]; decide
        have heq := Report_child_event_eq e t c val info (rc c) BEGIN SUCCESS
          hcaller hrec hidx hinfo hcs hnf hleg hlist
        have hfi := finished_after_set info keys c SUCCESS info.GlobalState
          (childAfter rc done) hk hc hn hch
        have hchild : ∀ k ∈ keys, mapLookup (mapSet info.ChildTxInfo c SUCCESS) k =
            some (childAfter rc (c :: done) k) := by
          intro k hkk
          by_cases hne : k = c
          · subst hne
            rw [mapLookup_mapSet_same,
              (childAfter_eq_SUCCESS rc (k :: done) k).mpr ⟨hF1, List.mem_cons_self _ _, hs⟩]
          · rw [mapLookup_mapSet_other _ _ _ _ hne,
              childAfter_other rc done c k hne (Or.inl hr)]
            exact hch k hkk
        by_cases hfin : specMultiTxFinished SUCCESS
            ⟨info.GlobalState, info.Height, mapSet info.ChildTxInfo c SUCCESS,
              info.ChildTxCount⟩
        · have hrep := heq.2 hfin SUCCESS (by rw [hgl]; exact hleg)
          refine ⟨_, _, hrep, ?_⟩
          refine DeliveryInv_write e _ _ keys rc done (c :: done) t _ _ hfree inv (Or.inr rfl)
            ?_ rfl hn (hks SUCCESS) hchild
          have hall : ∀ k ∈ keys, k ∈ c :: done ∧ rc k = IBTP_RECEIPT_SUCCESS := by
            intro k hkk
            by_cases hne : k = c
            · subst hne; exact ⟨List.mem_cons_self _ _, hs⟩
            · have := (childAfter_eq_SUCCESS rc done k).mp (hfi.mp hfin k hkk hne)
              exact ⟨List.mem_cons_of_mem _ this.2.1, this.2.2⟩
          show SUCCESS = globalAfter keys rc (c :: done)
          unfold globalAfter
          rw [if_neg hF1, if_pos ⟨List.ne_nil_of_mem hc, hall⟩]
        · have hrep := heq.1 hfin
          refine ⟨_, _, hrep, ?_⟩
          refine DeliveryInv_write e _ _ keys rc done (c :: done) t _ _ hfree inv (Or.inl rfl)
            ?_ rfl hn (hks SUCCESS) hchild
          show info.GlobalState = globalAfter keys rc (c :: done)
          rw [hgl]
          unfold globalAfter
          rw [if_neg hF1, if_neg]
          rintro ⟨_, hall⟩
          apply hfin
          rw [hfi]
          intro k hkk hne
          have := hall k hkk
          rw [childAfter_eq_SUCCESS]
          exact ⟨hF, (List.mem_cons.mp this.1).resolve_left hne, this.2⟩
      · have hskip := after_skip keys rc done c hr (Or.inl hs)
        have hill : (setFSM BEGIN (receipt2EventM (rc c))).2 ≠ none := by
          apply setFSM_receipt_none
          simp [specReceiptStep, hr, hs]
        have hrep := report_multi_rejects_illegal_child e t c val info BEGIN (rc c)
          hcaller hrec hidx hinfo hcs hnf hill
        refine ⟨_, _, hrep, ?_⟩
        refine ⟨inv.caller, inv.noRecord, inv.indexed, inv.listed, info, hinfo, ?_, rfl, hn,
          hk, ?_⟩
        · rw [hskip.2, globalAfter_not_done keys rc done c hc hcd, if_neg hF]; exact hgl
        · intro k hkk
          rw [hskip.1]
          exact hch k hkk

/-- The receipts delivered in an order that visits children that have not
reported yet: every call returns and the store holds the expected statuses. -/
theorem deliver_inv (e : Env B) (g : String) (height : Nat) (keys : List String)
    (rc : String → Int) (hnodup : keys.Nodup)
    (hfree : ∀ k ∈ keys, k ≠ GlobalTxInfoKey g ∧ k ≠ TimeoutKey height)
    (ord : List String) :
    ∀ (done : List String) (t : Stub B), ord.Nodup → (∀ k ∈ ord, k ∈ keys ∧ k ∉ done) →
      (∀ d ∈ done, d ∈ keys) → DeliveryInv e g height keys rc done t →
      ∃ t1, deliver e t (ord.map fun k => (k, rc k)) = some t1 ∧
        DeliveryInv e g height keys rc (ord.reverse ++ done) t1 := by
  induction ord with
  | nil =>
    intro done t _ _ _ inv
    exact ⟨t, rfl, inv⟩
  | cons c ord ih =>
    intro done t hnd hmem hsub inv
    rw [List.nodup_cons] at hnd
    have hc := hmem c (List.mem_cons_self _ _)
    obtain ⟨resp, t1, hrep, inv1⟩ :=
      Report_DeliveryInv e g height keys rc done t c hnodup hfree hsub hc.1 hc.2 inv
    obtain ⟨t2, hd, inv2⟩ := ih (c :: done) t1 hnd.2
      (fun k hk => ⟨(hmem k (List.mem_cons_of_mem _ hk)).1, fun h =>
        (List.mem_cons.mp h).elim (fun h1 => hnd.1 (h1 ▸ hk))
          (hmem k (List.mem_cons_of_mem _ hk)).2⟩)
      (fun d hd => (List.mem_cons.mp hd).elim (fun h1 => h1 ▸ hc.1) (hsub d))
      inv1
    refine ⟨t2, ?_, ?_⟩
    · simp only [List.map_cons, deliver, hrep]
      exact hd
    · rw [List.reverse_cons, List.append_assoc]
      exact inv2

theorem globalAfter_all (keys : List String) (rc : String → Int) (done : List String)
    (h : ∀ k, k ∈ done ↔ k ∈ keys) :
    globalAfter keys rc done = specFinalGlobal keys rc := by
  have h1 : (∃ d ∈ done, rc d = IBTP_RECEIPT_FAILURE) ↔
      ∃ k ∈ keys, rc k = IBTP_RECEIPT_FAILURE := by
    constructor
    · rintro ⟨d, hd, hr⟩; exact ⟨d, (h d).mp hd, hr⟩
    · rintro ⟨d, hd, hr⟩; exact ⟨d, (h d).mpr hd, hr⟩
  have h2 : ∀ r, (∀ k ∈ keys, k ∈ done ∧ rc k = r) ↔ ∀ k ∈ keys, rc k = r := by
    intro r
    constructor
    · intro hh k hk; exact (hh k hk).2
    · intro hh k hk; exact ⟨(h k).mpr hk, hh k hk⟩
  unfold globalAfter specFinalGlobal
  simp only [h1, h2]

/-- The receipts of all children delivered in an order of the children: every
`Report` returns and the stored global state is the one the receipts fix. -/
theorem deliver_all (e : Env B) (t : Stub B) (g : String) (info : TransactionInfo)
    (rc : String → Int) (ord : List String)
    (hcaller : t.CurrentCaller = InterchainContractAddr)
    (hinfo : GetObject e t (GlobalTxInfoKey g) = some info)
    (hglobal : info.GlobalState = BEGIN)
    (hcount : info.ChildTxCount = (mapKeys info.ChildTxInfo).length)
    (hnodup : (mapKeys info.ChildTxInfo).Nodup)
    (hbegin : ∀ k ∈ mapKeys info.ChildTxInfo, mapLookup info.ChildTxInfo k = some BEGIN)
    (hrec : ∀ k ∈ mapKeys info.ChildTxInfo, t.Get (TxInfoKey k) = none)
    (hidx : ∀ k ∈ mapKeys info.ChildTxInfo, (t.Get k).map e.stringOfBytes = some g)
    (hfree : ∀ k ∈ mapKeys info.ChildTxInfo,
      k ≠ GlobalTxInfoKey g ∧ k ≠ TimeoutKey info.Height)
    (hlisted : listedAtMostOnce e t info.Height g)
    (hord : ord.Perm (mapKeys info.ChildTxInfo)) :
    ∃ t1, deliver e t (ord.map fun k => (k, rc k)) = some t1 ∧
      (GetObject e t1 (GlobalTxInfoKey g)).map (fun i => i.GlobalState) =
        some (specFinalGlobal (mapKeys info.ChildTxInfo) rc) := by
  have inv : DeliveryInv e g info.Height (mapKeys info.ChildTxInfo) rc [] t := by
    refine ⟨hcaller, hrec, ?_, hlisted, info, hinfo, ?_, rfl, hcount, rfl, ?_⟩
    · intro k hk
      have := hidx k hk
      cases hv : t.Get k with
      | none => rw [hv] at this; cases this
      | some val =>
        rw [hv] at this
        exact ⟨val, rfl, Option.some.inj this⟩
    · rw [hglobal]
      unfold globalAfter
      simp only [List.not_mem_nil, false_and, exists_false, if_false]
      rw [if_neg]
      rintro ⟨hne, hall⟩
      exact hne (List.eq_nil_iff_forall_not_mem.mpr fun k hk => (hall k hk).elim)
    · intro k hk
      rw [hbegin k hk]
      unfold childAfter
      simp
  obtain ⟨t1, hd, inv1⟩ := deliver_inv e g info.Height (mapKeys info.ChildTxInfo) rc hnodup
    hfree ord [] t (hord.nodup_iff.mpr hnodup)
    (fun k hk => ⟨hord.mem_iff.mp hk, List.not_mem_nil k⟩)
    (fun d hd => absurd hd (List.not_mem_nil d)) inv
  obtain ⟨info1, hi1, hg1, _⟩ := inv1.stored
  refine ⟨t1, hd, ?_⟩
  rw [hi1, Option.map_some', hg1, globalAfter_all]
  intro k
  rw [List.append_nil, List.mem_reverse]
  exact hord.mem_iff

/-- C13, amended. A multi-child transaction is stored at `BEGIN` with all its
declared children registered and at `BEGIN`, and every child is assigned one
receipt; no child has a record of its own, no child ID is the key of the
transaction or the timeout key of its height, and the timeout entry lists the
global ID at most once.  For every two orders of the children, delivering the receipts through `Report`
in either order (the dispatcher calling, a refused report leaving the store as
it was) returns at every call, and the global state stored at the end is the
same in both orders: `BEGIN_FAILURE` or `FAILURE` when some receipt is a
failure, `SUCCESS` when all are successes, `BEGIN` otherwise. -/
theorem C13_report_order_confluence (e : Env B) (t : Stub B) (g : String)
    (info : TransactionInfo) (rc : String → Int) (ord1 ord2 : List String)
    (hcaller : t.CurrentCaller = InterchainContractAddr)
    (hinfo : GetObject e t (GlobalTxInfoKey g) = some info)
    (hglobal : info.GlobalState = BEGIN)
    (hcount : info.ChildTxCount = (mapKeys info.ChildTxInfo).length)
    (hnodup : (mapKeys info.ChildTxInfo).Nodup)
    (hbegin : ∀ k ∈ mapKeys info.ChildTxInfo, mapLookup info.ChildTxInfo k = some BEGIN)
    (hrec : ∀ k ∈ mapKeys info.ChildTxInfo, t.Get (TxInfoKey k) = none)
    (hidx : ∀ k ∈ mapKeys info.ChildTxInfo, (t.Get k).map e.stringOfBytes = some g)
    (hfree : ∀ k ∈ mapKeys info.ChildTxInfo,
      k ≠ GlobalTxInfoKey g ∧ k ≠ TimeoutKey info.Height)
    (hlisted : listedAtMostOnce e t info.Height g)
    (hord1 : ord1.Perm (mapKeys info.ChildTxInfo))
    (hord2 : ord2.Perm (mapKeys info.ChildTxInfo)) :
    ∃ t1 t2, deliver e t (ord1.map fun k => (k, rc k)) = some t1 ∧
      deliver e t (ord2.map fun k => (k, rc k)) = some t2 ∧
      (GetObject e t1 (GlobalTxInfoKey g)).map (fun i => i.GlobalState) =
        (GetObject e t2 (GlobalTxInfoKey g)).map (fun i => i.GlobalState) ∧
      (GetObject e t1 (GlobalTxInfoKey g)).map (fun i => i.GlobalState) =
        some (specFinalGlobal (mapKeys info.ChildTxInfo) rc) := by
  obtain ⟨t1, hd1, hg1⟩ := deliver_all e t g info rc ord1 hcaller hinfo hglobal hcount hnodup
    hbegin hrec hidx hfree hlisted hord1
  obtain ⟨t2, hd2, hg2⟩ := deliver_all e t g info rc ord2 hcaller hinfo hglobal hcount hnodup
    hbegin hrec hidx hfree hlisted hord2
  exact ⟨t1, t2, hd1, hd2, hg1.trans hg2.symm, hg1⟩

/-- Witness of C13 amended: on the two-child store, `c1` succeeding and `c2` failing,
the orders `c1, c2` and `c2, c1` end at the same global state. -/
theorem C13_report_order_confluence_witness :
    ∃ t1 t2, deliver host stubTwoBegin
        (["c1", "c2"].map fun k => (k, receiptsOneSuccess k)) = some t1 ∧
      deliver host stubTwoBegin
        (["c2", "c1"].map fun k => (k, receiptsOneSuccess k)) = some t2 ∧
      (GetObject host t1 (GlobalTxInfoKey "g")).map (fun i => i.GlobalState) =
        (GetObject host t2 (GlobalTxInfoKey "g")).map (fun i => i.GlobalState) ∧
      (GetObject host t1 (GlobalTxInfoKey "g")).map (fun i => i.GlobalState) =
        some (specFinalGlobal (mapKeys [("c1", BEGIN), ("c2", BEGIN)]) receiptsOneSuccess) :=
  C13_report_order_confluence host stubTwoBegin "g"
    ⟨BEGIN, 110, [("c1", BEGIN), ("c2", BEGIN)], 2⟩ receiptsOneSuccess ["c1", "c2"]
    ["c2", "c1"] rfl rfl rfl rfl (by decide) (by decide) (by decide) (by decide) (by decide)
    (by intro b hb; cases hb; decide) (List.Perm.refl _)
    (List.Perm.swap _ _ _)

/-! ## The timeout index over the reachable states (C19) -/

theorem isIndexKey_GlobalTxInfoKey (g : String) : isIndexKey (GlobalTxInfoKey g) = true := by
  simp [isIndexKey, GlobalTxInfoKey, PREFIX, String.data_append, List.isPrefixOf]

theorem isIndexKey_TimeoutKey (h : Nat) : isIndexKey (TimeoutKey h) = true := by
  simp [isIndexKey, TimeoutKey, TimeoutPrefix, String.data_append, List.isPrefixOf]

theorem isIndexKey_TxInfoKey (x : String) : isIndexKey (TxInfoKey x) = false := by
  simp [isIndexKey, TxInfoKey, PREFIX, String.data_append, List.isPrefixOf]

theorem splitComma_append (a b : List Char) :
    splitComma (a ++ ',' :: b) = splitComma a ++ splitComma b := by
  induction a with
  | nil => simp [splitComma]
  | cons c a ih =>
    by_cases hc : c = ','
    · simp [splitComma, hc, ih]
    · have hne := splitComma_ne_nil a
      cases hs : splitComma a with
      | nil => exact absurd hs hne
      | cons x r =>
        rw [hs] at ih
        have ih2 : splitComma (a.append (',' :: b)) = x :: (r ++ splitComma b) := ih
        simp only [List.cons_append, splitComma, hc, if_false, hs, ih2]

/-- The list that `addToTimeoutList` stores over an entry reads as the old list
with the ID at its end. -/
theorem stringsSplit_append (s g : String) (hg : ',' ∉ g.data) :
    stringsSplit (s ++ "," ++ g) = stringsSplit s ++ [g] := by
  unfold stringsSplit
  have : (s ++ "," ++ g).data = s.data ++ ',' :: g.data := by
    simp [String.data_append]
  rw [this, splitComma_append, splitComma_no_comma _ hg]
  simp

theorem stringsSplit_single (g : String) (hg : ',' ∉ g.data) : stringsSplit g = [g] := by
  unfold stringsSplit
  rw [splitComma_no_comma _ hg]
  rfl

/-- The list that `removeFromTimeoutList` stores reads, for every ID that is not
empty, as the old list without the first occurrence of the removed ID. -/
theorem count_split_join (l : List String) (x : String) (hx : x ≠ "")
    (hl : ∀ y ∈ l, ',' ∉ y.data) :
    (stringsSplit (stringsJoin l)).count x = l.count x := by
  by_cases hne : l = []
  · subst hne
    have : stringsSplit (stringsJoin []) = [""] := by decide
    rw [this]
    simp [List.count_cons, Ne.symm hx]
  · rw [stringsSplit_stringsJoin l hne hl]

theorem GetObject_sameIndex (e : Env B) (t t1 : Stub B) (g : String) (h : sameIndex t t1) :
    GetObject e t1 (GlobalTxInfoKey g) = GetObject e t (GlobalTxInfoKey g) := by
  unfold GetObject
  rw [h _ (isIndexKey_GlobalTxInfoKey g)]

theorem timeoutList_sameIndex (e : Env B) (t t1 : Stub B) (height : Nat)
    (h : sameIndex t t1) : timeoutList e t1 height = timeoutList e t height := by
  unfold timeoutList
  rw [h _ (isIndexKey_TimeoutKey height)]

theorem IndexInv_sameIndex (e : Env B) (t t1 : Stub B) (h : sameIndex t t1)
    (inv : IndexInv e t) : IndexInv e t1 := by
  refine ⟨?_, ?_, ?_, ?_⟩
  · intro g info hg
    rw [GetObject_sameIndex e t t1 g h] at hg
    rw [timeoutList_sameIndex e t t1 _ h]
    exact inv.iff_begin g info hg
  · intro g hg
    rw [GetObject_sameIndex e t t1 g h] at hg
    exact inv.nonempty g hg
  · intro height x hx hne
    rw [timeoutList_sameIndex e t t1 _ h] at hx
    rw [GetObject_sameIndex e t t1 x h]
    exact inv.listed_stored height x hx hne
  · intro height x hne
    rw [timeoutList_sameIndex e t t1 _ h]
    exact inv.once height x hne

theorem sameIndex_Set (t : Stub B) (key : String) (v : B) (hk : isIndexKey key = false) :
    sameIndex t (t.Set key v) := by
  intro k hk2
  exact Stub.Get_Set_other t key k v (fun h => by rw [h, hk] at hk2; cases hk2)

theorem sameIndex_refl (t : Stub B) : sameIndex t t := fun _ _ => rfl

theorem GetObject_SetObject_global (e : Env B) (t : Stub B) (g x : String)
    (i : TransactionInfo) :
    GetObject e (SetObject e t (GlobalTxInfoKey g) i) (GlobalTxInfoKey x) =
      if x = g then some i else GetObject e t (GlobalTxInfoKey x) := by
  by_cases hx : x = g
  · subst hx
    rw [if_pos rfl]
    exact GetObject_SetObject_same e t _ i
  · rw [if_neg hx]
    unfold GetObject SetObject
    rw [Stub.Get_Set_other _ _ _ _ (fun h => hx (GlobalTxInfoKey_injective _ _ h))]

theorem timeoutList_SetObject (e : Env B) (t : Stub B) (g : String) (i : TransactionInfo)
    (height : Nat) :
    timeoutList e (SetObject e t (GlobalTxInfoKey g) i) height = timeoutList e t height := by
  unfold timeoutList SetObject
  rw [Stub.Get_Set_other _ _ _ _ (TimeoutKey_ne_GlobalTxInfoKey _ _)]

theorem GetObject_addToTimeoutList (e : Env B) (t : Stub B) (height : Nat) (g x : String) :
    GetObject e (addToTimeoutList e t height g) (GlobalTxInfoKey x) =
      GetObject e t (GlobalTxInfoKey x) := by
  unfold GetObject addToTimeoutList
  cases t.Get (TimeoutKey height) <;>
    exact congrArg (fun o => Option.bind o e.unmarshalInfo)
      (Stub.Get_Set_other _ _ _ _ (fun h => TimeoutKey_ne_GlobalTxInfoKey _ _ h.symm))

theorem timeoutList_addToTimeoutList (e : Env B) (t : Stub B) (height h2 : Nat) (g : String)
    (hg : ',' ∉ g.data) :
    timeoutList e (addToTimeoutList e t height g) h2 =
      if TimeoutKey h2 = TimeoutKey height then timeoutList e t h2 ++ [g]
      else timeoutList e t h2 := by
  by_cases hk : TimeoutKey h2 = TimeoutKey height
  · rw [if_pos hk]
    unfold timeoutList addToTimeoutList
    rw [hk]
    cases hb : t.Get (TimeoutKey height) with
    | none =>
      simp only [Stub.Get_Set_same, e.string_bytes]
      exact stringsSplit_single g hg
    | some b =>
      simp only [Stub.Get_Set_same, e.string_bytes]
      exact stringsSplit_append _ g hg
  · rw [if_neg hk]
    unfold timeoutList addToTimeoutList
    cases hb : t.Get (TimeoutKey height) with
    | none => simp only [Stub.Get_Set_other _ _ _ _ hk]
    | some b => simp only [Stub.Get_Set_other _ _ _ _ hk]

theorem GetObject_withoutTimeout (e : Env B) (t : Stub B) (height : Nat) (g x : String) :
    GetObject e (withoutTimeout e t height g) (GlobalTxInfoKey x) =
      GetObject e t (GlobalTxInfoKey x) := by
  unfold GetObject
  rw [withoutTimeout_Get_other e t height g _
    (fun h => TimeoutKey_ne_GlobalTxInfoKey _ _ h.symm)]

theorem count_withoutTimeout (e : Env B) (t : Stub B) (height h2 : Nat) (g x : String)
    (hx : x ≠ "") :
    (timeoutList e (withoutTimeout e t height g) h2).count x =
      if TimeoutKey h2 = TimeoutKey height then ((timeoutList e t h2).erase g).count x
      else (timeoutList e t h2).count x := by
  by_cases hk : TimeoutKey h2 = TimeoutKey height
  · rw [if_pos hk]
    unfold timeoutList withoutTimeout
    rw [hk]
    cases hb : t.Get (TimeoutKey height) with
    | none => simp only [hb]; rfl
    | some b =>
      simp only [Stub.Get_Set_same, e.string_bytes]
      exact count_split_join _ x hx
        (fun y hy => stringsSplit_pieces _ y (List.mem_of_mem_erase hy))
  · rw [if_neg hk]
    unfold timeoutList
    rw [withoutTimeout_Get_other e t height g _ hk]

/-- Rewriting a stored transaction without moving its state or its height keeps
the timeout index right. -/
theorem IndexInv_update_same (e : Env B) (t : Stub B) (g : String)
    (info info1 : TransactionInfo) (inv : IndexInv e t)
    (hinfo : GetObject e t (GlobalTxInfoKey g) = some info)
    (hh : info1.Height = info.Height) (hs : info1.GlobalState = info.GlobalState) :
    IndexInv e (SetObject e t (GlobalTxInfoKey g) info1) := by
  refine ⟨?_, ?_, ?_, ?_⟩
  · intro x i hx
    rw [GetObject_SetObject_global] at hx
    rw [timeoutList_SetObject]
    by_cases hxg : x = g
    · subst hxg
      rw [if_pos rfl] at hx
      cases hx
      rw [hh, hs]
      exact inv.iff_begin x info hinfo
    · rw [if_neg hxg] at hx
      exact inv.iff_begin x i hx
  · intro x hx
    rw [GetObject_SetObject_global] at hx
    by_cases hxg : x = g
    · subst hxg
      exact inv.nonempty x (by rw [hinfo]; rfl)
    · rw [if_neg hxg] at hx
      exact inv.nonempty x hx
  · intro h x hx hne
    rw [timeoutList_SetObject] at hx
    rw [GetObject_SetObject_global]
    by_cases hxg : x = g
    · rw [if_pos hxg]; rfl
    · rw [if_neg hxg]
      exact inv.listed_stored h x hx hne
  · intro h x hne
    rw [timeoutList_SetObject]
    exact inv.once h x hne

/-- Storing a new transaction that is not at `BEGIN`, without listing it, keeps
the timeout index right. -/
theorem IndexInv_create_failed (e : Env B) (t : Stub B) (g : String)
    (info1 : TransactionInfo) (inv : IndexInv e t)
    (hnone : GetObject e t (GlobalTxInfoKey g) = none) (hg : g ≠ "")
    (hs : info1.GlobalState ≠ BEGIN) :
    IndexInv e (SetObject e t (GlobalTxInfoKey g) info1) := by
  refine ⟨?_, ?_, ?_, ?_⟩
  · intro x i hx
    rw [GetObject_SetObject_global] at hx
    rw [timeoutList_SetObject]
    by_cases hxg : x = g
    · subst hxg
      rw [if_pos rfl] at hx
      cases hx
      constructor
      · intro hm
        have := inv.listed_stored _ x hm hg
        rw [hnone] at this
        cases this
      · intro hb
        exact absurd hb hs
    · rw [if_neg hxg] at hx
      exact inv.iff_begin x i hx
  · intro x hx
    rw [GetObject_SetObject_global] at hx
    by_cases hxg : x = g
    · subst hxg
      exact hg
    · rw [if_neg hxg] at hx
      exact inv.nonempty x hx
  · intro h x hx hne
    rw [timeoutList_SetObject] at hx
    rw [GetObject_SetObject_global]
    by_cases hxg : x = g
    · rw [if_pos hxg]; rfl
    · rw [if_neg hxg]
      exact inv.listed_stored h x hx hne
  · intro h x hne
    rw [timeoutList_SetObject]
    exact inv.once h x hne

/-- Storing a new transaction at `BEGIN` after listing it at its height keeps the
timeout index right. -/
theorem IndexInv_create_listed (e : Env B) (t : Stub B) (g : String)
    (info1 : TransactionInfo) (inv : IndexInv e t)
    (hnone : GetObject e t (GlobalTxInfoKey g) = none) (hg : plainGlobalID g)
    (hs : info1.GlobalState = BEGIN) :
    IndexInv e (SetObject e (addToTimeoutList e t info1.Height g) (GlobalTxInfoKey g) info1) := by
  have hnot : ∀ h, g ∉ timeoutList e t h := by
    intro h hm
    have := inv.listed_stored h g hm hg.1
    rw [hnone] at this
    cases this
  refine ⟨?_, ?_, ?_, ?_⟩
  · intro x i hx
    rw [GetObject_SetObject_global] at hx
    rw [timeoutList_SetObject, timeoutList_addToTimeoutList e t _ _ g hg.2]
    by_cases hxg : x = g
    · subst hxg
      rw [if_pos rfl] at hx
      cases hx
      rw [if_pos rfl]
      simp [hs]
    · rw [if_neg hxg, GetObject_addToTimeoutList] at hx
      have := inv.iff_begin x i hx
      split
      · rw [List.mem_append, List.mem_singleton]
        constructor
        · rintro (h | h)
          · exact this.mp h
          · exact absurd h hxg
        · intro h
          exact Or.inl (this.mpr h)
      · exact this
  · intro x hx
    rw [GetObject_SetObject_global] at hx
    by_cases hxg : x = g
    · subst hxg
      exact hg.1
    · rw [if_neg hxg, GetObject_addToTimeoutList] at hx
      exact inv.nonempty x hx
  · intro h x hx hne
    rw [timeoutList_SetObject, timeoutList_addToTimeoutList e t _ _ g hg.2] at hx
    rw [GetObject_SetObject_global]
    by_cases hxg : x = g
    · rw [if_pos hxg]; rfl
    · rw [if_neg hxg, GetObject_addToTimeoutList]
      split at hx
      · rw [List.mem_append, List.mem_singleton] at hx
        exact inv.listed_stored h x (hx.resolve_right hxg) hne
      · exact inv.listed_stored h x hx hne
  · intro h x hne
    rw [timeoutList_SetObject, timeoutList_addToTimeoutList e t _ _ g hg.2]
    split
    · rw [List.count_append]
      by_cases hxg : x = g
      · subst hxg
        rw [List.count_eq_zero_of_not_mem (hnot h)]
        simp
      · have : List.count x [g] = 0 :=
          List.count_eq_zero_of_not_mem (by simpa using hxg)
        rw [this]
        exact inv.once h x hne
    · exact inv.once h x hne

/-- Rewriting a stored transaction into a state other than `BEGIN` after taking
it out of the timeout list of its height keeps the timeout index right. -/
theorem IndexInv_update_remove (e : Env B) (t : Stub B) (g : String)
    (info info1 : TransactionInfo) (inv : IndexInv e t)
    (hinfo : GetObject e t (GlobalTxInfoKey g) = some info)
    (hh : info1.Height = info.Height) (hs : info1.GlobalState ≠ BEGIN) :
    IndexInv e (SetObject e (withoutTimeout e t info.Height g) (GlobalTxInfoKey g) info1) := by
  have hgne : g ≠ "" := inv.nonempty g (by rw [hinfo]; rfl)
  have hle : ∀ h x, x ≠ "" →
      (timeoutList e (withoutTimeout e t info.Height g) h).count x ≤
        (timeoutList e t h).count x := by
    intro h x hx
    rw [count_withoutTimeout e t _ _ g x hx]
    split
    · exact (List.erase_sublist g _).count_le x
    · exact le_refl _
  have hother : ∀ h x, x ≠ "" → x ≠ g →
      (timeoutList e (withoutTimeout e t info.Height g) h).count x =
        (timeoutList e t h).count x := by
    intro h x hx hxg
    rw [count_withoutTimeout e t _ _ g x hx]
    split
    · exact List.count_erase_of_ne hxg _
    · rfl
  refine ⟨?_, ?_, ?_, ?_⟩
  · intro x i hx
    rw [GetObject_SetObject_global] at hx
    rw [timeoutList_SetObject]
    by_cases hxg : x = g
    · subst hxg
      rw [if_pos rfl] at hx
      cases hx
      constructor
      · intro hm
        have hpos := List.count_pos_iff.mpr hm
        rw [hh, count_withoutTimeout e t _ _ x x hgne, if_pos rfl,
          List.count_erase_self] at hpos
        have := inv.once info.Height x hgne
        omega
      · intro hb
        exact absurd hb hs
    · rw [if_neg hxg, GetObject_withoutTimeout] at hx
      have hxne : x ≠ "" := inv.nonempty x (by rw [hx]; rfl)
      rw [← List.count_pos_iff, hother _ x hxne hxg, List.count_pos_iff]
      exact inv.iff_begin x i hx
  · intro x hx
    rw [GetObject_SetObject_global] at hx
    by_cases hxg : x = g
    · subst hxg
      exact hgne
    · rw [if_neg hxg, GetObject_withoutTimeout] at hx
      exact inv.nonempty x hx
  · intro h x hx hne
    rw [timeoutList_SetObject] at hx
    rw [GetObject_SetObject_global]
    by_cases hxg : x = g
    · rw [if_pos hxg]; rfl
    · rw [if_neg hxg, GetObject_withoutTimeout]
      have hpos := List.count_pos_iff.mpr hx
      rw [hother h x hne hxg] at hpos
      exact inv.listed_stored h x (List.count_pos_iff.mp hpos) hne
  · intro h x hne
    rw [timeoutList_SetObject]
    exact le_trans (hle h x hne) (inv.once h x hne)

theorem setFSM_receipt_ne_BEGIN (s s1 : TransactionStatus) (r : Int)
    (h : setFSM s (receipt2EventM r) = (s1, none)) : s1 ≠ BEGIN := by
  rcases specReceiptStep_some s s1 r (setFSM_receipt_ok s s1 r h) with
    ⟨_, _, h1⟩ | ⟨_, _, h1⟩ | ⟨_, _, h1⟩ | ⟨_, _, h1⟩ | ⟨_, _, h1⟩ <;>
  · rw [h1]; decide

/-- What a returning `changeMultiTxStatus` does to the store: nothing, the global
state staying when there is no error, or the removal from the timeout list of
the height, the global state then being other than `BEGIN`. -/
theorem changeMultiTxStatus_shape (e : Env B) (t : Stub B) (g : String)
    (info : TransactionInfo) (txId : String) (r : Int) (info1 : TransactionInfo)
    (t1 : Stub B) (err : Option (List String))
    (h : changeMultiTxStatus e t g info txId r = some (info1, t1, err)) :
    info1.Height = info.Height ∧
    ((t1 = t ∧ (err = none → info1.GlobalState = info.GlobalState)) ∨
      (err = none ∧ removeFromTimeoutList e t info.Height g = some t1 ∧
        info1.GlobalState ≠ BEGIN)) := by
  unfold changeMultiTxStatus at h
  by_cases hff : info.GlobalState = BEGIN ∧ r = IBTP_RECEIPT_FAILURE
  · rw [if_pos hff] at h
    dsimp only at h
    cases hrm : removeFromTimeoutList e t info.Height g with
    | none => rw [hrm] at h; cases h
    | some t0 =>
      rw [hrm] at h
      cases h
      have hbf : BEGIN_FAILURE ≠ BEGIN := by decide
      exact ⟨rfl, Or.inr ⟨rfl, rfl, hbf⟩⟩
  · rw [if_neg hff] at h
    cases hc : setFSM (mapGet info.ChildTxInfo txId) (receipt2EventM r) with
    | mk status cerr =>
      rw [hc] at h
      cases cerr with
      | some er =>
        dsimp only at h
        cases h
        exact ⟨rfl, Or.inl ⟨rfl, fun h2 => by cases h2⟩⟩
      | none =>
        dsimp only at h
        split at h
        · cases hgl : setFSM info.GlobalState (receipt2EventM r) with
          | mk gs gerr =>
            rw [hgl] at h
            cases gerr with
            | some er =>
              dsimp only at h
              cases h
              exact ⟨rfl, Or.inl ⟨rfl, fun h2 => by cases h2⟩⟩
            | none =>
              dsimp only at h
              cases hrm : removeFromTimeoutList e t info.Height g with
              | none => rw [hrm] at h; cases h
              | some t0 =>
                rw [hrm] at h
                cases h
                exact ⟨rfl, Or.inr ⟨rfl, rfl, setFSM_receipt_ne_BEGIN _ _ r hgl⟩⟩
        · cases h
          exact ⟨rfl, Or.inl ⟨rfl, fun _ => rfl⟩⟩

/-- A returning removal from the timeout list of a stored transaction leaves the
store that `withoutTimeout` describes. -/
theorem removeFromTimeoutList_inv (e : Env B) (t t0 : Stub B) (g : String)
    (info : TransactionInfo) (inv : IndexInv e t)
    (hinfo : GetObject e t (GlobalTxInfoKey g) = some info)
    (h : removeFromTimeoutList e t info.Height g = some t0) :
    t0 = withoutTimeout e t info.Height g := by
  have hgne : g ≠ "" := inv.nonempty g (by rw [hinfo]; rfl)
  have hdup : ∀ b, t.Get (TimeoutKey info.Height) = some b →
      (stringsSplit (e.stringOfBytes b)).count g ≤ 1 := by
    intro b hb
    have := inv.once info.Height g hgne
    unfold timeoutList at this
    rw [hb] at this
    exact this
  rw [removeFromTimeoutList_erase e t info.Height g hdup] at h
  exact (Option.some.inj h).symm

/-- The method `Report` keeps the timeout index right. -/
theorem Report_IndexInv (e : Env B) (t : Stub B) (txId : String) (r : Int)
    (resp : Response) (t1 : Stub B) (inv : IndexInv e t)
    (h : Report e t txId r = some (resp, t1)) : IndexInv e t1 := by
  unfold Report at h
  cases hcc : checkCurrentCaller t with
  | some er => rw [hcc] at h; cases h; exact inv
  | none =>
    rw [hcc] at h
    dsimp only at h
    cases hrec : t.Get (TxInfoKey txId) with
    | some recordData =>
      rw [hrec] at h
      dsimp only at h
      cases hun : e.unmarshalRecord recordData with
      | none => rw [hun] at h; cases h; exact inv
      | some record =>
        rw [hun] at h
        dsimp only at h
        cases hf : setFSM record.Status (receipt2EventM r) with
        | mk status ferr =>
          rw [hf] at h
          cases ferr with
          | some er => cases h; exact inv
          | none =>
            cases h
            exact IndexInv_sameIndex e t _ (sameIndex_Set t _ _ (isIndexKey_TxInfoKey txId)) inv
    | none =>
      rw [hrec] at h
      dsimp only at h
      cases hidx : t.Get txId with
      | none => rw [hidx] at h; cases h; exact inv
      | some val =>
        rw [hidx] at h
        dsimp only at h
        cases hinfo : GetObject e t (GlobalTxInfoKey (e.stringOfBytes val)) with
        | none => rw [hinfo] at h; cases h; exact inv
        | some info =>
          rw [hinfo] at h
          dsimp only at h
          split at h
          · cases h; exact inv
          · cases hcm : changeMultiTxStatus e t (e.stringOfBytes val) info txId r with
            | none => rw [hcm] at h; cases h
            | some p =>
              obtain ⟨info1, t0, err⟩ := p
              rw [hcm] at h
              obtain ⟨hh, hsh⟩ := changeMultiTxStatus_shape e t _ info txId r info1 t0 err hcm
              cases err with
              | some er =>
                cases h
                rcases hsh with ⟨ht, _⟩ | ⟨he, _⟩
                · rw [ht]; exact inv
                · cases he
              | none =>
                cases h
                rcases hsh with ⟨ht, hs⟩ | ⟨_, hrm, hs⟩
                · rw [ht]
                  exact IndexInv_update_same e t _ info info1 inv hinfo hh (hs rfl)
                · rw [removeFromTimeoutList_inv e t t0 _ info inv hinfo hrm]
                  exact IndexInv_update_remove e t _ info info1 inv hinfo hh hs

/-- The tail of `BeginMultiTXs` writes the reverse index entry only: with a child
ID that is not a key of the index, the index stays right. -/
theorem beginMultiTail_IndexInv (e : Env B) (t : Stub B) (change : StatusChange)
    (info : TransactionInfo) (g c : String) (resp : Response) (t1 : Stub B)
    (hc : isIndexKey c = false) (inv : IndexInv e t)
    (h : some (beginMultiTail e t change info g c) = some (resp, t1)) : IndexInv e t1 := by
  have ht : t1 = t.Set c (e.bytesOfString g) :=
    (congrArg Prod.snd (Option.some.inj h)).symm
  rw [ht]
  exact IndexInv_sameIndex e t _ (sameIndex_Set t _ _ hc) inv

/-- The method `BeginMultiTXs`, called with a plain global ID and a child ID that
is not a key of the index, keeps the timeout index right. -/
theorem BeginMultiTXs_IndexInv (e : Env B) (t : Stub B) (g c : String) (timeoutHeight : Nat)
    (isFailed : Bool) (count : Nat) (resp : Response) (t1 : Stub B)
    (hg : plainGlobalID g) (hc : isIndexKey c = false) (inv : IndexInv e t)
    (h : BeginMultiTXs e t g c timeoutHeight isFailed count = some (resp, t1)) :
    IndexInv e t1 := by
  unfold BeginMultiTXs at h
  cases hcc : checkCurrentCaller t with
  | some er => rw [hcc] at h; cases h; exact inv
  | none =>
    rw [hcc] at h
    dsimp only at h
    cases hinfo : GetObject e t (GlobalTxInfoKey g) with
    | none =>
      rw [hinfo] at h
      dsimp only at h
      cases isFailed with
      | true =>
        simp only [if_true] at h
        refine beginMultiTail_IndexInv e _ _ _ g c resp t1 hc ?_ h
        have hbf : BEGIN_FAILURE ≠ BEGIN := by decide
        exact IndexInv_create_failed e t g _ inv hinfo hg.1 hbf
      | false =>
        simp only [Bool.false_eq_true, if_false] at h
        refine beginMultiTail_IndexInv e _ _ _ g c resp t1 hc ?_ h
        exact IndexInv_create_listed e t g
          ⟨BEGIN, _, [(c, BEGIN)], count⟩ inv hinfo hg rfl
    | some info =>
      rw [hinfo] at h
      dsimp only at h
      split at h
      · cases h; exact inv
      · split at h
        · cases h
        · split at h
          · refine beginMultiTail_IndexInv e _ _ _ g c resp t1 hc ?_ h
            exact IndexInv_update_same e t g info _ inv hinfo rfl rfl
          · rename_i hgl
            split at h
            · cases hrm : removeFromTimeoutList e t info.Height g with
              | none => rw [hrm] at h; cases h
              | some t0 =>
                rw [hrm] at h
                dsimp only at h
                refine beginMultiTail_IndexInv e _ _ _ g c resp t1 hc ?_ h
                rw [removeFromTimeoutList_inv e t t0 g info inv hinfo hrm]
                have hbf : BEGIN_FAILURE ≠ BEGIN := by decide
                exact IndexInv_update_remove e t g info _ inv hinfo rfl hbf
            · refine beginMultiTail_IndexInv e _ _ _ g c resp t1 hc ?_ h
              exact IndexInv_update_same e t g info _ inv hinfo rfl rfl

theorem Begin_sameIndex (e : Env B) (t : Stub B) (txId : String) (timeoutHeight : Nat)
    (isFailed : Bool) : sameIndex t (Begin e t txId timeoutHeight isFailed).2 := by
  unfold Begin
  cases checkCurrentCaller t with
  | some er => exact sameIndex_refl t
  | none => exact sameIndex_Set t _ _ (isIndexKey_TxInfoKey txId)

theorem BeginInterBitXHub_sameIndex (e : Env B) (t : Stub B) (txId : String)
    (timeoutHeight : Nat) (proof : B) (isFailed : Bool) :
    sameIndex t (BeginInterBitXHub e t txId timeoutHeight proof isFailed).2 := by
  unfold BeginInterBitXHub
  cases checkCurrentCaller t with
  | some er => exact sameIndex_refl t
  | none =>
    dsimp only
    cases t.Get (TxInfoKey txId) with
    | some b =>
      dsimp only
      cases e.unmarshalProof proof with
      | none => exact sameIndex_refl t
      | some txStatus =>
        dsimp only
        cases hf : setFSM BEGIN (txStatus2EventM txStatus) with
        | mk status ferr =>
          cases ferr with
          | some er => exact sameIndex_refl t
          | none => exact sameIndex_Set t _ _ (isIndexKey_TxInfoKey txId)
    | none => exact sameIndex_Set t _ _ (isIndexKey_TxInfoKey txId)

theorem GetStatus_stub (e : Env B) (t : Stub B) (txId : String) :
    (GetStatus e t txId).2 = t := by
  unfold GetStatus
  repeat' first | rfl | split | (dsimp only; split)

theorem IndexInv_empty (e : Env B) (height : Nat) (caller : String) :
    IndexInv e (Stub.empty height caller : Stub B) := by
  refine ⟨?_, ?_, ?_, ?_⟩
  · intro g info h; cases h
  · intro g h; cases h
  · intro h x hx; cases hx
  · intro h x _; exact Nat.zero_le 1

/-- Every state reachable with plain global IDs and child IDs that are not keys
of the index has a right timeout index. -/
theorem Reachable_IndexInv (e : Env B) (t : Stub B)
    (h : Reachable e plainGlobalID (fun c => isIndexKey c = false) t) : IndexInv e t := by
  induction h with
  | empty height caller => exact IndexInv_empty e height caller
  | host t height caller _ ih =>
    exact IndexInv_sameIndex e t _ (fun _ _ => rfl) ih
  | begin t txId timeoutHeight isFailed _ ih =>
    exact IndexInv_sameIndex e t _ (Begin_sameIndex e t txId timeoutHeight isFailed) ih
  | beginInter t txId timeoutHeight proof isFailed _ ih =>
    exact IndexInv_sameIndex e t _
      (BeginInterBitXHub_sameIndex e t txId timeoutHeight proof isFailed) ih
  | beginMulti t g c timeoutHeight isFailed count resp t1 _ hg hc hcall ih =>
    exact BeginMultiTXs_IndexInv e t g c timeoutHeight isFailed count resp t1 hg hc ih hcall
  | report t txId r resp t1 _ hcall ih =>
    exact Report_IndexInv e t txId r resp t1 ih hcall
  | getStatus t txId _ ih =>
    rw [GetStatus_stub]
    exact ih

/-- C19, as the specification states it, fails: the entry points take any string
as an ID.  After `BeginMultiTXs("a,b", "c1", 10, false, 1)` and
`BeginMultiTXs("a", "c2", 10, true, 1)` at height 100 the transaction `a` is
stored at `BEGIN_FAILURE` with height 110, and the list under `timeout-110`,
the string `a,b`, contains `a`. -/
theorem C19_counterexample_comma_in_global_id :
    Reachable host (fun _ => True) (fun _ => True) afterCommaIDs ∧
    GetObject host afterCommaIDs (GlobalTxInfoKey "a") =
      some ⟨BEGIN_FAILURE, 110, [("c2", BEGIN_FAILURE)], 1⟩ ∧
    afterCommaIDs.Get (TimeoutKey 110) = some (.raw "a,b") ∧
    "a" ∈ timeoutList host afterCommaIDs 110 ∧
    ¬ ("a" ∈ timeoutList host afterCommaIDs 110 ↔ BEGIN_FAILURE = BEGIN) := by
  refine ⟨?_, ?_, ?_, ?_, ?_⟩
  · exact Reachable.beginMulti afterCommaFirst "a" "c2" 10 true 1
      (Response.Success (Payload.change ⟨-1, 1, ["c2"], [], [], false⟩)) afterCommaIDs
      (Reachable.beginMulti (Stub.empty 100 InterchainContractAddr) "a,b" "c1" 10 false 1
        (Response.Success (Payload.change ⟨-1, 0, ["c1"], [], [], false⟩)) afterCommaFirst
        (Reachable.empty 100 InterchainContractAddr) trivial trivial rfl)
      trivial trivial rfl
  · decide
  · decide
  · decide
  · decide

/-- C19, amended.  In every state reachable from the empty store through the
entry points, when the global IDs passed to `BeginMultiTXs` are not empty and
hold no comma and the child IDs passed to it do not start with `global-tx-` or
`timeout-`: for every stored transaction info, its global ID is in the list
stored under the timeout key of its height if and only if its global state is
`BEGIN`. -/
theorem C19_timeout_index_iff_begin (e : Env B) (t : Stub B) (g : String)
    (info : TransactionInfo)
    (hreach : Reachable e plainGlobalID (fun c => isIndexKey c = false) t)
    (hinfo : GetObject e t (GlobalTxInfoKey g) = some info) :
    g ∈ timeoutList e t info.Height ↔ info.GlobalState = BEGIN :=
  (Reachable_IndexInv e t hreach).iff_begin g info hinfo

/-- Witness of C19 amended: the state after one `BeginMultiTXs("g", "c1", 10,
false, 2)` at height 100 on the empty store is reachable, stores `g` at `BEGIN`
with height 110, and lists `g` under `timeout-110`. -/
theorem C19_timeout_index_iff_begin_witness :
    Reachable host plainGlobalID (fun c => isIndexKey c = false) afterPlainBegin ∧
    GetObject host afterPlainBegin (GlobalTxInfoKey "g") =
      some ⟨BEGIN, 110, [("c1", BEGIN)], 2⟩ ∧
    ("g" ∈ timeoutList host afterPlainBegin 110 ↔ BEGIN = BEGIN) :=
  have hr : Reachable host plainGlobalID (fun c => isIndexKey c = false) afterPlainBegin :=
    Reachable.beginMulti (Stub.empty 100 InterchainContractAddr) "g" "c1" 10 false 2
      (Response.Success (Payload.change
        ⟨-1, 0, ["c1"], [], [], false⟩))
      afterPlainBegin (Reachable.empty 100 InterchainContractAddr) (by decide) (by decide) rfl
  ⟨hr, by decide,
    C19_timeout_index_iff_begin host afterPlainBegin "g" ⟨BEGIN, 110, [("c1", BEGIN)], 2⟩
      hr (by decide)⟩

/-! ## The entry points `Begin` and `BeginInterBitXHub` (C21 to C25) -/

/-- The method `Begin` called by the dispatcher, as an equation. -/
theorem Begin_eq (e : Env B) (t : Stub B) (txId : String) (th : Nat) (f : Bool)
    (hcaller : t.CurrentCaller = InterchainContractAddr) :
    Begin e t txId th f =
      (.Success (.change ⟨-1, (beginStatus f).toInt, [], [], [], false⟩),
        t.Set (TxInfoKey txId)
          (e.marshalRecord ⟨beginStatus f, specTimeoutHeight t.CurrentHeight th⟩)) := by
  unfold Begin checkCurrentCaller
  simp only [hcaller, ne_eq, not_true_eq_false, if_false]
  rw [← specTimeoutHeight_eq]
  by_cases hc : th = 0 ∨ th ≥ MaxUint64 - t.CurrentHeight <;> cases f <;>
    simp only [hc, if_true, if_false, Bool.false_eq_true, beginStatus, Stub.Add,
      StatusChange.zero] <;> rfl

/-- The method `BeginInterBitXHub` when no record is stored: it is `Begin`. -/
theorem BeginInterBitXHub_no_record (e : Env B) (t : Stub B) (txId : String) (th : Nat)
    (proof : B) (f : Bool) (hrec : t.Get (TxInfoKey txId) = none) :
    BeginInterBitXHub e t txId th proof f = Begin e t txId th f := by
  unfold BeginInterBitXHub Begin
  cases checkCurrentCaller t with
  | some er => rfl
  | none =>
    simp only [hrec]

/-- The method `BeginInterBitXHub`, called by the dispatcher, when some bytes are
stored under the record key: they are not read. -/
theorem BeginInterBitXHub_record (e : Env B) (t : Stub B) (txId : String) (th : Nat)
    (proof b : B) (f : Bool)
    (hcaller : t.CurrentCaller = InterchainContractAddr)
    (hrec : t.Get (TxInfoKey txId) = some b) :
    BeginInterBitXHub e t txId th proof f =
      match e.unmarshalProof proof with
      | none => (.Error .TransactionStateErrCode [txId, "unmarshal proof"], t)
      | some txStatus =>
        if txStatus = BEGIN_FAILURE.toInt then
          (.Success (.change ⟨BEGIN.toInt, FAILURE.toInt, [], [], [], false⟩),
            t.Set (TxInfoKey txId) (e.marshalRecord ⟨FAILURE, 0⟩))
        else if txStatus = BEGIN_ROLLBACK.toInt then
          (.Success (.change ⟨BEGIN.toInt, ROLLBACK.toInt, [], [], [], false⟩),
            t.Set (TxInfoKey txId) (e.marshalRecord ⟨ROLLBACK, 0⟩))
        else (.Error .TransactionStateErrCode [txId, BEGIN.name, toString txStatus], t) := by
  unfold BeginInterBitXHub checkCurrentCaller
  simp only [hcaller, ne_eq, not_true_eq_false, if_false, hrec]
  cases e.unmarshalProof proof with
  | none => rfl
  | some txStatus =>
    dsimp only
    by_cases h1 : txStatus = BEGIN_FAILURE.toInt
    · subst h1
      rfl
    · by_cases h2 : txStatus = BEGIN_ROLLBACK.toInt
      · subst h2
        rfl
      · have hev : txStatus2EventM txStatus = "" := by
          unfold txStatus2EventM
          rw [if_neg h1, if_neg h2]
        rw [if_neg h1, if_neg h2, hev,
          setFSM_unknown BEGIN "" (by decide) (by decide) (by decide) (by decide)
            (by decide) (by decide) (by decide) (by decide)]

/-- C21: the height stored by `Begin`, by `BeginInterBitXHub` when it creates the
record and by `BeginMultiTXs` when it creates the transaction info is the largest
`uint64` when the timeout is zero or at least that value minus the current
height, and the sum otherwise, which then does not wrap; for a timeout other
than zero it is the smaller of the sum and the largest `uint64`, and it is never
below the current height. -/
theorem C21_stored_height (e : Env B) (t : Stub B) (txId g c : String) (th n : Nat)
    (proof : B) (f : Bool)
    (hcaller : t.CurrentCaller = InterchainContractAddr)
    (hcur : t.CurrentHeight ≤ MaxUint64) :
    (Begin e t txId th f).2.Get (TxInfoKey txId) =
      some (e.marshalRecord ⟨beginStatus f, specTimeoutHeight t.CurrentHeight th⟩) ∧
    (t.Get (TxInfoKey txId) = none →
      (BeginInterBitXHub e t txId th proof f).2.Get (TxInfoKey txId) =
        some (e.marshalRecord ⟨beginStatus f, specTimeoutHeight t.CurrentHeight th⟩)) ∧
    (GetObject e t (GlobalTxInfoKey g) = none → c ≠ GlobalTxInfoKey g →
      ∃ resp t1, BeginMultiTXs e t g c th f n = some (resp, t1) ∧
        GetObject e t1 (GlobalTxInfoKey g) =
          some ⟨beginStatus f, specTimeoutHeight t.CurrentHeight th,
            [(c, beginStatus f)], n⟩) ∧
    (th = 0 ∨ th ≥ MaxUint64 - t.CurrentHeight →
      specTimeoutHeight t.CurrentHeight th = MaxUint64) ∧
    (¬ (th = 0 ∨ th ≥ MaxUint64 - t.CurrentHeight) →
      specTimeoutHeight t.CurrentHeight th = t.CurrentHeight + th ∧
      t.CurrentHeight + th < 2 ^ 64) ∧
    (th ≠ 0 → specTimeoutHeight t.CurrentHeight th = min (t.CurrentHeight + th) MaxUint64) ∧
    t.CurrentHeight ≤ specTimeoutHeight t.CurrentHeight th ∧
    specTimeoutHeight t.CurrentHeight th ≤ MaxUint64 := by
  have hmax : MaxUint64 = 2 ^ 64 - 1 := rfl
  have hbegin := Begin_eq e t txId th f hcaller
  refine ⟨?_, ?_, ?_, ?_, ?_, ?_, ?_, ?_⟩
  · rw [hbegin]
    exact Stub.Get_Set_same _ _ _
  · intro hrec
    rw [BeginInterBitXHub_no_record e t txId th proof f hrec, hbegin]
    exact Stub.Get_Set_same _ _ _
  · intro hnone hc
    refine ⟨_, _, BeginMultiTXs_create e t g c th n f hcaller hnone, ?_⟩
    unfold GetObject
    rw [Stub.Get_Set_other _ _ _ _ (fun h => hc h.symm), Stub.Get_Set_same]
    exact e.info_roundtrip _
  · intro h
    unfold specTimeoutHeight
    rw [if_pos h]
  · intro h
    unfold specTimeoutHeight
    rw [if_neg h]
    refine ⟨rfl, ?_⟩
    omega
  · intro h0
    unfold specTimeoutHeight
    split
    · rename_i h
      rcases h with h | h
      · exact absurd h h0
      · exact (Nat.min_eq_right (by omega)).symm
    · rename_i h
      exact (Nat.min_eq_left (by omega)).symm
  · unfold specTimeoutHeight
    split
    · exact hcur
    · exact Nat.le_add_right _ _
  · unfold specTimeoutHeight
    split
    · exact le_refl _
    · omega

/-- Witness of C21: at height 100 a timeout of 10 gives the height 110. -/
theorem C21_stored_height_witness :
    (Begin host (emptyStub 100 InterchainContractAddr) "a" 10 false).2.Get (TxInfoKey "a") =
      some (.record ⟨BEGIN, 110⟩) ∧
    specTimeoutHeight 100 10 = 110 ∧ specTimeoutHeight 100 0 = MaxUint64 ∧
    specTimeoutHeight 100 MaxUint64 = MaxUint64 :=
  ⟨(C21_stored_height host (emptyStub 100 InterchainContractAddr) "a" "g" "c1" 10 2
      (.raw "") false rfl (by decide)).1,
    by decide, by decide, by decide⟩

/-- C24: when no record is stored under the record key, `BeginInterBitXHub`
returns the response and the store of `Begin` on the same store, height and
caller, whatever the proof bytes, the timeout and the flag. -/
theorem C24_begin_inter_is_begin (e : Env B) (t : Stub B) (txId : String) (th : Nat)
    (proof : B) (f : Bool) (hrec : t.Get (TxInfoKey txId) = none) :
    BeginInterBitXHub e t txId th proof f = Begin e t txId th f :=
  BeginInterBitXHub_no_record e t txId th proof f hrec

/-- Witness of C24: on the empty store, with proof bytes that do not decode. -/
theorem C24_begin_inter_is_begin_witness :
    (emptyStub 100 InterchainContractAddr).Get (TxInfoKey "a") = none ∧
    host.unmarshalProof (.raw "junk") = none ∧
    BeginInterBitXHub host (emptyStub 100 InterchainContractAddr) "a" 10 (.raw "junk") true =
      Begin host (emptyStub 100 InterchainContractAddr) "a" 10 true :=
  ⟨rfl, rfl, C24_begin_inter_is_begin host (emptyStub 100 InterchainContractAddr) "a" 10
    (.raw "junk") true rfl⟩

/-- C25: on every store `Begin` by the dispatcher succeeds with the change from
`-1` to the begin status and empty ID lists; it issues exactly one write, of the
fresh record with the begin status and the saturating height under the record
key, over whatever was there; every other key, the timeout entries among them,
holds what it held. -/
theorem C25_begin_writes_one_record (e : Env B) (t : Stub B) (txId : String) (th : Nat)
    (f : Bool) (hcaller : t.CurrentCaller = InterchainContractAddr) :
    (Begin e t txId th f).1 =
      .Success (.change ⟨-1, (beginStatus f).toInt, [], [], [], false⟩) ∧
    (Begin e t txId th f).2.writes = t.writes ++
      [(TxInfoKey txId,
        e.marshalRecord ⟨beginStatus f, specTimeoutHeight t.CurrentHeight th⟩)] ∧
    (Begin e t txId th f).2.Get (TxInfoKey txId) =
      some (e.marshalRecord ⟨beginStatus f, specTimeoutHeight t.CurrentHeight th⟩) ∧
    (∀ k, k ≠ TxInfoKey txId → (Begin e t txId th f).2.Get k = t.Get k) ∧
    (∀ h, (Begin e t txId th f).2.Get (TimeoutKey h) = t.Get (TimeoutKey h)) ∧
    (Begin e t txId th f).2.CurrentHeight = t.CurrentHeight ∧
    (Begin e t txId th f).2.CurrentCaller = t.CurrentCaller := by
  rw [Begin_eq e t txId th f hcaller]
  refine ⟨rfl, rfl, Stub.Get_Set_same _ _ _, ?_, ?_, rfl, rfl⟩
  · intro k hk
    exact Stub.Get_Set_other _ _ _ _ hk
  · intro h
    exact Stub.Get_Set_other _ _ _ _ (TimeoutKey_ne_TxInfoKey _ _)

/-- Witness of C25: `Begin` over a stored record at `SUCCESS`. -/
theorem C25_begin_writes_one_record_witness :
    (stubRecord SUCCESS 110).Get (TxInfoKey "a") = some (.record ⟨SUCCESS, 110⟩) ∧
    (Begin host (stubRecord SUCCESS 110) "a" 10 true).1 =
      .Success (.change ⟨-1, 1, [], [], [], false⟩) ∧
    (Begin host (stubRecord SUCCESS 110) "a" 10 true).2.writes =
      [("tx-a", .record ⟨BEGIN_FAILURE, 110⟩)] :=
  ⟨rfl,
    (C25_begin_writes_one_record host (stubRecord SUCCESS 110) "a" 10 true rfl).1,
    (C25_begin_writes_one_record host (stubRecord SUCCESS 110) "a" 10 true rfl).2.1⟩

/-- C22 does not hold on the code: `BeginInterBitXHub` drops the bytes of the
stored record and runs the state machine on the zero record.  Whatever status
`s` and height `h` the record `tx-a` holds, the terminal ones included, the call
with a proof of `BEGIN_FAILURE` succeeds with the change from `BEGIN` to
`FAILURE` and overwrites the record with `FAILURE` at height 0; with a proof of
`BEGIN_ROLLBACK` it overwrites it with `ROLLBACK` at height 0. -/
theorem C22_begin_inter_overwrites_stored_record (s : TransactionStatus) (h th : Nat)
    (f : Bool) :
    (stubRecord s h).Get (TxInfoKey "a") = some (.record ⟨s, h⟩) ∧
    BeginInterBitXHub host (stubRecord s h) "a" th (.proof 1) f =
      (.Success (.change ⟨0, 4, [], [], [], false⟩),
        (stubRecord s h).Set "tx-a" (.record ⟨FAILURE, 0⟩)) ∧
    BeginInterBitXHub host (stubRecord s h) "a" th (.proof 2) f =
      (.Success (.change ⟨0, 5, [], [], [], false⟩),
        (stubRecord s h).Set "tx-a" (.record ⟨ROLLBACK, 0⟩)) ∧
    ((BeginInterBitXHub host (stubRecord s h) "a" th (.proof 1) f).2.Get "tx-a") =
      some (.record ⟨FAILURE, 0⟩) := by
  have h1 := BeginInterBitXHub_record host (stubRecord s h) "a" th (.proof 1)
    (.record ⟨s, h⟩) f rfl rfl
  have h2 := BeginInterBitXHub_record host (stubRecord s h) "a" th (.proof 2)
    (.record ⟨s, h⟩) f rfl rfl
  refine ⟨rfl, h1, h2, ?_⟩
  rw [h1]
  rfl

/-- C23 holds on the code but for the height: on the record `tx-a` at `BEGIN`
with height `h`, a proof of `BEGIN_FAILURE` (of `BEGIN_ROLLBACK`) gives the
change from `BEGIN` to `FAILURE` (to `ROLLBACK`), and proof bytes that do not
decode, or that decode to another status, give the state error and no write;
the record stored has the new status and the height 0, whatever `h` is. -/
theorem C23_begin_inter_advances_and_drops_height (h th : Nat) (f : Bool) :
    (stubRecord BEGIN h).Get (TxInfoKey "a") = some (.record ⟨BEGIN, h⟩) ∧
    (∀ st : Int, BeginInterBitXHub host (stubRecord BEGIN h) "a" th (.proof st) f =
      if st = 1 then
        (.Success (.change ⟨0, 4, [], [], [], false⟩),
          (stubRecord BEGIN h).Set "tx-a" (.record ⟨FAILURE, 0⟩))
      else if st = 2 then
        (.Success (.change ⟨0, 5, [], [], [], false⟩),
          (stubRecord BEGIN h).Set "tx-a" (.record ⟨ROLLBACK, 0⟩))
      else (.Error .TransactionStateErrCode ["a", "BEGIN", toString st], stubRecord BEGIN h)) ∧
    BeginInterBitXHub host (stubRecord BEGIN h) "a" th (.raw "junk") f =
      (.Error .TransactionStateErrCode ["a", "unmarshal proof"], stubRecord BEGIN h) ∧
    (BeginInterBitXHub host (stubRecord BEGIN h) "a" th (.proof 1) f).2.Get "tx-a" =
      some (.record ⟨FAILURE, 0⟩) ∧
    (BeginInterBitXHub host (stubRecord BEGIN h) "a" th (.proof 2) f).2.Get "tx-a" =
      some (.record ⟨ROLLBACK, 0⟩) := by
  have hall := fun st : Int => BeginInterBitXHub_record host (stubRecord BEGIN h) "a" th
    (.proof st) (.record ⟨BEGIN, h⟩) f rfl rfl
  have h3 := BeginInterBitXHub_record host (stubRecord BEGIN h) "a" th (.raw "junk")
    (.record ⟨BEGIN, h⟩) f rfl rfl
  refine ⟨rfl, fun st => hall st, h3, ?_, ?_⟩
  · rw [hall 1]
    rfl
  · rw [hall 2]
    rfl

/-! ## The entry point `GetStatus` and the lookups of `Report` (C26 to C28) -/

/-- The response of `GetStatus` depends on the store only through what `Get`
returns. -/
theorem GetStatus_response_of_Get (e : Env B) (t1 t : Stub B) (txId : String)
    (h : ∀ k, t1.Get k = t.Get k) : (GetStatus e t1 txId).1 = (GetStatus e t txId).1 := by
  have hg : ∀ k, GetObject e t1 k = GetObject e t k := by
    intro k
    unfold GetObject
    rw [h]
  unfold GetStatus
  rw [h (TxInfoKey txId)]
  cases t.Get (TxInfoKey txId) with
  | some b =>
    dsimp only
    cases e.unmarshalRecord b <;> rfl
  | none =>
    dsimp only
    rw [hg]
    cases GetObject e t (GlobalTxInfoKey txId) with
    | some info => rfl
    | none =>
      dsimp only
      rw [h txId]
      cases t.Get txId with
      | none => rfl
      | some val =>
        dsimp only
        rw [hg]
        cases GetObject e t (GlobalTxInfoKey (e.stringOfBytes val)) <;> rfl

/-- C26, amended: `GetStatus` returns the stub it was given, and its response is the same
whatever the caller and the height.  The response is the decimal string of the
status of the record when the record key holds bytes that decode (the internal
error when they do not decode); else of the global state stored under the global
key of the ID; else of the global state of the transaction that the reverse
index names for the ID, not of the status of the child; the
nonexistent-global-ID error when the reverse index has no entry and the
nonexistent-global-transaction error when the transaction it names is not
stored. -/
theorem C26_get_status (e : Env B) (t : Stub B) (txId : String) :
    (GetStatus e t txId).2 = t ∧
    (∀ height caller,
      (GetStatus e { t with CurrentHeight := height, CurrentCaller := caller } txId).1 =
        (GetStatus e t txId).1) ∧
    (∀ b record, t.Get (TxInfoKey txId) = some b → e.unmarshalRecord b = some record →
      (GetStatus e t txId).1 = .Success (.text (toString record.Status.toInt))) ∧
    (∀ b, t.Get (TxInfoKey txId) = some b → e.unmarshalRecord b = none →
      (GetStatus e t txId).1 = .Error .TransactionInternalErrCode ["unmarshal record"]) ∧
    (t.Get (TxInfoKey txId) = none →
      (∀ info, GetObject e t (GlobalTxInfoKey txId) = some info →
        (GetStatus e t txId).1 = .Success (.text (toString info.GlobalState.toInt))) ∧
      (GetObject e t (GlobalTxInfoKey txId) = none →
        (t.Get txId = none →
          (GetStatus e t txId).1 = .Error .TransactionNonexistentGlobalIdCode [txId]) ∧
        (∀ val, t.Get txId = some val →
          (∀ info, GetObject e t (GlobalTxInfoKey (e.stringOfBytes val)) = some info →
            (GetStatus e t txId).1 =
              .Success (.text (toString info.GlobalState.toInt))) ∧
          (GetObject e t (GlobalTxInfoKey (e.stringOfBytes val)) = none →
            (GetStatus e t txId).1 =
              .Error .TransactionNonexistentGlobalTxCode [e.stringOfBytes val, txId])))) ∧
    (∀ s : TransactionStatus, toString s.toInt =
      match s with
      | .BEGIN => "0" | .BEGIN_FAILURE => "1" | .BEGIN_ROLLBACK => "2"
      | .SUCCESS => "3" | .FAILURE => "4" | .ROLLBACK => "5") := by
  refine ⟨GetStatus_stub e t txId, ?_, ?_, ?_, ?_, ?_⟩
  · intro height caller
    exact GetStatus_response_of_Get e _ t txId (fun _ => rfl)
  · intro b record hb hr
    unfold GetStatus
    simp only [hb, hr]
  · intro b hb hr
    unfold GetStatus
    simp only [hb, hr]
  · intro hrec
    refine ⟨?_, ?_⟩
    · intro info hinfo
      unfold GetStatus
      simp only [hrec, hinfo]
    · intro hnone
      refine ⟨?_, ?_⟩
      · intro hidx
        unfold GetStatus
        simp only [hrec, hnone, hidx]
      · intro val hidx
        refine ⟨?_, ?_⟩
        · intro info hinfo
          unfold GetStatus
          simp only [hrec, hnone, hidx, hinfo]
        · intro hg
          unfold GetStatus
          simp only [hrec, hnone, hidx, hg]
  · intro s
    cases s <;> decide

/-- Witness of C26 amended: for a child at `BEGIN` under a transaction at `BEGIN_FAILURE`,
asked by a caller that is not the dispatcher, the answer is `1`, the code of the
global state. -/
theorem C26_get_status_witness :
    stubChildUnderFailedGlobal.CurrentCaller ≠ InterchainContractAddr ∧
    stubChildUnderFailedGlobal.Get (TxInfoKey "c1") = none ∧
    GetObject host stubChildUnderFailedGlobal (GlobalTxInfoKey "c1") = none ∧
    (GetStatus host stubChildUnderFailedGlobal "c1").1 = .Success (.text "1") :=
  ⟨by decide, rfl, rfl,
    ((((C26_get_status host stubChildUnderFailedGlobal "c1").2.2.2.2.1 rfl).2 rfl).2
      (.raw "g") rfl).1 ⟨BEGIN_FAILURE, 110, [("c1", BEGIN), ("c2", FAILURE)], 2⟩ rfl⟩

/-- C27: for `Report` by the dispatcher on an ID without a record, and for every
receipt: the nonexistent-transaction error when the reverse index has no entry
for the ID, the nonexistent-global-transaction error when the transaction it
names is not stored, the internal error when the stored transaction does not
hold the ID among its children; the stub returned is the stub given, so nothing
is written. -/
theorem C27_report_lookup_errors (e : Env B) (t : Stub B) (txId : String) (r : Int)
    (hcaller : t.CurrentCaller = InterchainContractAddr)
    (hrec : t.Get (TxInfoKey txId) = none) :
    (t.Get txId = none →
      Report e t txId r = some (.Error .TransactionNonexistentTxCode [txId], t)) ∧
    (∀ val, t.Get txId = some val →
      (GetObject e t (GlobalTxInfoKey (e.stringOfBytes val)) = none →
        Report e t txId r =
          some (.Error .TransactionNonexistentGlobalTxCode [e.stringOfBytes val, txId], t)) ∧
      (∀ info, GetObject e t (GlobalTxInfoKey (e.stringOfBytes val)) = some info →
        txId ∉ mapKeys info.ChildTxInfo →
        Report e t txId r =
          some (.Error .TransactionInternalErrCode [txId, e.stringOfBytes val], t))) := by
  refine ⟨?_, ?_⟩
  · intro hidx
    unfold Report checkCurrentCaller
    simp only [hcaller, ne_eq, not_true_eq_false, if_false, hrec, hidx]
  · intro val hidx
    refine ⟨?_, ?_⟩
    · intro hnone
      unfold Report checkCurrentCaller
      simp only [hcaller, ne_eq, not_true_eq_false, if_false, hrec, hidx, hnone]
    · intro info hinfo hnot
      have hl := not_mem_lookup_none _ _ hnot
      unfold Report checkCurrentCaller
      simp only [hcaller, ne_eq, not_true_eq_false, if_false, hrec, hidx, hinfo, hl,
        Option.isNone_none, if_true]

/-- Witness of C27: the three errors on a store with a dangling reverse index. -/
theorem C27_report_lookup_errors_witness :
    Report host stubDanglingIndex "zz" IBTP_RECEIPT_SUCCESS =
      some (.Error .TransactionNonexistentTxCode ["zz"], stubDanglingIndex) ∧
    Report host stubDanglingIndex "c0" IBTP_RECEIPT_FAILURE =
      some (.Error .TransactionNonexistentGlobalTxCode ["g0", "c0"], stubDanglingIndex) ∧
    Report host stubDanglingIndex "c9" IBTP_RECEIPT_ROLLBACK =
      some (.Error .TransactionInternalErrCode ["c9", "g"], stubDanglingIndex) :=
  ⟨(C27_report_lookup_errors host stubDanglingIndex "zz" IBTP_RECEIPT_SUCCESS rfl rfl).1 rfl,
    ((C27_report_lookup_errors host stubDanglingIndex "c0" IBTP_RECEIPT_FAILURE rfl rfl).2
      (.raw "g0") rfl).1 rfl,
    ((C27_report_lookup_errors host stubDanglingIndex "c9" IBTP_RECEIPT_ROLLBACK rfl rfl).2
      (.raw "g") rfl).2 ⟨BEGIN, 110, [("c1", BEGIN)], 2⟩ rfl (by decide)⟩

/-- C28: on every store, after `Begin` of an ID by the dispatcher, not failed,
`GetStatus` of the ID returns `0`, the code of `BEGIN`; the success receipt
reported for the ID then succeeds with the change from `BEGIN` to `SUCCESS`, and
`GetStatus` returns `3`, the code of `SUCCESS`. -/
theorem C28_begin_report_get_status (e : Env B) (t : Stub B) (txId : String) (th : Nat)
    (hcaller : t.CurrentCaller = InterchainContractAddr) :
    (GetStatus e (Begin e t txId th false).2 txId).1 = .Success (.text "0") ∧
    toString BEGIN.toInt = "0" ∧ toString SUCCESS.toInt = "3" ∧
    ∃ t2, Report e (Begin e t txId th false).2 txId IBTP_RECEIPT_SUCCESS =
        some (.Success (.change ⟨0, 3, [], [], [], false⟩), t2) ∧
      (GetStatus e t2 txId).1 = .Success (.text "3") := by
  rw [Begin_eq e t txId th false hcaller]
  refine ⟨?_, by decide, by decide, ?_⟩
  · unfold GetStatus
    simp only [Stub.Get_Set_same, e.record_roundtrip]
    rfl
  · refine ⟨(t.Set (TxInfoKey txId)
        (e.marshalRecord ⟨beginStatus false, specTimeoutHeight t.CurrentHeight th⟩)).Set
        (TxInfoKey txId)
        (e.marshalRecord ⟨SUCCESS, specTimeoutHeight t.CurrentHeight th⟩), ?_, ?_⟩
    · have hf : setFSM BEGIN (receipt2EventM IBTP_RECEIPT_SUCCESS) = (SUCCESS, none) := by
        decide
      unfold Report checkCurrentCaller
      simp only [Stub.Set_CurrentCaller, hcaller, ne_eq, not_true_eq_false, if_false,
        Stub.Get_Set_same, e.record_roundtrip, beginStatus, Bool.false_eq_true, hf]
      rfl
    · unfold GetStatus
      simp only [Stub.Get_Set_same, e.record_roundtrip]
      rfl

/-- Witness of C28: on a store where the ID already has a record at `SUCCESS`. -/
theorem C28_begin_report_get_status_witness :
    (GetStatus host (Begin host (stubRecord SUCCESS 110) "a" 10 false).2 "a").1 =
      .Success (.text "0") ∧
    toString BEGIN.toInt = "0" ∧ toString SUCCESS.toInt = "3" ∧
    ∃ t2, Report host (Begin host (stubRecord SUCCESS 110) "a" 10 false).2 "a"
          IBTP_RECEIPT_SUCCESS =
        some (.Success (.change ⟨0, 3, [], [], [], false⟩), t2) ∧
      (GetStatus host t2 "a").1 = .Success (.text "3") :=
  C28_begin_report_get_status host (stubRecord SUCCESS 110) "a" 10 rfl

/-! ## The child list of a report (C30) -/

theorem data_lt_iff (a b : String) : a.data < b.data ↔ a < b :=
  String.lt_iff_toList_lt.symm

/-- The insertion of `sort.Strings` is the ordered insertion for the order of
strings. -/
theorem insertSorted_eq (a : String) (l : List String) :
    insertSorted a l = List.orderedInsert (fun x y => x ≤ y) a l := by
  induction l with
  | nil => rfl
  | cons b l ih =>
    unfold insertSorted
    rw [List.orderedInsert]
    by_cases h : b.data < a.data
    · have h2 : ¬ a ≤ b := not_le.mpr ((data_lt_iff b a).mp h)
      rw [if_pos h, if_neg h2, ih]
    · have h2 : a ≤ b := not_lt.mp (fun hlt => h ((data_lt_iff b a).mpr hlt))
      rw [if_neg h, if_pos h2]

theorem sortStrings_eq (l : List String) :
    sortStrings l = List.insertionSort (fun x y => x ≤ y) l := by
  induction l with
  | nil => rfl
  | cons a l ih =>
    unfold sortStrings
    rw [List.insertionSort, insertSorted_eq, ih]

theorem sortStrings_sorted (l : List String) :
    List.Sorted (fun x y => x ≤ y) (sortStrings l) := by
  rw [sortStrings_eq]
  exact List.sorted_insertionSort (fun x y : String => x ≤ y) l

theorem sortStrings_perm (l : List String) : (sortStrings l).Perm l := by
  rw [sortStrings_eq]
  exact List.perm_insertionSort (fun x y : String => x ≤ y) l

/-- A successful report on an ID without a record: the transaction info that
`changeMultiTxStatus` leaves is stored under the global key that the reverse
index names, and the change is built from it. -/
theorem Report_multi_success (e : Env B) (t t1 : Stub B) (txId : String) (r : Int)
    (change : StatusChange)
    (hrec : t.Get (TxInfoKey txId) = none)
    (h : Report e t txId r = some (.Success (.change change), t1)) :
    ∃ val info info1 t0, t.Get txId = some val ∧
      GetObject e t (GlobalTxInfoKey (e.stringOfBytes val)) = some info ∧
      changeMultiTxStatus e t (e.stringOfBytes val) info txId r = some (info1, t0, none) ∧
      change = multiChange e info.GlobalState info1 txId ∧
      t1 = SetObject e t0 (GlobalTxInfoKey (e.stringOfBytes val)) info1 := by
  unfold Report at h
  cases hcc : checkCurrentCaller t with
  | some er => rw [hcc] at h; cases h
  | none =>
    rw [hcc] at h
    dsimp only at h
    rw [hrec] at h
    dsimp only at h
    cases hidx : t.Get txId with
    | none => rw [hidx] at h; cases h
    | some val =>
      rw [hidx] at h
      dsimp only at h
      cases hinfo : GetObject e t (GlobalTxInfoKey (e.stringOfBytes val)) with
      | none => rw [hinfo] at h; cases h
      | some info =>
        rw [hinfo] at h
        dsimp only at h
        split at h
        · cases h
        · cases hcm : changeMultiTxStatus e t (e.stringOfBytes val) info txId r with
          | none => rw [hcm] at h; cases h
          | some p =>
            obtain ⟨info1, t0, err⟩ := p
            rw [hcm] at h
            cases err with
            | some er => cases h
            | none =>
              dsimp only at h
              have h1 := Option.some.inj h
              have hch := Payload.change.inj (Response.Success.inj (congrArg Prod.fst h1))
              have ht := congrArg Prod.snd h1
              exact ⟨val, info, info1, t0, rfl, hinfo, hcm, hch.symm, ht.symm⟩

/-- C30, amended: for every successful `Report` on an ID without a record of its
own, so on a child of a stored transaction, the child list of the change is in ascending order of
strings and is a listing of the keys of the children of the transaction info
that the call leaves stored; it has no duplicate as the keys have none, and is
then strictly ascending. -/
theorem C30_report_child_ids_sorted (e : Env B) (t t1 : Stub B) (txId : String) (r : Int)
    (change : StatusChange)
    (hrec : t.Get (TxInfoKey txId) = none)
    (h : Report e t txId r = some (.Success (.change change), t1)) :
    ∃ val info1, t.Get txId = some val ∧
      GetObject e t1 (GlobalTxInfoKey (e.stringOfBytes val)) = some info1 ∧
      List.Sorted (fun x y => x ≤ y) change.ChildIBTPIDs ∧
      change.ChildIBTPIDs.Perm (mapKeys info1.ChildTxInfo) ∧
      (∀ k, k ∈ change.ChildIBTPIDs ↔ k ∈ mapKeys info1.ChildTxInfo) ∧
      ((mapKeys info1.ChildTxInfo).Nodup →
        change.ChildIBTPIDs.Nodup ∧ List.Sorted (fun x y => x < y) change.ChildIBTPIDs) := by
  obtain ⟨val, info, info1, t0, hidx, _, _, hch, ht⟩ :=
    Report_multi_success e t t1 txId r change hrec h
  have hids : change.ChildIBTPIDs =
      sortStrings (e.rangeOrder 306 (mapKeys info1.ChildTxInfo)) := by
    rw [hch]
    rfl
  have hperm : change.ChildIBTPIDs.Perm (mapKeys info1.ChildTxInfo) := by
    rw [hids]
    exact (sortStrings_perm _).trans (e.rangeOrder_perm 306 _)
  have hsorted : List.Sorted (fun x y => x ≤ y) change.ChildIBTPIDs := by
    rw [hids]
    exact sortStrings_sorted _
  refine ⟨val, info1, hidx, ?_, hsorted, hperm, fun k => hperm.mem_iff, ?_⟩
  · rw [ht]
    exact GetObject_SetObject_same e t0 _ info1
  · intro hnd
    have hnd2 : change.ChildIBTPIDs.Nodup := hperm.nodup_iff.mpr hnd
    exact ⟨hnd2, List.Sorted.lt_of_le hsorted hnd2⟩

/-- Witness of C30 amended: the report of the last success on the two-child transaction
lists `c1`, `c2`, whatever the order of the `range`. -/
theorem C30_report_child_ids_sorted_witness :
    Report hostRev stubLastBegin "c1" IBTP_RECEIPT_SUCCESS =
      some (.Success (.change ⟨0, 3, ["c1", "c2"], ["c2"], [], false⟩),
        SetObject hostRev (withoutTimeout hostRev stubLastBegin 110 "g") (GlobalTxInfoKey "g")
          ⟨SUCCESS, 110, [("c1", SUCCESS), ("c2", SUCCESS)], 2⟩) ∧
    ∃ val info1, stubLastBegin.Get "c1" = some val ∧
      GetObject hostRev
        (SetObject hostRev (withoutTimeout hostRev stubLastBegin 110 "g") (GlobalTxInfoKey "g")
          ⟨SUCCESS, 110, [("c1", SUCCESS), ("c2", SUCCESS)], 2⟩)
        (GlobalTxInfoKey (hostRev.stringOfBytes val)) = some info1 ∧
      List.Sorted (fun x y => x ≤ y) ["c1", "c2"] ∧
      ["c1", "c2"].Perm (mapKeys info1.ChildTxInfo) ∧
      (∀ k, k ∈ ["c1", "c2"] ↔ k ∈ mapKeys info1.ChildTxInfo) ∧
      ((mapKeys info1.ChildTxInfo).Nodup →
        ["c1", "c2"].Nodup ∧ List.Sorted (fun x y => x < y) ["c1", "c2"]) :=
  ⟨rfl, C30_report_child_ids_sorted hostRev stubLastBegin _ "c1" IBTP_RECEIPT_SUCCESS
    ⟨0, 3, ["c1", "c2"], ["c2"], [], false⟩ rfl rfl⟩

/-! ## The scenario of two children that succeed (C29) -/

theorem isContractKey_TxInfoKey (x : String) : isContractKey (TxInfoKey x) = true := by
  simp [isContractKey, TxInfoKey, PREFIX, String.data_append, List.isPrefixOf]

theorem isContractKey_of_isIndexKey (k : String) (h : isIndexKey k = true) :
    isContractKey k = true := by
  unfold isContractKey
  rw [h, Bool.or_true]

theorem ne_keys_of_not_contract_key (c : String) (h : isContractKey c = false) :
    (∀ x, c ≠ TxInfoKey x) ∧ (∀ g, c ≠ GlobalTxInfoKey g) ∧ (∀ n, c ≠ TimeoutKey n) := by
  refine ⟨?_, ?_, ?_⟩
  · intro x hx
    rw [hx, isContractKey_TxInfoKey] at h
    cases h
  · intro g hg
    rw [hg, isContractKey_of_isIndexKey _ (isIndexKey_GlobalTxInfoKey g)] at h
    cases h
  · intro n hn
    rw [hn, isContractKey_of_isIndexKey _ (isIndexKey_TimeoutKey n)] at h
    cases h

/-- A string cut at its commas holds the string itself at most once. -/
theorem count_split_self (g : String) : (stringsSplit g).count g ≤ 1 := by
  by_cases hc : ',' ∈ g.data
  · have hnot : g ∉ stringsSplit g := fun hm => stringsSplit_pieces g g hm hc
    rw [List.count_eq_zero_of_not_mem hnot]
    exact Nat.zero_le 1
  · rw [stringsSplit_single g hc]
    simp

/-- The response of `GetStatus` for the ID of a stored transaction without a
record. -/
theorem GetStatus_global (e : Env B) (t : Stub B) (g : String) (info : TransactionInfo)
    (hrec : t.Get (TxInfoKey g) = none)
    (hinfo : GetObject e t (GlobalTxInfoKey g) = some info) :
    (GetStatus e t g).1 = .Success (.text (toString info.GlobalState.toInt)) := by
  unfold GetStatus
  simp only [hrec, hinfo]

/-- The response of `GetStatus` for a child that the reverse index maps to a
stored transaction. -/
theorem GetStatus_child (e : Env B) (t : Stub B) (c : String) (val : B)
    (info : TransactionInfo)
    (hrec : t.Get (TxInfoKey c) = none)
    (hnone : GetObject e t (GlobalTxInfoKey c) = none)
    (hidx : t.Get c = some val)
    (hinfo : GetObject e t (GlobalTxInfoKey (e.stringOfBytes val)) = some info) :
    (GetStatus e t c).1 = .Success (.text (toString info.GlobalState.toInt)) := by
  unfold GetStatus
  simp only [hrec, hnone, hidx, hinfo]

/-- The success receipts of the two children of a transaction at `BEGIN`,
reported one after the other: both reports succeed, and `GetStatus` then answers
`3` for the transaction and for the child `q`. -/
theorem two_success_reports (e : Env B) (t2 : Stub B) (g a b q : String) (H : Nat)
    (m : ChildMap)
    (hcaller : t2.CurrentCaller = InterchainContractAddr)
    (hra : t2.Get (TxInfoKey a) = none) (hrb : t2.Get (TxInfoKey b) = none)
    (hrg : t2.Get (TxInfoKey g) = none) (hrq : t2.Get (TxInfoKey q) = none)
    (hia : t2.Get a = some (e.bytesOfString g)) (hib : t2.Get b = some (e.bytesOfString g))
    (hiq : t2.Get q = some (e.bytesOfString g))
    (hinfo : GetObject e t2 (GlobalTxInfoKey g) = some ⟨BEGIN, H, m, 2⟩)
    (hlen : (mapKeys m).length = 2) (hma : a ∈ mapKeys m) (hmb : b ∈ mapKeys m)
    (hall : ∀ k ∈ mapKeys m, k = a ∨ k = b)
    (hla : mapLookup m a = some BEGIN) (hlb : mapLookup m b = some BEGIN) (hab : a ≠ b)
    (hq : q ≠ g → GetObject e t2 (GlobalTxInfoKey q) = none)
    (hqk : q ≠ GlobalTxInfoKey g ∧ q ≠ TimeoutKey H)
    (hbk : b ≠ GlobalTxInfoKey g)
    (hdup : listedAtMostOnce e t2 H g) :
    ∃ r3 t3 r4 t4, Report e t2 a IBTP_RECEIPT_SUCCESS = some (r3, t3) ∧
      r3.isError = false ∧
      Report e t3 b IBTP_RECEIPT_SUCCESS = some (r4, t4) ∧ r4.isError = false ∧
      (GetStatus e t4 g).1 = .Success (.text "3") ∧
      (GetStatus e t4 q).1 = .Success (.text "3") := by
  have hleg : setFSM BEGIN (receipt2EventM IBTP_RECEIPT_SUCCESS) = (SUCCESS, none) := by
    decide
  have hrf : IBTP_RECEIPT_SUCCESS ≠ IBTP_RECEIPT_FAILURE := by decide
  have hsb : e.stringOfBytes (e.bytesOfString g) = g := e.string_bytes g
  have hinfo0 : GetObject e t2 (GlobalTxInfoKey (e.stringOfBytes (e.bytesOfString g))) =
      some ⟨BEGIN, H, m, 2⟩ := by rw [hsb]; exact hinfo
  -- the first report: the child moves, the transaction is not finished
  have heq3 := Report_child_event_eq e t2 a (e.bytesOfString g) ⟨BEGIN, H, m, 2⟩
    IBTP_RECEIPT_SUCCESS BEGIN SUCCESS hcaller hra hia hinfo0 hla (fun h => hrf h.2) hleg
    (by rw [hsb]; exact hdup)
  have hnf3 : ¬ specMultiTxFinished SUCCESS ⟨BEGIN, H, mapSet m a SUCCESS, 2⟩ := by
    intro hfin
    have := (finished_after_set ⟨BEGIN, H, m, 2⟩ (mapKeys m) a SUCCESS BEGIN
      (fun _ => BEGIN) rfl hma hlen.symm (fun k hk => by
        rcases hall k hk with h | h
        · rw [h]; exact hla
        · rw [h]; exact hlb)).mp hfin b hmb (fun h => hab h.symm)
    cases this
  have hrep3 := heq3.1 hnf3
  rw [hsb] at hrep3
  -- the store after the first report
  have hks : mapKeys (mapSet m a SUCCESS) = mapKeys m := mapKeys_mapSet_of_mem m a SUCCESS hma
  have hinfo3 : GetObject e (SetObject e t2 (GlobalTxInfoKey g) ⟨BEGIN, H, mapSet m a SUCCESS, 2⟩)
      (GlobalTxInfoKey (e.stringOfBytes (e.bytesOfString g))) =
      some ⟨BEGIN, H, mapSet m a SUCCESS, 2⟩ := by
    rw [hsb]
    exact GetObject_SetObject_same e t2 _ _
  have hrb3 : (SetObject e t2 (GlobalTxInfoKey g) ⟨BEGIN, H, mapSet m a SUCCESS, 2⟩).Get
      (TxInfoKey b) = none := by
    rw [SetObject, Stub.Get_Set_other _ _ _ _ (TxInfoKey_ne_GlobalTxInfoKey _ _)]
    exact hrb
  have hib3 : (SetObject e t2 (GlobalTxInfoKey g) ⟨BEGIN, H, mapSet m a SUCCESS, 2⟩).Get b =
      some (e.bytesOfString g) := by
    rw [SetObject, Stub.Get_Set_other _ _ _ _ hbk]
    exact hib
  have hlb3 : mapLookup (mapSet m a SUCCESS) b = some BEGIN := by
    rw [mapLookup_mapSet_other _ _ _ _ (fun h => hab h.symm)]
    exact hlb
  have hdup3 : listedAtMostOnce e
      (SetObject e t2 (GlobalTxInfoKey g) ⟨BEGIN, H, mapSet m a SUCCESS, 2⟩) H
      (e.stringOfBytes (e.bytesOfString g)) := by
    rw [hsb]
    exact listedAtMostOnce_SetObject e t2 H g g _ hdup
  -- the second report: the child moves, the transaction is finished
  have heq4 := Report_child_event_eq e
    (SetObject e t2 (GlobalTxInfoKey g) ⟨BEGIN, H, mapSet m a SUCCESS, 2⟩) b
    (e.bytesOfString g) ⟨BEGIN, H, mapSet m a SUCCESS, 2⟩
    IBTP_RECEIPT_SUCCESS BEGIN SUCCESS hcaller hrb3 hib3 hinfo3 hlb3 (fun h => hrf h.2) hleg
    hdup3
  have hfin4 : specMultiTxFinished SUCCESS
      ⟨BEGIN, H, mapSet (mapSet m a SUCCESS) b SUCCESS, 2⟩ := by
    refine (finished_after_set ⟨BEGIN, H, mapSet m a SUCCESS, 2⟩ (mapKeys m) b SUCCESS BEGIN
      (fun k => if k = a then SUCCESS else BEGIN) hks hmb hlen.symm (fun k hk => ?_)).mpr ?_
    · show mapLookup (mapSet m a SUCCESS) k = some (if k = a then SUCCESS else BEGIN)
      rcases hall k hk with h | h
      · rw [h, if_pos rfl]
        exact mapLookup_mapSet_same m a SUCCESS
      · rw [h, if_neg (fun h2 => hab h2.symm)]
        exact hlb3
    · intro k hk hkb
      show (if k = a then SUCCESS else BEGIN) = SUCCESS
      rcases hall k hk with h | h
      · rw [if_pos h]
      · exact absurd h hkb
  have hrep4 := heq4.2 hfin4 SUCCESS hleg
  rw [hsb] at hrep4
  refine ⟨_, _, _, _, hrep3, rfl, hrep4, rfl, ?_, ?_⟩
  · -- GetStatus of the transaction
    have hrec : (SetObject e (withoutTimeout e
        (SetObject e t2 (GlobalTxInfoKey g) ⟨BEGIN, H, mapSet m a SUCCESS, 2⟩) H g)
        (GlobalTxInfoKey g) ⟨SUCCESS, H, mapSet (mapSet m a SUCCESS) b SUCCESS, 2⟩).Get
        (TxInfoKey g) = none := by
      rw [SetObject, Stub.Get_Set_other _ _ _ _ (TxInfoKey_ne_GlobalTxInfoKey _ _),
        withoutTimeout_Get_other _ _ _ _ _ (fun h => TimeoutKey_ne_TxInfoKey _ _ h.symm),
        SetObject, Stub.Get_Set_other _ _ _ _ (TxInfoKey_ne_GlobalTxInfoKey _ _)]
      exact hrg
    exact GetStatus_global e _ g _ hrec (GetObject_SetObject_same e _ _ _)
  · -- GetStatus of the child
    have hrec : (SetObject e (withoutTimeout e
        (SetObject e t2 (GlobalTxInfoKey g) ⟨BEGIN, H, mapSet m a SUCCESS, 2⟩) H g)
        (GlobalTxInfoKey g) ⟨SUCCESS, H, mapSet (mapSet m a SUCCESS) b SUCCESS, 2⟩).Get
        (TxInfoKey q) = none := by
      rw [SetObject, Stub.Get_Set_other _ _ _ _ (TxInfoKey_ne_GlobalTxInfoKey _ _),
        withoutTimeout_Get_other _ _ _ _ _ (fun h => TimeoutKey_ne_TxInfoKey _ _ h.symm),
        SetObject, Stub.Get_Set_other _ _ _ _ (TxInfoKey_ne_GlobalTxInfoKey _ _)]
      exact hrq
    by_cases hqg : q = g
    · rw [hqg] at hrec ⊢
      exact GetStatus_global e _ g _ hrec (GetObject_SetObject_same e _ _ _)
    · have hne : GlobalTxInfoKey q ≠ GlobalTxInfoKey g :=
        fun h => hqg (GlobalTxInfoKey_injective _ _ h)
      have hnone : GetObject e (SetObject e (withoutTimeout e
          (SetObject e t2 (GlobalTxInfoKey g) ⟨BEGIN, H, mapSet m a SUCCESS, 2⟩) H g)
          (GlobalTxInfoKey g) ⟨SUCCESS, H, mapSet (mapSet m a SUCCESS) b SUCCESS, 2⟩)
          (GlobalTxInfoKey q) = none := by
        rw [GetObject_SetObject_global, if_neg hqg, GetObject_withoutTimeout,
          GetObject_SetObject_global, if_neg hqg]
        exact hq hqg
      have hidx : (SetObject e (withoutTimeout e
          (SetObject e t2 (GlobalTxInfoKey g) ⟨BEGIN, H, mapSet m a SUCCESS, 2⟩) H g)
          (GlobalTxInfoKey g) ⟨SUCCESS, H, mapSet (mapSet m a SUCCESS) b SUCCESS, 2⟩).Get q =
          some (e.bytesOfString g) := by
        rw [SetObject, Stub.Get_Set_other _ _ _ _ hqk.1,
          withoutTimeout_Get_other _ _ _ _ _ hqk.2,
          SetObject, Stub.Get_Set_other _ _ _ _ hqk.1]
        exact hiq
      exact GetStatus_child e _ q (e.bytesOfString g) _ hrec hnone hidx
        (by rw [hsb]; exact GetObject_SetObject_same e _ _ _)

theorem Stub.Get_Set (t : Stub B) (key k : String) (v : B) :
    (t.Set key v).Get k = if k = key then some v else t.Get k := rfl

/-- The store after the two `BeginMultiTXs` calls of the scenario on the empty
store, for child IDs that are not contract keys. -/
theorem two_begin_multi (e : Env B) (height th : Nat) (g c1 c2 : String)
    (hne : c1 ≠ c2) (hk1 : isContractKey c1 = false) (hk2 : isContractKey c2 = false) :
    ∃ r1 t1 r2 t2,
      BeginMultiTXs e (Stub.empty height InterchainContractAddr) g c1 th false 2 =
        some (r1, t1) ∧ r1.isError = false ∧
      BeginMultiTXs e t1 g c2 th false 2 = some (r2, t2) ∧ r2.isError = false ∧
      t2.CurrentCaller = InterchainContractAddr ∧
      (∀ x, t2.Get (TxInfoKey x) = none) ∧
      t2.Get c1 = some (e.bytesOfString g) ∧ t2.Get c2 = some (e.bytesOfString g) ∧
      GetObject e t2 (GlobalTxInfoKey g) =
        some ⟨BEGIN, specTimeoutHeight height th, [(c1, BEGIN), (c2, BEGIN)], 2⟩ ∧
      (∀ x, x ≠ g → GetObject e t2 (GlobalTxInfoKey x) = none) ∧
      listedAtMostOnce e t2 (specTimeoutHeight height th) g := by
  obtain ⟨h1t, h1g, h1n⟩ := ne_keys_of_not_contract_key c1 hk1
  obtain ⟨h2t, h2g, h2n⟩ := ne_keys_of_not_contract_key c2 hk2
  have hcall1 : BeginMultiTXs e (Stub.empty height InterchainContractAddr) g c1 th false 2 =
      some (.Success (.change ⟨-1, 0, [c1], [], [], false⟩),
        ((((Stub.empty height InterchainContractAddr : Stub B).Set
            (TimeoutKey (specTimeoutHeight height th)) (e.bytesOfString g)).Set
          (GlobalTxInfoKey g)
          (e.marshalInfo ⟨BEGIN, specTimeoutHeight height th, [(c1, BEGIN)], 2⟩)).Set
          c1 (e.bytesOfString g))) :=
    BeginMultiTXs_create e (Stub.empty height InterchainContractAddr) g c1 th 2 false rfl rfl
  have hinfo1 : GetObject e
      ((((Stub.empty height InterchainContractAddr : Stub B).Set
            (TimeoutKey (specTimeoutHeight height th)) (e.bytesOfString g)).Set
          (GlobalTxInfoKey g)
          (e.marshalInfo ⟨BEGIN, specTimeoutHeight height th, [(c1, BEGIN)], 2⟩)).Set
          c1 (e.bytesOfString g))
      (GlobalTxInfoKey g) = some ⟨BEGIN, specTimeoutHeight height th, [(c1, BEGIN)], 2⟩ := by
    unfold GetObject
    rw [Stub.Get_Set_other _ _ _ _ (fun h => h1g g h.symm), Stub.Get_Set_same]
    exact e.info_roundtrip _
  have hnew : c2 ∉ mapKeys
      (⟨BEGIN, specTimeoutHeight height th, [(c1, BEGIN)], 2⟩ : TransactionInfo).ChildTxInfo := by
    simp [mapKeys, Ne.symm hne]
  have hcall2 : BeginMultiTXs e
      ((((Stub.empty height InterchainContractAddr : Stub B).Set
            (TimeoutKey (specTimeoutHeight height th)) (e.bytesOfString g)).Set
          (GlobalTxInfoKey g)
          (e.marshalInfo ⟨BEGIN, specTimeoutHeight height th, [(c1, BEGIN)], 2⟩)).Set
          c1 (e.bytesOfString g)) g c2 th false 2 =
      some (.Success (.change ⟨-1, 0, e.rangeOrder 124 [c1, c2], [], [], false⟩),
        ((((((Stub.empty height InterchainContractAddr : Stub B).Set
            (TimeoutKey (specTimeoutHeight height th)) (e.bytesOfString g)).Set
          (GlobalTxInfoKey g)
          (e.marshalInfo ⟨BEGIN, specTimeoutHeight height th, [(c1, BEGIN)], 2⟩)).Set
          c1 (e.bytesOfString g)).Set (GlobalTxInfoKey g)
          (e.marshalInfo
            ⟨BEGIN, specTimeoutHeight height th, [(c1, BEGIN), (c2, BEGIN)], 2⟩)).Set
          c2 (e.bytesOfString g))) :=
    BeginMultiTXs_add e _ g c2 th 2 false _ rfl hinfo1 hnew (fun h => by cases h.2)
      (nilMapAt_of_children e _ _ _ hinfo1 (by simp))
  have hempty : ∀ k, (Stub.empty height InterchainContractAddr : Stub B).Get k = none :=
    fun _ => rfl
  refine ⟨_, _, _, _, hcall1, rfl, hcall2, rfl, rfl, ?_, ?_, ?_, ?_, ?_, ?_⟩
  · intro x
    rw [Stub.Get_Set, if_neg (fun h => h2t x h.symm), Stub.Get_Set,
      if_neg (TxInfoKey_ne_GlobalTxInfoKey x g), Stub.Get_Set, if_neg (fun h => h1t x h.symm),
      Stub.Get_Set, if_neg (TxInfoKey_ne_GlobalTxInfoKey x g), Stub.Get_Set,
      if_neg (fun h => TimeoutKey_ne_TxInfoKey _ x h.symm)]
    rfl
  · rw [Stub.Get_Set, if_neg hne, Stub.Get_Set, if_neg (h1g g), Stub.Get_Set, if_pos rfl]
  · rw [Stub.Get_Set, if_pos rfl]
  · unfold GetObject
    rw [Stub.Get_Set, if_neg (fun h => h2g g h.symm), Stub.Get_Set, if_pos rfl]
    exact e.info_roundtrip _
  · intro x hx
    have hkx : GlobalTxInfoKey x ≠ GlobalTxInfoKey g :=
      fun h => hx (GlobalTxInfoKey_injective _ _ h)
    unfold GetObject
    rw [Stub.Get_Set, if_neg (fun h => h2g x h.symm), Stub.Get_Set, if_neg hkx,
      Stub.Get_Set, if_neg (fun h => h1g x h.symm), Stub.Get_Set, if_neg hkx,
      Stub.Get_Set, if_neg (fun h => TimeoutKey_ne_GlobalTxInfoKey _ x h.symm)]
    rfl
  · intro b hb
    rw [Stub.Get_Set, if_neg (fun h => h2n _ h.symm), Stub.Get_Set,
      if_neg (TimeoutKey_ne_GlobalTxInfoKey _ g), Stub.Get_Set,
      if_neg (fun h => h1n _ h.symm), Stub.Get_Set,
      if_neg (TimeoutKey_ne_GlobalTxInfoKey _ g), Stub.Get_Set, if_pos rfl] at hb
    cases hb
    rw [e.string_bytes]
    exact count_split_self g

/-- The scenario of two children on the empty store, the receipts reported for
`a` and then for `b`, the two children in either order. -/
theorem twoChildScenario_ok (e : Env B) (height th : Nat) (g c1 c2 a b : String)
    (hne : c1 ≠ c2) (hk1 : isContractKey c1 = false) (hk2 : isContractKey c2 = false)
    (hab : (a = c1 ∧ b = c2) ∨ (a = c2 ∧ b = c1)) :
    ∃ rs t4,
      twoChildScenario e (Stub.empty height InterchainContractAddr) g c1 c2 th a b =
        some (rs, t4) ∧
      rs.length = 4 ∧ (∀ r ∈ rs, r.isError = false) ∧
      (GetStatus e t4 g).1 = .Success (.text "3") ∧
      (GetStatus e t4 c1).1 = .Success (.text "3") := by
  obtain ⟨h1t, h1g, h1n⟩ := ne_keys_of_not_contract_key c1 hk1
  obtain ⟨h2t, h2g, h2n⟩ := ne_keys_of_not_contract_key c2 hk2
  obtain ⟨r1, t1, r2, t2, hc1, he1, hc2, he2, hcaller, hrec, hi1, hi2, hinfo, hother, hdup⟩ :=
    two_begin_multi e height th g c1 c2 hne hk1 hk2
  have hl1 : mapLookup [(c1, BEGIN), (c2, BEGIN)] c1 = some BEGIN := by
    simp [mapLookup]
  have hl2 : mapLookup [(c1, BEGIN), (c2, BEGIN)] c2 = some BEGIN := by
    simp [mapLookup, hne]
  have hkeys : mapKeys [(c1, BEGIN), (c2, BEGIN)] = [c1, c2] := rfl
  have hreports : ∃ r3 t3 r4 t4, Report e t2 a IBTP_RECEIPT_SUCCESS = some (r3, t3) ∧
      r3.isError = false ∧
      Report e t3 b IBTP_RECEIPT_SUCCESS = some (r4, t4) ∧ r4.isError = false ∧
      (GetStatus e t4 g).1 = .Success (.text "3") ∧
      (GetStatus e t4 c1).1 = .Success (.text "3") := by
    rcases hab with ⟨ha, hb⟩ | ⟨ha, hb⟩
    · subst ha hb
      exact two_success_reports e t2 g a b a (specTimeoutHeight height th)
        [(a, BEGIN), (b, BEGIN)] hcaller (hrec a) (hrec b) (hrec g) (hrec a) hi1 hi2 hi1 hinfo
        rfl (by simp [mapKeys]) (by simp [mapKeys])
        (fun k hk => by simpa [mapKeys] using hk) hl1 hl2 hne (fun h => hother a h)
        ⟨h1g g, h1n _⟩ (h2g g) hdup
    · subst ha hb
      exact two_success_reports e t2 g a b b (specTimeoutHeight height th)
        [(b, BEGIN), (a, BEGIN)] hcaller (hrec a) (hrec b) (hrec g) (hrec b) hi2 hi1 hi1 hinfo
        rfl (by simp [mapKeys]) (by simp [mapKeys])
        (fun k hk => by
          have : k = b ∨ k = a := by simpa [mapKeys] using hk
          exact this.symm) hl2 hl1 (fun h => hne h.symm) (fun h => hother b h)
        ⟨h1g g, h1n _⟩ (h1g g) hdup
  obtain ⟨r3, t3, r4, t4, hc3, he3, hc4, he4, hg, hc⟩ := hreports
  refine ⟨[r1, r2, r3, r4], t4, ?_, rfl, ?_, hg, hc⟩
  · unfold twoChildScenario
    simp only [hc1, hc2, hc3, hc4]
  · intro r hr
    simp only [List.mem_cons, List.mem_singleton, List.not_mem_nil, or_false] at hr
    rcases hr with h | h | h | h <;> rw [h] <;> assumption

/-- C29, as stated for every child ID, fails: with the child ID `global-tx-g`
the reverse index entry of the first `BeginMultiTXs` overwrites the transaction
info of `g`; the report for that child returns an error and `GetStatus` of `g`
answers `0`, the code of `BEGIN`. -/
theorem C29_counterexample_child_id_is_global_key :
    (twoChildScenario host (Stub.empty 100 InterchainContractAddr) "g" "global-tx-g" "c2" 10
        "global-tx-g" "c2").map
      (fun p => (p.1.map Response.isError, (GetStatus host p.2 "g").1,
        (GetStatus host p.2 "global-tx-g").1)) =
    some ([false, false, true, false], .Success (.text "0"),
      .Error .TransactionNonexistentGlobalTxCode ["", "global-tx-g"]) := by
  decide

/-- C29, amended.  From the empty store, for every global ID, every timeout and
every two distinct child IDs that do not start with `tx-`, `global-tx-` or
`timeout-`: the two `BeginMultiTXs` calls and the two reports of the success
receipt, in either order of the children, all return a success response, and
`GetStatus` then answers `3`, the code of `SUCCESS`, for the global ID and for
the first child. -/
theorem C29_two_children_succeed (e : Env B) (height th : Nat) (g c1 c2 : String)
    (hne : c1 ≠ c2) (hk1 : isContractKey c1 = false) (hk2 : isContractKey c2 = false) :
    (∃ rs t4,
      twoChildScenario e (Stub.empty height InterchainContractAddr) g c1 c2 th c1 c2 =
        some (rs, t4) ∧
      rs.length = 4 ∧ (∀ r ∈ rs, r.isError = false) ∧
      (GetStatus e t4 g).1 = .Success (.text "3") ∧
      (GetStatus e t4 c1).1 = .Success (.text "3")) ∧
    (∃ rs t4,
      twoChildScenario e (Stub.empty height InterchainContractAddr) g c1 c2 th c2 c1 =
        some (rs, t4) ∧
      rs.length = 4 ∧ (∀ r ∈ rs, r.isError = false) ∧
      (GetStatus e t4 g).1 = .Success (.text "3") ∧
      (GetStatus e t4 c1).1 = .Success (.text "3")) ∧
    toString SUCCESS.toInt = "3" :=
  ⟨twoChildScenario_ok e height th g c1 c2 c1 c2 hne hk1 hk2 (Or.inl ⟨rfl, rfl⟩),
    twoChildScenario_ok e height th g c1 c2 c2 c1 hne hk1 hk2 (Or.inr ⟨rfl, rfl⟩),
    by decide⟩

/-- Witness of C29 amended: the global ID `g` with the children `c1` and `c2`,
the timeout 10 at height 100, the host walking its maps in reverse order. -/
theorem C29_two_children_succeed_witness :
    (∃ rs t4,
      twoChildScenario hostRev (Stub.empty 100 InterchainContractAddr) "g" "c1" "c2" 10
        "c1" "c2" = some (rs, t4) ∧
      rs.length = 4 ∧ (∀ r ∈ rs, r.isError = false) ∧
      (GetStatus hostRev t4 "g").1 = .Success (.text "3") ∧
      (GetStatus hostRev t4 "c1").1 = .Success (.text "3")) ∧
    (∃ rs t4,
      twoChildScenario hostRev (Stub.empty 100 InterchainContractAddr) "g" "c1" "c2" 10
        "c2" "c1" = some (rs, t4) ∧
      rs.length = 4 ∧ (∀ r ∈ rs, r.isError = false) ∧
      (GetStatus hostRev t4 "g").1 = .Success (.text "3") ∧
      (GetStatus hostRev t4 "c1").1 = .Success (.text "3")) ∧
    toString SUCCESS.toInt = "3" :=
  C29_two_children_succeed hostRev 100 10 "g" "c1" "c2" (by decide) (by decide) (by decide)

/-! ## The order of the ID lists (C31) -/

/-- C31 does not hold on the code: only the child list of `Report` is sorted.
On one and the same store, a host that walks the map in the order `c1, c2, c3`
and a host that walks it in the reverse order return different lists: the child
list and both notify lists of `BeginMultiTXs` (here the mass failure with the
new child `c4`) and the source list of `Report` (here the success of `c3`)
follow the order of the `range`, and in the second host they are not sorted. -/
theorem C31_id_lists_follow_map_order :
    (BeginMultiTXs host stubThreeChildren "g" "c4" 10 true 4).map (fun p => p.1) =
      some (.Success (.change
        ⟨-1, 1, ["c1", "c2", "c3", "c4"], ["c1", "c2", "c3"], ["c1", "c2"], false⟩)) ∧
    (BeginMultiTXs hostRev stubThreeChildren "g" "c4" 10 true 4).map (fun p => p.1) =
      some (.Success (.change
        ⟨-1, 1, ["c4", "c3", "c2", "c1"], ["c3", "c2", "c1"], ["c2", "c1"], false⟩)) ∧
    (Report host stubThreeChildren "c3" IBTP_RECEIPT_SUCCESS).map (fun p => p.1) =
      some (.Success (.change ⟨0, 0, ["c1", "c2", "c3"], ["c1", "c2"], [], false⟩)) ∧
    (Report hostRev stubThreeChildren "c3" IBTP_RECEIPT_SUCCESS).map (fun p => p.1) =
      some (.Success (.change ⟨0, 0, ["c1", "c2", "c3"], ["c2", "c1"], [], false⟩)) ∧
    (BeginMultiTXs host stubThreeChildren "g" "c4" 10 false 4).map (fun p => p.1) =
      some (.Success (.change ⟨-1, 0, ["c1", "c2", "c3", "c4"], [], [], false⟩)) ∧
    (BeginMultiTXs hostRev stubThreeChildren "g" "c4" 10 false 4).map (fun p => p.1) =
      some (.Success (.change ⟨-1, 0, ["c4", "c3", "c2", "c1"], [], [], false⟩)) ∧
    sortStrings ["c4", "c3", "c2", "c1"] = ["c1", "c2", "c3", "c4"] := by
  decide

/-! ## The two methods of the timeout list (C33, C34, C37) -/

/-- C33 holds on the code but for the empty string: with no entry under the
timeout key `addToTimeoutList` writes the ID alone, and with an entry holding
`s` it writes `s`, a comma and the ID, whatever `s` is; one key is written.  On
the empty string, which `removeFromTimeoutList` leaves behind when it removes the
last ID, the entry becomes `,x`: the list of the empty ID and `x`, not of `x`
alone.  The entry points get there: after `BeginMultiTXs("g1", "c1", 10, false,
1)` and `Report("c1", IBTP_RECEIPT_SUCCESS)` the entry is the empty string, and
`BeginMultiTXs("g2", "c2", 10, false, 1)` then stores `,g2`. -/
theorem C33_add_to_timeout_list_on_empty_string (s x : String) :
    (addToTimeoutList host (emptyStub 100 InterchainContractAddr) 110 x).writes =
      [("timeout-110", .raw x)] ∧
    (addToTimeoutList host (stubTimeout s) 110 x).writes =
      [("timeout-110", .raw (s ++ "," ++ x))] ∧
    (removeFromTimeoutList host (stubTimeout "g") 110 "g").map
      (fun t => t.Get "timeout-110") = some (some (.raw "")) ∧
    (addToTimeoutList host (stubTimeout "") 110 "x").Get "timeout-110" =
      some (.raw ",x") ∧
    stringsSplit ",x" = ["", "x"] ∧ stringsSplit "x" = ["x"] ∧
    afterLastRemoved.Get "timeout-110" = some (.raw "") ∧
    afterAddOnEmpty.Get "timeout-110" = some (.raw ",g2") ∧
    timeoutList host afterAddOnEmpty 110 = ["", "g2"] := by
  refine ⟨rfl, rfl, ?_, ?_, ?_, ?_, ?_, ?_, ?_⟩ <;> decide

/-- C34 holds on the code for a list that holds the ID at most once and fails on
a later duplicate: `a,g,b` becomes `a,b`, the only entry `g` leaves the empty
string, a list without the ID is stored again as it was, and `g,g,a` becomes
`g,a`; on `g,a,g` and on `g,g` the call panics and stores nothing, where the
claim expects `a,g` and `g`. -/
theorem C34_remove_from_timeout_list_duplicates :
    (removeFromTimeoutList host (stubTimeout "a,g,b") 110 "g").map
      (fun t => t.Get "timeout-110") = some (some (.raw "a,b")) ∧
    (removeFromTimeoutList host (stubTimeout "g") 110 "g").map
      (fun t => t.Get "timeout-110") = some (some (.raw "")) ∧
    (removeFromTimeoutList host (stubTimeout "a,b") 110 "g").map
      (fun t => t.Get "timeout-110") = some (some (.raw "a,b")) ∧
    (removeFromTimeoutList host (stubTimeout "g,g,a") 110 "g").map
      (fun t => t.Get "timeout-110") = some (some (.raw "g,a")) ∧
    (removeFromTimeoutList host (stubTimeout "g,a,g") 110 "g").map
      (fun t => t.Get "timeout-110") = none ∧
    (removeFromTimeoutList host (stubTimeout "g,g") 110 "g").map
      (fun t => t.Get "timeout-110") = none := by
  decide

/-- C37 does not hold on the code: on the stored list `g,g` the loop of
`removeFromTimeoutList` finds the ID at index 0, shortens the slice to length 1
over the same array, finds the ID again at index 1 and evaluates `list[2:]` on
the slice of length 1, which panics; the same on `g,x,g` at index 2.  The entry
points get there: after `BeginMultiTXs("g", "global-tx-g", 10, false, 2)` and
`BeginMultiTXs("g", "c2", 10, false, 2)` the entry under `timeout-110` is `g,g`,
and `Report("c2", IBTP_RECEIPT_FAILURE)` panics. -/
theorem C37_remove_from_timeout_list_panics :
    stringsSplit "g,g" = ["g", "g"] ∧
    removeAt ["g", "g"] 2 0 = some (["g", "g"], 1) ∧
    removeAt ["g", "g"] 1 1 = none ∧
    removeLoop "g" 2 0 ["g", "g"] 2 = none ∧
    (removeFromTimeoutList host (stubTimeout "g,g") 110 "g").isNone = true ∧
    removeAt ["g", "x", "g"] 3 0 = some (["x", "g", "g"], 2) ∧
    removeAt ["x", "g", "g"] 2 1 = some (["x", "g", "g"], 1) ∧
    removeAt ["x", "g", "g"] 1 2 = none ∧
    (removeFromTimeoutList host (stubTimeout "g,x,g") 110 "g").isNone = true ∧
    afterDoubleListing.Get "timeout-110" = some (.raw "g,g") ∧
    (Report host afterDoubleListing "c2" IBTP_RECEIPT_FAILURE).isNone = true := by
  decide

/-! ## The culprit loop of `GetTssSigns` (C39) -/

/-- C39 does not hold on the code: a culprit found at an index `i ≥ 1` is cut out
together with the signer before it, as the loop keeps `signersALL[:i-1]`, not
`signersALL[:i]`.  With the signers `a, b, c` the culprit `b` leaves `c` alone
and the culprit `c` leaves `a` alone; only a culprit at index 0 is removed
alone.  No slice expression goes out of range on these inputs. -/
theorem C39_culprit_loop_removes_predecessor :
    removeCulprits ["a", "b", "c"] ["b"] = some ["c"] ∧
    removeCulprits ["a", "b", "c"] ["c"] = some ["a"] ∧
    removeCulprits ["a", "b", "c"] ["a"] = some ["b", "c"] ∧
    removeCulprits ["a", "b", "c", "d"] ["c"] = some ["a", "d"] ∧
    removeCulprits ["a", "b", "c", "d"] ["a", "d"] = some ["b"] ∧
    removeCulprits ["a", "b", "c"] ["x"] = some ["a", "b", "c"] ∧
    sliceCut ⟨["a", "b", "c"], 0, 3⟩ 1 = some ⟨["c", "b", "c"], 0, 1⟩ := by
  decide

/-! ## What one call of an entry point does to the store -/

theorem beginMultiTail_stub (e : Env B) (t : Stub B) (change : StatusChange)
    (info : TransactionInfo) (g c : String) (resp : Response) (t1 : Stub B)
    (h : some (beginMultiTail e t change info g c) = some (resp, t1)) :
    t1 = t.Set c (e.bytesOfString g) :=
  (congrArg Prod.snd (Option.some.inj h)).symm

/-- A returning `BeginMultiTXs`: it leaves the store as it was, or it stores a
transaction info under the global key, over a store that differs from the
former one in the timeout entry of the height at most, and then writes the
reverse index entry of the child.  The info is a new one with the child alone,
or the former one with the child added. -/
theorem BeginMultiTXs_shape (e : Env B) (t : Stub B) (g c : String) (th : Nat) (f : Bool)
    (n : Nat) (resp : Response) (t1 : Stub B)
    (h : BeginMultiTXs e t g c th f n = some (resp, t1)) :
    t1 = t ∨
    ∃ info1 t0, t1 = (SetObject e t0 (GlobalTxInfoKey g) info1).Set c (e.bytesOfString g) ∧
      (t0 = t ∨ t0 = addToTimeoutList e t info1.Height g ∨
        removeFromTimeoutList e t info1.Height g = some t0) ∧
      ((GetObject e t (GlobalTxInfoKey g) = none ∧
          info1.ChildTxInfo = [(c, info1.GlobalState)] ∧
          ((info1.GlobalState = BEGIN ∧ t0 = addToTimeoutList e t info1.Height g) ∨
            (info1.GlobalState = BEGIN_FAILURE ∧ t0 = t))) ∨
        ∃ info, GetObject e t (GlobalTxInfoKey g) = some info ∧
          mapLookup info.ChildTxInfo c = none ∧ info1.Height = info.Height ∧
          info1.ChildTxCount = info.ChildTxCount ∧
          ((info.GlobalState ≠ BEGIN ∧ info1.GlobalState = info.GlobalState ∧ t0 = t ∧
              info1.ChildTxInfo = mapSet info.ChildTxInfo c info.GlobalState) ∨
            (info.GlobalState = BEGIN ∧ info1.GlobalState = BEGIN ∧ t0 = t ∧
              info1.ChildTxInfo = mapSet info.ChildTxInfo c BEGIN) ∨
            (info.GlobalState = BEGIN ∧ info1.GlobalState = BEGIN_FAILURE ∧
              removeFromTimeoutList e t info.Height g = some t0 ∧
              info1.ChildTxInfo = mapSet
                ((e.rangeOrder 101 (mapKeys info.ChildTxInfo)).foldl
                  (fun m k => mapSet m k BEGIN_FAILURE) info.ChildTxInfo) c BEGIN_FAILURE))) := by
  unfold BeginMultiTXs at h
  cases hcc : checkCurrentCaller t with
  | some er => rw [hcc] at h; cases h; exact Or.inl rfl
  | none =>
    rw [hcc] at h
    dsimp only at h
    cases hinfo : GetObject e t (GlobalTxInfoKey g) with
    | none =>
      rw [hinfo] at h
      dsimp only at h
      cases f with
      | true =>
        simp only [if_true] at h
        have ht := beginMultiTail_stub e _ _ _ g c resp t1 h
        exact Or.inr ⟨_, t, ht, Or.inl rfl, Or.inl ⟨rfl, by simp [mapSet],
          Or.inr ⟨rfl, rfl⟩⟩⟩
      | false =>
        simp only [Bool.false_eq_true, if_false] at h
        have ht := beginMultiTail_stub e _ _ _ g c resp t1 h
        exact Or.inr ⟨_, _, ht, Or.inr (Or.inl rfl), Or.inl ⟨rfl, rfl, Or.inl ⟨rfl, rfl⟩⟩⟩
    | some info =>
      rw [hinfo] at h
      dsimp only at h
      cases hl : mapLookup info.ChildTxInfo c with
      | some v =>
        rw [hl] at h
        simp only [Option.isSome_some, if_true] at h
        cases h
        exact Or.inl rfl
      | none =>
        rw [hl] at h
        simp only [Option.isSome_none, Bool.false_eq_true, if_false] at h
        by_cases hnil : nilMapAt e t (GlobalTxInfoKey g) = true
        · simp only [hnil, if_true] at h
          cases h
        simp only [hnil, Bool.false_eq_true, if_false] at h
        by_cases hgl : info.GlobalState = BEGIN
        · rw [if_neg (not_not.mpr hgl)] at h
          cases f with
          | true =>
            simp only [if_true] at h
            cases hrm : removeFromTimeoutList e t info.Height g with
            | none => rw [hrm] at h; cases h
            | some t0 =>
              rw [hrm] at h
              dsimp only at h
              have ht := beginMultiTail_stub e _ _ _ g c resp t1 h
              refine Or.inr ⟨_, t0, ht, Or.inr (Or.inr hrm), Or.inr ⟨info, rfl, hl, rfl, rfl,
                Or.inr (Or.inr ⟨hgl, rfl, hrm, ?_⟩)⟩⟩
              rw [(massFailLoop_frame _ _ _).2.2.2.2.2]
          | false =>
            simp only [Bool.false_eq_true, if_false] at h
            have ht := beginMultiTail_stub e _ _ _ g c resp t1 h
            exact Or.inr ⟨_, t, ht, Or.inl rfl, Or.inr ⟨info, rfl, hl, rfl, rfl,
              Or.inr (Or.inl ⟨hgl, hgl, rfl, rfl⟩)⟩⟩
        · rw [if_pos hgl] at h
          have ht := beginMultiTail_stub e _ _ _ g c resp t1 h
          exact Or.inr ⟨_, t, ht, Or.inl rfl, Or.inr ⟨info, rfl, hl, rfl, rfl,
            Or.inl ⟨hgl, rfl, rfl, rfl⟩⟩⟩

/-- A `changeMultiTxStatus` that returns without an error, in detail: the fast
failure, or the event of the receipt taken by the child and, when the
transaction is then finished, by the global state. -/
theorem changeMultiTxStatus_info (e : Env B) (t : Stub B) (g : String)
    (info : TransactionInfo) (txId : String) (r : Int) (info1 : TransactionInfo)
    (t1 : Stub B) (s : TransactionStatus)
    (hs : mapLookup info.ChildTxInfo txId = some s)
    (h : changeMultiTxStatus e t g info txId r = some (info1, t1, none)) :
    info1.Height = info.Height ∧ info1.ChildTxCount = info.ChildTxCount ∧
    ((info.GlobalState = BEGIN ∧ r = IBTP_RECEIPT_FAILURE ∧
        info1.GlobalState = BEGIN_FAILURE ∧
        removeFromTimeoutList e t info.Height g = some t1 ∧
        info1.ChildTxInfo = mapSet ((e.rangeOrder 429 (mapKeys info.ChildTxInfo)).foldl
          (fun m childTx => mapSet m childTx BEGIN_FAILURE) info.ChildTxInfo) txId FAILURE) ∨
      (¬ (info.GlobalState = BEGIN ∧ r = IBTP_RECEIPT_FAILURE) ∧
        ∃ s1, setFSM s (receipt2EventM r) = (s1, none) ∧
          info1.ChildTxInfo = mapSet info.ChildTxInfo txId s1 ∧
          ((info1.GlobalState = info.GlobalState ∧ t1 = t ∧
              ¬ specMultiTxFinished s1
                ⟨info.GlobalState, info.Height, mapSet info.ChildTxInfo txId s1,
                  info.ChildTxCount⟩) ∨
            (specMultiTxFinished s1
                ⟨info.GlobalState, info.Height, mapSet info.ChildTxInfo txId s1,
                  info.ChildTxCount⟩ ∧
              setFSM info.GlobalState (receipt2EventM r) = (info1.GlobalState, none) ∧
              removeFromTimeoutList e t info.Height g = some t1)))) := by
  have hget : mapGet info.ChildTxInfo txId = s := by simp [mapGet, hs]
  unfold changeMultiTxStatus at h
  by_cases hff : info.GlobalState = BEGIN ∧ r = IBTP_RECEIPT_FAILURE
  · rw [if_pos hff] at h
    dsimp only at h
    cases hrm : removeFromTimeoutList e t info.Height g with
    | none => rw [hrm] at h; cases h
    | some t0 =>
      rw [hrm] at h
      cases h
      exact ⟨rfl, rfl, Or.inl ⟨hff.1, hff.2, rfl, rfl, rfl⟩⟩
  · rw [if_neg hff, hget] at h
    cases hc : setFSM s (receipt2EventM r) with
    | mk s1 cerr =>
      rw [hc] at h
      cases cerr with
      | some er =>
        dsimp only at h
        cases h
      | none =>
        dsimp only at h
        split at h
        · rename_i hfin
          have hfin2 := (isMultiTxFinished_iff e s1 _).mp hfin
          cases hgl : setFSM info.GlobalState (receipt2EventM r) with
          | mk gs gerr =>
            rw [hgl] at h
            cases gerr with
            | some er =>
              dsimp only at h
              cases h
            | none =>
              dsimp only at h
              cases hrm : removeFromTimeoutList e t info.Height g with
              | none => rw [hrm] at h; cases h
              | some t0 =>
                rw [hrm] at h
                cases h
                exact ⟨rfl, rfl, Or.inr ⟨hff, s1, rfl, rfl, Or.inr ⟨hfin2, rfl, rfl⟩⟩⟩
        · rename_i hfin
          have hfin2 : ¬ specMultiTxFinished s1
              ⟨info.GlobalState, info.Height, mapSet info.ChildTxInfo txId s1,
                info.ChildTxCount⟩ :=
            fun hh => hfin ((isMultiTxFinished_iff e s1 _).mpr hh)
          cases h
          exact ⟨rfl, rfl, Or.inr ⟨hff, s1, rfl, rfl, Or.inl ⟨rfl, rfl, hfin2⟩⟩⟩

/-- A returning `Report`: it leaves the store as it was, or writes the record of
the ID, or stores, under the global key that the reverse index names for the
ID, the transaction info that `changeMultiTxStatus` made of the stored one. -/
theorem Report_shape (e : Env B) (t : Stub B) (txId : String) (r : Int) (resp : Response)
    (t1 : Stub B) (h : Report e t txId r = some (resp, t1)) :
    t1 = t ∨ (∃ b, t1 = t.Set (TxInfoKey txId) b) ∨
    ∃ val info info1 t0 s, t.Get (TxInfoKey txId) = none ∧ t.Get txId = some val ∧
      GetObject e t (GlobalTxInfoKey (e.stringOfBytes val)) = some info ∧
      mapLookup info.ChildTxInfo txId = some s ∧
      changeMultiTxStatus e t (e.stringOfBytes val) info txId r = some (info1, t0, none) ∧
      t1 = SetObject e t0 (GlobalTxInfoKey (e.stringOfBytes val)) info1 := by
  unfold Report at h
  cases hcc : checkCurrentCaller t with
  | some er => rw [hcc] at h; cases h; exact Or.inl rfl
  | none =>
    rw [hcc] at h
    dsimp only at h
    cases hrec : t.Get (TxInfoKey txId) with
    | some recordData =>
      rw [hrec] at h
      dsimp only at h
      cases hun : e.unmarshalRecord recordData with
      | none => rw [hun] at h; cases h; exact Or.inl rfl
      | some record =>
        rw [hun] at h
        dsimp only at h
        cases hf : setFSM record.Status (receipt2EventM r) with
        | mk status ferr =>
          rw [hf] at h
          cases ferr with
          | some er => cases h; exact Or.inl rfl
          | none =>
            cases h
            exact Or.inr (Or.inl ⟨_, rfl⟩)
    | none =>
      rw [hrec] at h
      dsimp only at h
      cases hidx : t.Get txId with
      | none => rw [hidx] at h; cases h; exact Or.inl rfl
      | some val =>
        rw [hidx] at h
        dsimp only at h
        cases hinfo : GetObject e t (GlobalTxInfoKey (e.stringOfBytes val)) with
        | none => rw [hinfo] at h; cases h; exact Or.inl rfl
        | some info =>
          rw [hinfo] at h
          dsimp only at h
          cases hl : mapLookup info.ChildTxInfo txId with
          | none =>
            rw [hl] at h
            simp only [Option.isNone_none, if_true] at h
            cases h
            exact Or.inl rfl
          | some s =>
            rw [hl] at h
            simp only [Option.isNone_some, Bool.false_eq_true, if_false] at h
            cases hcm : changeMultiTxStatus e t (e.stringOfBytes val) info txId r with
            | none => rw [hcm] at h; cases h
            | some p =>
              obtain ⟨info1, t0, err⟩ := p
              rw [hcm] at h
              cases err with
              | some er =>
                have hsh := (changeMultiTxStatus_shape e t _ info txId r info1 t0 (some er)
                  hcm).2
                have ht1 : t1 = t0 := (congrArg Prod.snd (Option.some.inj h)).symm
                rcases hsh with ⟨ht, _⟩ | ⟨he, _⟩
                · exact Or.inl (ht1.trans ht)
                · cases he
              | none =>
                dsimp only at h
                have ht := (congrArg Prod.snd (Option.some.inj h)).symm
                exact Or.inr (Or.inr ⟨val, info, info1, t0, s, rfl, rfl, hinfo, hl, hcm, ht⟩)

/-! ## The statuses of the children over the reachable states (C36) -/

theorem mapLookup_mapSet (m : ChildMap) (k k2 : String) (v : TransactionStatus) :
    mapLookup (mapSet m k v) k2 = if k2 = k then some v else mapLookup m k2 := by
  by_cases h : k2 = k
  · rw [if_pos h, h]
    exact mapLookup_mapSet_same m k v
  · rw [if_neg h]
    exact mapLookup_mapSet_other m k k2 v h

/-- The lookup after a loop that sets every key of a listing of the keys to one
value. -/
theorem mapLookup_foldl_all (v : TransactionStatus) (order : List String) (m : ChildMap)
    (hperm : order.Perm (mapKeys m)) (k : String) (s : TransactionStatus)
    (h : mapLookup (order.foldl (fun m k => mapSet m k v) m) k = some s) : s = v := by
  have hf := foldl_mapSet v order m (fun k hk => hperm.mem_iff.mp hk)
  by_cases hk : k ∈ order
  · rw [hf.2.1 k hk] at h
    exact (Option.some.inj h).symm
  · rw [hf.2.2 k hk, not_mem_lookup_none m k (fun hm => hk (hperm.mem_iff.mpr hm))] at h
    cases h

theorem childConsistent_self (gs : TransactionStatus) (h1 : gs ≠ BEGIN_ROLLBACK)
    (h2 : gs ≠ ROLLBACK) : childConsistent gs gs := by
  cases gs <;> first | (exact absurd rfl h1) | (exact absurd rfl h2) | (unfold childConsistent; simp)

/-- A child that fits the global state still fits it after an event of a receipt
outside the fast failure. -/
theorem childConsistent_step (gs s s1 : TransactionStatus) (r : Int)
    (hc : childConsistent gs s)
    (hnf : ¬ (gs = BEGIN ∧ r = IBTP_RECEIPT_FAILURE))
    (hleg : setFSM s (receipt2EventM r) = (s1, none)) : childConsistent gs s1 := by
  rcases specReceiptStep_some s s1 r (setFSM_receipt_ok s s1 r hleg) with
    ⟨h1, h2, h3⟩ | ⟨h1, h2, h3⟩ | ⟨h1, h2, h3⟩ | ⟨h1, h2, h3⟩ | ⟨h1, h2, h3⟩ <;>
  · subst h1 h3
    revert hc hnf
    cases gs <;> simp [childConsistent, h2]

/-- When the child and the global state both take the event of a receipt outside
the fast failure, the new status of the child fits the new global state, which is
not a rollback state. -/
theorem childConsistent_finish (gs gs1 s s1 : TransactionStatus) (r : Int)
    (hc : childConsistent gs s)
    (hnf : ¬ (gs = BEGIN ∧ r = IBTP_RECEIPT_FAILURE))
    (hleg : setFSM s (receipt2EventM r) = (s1, none))
    (hgl : setFSM gs (receipt2EventM r) = (gs1, none)) :
    childConsistent gs1 s1 ∧ gs1 ≠ BEGIN_ROLLBACK ∧ gs1 ≠ ROLLBACK := by
  rcases specReceiptStep_some s s1 r (setFSM_receipt_ok s s1 r hleg) with
    ⟨h1, h2, h3⟩ | ⟨h1, h2, h3⟩ | ⟨h1, h2, h3⟩ | ⟨h1, h2, h3⟩ | ⟨h1, h2, h3⟩ <;>
  rcases specReceiptStep_some gs gs1 r (setFSM_receipt_ok gs gs1 r hgl) with
    ⟨g1, g2, g3⟩ | ⟨g1, g2, g3⟩ | ⟨g1, g2, g3⟩ | ⟨g1, g2, g3⟩ | ⟨g1, g2, g3⟩ <;>
  · subst h1 h3 g1 g3 h2
    revert hc hnf g2
    decide

/-- The transaction info that `BeginMultiTXs` stores is consistent when the one
it read was. -/
theorem consistentInfo_begin_multi (e : Env B) (c : String) (info1 : TransactionInfo)
    (o : Option TransactionInfo) (hold : ∀ info, o = some info → consistentInfo info)
    (h : (o = none ∧ info1.ChildTxInfo = [(c, info1.GlobalState)] ∧
          (info1.GlobalState = BEGIN ∨ info1.GlobalState = BEGIN_FAILURE)) ∨
        ∃ info, o = some info ∧
          ((info1.GlobalState = info.GlobalState ∧
              info1.ChildTxInfo = mapSet info.ChildTxInfo c info.GlobalState) ∨
            (info.GlobalState = BEGIN ∧ info1.GlobalState = BEGIN_FAILURE ∧
              info1.ChildTxInfo = mapSet
                ((e.rangeOrder 101 (mapKeys info.ChildTxInfo)).foldl
                  (fun m k => mapSet m k BEGIN_FAILURE) info.ChildTxInfo) c BEGIN_FAILURE))) :
    consistentInfo info1 := by
  rcases h with ⟨_, hch, hgs⟩ | ⟨info, ho, hcase⟩
  · have h1 : info1.GlobalState ≠ BEGIN_ROLLBACK := by
      rcases hgs with h | h <;> rw [h] <;> decide
    have h2 : info1.GlobalState ≠ ROLLBACK := by
      rcases hgs with h | h <;> rw [h] <;> decide
    refine ⟨h1, h2, ?_⟩
    intro k s hk
    rw [hch] at hk
    simp only [mapLookup] at hk
    split at hk
    · cases hk
      exact childConsistent_self _ h1 h2
    · cases hk
  · obtain ⟨o1, o2, o3⟩ := hold info ho
    rcases hcase with ⟨hgs, hch⟩ | ⟨hb, hgs, hch⟩
    · refine ⟨by rw [hgs]; exact o1, by rw [hgs]; exact o2, ?_⟩
      intro k s hk
      rw [hch, mapLookup_mapSet] at hk
      rw [hgs]
      split at hk
      · cases hk
        exact childConsistent_self _ o1 o2
      · exact o3 k s hk
    · refine ⟨by rw [hgs]; decide, by rw [hgs]; decide, ?_⟩
      intro k s hk
      rw [hch, mapLookup_mapSet] at hk
      rw [hgs]
      split at hk
      · cases hk
        exact Or.inl rfl
      · have := mapLookup_foldl_all BEGIN_FAILURE _ _ (e.rangeOrder_perm 101 _) k s hk
        rw [this]
        exact Or.inl rfl

/-- The transaction info that `Report` stores is consistent when the one it read
was. -/
theorem consistentInfo_report (e : Env B) (t t0 : Stub B) (g txId : String) (r : Int)
    (info info1 : TransactionInfo) (s : TransactionStatus)
    (hold : consistentInfo info)
    (hs : mapLookup info.ChildTxInfo txId = some s)
    (hcm : changeMultiTxStatus e t g info txId r = some (info1, t0, none)) :
    consistentInfo info1 := by
  obtain ⟨o1, o2, o3⟩ := hold
  obtain ⟨_, _, hcase⟩ := changeMultiTxStatus_info e t g info txId r info1 t0 s hs hcm
  rcases hcase with ⟨_, _, hgs, _, hch⟩ | ⟨hnf, s1, hleg, hch, hfin⟩
  · refine ⟨by rw [hgs]; decide, by rw [hgs]; decide, ?_⟩
    intro k s2 hk
    rw [hch, mapLookup_mapSet] at hk
    rw [hgs]
    split at hk
    · cases hk
      exact Or.inr rfl
    · have := mapLookup_foldl_all BEGIN_FAILURE _ _ (e.rangeOrder_perm 429 _) k s2 hk
      rw [this]
      exact Or.inl rfl
  · rcases hfin with ⟨hgs, _, _⟩ | ⟨hall, hgl, _⟩
    · refine ⟨by rw [hgs]; exact o1, by rw [hgs]; exact o2, ?_⟩
      intro k s2 hk
      rw [hch, mapLookup_mapSet] at hk
      rw [hgs]
      split at hk
      · cases hk
        exact childConsistent_step _ s _ r (o3 txId s hs) hnf hleg
      · exact o3 k s2 hk
    · obtain ⟨hc, h1, h2⟩ := childConsistent_finish _ _ s s1 r (o3 txId s hs) hnf hleg hgl
      refine ⟨h1, h2, ?_⟩
      intro k s2 hk
      rw [hch] at hk
      have hmem : k ∈ mapKeys (mapSet info.ChildTxInfo txId s1) :=
        (mapLookup_isSome_iff _ _).mp (by rw [hk]; rfl)
      have := hall.1 k hmem
      simp only [mapGet, hk, Option.getD_some] at this
      rw [this]
      exact hc

theorem addToTimeoutList_frame (e : Env B) (t : Stub B) (height : Nat) (g k : String)
    (hk : k ≠ TimeoutKey height) : (addToTimeoutList e t height g).Get k = t.Get k := by
  unfold addToTimeoutList
  cases t.Get (TimeoutKey height) <;> exact Stub.Get_Set_other _ _ _ _ hk

/-- The store under the write of the transaction info differs from the former
one in the timeout entry of the height at most. -/
theorem timeout_step_frame (e : Env B) (t t0 : Stub B) (height : Nat) (g k : String)
    (h : t0 = t ∨ t0 = addToTimeoutList e t height g ∨
      removeFromTimeoutList e t height g = some t0)
    (hk : k ≠ TimeoutKey height) : t0.Get k = t.Get k := by
  rcases h with h | h | h
  · rw [h]
  · rw [h]; exact addToTimeoutList_frame e t height g k hk
  · exact removeFromTimeoutList_frame e t t0 height g h k hk

/-- The transaction infos of the store after a `BeginMultiTXs` that wrote. -/
theorem GetObject_begin_multi (e : Env B) (t t0 : Stub B) (g c x : String)
    (info1 : TransactionInfo) (hc : isIndexKey c = false)
    (h : t0 = t ∨ t0 = addToTimeoutList e t info1.Height g ∨
      removeFromTimeoutList e t info1.Height g = some t0) :
    GetObject e ((SetObject e t0 (GlobalTxInfoKey g) info1).Set c (e.bytesOfString g))
        (GlobalTxInfoKey x) =
      if x = g then some info1 else GetObject e t (GlobalTxInfoKey x) := by
  have hcx : GlobalTxInfoKey x ≠ c := fun hh => by
    rw [← hh, isIndexKey_GlobalTxInfoKey] at hc
    cases hc
  have h1 : GetObject e ((SetObject e t0 (GlobalTxInfoKey g) info1).Set c (e.bytesOfString g))
      (GlobalTxInfoKey x) = GetObject e (SetObject e t0 (GlobalTxInfoKey g) info1)
      (GlobalTxInfoKey x) := by
    unfold GetObject
    rw [Stub.Get_Set_other _ _ _ _ hcx]
  rw [h1, GetObject_SetObject_global]
  by_cases hx : x = g
  · rw [if_pos hx, if_pos hx]
  · rw [if_neg hx, if_neg hx]
    unfold GetObject
    rw [timeout_step_frame e t t0 _ g _ h
      (fun hh => TimeoutKey_ne_GlobalTxInfoKey _ _ hh.symm)]

/-- The transaction infos of the store after a `Report` that stored one. -/
theorem GetObject_report (e : Env B) (t t0 : Stub B) (g txId x : String) (r : Int)
    (info info1 : TransactionInfo)
    (hcm : changeMultiTxStatus e t g info txId r = some (info1, t0, none)) :
    GetObject e (SetObject e t0 (GlobalTxInfoKey g) info1) (GlobalTxInfoKey x) =
      if x = g then some info1 else GetObject e t (GlobalTxInfoKey x) := by
  rw [GetObject_SetObject_global]
  by_cases hx : x = g
  · rw [if_pos hx, if_pos hx]
  · rw [if_neg hx, if_neg hx]
    unfold GetObject
    rw [changeMultiTxStatus_frame e t t0 g info info1 txId r none hcm _
      (fun hh => TimeoutKey_ne_GlobalTxInfoKey _ _ hh.symm)]

theorem StatusInv_sameIndex (e : Env B) (t t1 : Stub B) (h : sameIndex t t1)
    (inv : StatusInv e t) : StatusInv e t1 := by
  intro g info hg
  rw [GetObject_sameIndex e t t1 g h] at hg
  exact inv g info hg

theorem BeginMultiTXs_StatusInv (e : Env B) (t : Stub B) (g c : String) (th : Nat) (f : Bool)
    (n : Nat) (resp : Response) (t1 : Stub B) (hc : isIndexKey c = false)
    (inv : StatusInv e t) (h : BeginMultiTXs e t g c th f n = some (resp, t1)) :
    StatusInv e t1 := by
  rcases BeginMultiTXs_shape e t g c th f n resp t1 h with ht | ⟨info1, t0, ht, hstep, hcase⟩
  · rw [ht]; exact inv
  · intro x i hx
    rw [ht, GetObject_begin_multi e t t0 g c x info1 hc hstep] at hx
    by_cases hxg : x = g
    · rw [if_pos hxg] at hx
      cases hx
      refine consistentInfo_begin_multi e c _ (GetObject e t (GlobalTxInfoKey g))
        (fun info hi => inv g info hi) ?_
      rcases hcase with ⟨hn, hch, hgs⟩ | ⟨info, hi, _, _, _, hadd⟩
      · exact Or.inl ⟨hn, hch, hgs.elim (fun h => Or.inl h.1) (fun h => Or.inr h.1)⟩
      · refine Or.inr ⟨info, hi, ?_⟩
        rcases hadd with ⟨_, hgs, _, hch⟩ | ⟨hb, hgs, _, hch⟩ | ⟨hb, hgs, _, hch⟩
        · exact Or.inl ⟨hgs, hch⟩
        · exact Or.inl ⟨hgs.trans hb.symm, by rw [hch, hb]⟩
        · exact Or.inr ⟨hb, hgs, hch⟩
    · rw [if_neg hxg] at hx
      exact inv x i hx

theorem Report_StatusInv (e : Env B) (t : Stub B) (txId : String) (r : Int)
    (resp : Response) (t1 : Stub B) (inv : StatusInv e t)
    (h : Report e t txId r = some (resp, t1)) : StatusInv e t1 := by
  rcases Report_shape e t txId r resp t1 h with ht | ⟨b, ht⟩ |
    ⟨val, info, info1, t0, s, _, _, hinfo, hs, hcm, ht⟩
  · rw [ht]; exact inv
  · rw [ht]
    exact StatusInv_sameIndex e t _ (sameIndex_Set t _ _ (isIndexKey_TxInfoKey txId)) inv
  · intro x i hx
    rw [ht, GetObject_report e t t0 _ txId x r info info1 hcm] at hx
    by_cases hxg : x = e.stringOfBytes val
    · rw [if_pos hxg] at hx
      cases hx
      exact consistentInfo_report e t t0 _ txId r info _ s (inv _ info hinfo) hs hcm
    · rw [if_neg hxg] at hx
      exact inv x i hx

/-- Every state reachable with child IDs that are not keys of the index holds
consistent transaction infos only. -/
theorem Reachable_StatusInv (e : Env B) (t : Stub B)
    (h : Reachable e (fun _ => True) (fun c => isIndexKey c = false) t) : StatusInv e t := by
  induction h with
  | empty height caller =>
    intro g info hg
    cases hg
  | host t height caller _ ih =>
    exact StatusInv_sameIndex e t _ (fun _ _ => rfl) ih
  | begin t txId timeoutHeight isFailed _ ih =>
    exact StatusInv_sameIndex e t _ (Begin_sameIndex e t txId timeoutHeight isFailed) ih
  | beginInter t txId timeoutHeight proof isFailed _ ih =>
    exact StatusInv_sameIndex e t _
      (BeginInterBitXHub_sameIndex e t txId timeoutHeight proof isFailed) ih
  | beginMulti t g c timeoutHeight isFailed count resp t1 _ _ hc hcall ih =>
    exact BeginMultiTXs_StatusInv e t g c timeoutHeight isFailed count resp t1 hc ih hcall
  | report t txId r resp t1 _ hcall ih =>
    exact Report_StatusInv e t txId r resp t1 ih hcall
  | getStatus t txId _ ih =>
    rw [GetStatus_stub]
    exact ih

/-- C36, as the specification states it, fails: the entry points take any string
as an ID, and the reverse index entry of a child is written under the bare child
ID.  On a host that decodes the text `{"GlobalState":2}` as a transaction info,
after `BeginMultiTXs` with that text as the global ID and the key of that
transaction as the child ID, the entry under `global-tx-{"GlobalState":2}` is the
text itself, which reads back as a transaction info at `BEGIN_ROLLBACK`. -/
theorem C36_counterexample_child_id_is_global_key :
    Reachable hostText (fun _ => True) (fun _ => True) afterTextID ∧
    afterTextID.Get (GlobalTxInfoKey textID) = some (.raw textID) ∧
    GetObject hostText afterTextID (GlobalTxInfoKey textID) =
      some ⟨BEGIN_ROLLBACK, 0, [], 0⟩ ∧
    ¬ consistentInfo ⟨BEGIN_ROLLBACK, 0, [], 0⟩ := by
  refine ⟨?_, ?_, ?_, ?_⟩
  · exact Reachable.beginMulti (Stub.empty 100 InterchainContractAddr) textID
      (GlobalTxInfoKey textID) 10 false 1
      (Response.Success (Payload.change ⟨-1, 0, [GlobalTxInfoKey textID], [], [], false⟩))
      afterTextID (Reachable.empty 100 InterchainContractAddr) trivial trivial rfl
  · decide
  · decide
  · intro h
    exact h.1 rfl

/-- C36, amended.  In every state reachable from the empty store through the
entry points, when the child IDs passed to `BeginMultiTXs` do not start with
`global-tx-` or `timeout-`: for every stored transaction info, the global state
is neither `BEGIN_ROLLBACK` nor `ROLLBACK`, and every child is `BEGIN` or
`SUCCESS` if the global state is `BEGIN`, `BEGIN_FAILURE` or `FAILURE` if it is
`BEGIN_FAILURE`, `SUCCESS` if it is `SUCCESS`, `FAILURE` if it is `FAILURE`. -/
theorem C36_children_consistent_with_global_state (e : Env B) (t : Stub B) (g : String)
    (info : TransactionInfo)
    (hreach : Reachable e (fun _ => True) (fun c => isIndexKey c = false) t)
    (hinfo : GetObject e t (GlobalTxInfoKey g) = some info) :
    info.GlobalState ≠ BEGIN_ROLLBACK ∧ info.GlobalState ≠ ROLLBACK ∧
    ∀ k s, mapLookup info.ChildTxInfo k = some s →
      (info.GlobalState = BEGIN → s = BEGIN ∨ s = SUCCESS) ∧
      (info.GlobalState = BEGIN_FAILURE → s = BEGIN_FAILURE ∨ s = FAILURE) ∧
      (info.GlobalState = SUCCESS → s = SUCCESS) ∧
      (info.GlobalState = FAILURE → s = FAILURE) := by
  obtain ⟨h1, h2, h3⟩ := Reachable_StatusInv e t hreach g info hinfo
  refine ⟨h1, h2, fun k s hk => ?_⟩
  have hc := h3 k s hk
  revert hc
  cases info.GlobalState <;> cases s <;> decide

/-- Witness of C36 amended: the state after one `BeginMultiTXs("g", "c1", 10,
false, 2)` at height 100 on the empty store is reachable and stores `g` at
`BEGIN` with the child `c1` at `BEGIN`. -/
theorem C36_children_consistent_with_global_state_witness :
    Reachable host (fun _ => True) (fun c => isIndexKey c = false) afterPlainBegin ∧
    GetObject host afterPlainBegin (GlobalTxInfoKey "g") =
      some ⟨BEGIN, 110, [("c1", BEGIN)], 2⟩ ∧
    (BEGIN ≠ BEGIN_ROLLBACK ∧ BEGIN ≠ ROLLBACK ∧
    ∀ k s, mapLookup [("c1", BEGIN)] k = some s →
      (BEGIN = BEGIN → s = BEGIN ∨ s = SUCCESS) ∧
      (BEGIN = BEGIN_FAILURE → s = BEGIN_FAILURE ∨ s = FAILURE) ∧
      (BEGIN = SUCCESS → s = SUCCESS) ∧
      (BEGIN = FAILURE → s = FAILURE)) :=
  have hr : Reachable host (fun _ => True) (fun c => isIndexKey c = false) afterPlainBegin :=
    Reachable.beginMulti (Stub.empty 100 InterchainContractAddr) "g" "c1" 10 false 2
      (Response.Success (Payload.change
        ⟨-1, 0, ["c1"], [], [], false⟩))
      afterPlainBegin (Reachable.empty 100 InterchainContractAddr) trivial (by decide) rfl
  ⟨hr, by decide,
    C36_children_consistent_with_global_state host afterPlainBegin "g"
      ⟨BEGIN, 110, [("c1", BEGIN)], 2⟩ hr (by decide)⟩

theorem filter_erase_nonempty (l : List String) (g : String) (hg : g ≠ "") :
    (l.erase g).filter (fun x => decide (x ≠ "")) =
      (l.filter (fun x => decide (x ≠ ""))).erase g := by
  induction l with
  | nil => rfl
  | cons a l ih =>
    by_cases hag : a = g
    · subst hag
      rw [List.erase_cons_head, List.filter_cons_of_pos (by simpa using hg),
        List.erase_cons_head]
    · rw [List.erase_cons_tail (by simpa using hag)]
      by_cases ha : a = ""
      · rw [List.filter_cons_of_neg (by simpa using ha),
          List.filter_cons_of_neg (by simpa using ha), ih]
      · rw [List.filter_cons_of_pos (by simpa using ha),
          List.filter_cons_of_pos (by simpa using ha),
          List.erase_cons_tail (by simpa using hag), ih]

theorem filter_split_join (l : List String) (hl : ∀ y ∈ l, ',' ∉ y.data) :
    (stringsSplit (stringsJoin l)).filter (fun x => decide (x ≠ "")) =
      l.filter (fun x => decide (x ≠ "")) := by
  by_cases hne : l = []
  · subst hne
    have : stringsSplit (stringsJoin []) = [""] := by decide
    rw [this]
    rfl
  · rw [stringsSplit_stringsJoin l hne hl]

theorem timeoutIDs_sameIndex (e : Env B) (t t1 : Stub B) (height : Nat)
    (h : sameIndex t t1) : timeoutIDs e t1 height = timeoutIDs e t height := by
  unfold timeoutIDs
  rw [timeoutList_sameIndex e t t1 height h]

theorem timeoutIDs_addToTimeoutList (e : Env B) (t : Stub B) (height h2 : Nat) (g : String)
    (hg : plainGlobalID g) :
    timeoutIDs e (addToTimeoutList e t height g) h2 =
      if TimeoutKey h2 = TimeoutKey height then timeoutIDs e t h2 ++ [g]
      else timeoutIDs e t h2 := by
  unfold timeoutIDs
  rw [timeoutList_addToTimeoutList e t height h2 g hg.2]
  by_cases hk : TimeoutKey h2 = TimeoutKey height
  · rw [if_pos hk, if_pos hk, List.filter_append]
    congr 1
    rw [List.filter_cons_of_pos (by simpa using hg.1)]
    rfl
  · rw [if_neg hk, if_neg hk]

theorem timeoutIDs_withoutTimeout (e : Env B) (t : Stub B) (height h2 : Nat) (g : String)
    (hg : g ≠ "") :
    timeoutIDs e (withoutTimeout e t height g) h2 =
      if TimeoutKey h2 = TimeoutKey height then (timeoutIDs e t h2).erase g
      else timeoutIDs e t h2 := by
  by_cases hk : TimeoutKey h2 = TimeoutKey height
  · rw [if_pos hk]
    unfold timeoutIDs timeoutList withoutTimeout
    rw [hk]
    cases hb : t.Get (TimeoutKey height) with
    | none => simp only [hb]; rfl
    | some b =>
      simp only [Stub.Get_Set_same, e.string_bytes]
      rw [filter_split_join _
        (fun y hy => stringsSplit_pieces _ y (List.mem_of_mem_erase hy))]
      exact filter_erase_nonempty _ g hg
  · rw [if_neg hk]
    unfold timeoutIDs timeoutList
    rw [withoutTimeout_Get_other e t height g _ hk]

/-- The IDs listed at a height after an ID has been taken out of the index of a
stored transaction, in a state where the index is right. -/
theorem timeoutIDs_remove (e : Env B) (t t0 : Stub B) (g : String) (info : TransactionInfo)
    (inv : IndexInv e t) (hinfo : GetObject e t (GlobalTxInfoKey g) = some info)
    (h : removeFromTimeoutList e t info.Height g = some t0) (h2 : Nat) :
    timeoutIDs e t0 h2 = timeoutIDs e t h2 ∨
      timeoutIDs e t0 h2 = (timeoutIDs e t h2).erase g := by
  rw [removeFromTimeoutList_inv e t t0 g info inv hinfo h,
    timeoutIDs_withoutTimeout e t info.Height h2 g (inv.nonempty g (by rw [hinfo]; rfl))]
  by_cases hk : TimeoutKey h2 = TimeoutKey info.Height
  · rw [if_pos hk]; exact Or.inr rfl
  · rw [if_neg hk]; exact Or.inl rfl

theorem timeoutIDs_write (e : Env B) (t0 : Stub B) (g c : String) (info1 : TransactionInfo)
    (v : B) (hc : isIndexKey c = false) (h2 : Nat) :
    timeoutIDs e ((SetObject e t0 (GlobalTxInfoKey g) info1).Set c v) h2 =
      timeoutIDs e t0 h2 := by
  rw [timeoutIDs_sameIndex e _ _ h2 (sameIndex_Set _ c v hc)]
  unfold timeoutIDs
  rw [timeoutList_SetObject]

theorem BeginMultiTXs_timeoutIDs (e : Env B) (t : Stub B) (g c : String) (th : Nat)
    (f : Bool) (n : Nat) (resp : Response) (t1 : Stub B) (inv : IndexInv e t)
    (hg : plainGlobalID g) (hc : isIndexKey c = false)
    (h : BeginMultiTXs e t g c th f n = some (resp, t1)) (h2 : Nat) :
    timeoutIDs e t1 h2 = timeoutIDs e t h2 ∨
      timeoutIDs e t1 h2 = timeoutIDs e t h2 ++ [g] ∨
      timeoutIDs e t1 h2 = (timeoutIDs e t h2).erase g := by
  rcases BeginMultiTXs_shape e t g c th f n resp t1 h with ht | ⟨info1, t0, ht, _, hcase⟩
  · rw [ht]; exact Or.inl rfl
  · rw [ht, timeoutIDs_write e t0 g c info1 _ hc h2]
    have hadd : t0 = addToTimeoutList e t info1.Height g →
        timeoutIDs e t0 h2 = timeoutIDs e t h2 ∨
          timeoutIDs e t0 h2 = timeoutIDs e t h2 ++ [g] ∨
          timeoutIDs e t0 h2 = (timeoutIDs e t h2).erase g := by
      intro h0
      rw [h0, timeoutIDs_addToTimeoutList e t info1.Height h2 g hg]
      by_cases hk : TimeoutKey h2 = TimeoutKey info1.Height
      · rw [if_pos hk]; exact Or.inr (Or.inl rfl)
      · rw [if_neg hk]; exact Or.inl rfl
    rcases hcase with ⟨_, _, hgs⟩ | ⟨info, hi, _, _, _, hsub⟩
    · rcases hgs with ⟨_, h0⟩ | ⟨_, h0⟩
      · exact hadd h0
      · rw [h0]; exact Or.inl rfl
    · rcases hsub with ⟨_, _, h0, _⟩ | ⟨_, _, h0, _⟩ | ⟨_, _, hrm, _⟩
      · rw [h0]; exact Or.inl rfl
      · rw [h0]; exact Or.inl rfl
      · rcases timeoutIDs_remove e t t0 g info inv hi hrm h2 with h3 | h3
        · exact Or.inl h3
        · exact Or.inr (Or.inr h3)

theorem Report_timeoutIDs (e : Env B) (t : Stub B) (txId : String) (r : Int)
    (resp : Response) (t1 : Stub B) (inv : IndexInv e t)
    (h : Report e t txId r = some (resp, t1)) (h2 : Nat) :
    timeoutIDs e t1 h2 = timeoutIDs e t h2 ∨
      ∃ g, timeoutIDs e t1 h2 = (timeoutIDs e t h2).erase g := by
  rcases Report_shape e t txId r resp t1 h with ht | ⟨b, ht⟩ |
    ⟨val, info, info1, t0, s, _, _, hinfo, hs, hcm, ht⟩
  · rw [ht]; exact Or.inl rfl
  · rw [ht]
    exact Or.inl (timeoutIDs_sameIndex e t _ h2 (sameIndex_Set t _ b (isIndexKey_TxInfoKey txId)))
  · have hw : timeoutIDs e t1 h2 = timeoutIDs e t0 h2 := by
      rw [ht]
      unfold timeoutIDs
      rw [timeoutList_SetObject]
    rw [hw]
    have hrmv : removeFromTimeoutList e t info.Height (e.stringOfBytes val) = some t0 →
        timeoutIDs e t0 h2 = timeoutIDs e t h2 ∨
          ∃ g, timeoutIDs e t0 h2 = (timeoutIDs e t h2).erase g := by
      intro hrm
      rcases timeoutIDs_remove e t t0 _ info inv hinfo hrm h2 with h3 | h3
      · exact Or.inl h3
      · exact Or.inr ⟨_, h3⟩
    obtain ⟨_, _, hc⟩ := changeMultiTxStatus_info e t _ info txId r info1 t0 s hs hcm
    rcases hc with ⟨_, _, _, hrm, _⟩ | ⟨_, s1, _, _, hfin⟩
    · exact hrmv hrm
    · rcases hfin with ⟨_, h0, _⟩ | ⟨_, _, hrm⟩
      · rw [h0]; exact Or.inl rfl
      · exact hrmv hrm

/-- C35, as the specification states it, fails: `addToTimeoutList` puts the ID at
the end of the stored list and nothing sorts the list.  After
`BeginMultiTXs("b", "c1", 10, false, 1)` and `BeginMultiTXs("a", "c2", 10, false,
1)` at height 100 the entry under `timeout-110` is the string `b,a`, which is not
in ascending order. -/
theorem C35_counterexample_insertion_order_not_sorted :
    Reachable host plainGlobalID (fun c => isIndexKey c = false) afterBeginBA ∧
    afterBeginBA.Get (TimeoutKey 110) = some (.raw "b,a") ∧
    timeoutList host afterBeginBA 110 = ["b", "a"] ∧
    sortStrings ["b", "a"] = ["a", "b"] ∧
    timeoutList host afterBeginBA 110 ≠ sortStrings (timeoutList host afterBeginBA 110) := by
  refine ⟨?_, ?_, ?_, ?_, ?_⟩
  · exact Reachable.beginMulti afterBeginB "a" "c2" 10 false 1
      (Response.Success (Payload.change ⟨-1, 0, ["c2"], [], [], false⟩)) afterBeginBA
      (Reachable.beginMulti (Stub.empty 100 InterchainContractAddr) "b" "c1" 10 false 1
        (Response.Success (Payload.change ⟨-1, 0, ["c1"], [], [], false⟩)) afterBeginB
        (Reachable.empty 100 InterchainContractAddr) (by decide) (by decide) rfl)
      (by decide) (by decide) rfl
  · decide
  · decide
  · decide
  · decide

/-- C35, amended.  The timeout lists are kept in the order of insertion, not in
ascending order.  In every state reachable from the empty store through the
entry points, when the global IDs passed to `BeginMultiTXs` are not empty and
hold no comma and the child IDs passed to it do not start with `global-tx-` or
`timeout-`, and for every height: `Begin`, `BeginInterBitXHub` and `GetStatus`
leave the list of IDs stored under the timeout key as it is; `BeginMultiTXs`
leaves it as it is, or puts its global ID at the end, or takes the first
occurrence of its global ID out; `Report` leaves it as it is or takes the first
occurrence of one ID out. -/
theorem C35_timeout_lists_keep_insertion_order (e : Env B) (t : Stub B) (height : Nat)
    (hreach : Reachable e plainGlobalID (fun c => isIndexKey c = false) t) :
    (∀ txId th f, timeoutIDs e (Begin e t txId th f).2 height = timeoutIDs e t height) ∧
    (∀ txId th p f,
      timeoutIDs e (BeginInterBitXHub e t txId th p f).2 height = timeoutIDs e t height) ∧
    (∀ txId, timeoutIDs e (GetStatus e t txId).2 height = timeoutIDs e t height) ∧
    (∀ g c th f n resp t1, plainGlobalID g → isIndexKey c = false →
      BeginMultiTXs e t g c th f n = some (resp, t1) →
      timeoutIDs e t1 height = timeoutIDs e t height ∨
        timeoutIDs e t1 height = timeoutIDs e t height ++ [g] ∨
        timeoutIDs e t1 height = (timeoutIDs e t height).erase g) ∧
    (∀ txId r resp t1, Report e t txId r = some (resp, t1) →
      timeoutIDs e t1 height = timeoutIDs e t height ∨
        ∃ g, timeoutIDs e t1 height = (timeoutIDs e t height).erase g) := by
  have inv := Reachable_IndexInv e t hreach
  refine ⟨?_, ?_, ?_, ?_, ?_⟩
  · intro txId th f
    exact timeoutIDs_sameIndex e t _ height (Begin_sameIndex e t txId th f)
  · intro txId th p f
    exact timeoutIDs_sameIndex e t _ height (BeginInterBitXHub_sameIndex e t txId th p f)
  · intro txId
    rw [GetStatus_stub]
  · intro g c th f n resp t1 hg hc h
    exact BeginMultiTXs_timeoutIDs e t g c th f n resp t1 inv hg hc h height
  · intro txId r resp t1 h
    exact Report_timeoutIDs e t txId r resp t1 inv h height

theorem mem_mapKeys_mapSet (m : ChildMap) (c k : String) (v : TransactionStatus) :
    k ∈ mapKeys (mapSet m c v) ↔ k = c ∨ k ∈ mapKeys m := by
  rw [← mapLookup_isSome_iff, ← mapLookup_isSome_iff, mapLookup_mapSet]
  by_cases h : k = c
  · simp [h]
  · simp [h]

theorem mem_mapKeys_foldl (v : TransactionStatus) (order : List String) (m : ChildMap)
    (hperm : order.Perm (mapKeys m)) (k : String) (hk : k ∈ mapKeys m) :
    k ∈ mapKeys (order.foldl (fun m k => mapSet m k v) m) := by
  rw [(foldl_mapSet v order m (fun k hk => hperm.mem_iff.mp hk)).1]
  exact hk

/-- The children of the info that `changeMultiTxStatus` returns hold every child
of the info it was given. -/
theorem changeMultiTxStatus_keys (e : Env B) (t : Stub B) (g : String)
    (info : TransactionInfo) (txId : String) (r : Int) (info1 : TransactionInfo)
    (t1 : Stub B) (s : TransactionStatus)
    (hs : mapLookup info.ChildTxInfo txId = some s)
    (h : changeMultiTxStatus e t g info txId r = some (info1, t1, none)) (k : String)
    (hk : k ∈ mapKeys info.ChildTxInfo) : k ∈ mapKeys info1.ChildTxInfo := by
  obtain ⟨_, _, hc⟩ := changeMultiTxStatus_info e t g info txId r info1 t1 s hs h
  rcases hc with ⟨_, _, _, _, hch⟩ | ⟨_, s1, _, hch, _⟩
  · rw [hch, mem_mapKeys_mapSet]
    exact Or.inr (mem_mapKeys_foldl _ _ _ (e.rangeOrder_perm _ _) k hk)
  · rw [hch, mem_mapKeys_mapSet]
    exact Or.inr hk

theorem Begin_stub (e : Env B) (t : Stub B) (txId : String) (timeoutHeight : Nat)
    (isFailed : Bool) :
    (Begin e t txId timeoutHeight isFailed).2 = t ∨
      ∃ b, (Begin e t txId timeoutHeight isFailed).2 = t.Set (TxInfoKey txId) b := by
  unfold Begin
  cases checkCurrentCaller t with
  | some er => exact Or.inl rfl
  | none => exact Or.inr ⟨_, rfl⟩

theorem BeginInterBitXHub_stub (e : Env B) (t : Stub B) (txId : String)
    (timeoutHeight : Nat) (proof : B) (isFailed : Bool) :
    (BeginInterBitXHub e t txId timeoutHeight proof isFailed).2 = t ∨
      ∃ b, (BeginInterBitXHub e t txId timeoutHeight proof isFailed).2 =
        t.Set (TxInfoKey txId) b := by
  unfold BeginInterBitXHub
  repeat' first
    | exact Or.inl rfl
    | exact Or.inr ⟨_, rfl⟩
    | split
    | (dsimp only; split)

theorem ResolveInv_Set_record (e : Env B) (t : Stub B) (txId : String) (b : B)
    (inv : ResolveInv e t) : ResolveInv e (t.Set (TxInfoKey txId) b) := by
  intro c val hc hget
  have hne := (ne_keys_of_not_contract_key c hc).1 txId
  rw [Stub.Get_Set_other _ _ _ _ hne] at hget
  obtain ⟨info, hinfo, hmem⟩ := inv c val hc hget
  refine ⟨info, ?_, hmem⟩
  rw [GetObject_sameIndex e t _ _ (sameIndex_Set t _ b (isIndexKey_TxInfoKey txId))]
  exact hinfo

theorem BeginMultiTXs_ResolveInv (e : Env B) (t : Stub B) (g c : String) (th : Nat)
    (f : Bool) (n : Nat) (resp : Response) (t1 : Stub B) (hc : isIndexKey c = false)
    (inv : ResolveInv e t) (h : BeginMultiTXs e t g c th f n = some (resp, t1)) :
    ResolveInv e t1 := by
  rcases BeginMultiTXs_shape e t g c th f n resp t1 h with ht | ⟨info1, t0, ht, hstep, hcase⟩
  · rw [ht]; exact inv
  · have hcmem : c ∈ mapKeys info1.ChildTxInfo := by
      rcases hcase with ⟨_, hch, _⟩ | ⟨info, _, _, _, _, hsub⟩
      · rw [hch]; simp [mapKeys]
      · rcases hsub with ⟨_, _, _, hch⟩ | ⟨_, _, _, hch⟩ | ⟨_, _, _, hch⟩ <;>
          (rw [hch, mem_mapKeys_mapSet]; exact Or.inl rfl)
    intro k val hk hget
    obtain ⟨_, hkg, hkt⟩ := ne_keys_of_not_contract_key k hk
    rw [ht, Stub.Get_Set] at hget
    by_cases hkc : k = c
    · rw [if_pos hkc] at hget
      cases hget
      refine ⟨info1, ?_, hkc ▸ hcmem⟩
      rw [ht, e.string_bytes, GetObject_begin_multi e t t0 g c g info1 hc hstep, if_pos rfl]
    · rw [if_neg hkc] at hget
      unfold SetObject at hget
      rw [Stub.Get_Set_other _ _ _ _ (hkg g),
        timeout_step_frame e t t0 info1.Height g k hstep (hkt _)] at hget
      obtain ⟨info0, hinfo0, hmem⟩ := inv k val hk hget
      rw [ht, GetObject_begin_multi e t t0 g c _ info1 hc hstep]
      by_cases hx : e.stringOfBytes val = g
      · rw [if_pos hx]
        refine ⟨info1, rfl, ?_⟩
        rw [hx] at hinfo0
        rcases hcase with ⟨hn, _, _⟩ | ⟨info, hi, _, _, _, hsub⟩
        · rw [hn] at hinfo0; cases hinfo0
        · rw [hi] at hinfo0
          cases hinfo0
          rcases hsub with ⟨_, _, _, hch⟩ | ⟨_, _, _, hch⟩ | ⟨_, _, _, hch⟩
          · rw [hch, mem_mapKeys_mapSet]; exact Or.inr hmem
          · rw [hch, mem_mapKeys_mapSet]; exact Or.inr hmem
          · rw [hch, mem_mapKeys_mapSet]
            exact Or.inr (mem_mapKeys_foldl _ _ _ (e.rangeOrder_perm _ _) k hmem)
      · rw [if_neg hx]
        exact ⟨info0, hinfo0, hmem⟩

theorem Report_ResolveInv (e : Env B) (t : Stub B) (txId : String) (r : Int)
    (resp : Response) (t1 : Stub B) (inv : ResolveInv e t)
    (h : Report e t txId r = some (resp, t1)) : ResolveInv e t1 := by
  rcases Report_shape e t txId r resp t1 h with ht | ⟨b, ht⟩ |
    ⟨val0, info, info1, t0, s, _, _, hinfo, hs, hcm, ht⟩
  · rw [ht]; exact inv
  · rw [ht]; exact ResolveInv_Set_record e t txId b inv
  · intro k val hk hget
    obtain ⟨_, hkg, hkt⟩ := ne_keys_of_not_contract_key k hk
    rw [ht] at hget
    unfold SetObject at hget
    rw [Stub.Get_Set_other _ _ _ _ (hkg _),
      changeMultiTxStatus_frame e t t0 _ info info1 txId r none hcm k (hkt _)] at hget
    obtain ⟨info0, hinfo0, hmem⟩ := inv k val hk hget
    rw [ht, GetObject_report e t t0 _ txId _ r info info1 hcm]
    by_cases hx : e.stringOfBytes val = e.stringOfBytes val0
    · rw [if_pos hx]
      refine ⟨info1, rfl, ?_⟩
      rw [hx, hinfo] at hinfo0
      cases hinfo0
      exact changeMultiTxStatus_keys e t _ _ txId r info1 t0 s hs hcm k hmem
    · rw [if_neg hx]
      exact ⟨info0, hinfo0, hmem⟩

/-- In every state reachable with child IDs that are not keys of the index, the
entries outside the keys of the contract are reverse index entries that
resolve. -/
theorem Reachable_ResolveInv (e : Env B) (t : Stub B)
    (h : Reachable e (fun _ => True) (fun c => isIndexKey c = false) t) : ResolveInv e t := by
  induction h with
  | empty height caller =>
    intro c val _ hget
    cases hget
  | host t height caller _ ih => exact ih
  | begin t txId timeoutHeight isFailed _ ih =>
    rcases Begin_stub e t txId timeoutHeight isFailed with h | ⟨b, h⟩
    · rw [h]; exact ih
    · rw [h]; exact ResolveInv_Set_record e t txId b ih
  | beginInter t txId timeoutHeight proof isFailed _ ih =>
    rcases BeginInterBitXHub_stub e t txId timeoutHeight proof isFailed with h | ⟨b, h⟩
    · rw [h]; exact ih
    · rw [h]; exact ResolveInv_Set_record e t txId b ih
  | beginMulti t g c timeoutHeight isFailed count resp t1 _ _ hc hcall ih =>
    exact BeginMultiTXs_ResolveInv e t g c timeoutHeight isFailed count resp t1 hc ih hcall
  | report t txId r resp t1 _ hcall ih =>
    exact Report_ResolveInv e t txId r resp t1 ih hcall
  | getStatus t txId _ ih =>
    rw [GetStatus_stub]
    exact ih

/-- C32, as the specification states it, fails: no entry point looks for the
child ID in the other places.  After `Begin("c", 10, false)` and
`BeginMultiTXs("g", "c", 10, false, 1)` at height 100 the ID `c` has the record
`tx-c` and is a child of `g`; after `BeginMultiTXs("g1", "c", 10, false, 1)` and
`BeginMultiTXs("g2", "c", 10, false, 1)` it is a child of `g1` and of `g2`. -/
theorem C32_counterexample_child_id_in_two_places :
    Reachable host plainGlobalID (fun c => isIndexKey c = false) afterBeginCThenMulti ∧
    afterBeginCThenMulti.Get (TxInfoKey "c") = some (.record ⟨BEGIN, 110⟩) ∧
    GetObject host afterBeginCThenMulti (GlobalTxInfoKey "g") =
      some ⟨BEGIN, 110, [("c", BEGIN)], 1⟩ ∧
    Reachable host plainGlobalID (fun c => isIndexKey c = false) afterSecondGlobal ∧
    GetObject host afterSecondGlobal (GlobalTxInfoKey "g1") =
      some ⟨BEGIN, 110, [("c", BEGIN)], 1⟩ ∧
    GetObject host afterSecondGlobal (GlobalTxInfoKey "g2") =
      some ⟨BEGIN, 110, [("c", BEGIN)], 1⟩ := by
  refine ⟨?_, ?_, ?_, ?_, ?_, ?_⟩
  · exact Reachable.beginMulti afterBeginC "g" "c" 10 false 1
      (Response.Success (Payload.change ⟨-1, 0, ["c"], [], [], false⟩)) afterBeginCThenMulti
      (Reachable.begin (Stub.empty 100 InterchainContractAddr) "c" 10 false
        (Reachable.empty 100 InterchainContractAddr))
      (by decide) (by decide) rfl
  · decide
  · decide
  · exact Reachable.beginMulti afterFirstGlobal "g2" "c" 10 false 1
      (Response.Success (Payload.change ⟨-1, 0, ["c"], [], [], false⟩)) afterSecondGlobal
      (Reachable.beginMulti (Stub.empty 100 InterchainContractAddr) "g1" "c" 10 false 1
        (Response.Success (Payload.change ⟨-1, 0, ["c"], [], [], false⟩)) afterFirstGlobal
        (Reachable.empty 100 InterchainContractAddr) (by decide) (by decide) rfl)
      (by decide) (by decide) rfl
  · decide
  · decide

/-- C32, amended.  A child ID can have a standalone record and be a child of
global transactions at once, and be a child of several global transactions.
What holds in every state reachable from the empty store through the entry
points, when the child IDs passed to `BeginMultiTXs` do not start with
`global-tx-` or `timeout-`: an entry stored under a key that does not start
with `tx-`, `global-tx-` or `timeout-` holds the ID of one global transaction,
whose info is stored and has the key among its children. -/
theorem C32_reverse_index_names_one_global (e : Env B) (t : Stub B) (c : String) (val : B)
    (hreach : Reachable e (fun _ => True) (fun c => isIndexKey c = false) t)
    (hc : isContractKey c = false) (hget : t.Get c = some val) :
    ∃ info, GetObject e t (GlobalTxInfoKey (e.stringOfBytes val)) = some info ∧
      c ∈ mapKeys info.ChildTxInfo :=
  Reachable_ResolveInv e t hreach c val hc hget

/-- Witness of C32 amended: after `BeginMultiTXs("g1", "c", 10, false, 1)` and
`BeginMultiTXs("g2", "c", 10, false, 1)` at height 100 on the empty store the
entry under `c` holds `g2`, whose info is stored with the child `c`. -/
theorem C32_reverse_index_names_one_global_witness :
    Reachable host (fun _ => True) (fun c => isIndexKey c = false) afterSecondGlobal ∧
    isContractKey "c" = false ∧ afterSecondGlobal.Get "c" = some (.raw "g2") ∧
    ∃ info, GetObject host afterSecondGlobal
        (GlobalTxInfoKey (host.stringOfBytes (.raw "g2"))) = some info ∧
      "c" ∈ mapKeys info.ChildTxInfo :=
  have hr : Reachable host (fun _ => True) (fun c => isIndexKey c = false)
      afterSecondGlobal :=
    Reachable.beginMulti afterFirstGlobal "g2" "c" 10 false 1
      (Response.Success (Payload.change ⟨-1, 0, ["c"], [], [], false⟩)) afterSecondGlobal
      (Reachable.beginMulti (Stub.empty 100 InterchainContractAddr) "g1" "c" 10 false 1
        (Response.Success (Payload.change ⟨-1, 0, ["c"], [], [], false⟩)) afterFirstGlobal
        (Reachable.empty 100 InterchainContractAddr) trivial (by decide) rfl)
      trivial (by decide) rfl
  ⟨hr, by decide, by decide,
    C32_reverse_index_names_one_global host afterSecondGlobal "c" (.raw "g2") hr
      (by decide) (by decide)⟩

/-- Witness of C35 amended: the state after `BeginMultiTXs("b", "c1", 10, false,
1)` at height 100 on the empty store is reachable and lists `b` under
`timeout-110`; the next `BeginMultiTXs("a", "c2", 10, false, 1)` puts `a` at the
end of that list. -/
theorem C35_timeout_lists_keep_insertion_order_witness :
    Reachable host plainGlobalID (fun c => isIndexKey c = false) afterBeginB ∧
    timeoutIDs host afterBeginB 110 = ["b"] ∧
    timeoutIDs host afterBeginBA 110 = ["b", "a"] ∧
    ((∀ txId th f,
      timeoutIDs host (Begin host afterBeginB txId th f).2 110 =
        timeoutIDs host afterBeginB 110) ∧
    (∀ txId th p f,
      timeoutIDs host (BeginInterBitXHub host afterBeginB txId th p f).2 110 =
        timeoutIDs host afterBeginB 110) ∧
    (∀ txId, timeoutIDs host (GetStatus host afterBeginB txId).2 110 =
      timeoutIDs host afterBeginB 110) ∧
    (∀ g c th f n resp t1, plainGlobalID g → isIndexKey c = false →
      BeginMultiTXs host afterBeginB g c th f n = some (resp, t1) →
      timeoutIDs host t1 110 = timeoutIDs host afterBeginB 110 ∨
        timeoutIDs host t1 110 = timeoutIDs host afterBeginB 110 ++ [g] ∨
        timeoutIDs host t1 110 = (timeoutIDs host afterBeginB 110).erase g) ∧
    (∀ txId r resp t1, Report host afterBeginB txId r = some (resp, t1) →
      timeoutIDs host t1 110 = timeoutIDs host afterBeginB 110 ∨
        ∃ g, timeoutIDs host t1 110 = (timeoutIDs host afterBeginB 110).erase g)) :=
  have hr : Reachable host plainGlobalID (fun c => isIndexKey c = false) afterBeginB :=
    Reachable.beginMulti (Stub.empty 100 InterchainContractAddr) "b" "c1" 10 false 1
      (Response.Success (Payload.change ⟨-1, 0, ["c1"], [], [], false⟩)) afterBeginB
      (Reachable.empty 100 InterchainContractAddr) (by decide) (by decide) rfl
  ⟨hr, by decide, by decide, C35_timeout_lists_keep_insertion_order host afterBeginB 110 hr⟩

/-! ## `RandRangeNumbers` (C38) -/

theorem wrap64_id (x : Int) (h1 : -9223372036854775808 ≤ x) (h2 : x < 9223372036854775808) :
    wrap64 x = x := by
  unfold wrap64
  omega

theorem arrGet_nat (a : List Int) (j : Nat) (h : j < a.length) :
    arrGet a (j : Int) = some (slot a j) := by
  unfold arrGet slot
  rw [if_pos (Int.natCast_nonneg j), Int.toNat_natCast, List.getD_eq_getElem?_getD,
    List.getElem?_eq_getElem h]
  rfl

theorem arrSet_nat (a : List Int) (j : Nat) (v : Int) (h : j < a.length) :
    arrSet a (j : Int) v = some (a.set j v) := by
  unfold arrSet
  rw [Int.toNat_natCast, if_pos ⟨Int.natCast_nonneg j, h⟩]

theorem slot_set (a : List Int) (i j : Nat) (v : Int) (h : i < a.length) :
    slot (a.set i v) j = if j = i then v else slot a j := by
  unfold slot
  rw [List.getD_eq_getElem?_getD, List.getD_eq_getElem?_getD, List.getElem?_set]
  by_cases hji : j = i
  · subst hji
    simp [h]
  · rw [if_neg (fun hh => hji hh.symm), if_neg hji]

theorem materialise_length (min : Int) (a : List Int) (j : Nat) :
    (materialise min a j).length = a.length := by
  unfold materialise
  split
  · exact List.length_set _ _ _
  · rfl

theorem materialise_step (min : Int) (a : List Int) (j : Nat) (h : j < a.length)
    (h1 : -9223372036854775808 ≤ min + j) (h2 : min + j < 9223372036854775808) :
    (if slot a j = 0 then arrSet a (j : Int) (wrap64 (min + j)) else some a) =
      some (materialise min a j) := by
  unfold materialise
  by_cases h0 : slot a j = 0
  · rw [if_pos h0, if_pos h0, arrSet_nat a j _ h, wrap64_id _ h1 h2]
  · rw [if_neg h0, if_neg h0]

/-- Assigning `min + j` to a slot that holds 0 keeps what the loop keeps, and the
slot then holds a number other than 0. -/
theorem materialise_inv (min max : Int) (N : Nat) (s : RandState) (j : Nat)
    (inv : RandInv min max N s) (hj : j < N) :
    RandInv min max N ⟨materialise min s.nums j, s.position⟩ ∧
    slot (materialise min s.nums j) j ≠ 0 ∧
    ∀ k, slot s.nums k ≠ 0 → slot (materialise min s.nums j) k ≠ 0 := by
  by_cases h0 : slot s.nums j = 0
  · have hm : materialise min s.nums j = s.nums.set j (min + j) := by
      unfold materialise
      rw [if_pos h0]
    have hne : min + (j : Int) ≠ 0 := inv.zero j hj h0
    have hjl : j < s.nums.length := by rw [inv.len]; exact hj
    have hslot : ∀ k, slot (materialise min s.nums j) k =
        if k = j then min + j else slot s.nums k := by
      intro k
      rw [hm, slot_set _ _ _ _ hjl]
    have hjpos : (j : Int) ≠ s.position := by
      rcases inv.pos with hp | ⟨p, hp, _, hp0⟩
      · rw [hp]; omega
      · rw [hp]
        intro hh
        have : j = p := by omega
        rw [← this] at hp0
        exact hp0 h0
    have hval : ∀ k, randVal min ⟨materialise min s.nums j, s.position⟩ k =
        randVal min s k := by
      intro k
      unfold randVal
      simp only [hslot]
      by_cases hk : k = j
      · subst hk
        rw [if_pos rfl, if_neg hne, if_neg hjpos, if_pos h0]
      · rw [if_neg hk]
    refine ⟨⟨?_, ?_, ?_, ?_, ?_⟩, ?_, ?_⟩
    · show (materialise min s.nums j).length = N
      rw [materialise_length, inv.len]
    · rcases inv.pos with hp | ⟨p, hp, hpN, hp0⟩
      · exact Or.inl hp
      · refine Or.inr ⟨p, hp, hpN, ?_⟩
        show slot (materialise min s.nums j) p ≠ 0
        rw [hslot]
        split
        · exact hne
        · exact hp0
    · intro k hk hz
      have hz2 : slot (materialise min s.nums j) k = 0 := hz
      rw [hslot] at hz2
      by_cases hkj : k = j
      · rw [if_pos hkj] at hz2
        exact absurd hz2 hne
      · rw [if_neg hkj] at hz2
        exact inv.zero k hk hz2
    · intro k hk
      rw [hval]
      exact inv.rng k hk
    · intro k l hk hl h
      rw [hval, hval] at h
      exact inv.inj k l hk hl h
    · rw [hslot, if_pos rfl]
      exact hne
    · intro k hk
      rw [hslot]
      split
      · exact hne
      · exact hk
  · have hm : materialise min s.nums j = s.nums := by
      unfold materialise
      rw [if_neg h0]
    rw [hm]
    exact ⟨inv, h0, fun k hk => hk⟩

theorem swapIndex_lt (i num k N : Nat) (hi : i < N) (hnum : num < N) (hk : k < N) :
    swapIndex i num k < N := by
  unfold swapIndex
  split_ifs <;> assumption

theorem swapIndex_inj (i num j k : Nat) (h : swapIndex i num j = swapIndex i num k) :
    j = k := by
  unfold swapIndex at h
  split_ifs at h <;> omega

theorem swapIndex_swapIndex (i num k : Nat) : swapIndex i num (swapIndex i num k) = k := by
  unfold swapIndex
  split_ifs <;> omega

theorem slot_swapSlots (a : List Int) (i num k : Nat) (hi : i < a.length)
    (hnum : num < a.length) : slot (swapSlots a i num) k = slot a (swapIndex i num k) := by
  unfold swapSlots swapIndex
  rw [slot_set _ _ _ _ (by rw [List.length_set]; exact hnum), slot_set _ _ _ _ hi]
  split_ifs <;> first | rfl | (subst_vars; rfl) | omega

theorem movePosition_iff (position : Int) (i num k : Nat)
    (hp : position = -1 ∨ ∃ p : Nat, position = p) :
    (k : Int) = movePosition position i num ↔ (swapIndex i num k : Int) = position := by
  unfold movePosition swapIndex
  rcases hp with hp | ⟨p, hp⟩
  · subst hp
    simp only [ne_eq, not_true_eq_false, if_false]
    constructor <;> intro h <;> omega
  · subst hp
    split_ifs <;> constructor <;> intro h <;> omega

/-- Swapping two slots that hold numbers other than 0, and moving `position` with
them, keeps what the loop keeps. -/
theorem swap_inv (min max : Int) (N : Nat) (s : RandState) (i num : Nat)
    (inv : RandInv min max N s) (hi : i < N) (hnum : num < N)
    (h1 : slot s.nums i ≠ 0) (h2 : slot s.nums num ≠ 0) :
    RandInv min max N ⟨swapSlots s.nums i num, movePosition s.position i num⟩ ∧
    ∀ k, slot (swapSlots s.nums i num) k = slot s.nums (swapIndex i num k) := by
  have hil : i < s.nums.length := by rw [inv.len]; exact hi
  have hnl : num < s.nums.length := by rw [inv.len]; exact hnum
  have hslot : ∀ k, slot (swapSlots s.nums i num) k = slot s.nums (swapIndex i num k) :=
    fun k => slot_swapSlots s.nums i num k hil hnl
  have hpos : s.position = -1 ∨ ∃ p : Nat, s.position = p := by
    rcases inv.pos with hp | ⟨p, hp, _, _⟩
    · exact Or.inl hp
    · exact Or.inr ⟨p, hp⟩
  have hzero : ∀ k, slot s.nums (swapIndex i num k) = 0 → swapIndex i num k = k := by
    intro k hz
    unfold swapIndex at hz ⊢
    split_ifs at hz ⊢ with ha hb
    · exact absurd hz h2
    · exact absurd hz h1
    · rfl
  have hval : ∀ k, randVal min ⟨swapSlots s.nums i num, movePosition s.position i num⟩ k =
      randVal min s (swapIndex i num k) := by
    intro k
    unfold randVal
    simp only [hslot]
    by_cases hz : slot s.nums (swapIndex i num k) = 0
    · rw [if_pos hz, if_pos hz, hzero k hz]
    · rw [if_neg hz, if_neg hz]
      by_cases hk : (k : Int) = movePosition s.position i num
      · rw [if_pos hk, if_pos ((movePosition_iff s.position i num k hpos).mp hk)]
      · rw [if_neg hk, if_neg (fun hh => hk ((movePosition_iff s.position i num k hpos).mpr hh))]
  refine ⟨⟨?_, ?_, ?_, ?_, ?_⟩, hslot⟩
  · show (swapSlots s.nums i num).length = N
    unfold swapSlots
    rw [List.length_set, List.length_set, inv.len]
  · rcases inv.pos with hp | ⟨p, hp, hpN, hp0⟩
    · left
      show movePosition s.position i num = -1
      unfold movePosition
      rw [if_neg (by simpa using hp)]
      exact hp
    · right
      refine ⟨swapIndex i num p, ?_, swapIndex_lt i num p N hi hnum hpN, ?_⟩
      · show movePosition s.position i num = (swapIndex i num p : Int)
        exact ((movePosition_iff s.position i num (swapIndex i num p) hpos).mpr
          (by rw [swapIndex_swapIndex]; exact hp.symm)).symm
      · show slot (swapSlots s.nums i num) (swapIndex i num p) ≠ 0
        rw [hslot, swapIndex_swapIndex]
        exact hp0
  · intro k hk hz
    have hz2 : slot (swapSlots s.nums i num) k = 0 := hz
    rw [hslot] at hz2
    have hkk := hzero k hz2
    rw [hkk] at hz2
    exact inv.zero k hk hz2
  · intro k hk
    rw [hval]
    exact inv.rng _ (swapIndex_lt i num k N hi hnum hk)
  · intro j k hj hk h
    rw [hval, hval] at h
    exact swapIndex_inj i num j k
      (inv.inj _ _ (swapIndex_lt i num j N hi hnum hj) (swapIndex_lt i num k N hi hnum hk) h)

/-- One round of the loop of `RandRangeNumbers` does not panic, keeps what the loop
keeps, and leaves a number other than 0 in every slot up to its index. -/
theorem randBody_spec (min max : Int) (N : Nat) (s : RandState) (i num : Nat)
    (inv : RandInv min max N s) (hi : i < N) (hnum : num < N)
    (hmin : -9223372036854775808 ≤ min) (hmax : max < 9223372036854775808)
    (hN : (N : Int) = max - min + 1) (hdone : ∀ k, k < i → slot s.nums k ≠ 0) :
    ∃ s1, randBody min (N : Int) (num : Int) (i : Int) s = some s1 ∧
      RandInv min max N s1 ∧ ∀ k, k < i + 1 → slot s1.nums k ≠ 0 := by
  obtain ⟨inv1, h1nz, h1keep⟩ := materialise_inv min max N s i inv hi
  obtain ⟨inv2, h2nz, h2keep⟩ :=
    materialise_inv min max N ⟨materialise min s.nums i, s.position⟩ num inv1 hnum
  have h2i : slot (materialise min (materialise min s.nums i) num) i ≠ 0 := h2keep i h1nz
  obtain ⟨inv3, hslot⟩ :=
    swap_inv min max N ⟨materialise min (materialise min s.nums i) num, s.position⟩ i num
      inv2 hi hnum h2i h2nz
  have hl0 : i < s.nums.length := by rw [inv.len]; exact hi
  have hl1 : num < (materialise min s.nums i).length := by
    rw [materialise_length, inv.len]; exact hnum
  have hl2i : i < (materialise min (materialise min s.nums i) num).length := by
    rw [materialise_length, materialise_length, inv.len]; exact hi
  have hl2n : num < (materialise min (materialise min s.nums i) num).length := by
    rw [materialise_length, materialise_length, inv.len]; exact hnum
  refine ⟨⟨swapSlots (materialise min (materialise min s.nums i) num) i num,
    movePosition s.position i num⟩, ?_, inv3, ?_⟩
  · unfold randBody
    rw [if_neg (by omega)]
    simp only []
    rw [arrGet_nat _ _ hl0, Option.some_bind,
      materialise_step min s.nums i hl0 (by omega) (by omega), Option.some_bind,
      arrGet_nat _ _ hl1, Option.some_bind,
      materialise_step min _ num hl1 (by omega) (by omega), Option.some_bind,
      arrGet_nat _ _ hl2n, Option.some_bind, arrGet_nat _ _ hl2i, Option.some_bind,
      arrSet_nat _ _ _ hl2i, Option.some_bind,
      arrSet_nat _ _ _ (by rw [List.length_set]; exact hl2n), Option.some_bind]
    rfl
  · intro k hk
    show slot (swapSlots (materialise min (materialise min s.nums i) num) i num) k ≠ 0
    rw [hslot]
    show slot (materialise min (materialise min s.nums i) num) (swapIndex i num k) ≠ 0
    unfold swapIndex
    split_ifs with ha hb
    · exact h2nz
    · exact h2i
    · exact h2keep k (h1keep k (hdone k (by omega)))

/-- The loop of `RandRangeNumbers` does not panic, keeps what it keeps, and leaves
a number other than 0 in every slot below the count. -/
theorem randLoop_spec (min max : Int) (N : Nat) (draws : Nat → Int)
    (hmin : -9223372036854775808 ≤ min) (hmax : max < 9223372036854775808)
    (hN : (N : Int) = max - min + 1)
    (hdraws : ∀ j, 0 ≤ draws j ∧ draws j < N) (k : Nat) :
    ∀ (i : Nat) (s : RandState), i + k ≤ N → RandInv min max N s →
      (∀ j, j < i → slot s.nums j ≠ 0) →
      ∃ s1, randLoop min (N : Int) draws k i s = some s1 ∧ RandInv min max N s1 ∧
        ∀ j, j < i + k → slot s1.nums j ≠ 0 := by
  induction k with
  | zero =>
    intro i s _ inv hdone
    exact ⟨s, rfl, inv, hdone⟩
  | succ k ih =>
    intro i s hik inv hdone
    obtain ⟨num, hnum⟩ := Int.eq_ofNat_of_zero_le (hdraws i).1
    have hnumN : num < N := by
      have := (hdraws i).2
      rw [hnum] at this
      exact Int.ofNat_lt.mp this
    obtain ⟨s1, hb, inv1, hdone1⟩ :=
      randBody_spec min max N s i num inv (by omega) hnumN hmin hmax hN hdone
    obtain ⟨s2, hl, inv2, hdone2⟩ := ih (i + 1) s1 (by omega) inv1 hdone1
    refine ⟨s2, ?_, inv2, fun j hj => hdone2 j (by omega)⟩
    show (randBody min (N : Int) (draws i) (i : Int) s).bind
      (randLoop min (N : Int) draws k (i + 1)) = some s2
    rw [hnum, hb, Option.some_bind, hl]

theorem slot_replicate (N j : Nat) : slot (List.replicate N (0 : Int)) j = 0 := by
  unfold slot
  rw [List.getD_eq_getElem?_getD]
  by_cases h : j < N
  · rw [List.getElem?_eq_getElem (by rw [List.length_replicate]; exact h)]
    simp
  · rw [List.getElem?_eq_none (by rw [List.length_replicate]; omega)]
    rfl

/-- What the loop keeps holds at its start when the range does not hold 0. -/
theorem randInit_plain (min max : Int) (N : Nat) (hN : (N : Int) = max - min + 1)
    (h0 : ¬ (min ≤ 0 ∧ max ≥ 0)) :
    RandInv min max N ⟨List.replicate N 0, -1⟩ := by
  have hval : ∀ j, randVal min ⟨List.replicate N 0, -1⟩ j = min + j := by
    intro j
    unfold randVal
    rw [if_pos (slot_replicate N j)]
  refine ⟨?_, Or.inl rfl, ?_, ?_, ?_⟩
  · exact List.length_replicate _ _
  · intro j hj _
    omega
  · intro j hj
    rw [hval]
    omega
  · intro j k _ _ h
    rw [hval, hval] at h
    omega

/-- What the loop keeps holds at its start when the range holds 0. -/
theorem randInit_zero (min max : Int) (N z : Nat) (hN : (N : Int) = max - min + 1)
    (hz : (z : Int) = -min) (h0 : max ≥ 0) :
    RandInv min max N ⟨(List.replicate N 0).set z (max + 1), (z : Int)⟩ := by
  have hzN : z < N := by omega
  have hzl : z < (List.replicate N (0 : Int)).length := by
    rw [List.length_replicate]; exact hzN
  have hslot : ∀ j, slot ((List.replicate N (0 : Int)).set z (max + 1)) j =
      if j = z then max + 1 else 0 := by
    intro j
    rw [slot_set _ _ _ _ hzl, slot_replicate]
  have hval : ∀ j, randVal min ⟨(List.replicate N 0).set z (max + 1), (z : Int)⟩ j =
      min + j := by
    intro j
    unfold randVal
    simp only [hslot]
    by_cases hj : j = z
    · subst hj
      rw [if_pos rfl, if_neg (by omega), if_pos rfl]
      omega
    · rw [if_neg hj, if_pos rfl]
  refine ⟨?_, Or.inr ⟨z, rfl, hzN, ?_⟩, ?_, ?_, ?_⟩
  · show ((List.replicate N (0 : Int)).set z (max + 1)).length = N
    rw [List.length_set, List.length_replicate]
  · show slot ((List.replicate N (0 : Int)).set z (max + 1)) z ≠ 0
    rw [hslot, if_pos rfl]
    omega
  · intro j hj hs
    have hs2 : slot ((List.replicate N (0 : Int)).set z (max + 1)) j = 0 := hs
    rw [hslot] at hs2
    by_cases hjz : j = z
    · rw [if_pos hjz] at hs2
      omega
    · omega
  · intro j hj
    rw [hval]
    omega
  · intro j k _ _ h
    rw [hval, hval] at h
    omega

/-- The last assignment of `RandRangeNumbers`, `nums[position] = 0`, does not panic
and leaves in every slot below the count the number the slot stands for. -/
theorem randFinish (min max : Int) (N c : Nat) (s : RandState) (inv : RandInv min max N s)
    (hdone : ∀ j, j < c → slot s.nums j ≠ 0) :
    ∃ a, (if s.position ≠ -1 then arrSet s.nums s.position 0 else some s.nums) = some a ∧
      a.length = N ∧ ∀ j, j < c → slot a j = randVal min s j := by
  rcases inv.pos with hp | ⟨p, hp, hpN, hp0⟩
  · refine ⟨s.nums, ?_, inv.len, ?_⟩
    · rw [if_neg (by simpa using hp)]
    · intro j hj
      unfold randVal
      rw [if_neg (hdone j hj), if_neg (by rw [hp]; omega)]
  · have hpl : p < s.nums.length := by rw [inv.len]; exact hpN
    refine ⟨s.nums.set p 0, ?_, ?_, ?_⟩
    · rw [if_pos (by rw [hp]; omega), hp, arrSet_nat _ _ _ hpl]
    · rw [List.length_set, inv.len]
    · intro j hj
      rw [slot_set _ _ _ _ hpl]
      unfold randVal
      rw [if_neg (hdone j hj), hp]
      by_cases hjp : j = p
      · rw [if_pos hjp, if_pos (by rw [hjp])]
      · rw [if_neg hjp, if_neg (by omega)]

/-- The first slots of a slice whose slots stand for pairwise different numbers
of a range are as many pairwise different numbers of the range. -/
theorem take_spec (min max : Int) (N c : Nat) (a : List Int) (v : Nat → Int)
    (hlen : a.length = N) (hc : c ≤ N) (hv : ∀ j, j < c → slot a j = v j)
    (hrng : ∀ j, j < N → min ≤ v j ∧ v j ≤ max)
    (hinj : ∀ j k, j < N → k < N → v j = v k → j = k) :
    (a.take c).length = c ∧ (a.take c).Nodup ∧ ∀ x ∈ a.take c, min ≤ x ∧ x ≤ max := by
  have heq : a.take c = (List.range c).map v := by
    apply List.ext_getElem
    · rw [List.length_take, List.length_map, List.length_range, hlen]
      omega
    · intro j h1 h2
      rw [List.getElem_take, List.getElem_map, List.getElem_range]
      have hj : j < c := by
        rw [List.length_map, List.length_range] at h2
        exact h2
      rw [← hv j hj]
      unfold slot
      rw [List.getD_eq_getElem?_getD, List.getElem?_eq_getElem (by omega)]
      rfl
  rw [heq]
  refine ⟨?_, ?_, ?_⟩
  · rw [List.length_map, List.length_range]
  · refine List.Nodup.map_on ?_ (List.nodup_range c)
    intro x hx y hy h
    rw [List.mem_range] at hx hy
    exact hinj x y (by omega) (by omega) h
  · intro x hx
    obtain ⟨j, hj, rfl⟩ := List.mem_map.mp hx
    rw [List.mem_range] at hj
    exact hrng j (by omega)

/-- The function `RandRangeNumbers` on a range of no more numbers than a slice can
hold, with a count from 0 to the size of the range and draws inside the range:
it returns as many numbers as the count asks for, pairwise different and all in
the range. -/
theorem RandRangeNumbers_result (maxLen : Nat) (draws : Nat → Int) (min max count : Int)
    (hlim : (maxLen : Int) < 9223372036854775808)
    (hmin : -9223372036854775808 ≤ min) (hmax : max < 9223372036854775808)
    (hle : min ≤ max) (hsize : max - min + 1 ≤ maxLen)
    (hc0 : 0 ≤ count) (hc : count ≤ max - min + 1)
    (hdraws : ∀ i, 0 ≤ draws i ∧ draws i ≤ max - min) :
    ∃ l, RandRangeNumbers maxLen draws min max count = some (some l) ∧
      (l.length : Int) = count ∧ l.Nodup ∧ ∀ x ∈ l, min ≤ x ∧ x ≤ max := by
  obtain ⟨N, hN0⟩ := Int.eq_ofNat_of_zero_le (show 0 ≤ max - min + 1 by omega)
  have hN : (N : Int) = max - min + 1 := hN0.symm
  obtain ⟨c, hcc⟩ := Int.eq_ofNat_of_zero_le hc0
  subst hcc
  have hcN : c ≤ N := by omega
  have hn : wrap64 (wrap64 (max - min) + 1) = (N : Int) := by
    rw [wrap64_id (max - min) (by omega) (by omega), wrap64_id _ (by omega) (by omega), hN]
  have hd : ∀ j, 0 ≤ draws j ∧ draws j < N := by
    intro j
    have := hdraws j
    omega
  have key : ∀ s0, RandInv min max N s0 →
      ∃ l, ((randLoop min (N : Int) draws c 0 s0).bind fun s1 =>
        (if s1.position ≠ -1 then arrSet s1.nums s1.position 0 else some s1.nums).bind
          fun a => if 0 ≤ (c : Int) ∧ c ≤ a.length then some (some (a.take c)) else none) =
          some (some l) ∧
        (l.length : Int) = (c : Int) ∧ l.Nodup ∧ ∀ x ∈ l, min ≤ x ∧ x ≤ max := by
    intro s0 inv0
    obtain ⟨s1, hl, inv1, hdone⟩ :=
      randLoop_spec min max N draws hmin hmax hN hd c 0 s0 (by omega) inv0
        (fun j hj => absurd hj (Nat.not_lt_zero j))
    obtain ⟨a, ha, halen, hav⟩ :=
      randFinish min max N c s1 inv1 (fun j hj => hdone j (by omega))
    obtain ⟨h1, h2, h3⟩ :=
      take_spec min max N c a (randVal min s1) halen hcN hav inv1.rng inv1.inj
    refine ⟨a.take c, ?_, ?_, h2, h3⟩
    · rw [hl, Option.some_bind, ha, Option.some_bind,
        if_pos ⟨Int.natCast_nonneg c, by rw [halen]; exact hcN⟩]
    · rw [h1]
  unfold RandRangeNumbers
  simp only []
  rw [hn, if_neg (by omega), if_neg (by omega), Int.toNat_natCast, Int.toNat_natCast]
  by_cases h0 : min ≤ 0 ∧ max ≥ 0
  · obtain ⟨z, hz0⟩ := Int.eq_ofNat_of_zero_le (show 0 ≤ -min by omega)
    have hz : (z : Int) = -min := hz0.symm
    rw [if_pos h0, wrap64_id (-min) (by omega) (by omega),
      wrap64_id (max + 1) (by omega) (by omega), ← hz,
      arrSet_nat _ _ _ (by rw [List.length_replicate]; omega), Option.map_some',
      Option.some_bind]
    exact key _ (randInit_zero min max N z hN hz h0.2)
  · rw [if_neg h0, Option.some_bind]
    exact key _ (randInit_plain min max N hN h0)

/-- The function `RandRangeNumbers` returns `nil` when the range is empty or
holds fewer numbers than the count asks for. -/
theorem RandRangeNumbers_nil (maxLen : Nat) (draws : Nat → Int) (min max count : Int)
    (hcount : count < 9223372036854775808)
    (h : max < min ∨ max - min + 1 < count) :
    RandRangeNumbers maxLen draws min max count = some none := by
  unfold RandRangeNumbers
  simp only []
  by_cases hlt : max < min
  · rw [if_pos (Or.inl hlt)]
  · have h2 : max - min + 1 < count := by
      rcases h with h | h
      · exact absurd h hlt
      · exact h
    rw [wrap64_id (max - min) (by omega) (by omega), wrap64_id _ (by omega) (by omega),
      if_pos (Or.inr h2)]

/-- C38, as the specification states it, fails: the arguments are Go `int`s,
`max - min + 1` is computed in 64 bits, and `make` allocates a slice of that
length.  For `min = 0`, `max = 2^63 - 1` and `count = 1`, where `min <= max` and
`0 <= count <= max - min + 1`, the size of the range wraps to `-2^63`, the first
check takes it for smaller than the count and the function returns `nil`,
whatever the draws and the platform; for `min = -2^63`, `max = 2^63 - 1` and
`count = 0` the size wraps to 0 and `nums[position]` panics; for `min = 0`,
`max = 2^62` and `count = 1`, on a platform whose slices of `int` hold at most
`2^45` entries, `make` panics. -/
theorem C38_counterexample_range_size_overflows :
    (0 : Int) ≤ 9223372036854775807 ∧ (0 : Int) ≤ 1 ∧
    (1 : Int) ≤ 9223372036854775807 - 0 + 1 ∧
    wrap64 (wrap64 (9223372036854775807 - 0) + 1) = -9223372036854775808 ∧
    (∀ (maxLen : Nat) (draws : Nat → Int),
      RandRangeNumbers maxLen draws 0 9223372036854775807 1 = some none) ∧
    RandRangeNumbers 35184372088832 (fun _ => 0) (-9223372036854775808) 9223372036854775807 0 =
      none ∧
    (0 : Int) ≤ 4611686018427387904 ∧ (1 : Int) ≤ 4611686018427387904 - 0 + 1 ∧
    RandRangeNumbers 35184372088832 (fun _ => 0) 0 4611686018427387904 1 = none := by
  refine ⟨by decide, by decide, by decide, by decide, ?_, by decide, by decide, by decide,
    by decide⟩
  intro maxLen draws
  rfl

/-- C38, amended.  For arguments in the range of a 64-bit `int`, on a platform
whose `make` allocates slices of `int` of up to `maxLen` entries (`maxLen` below
2^63): `RandRangeNumbers(min, max, count)` returns `nil` when `max < min` or
`count > max - min + 1`; and when `min <= max`, the range holds no more than
`maxLen` numbers, `0 <= count <= max - min + 1` and every draw is in
`[0, max - min]`, it returns exactly `count` integers, pairwise different and
each within `[min, max]`. -/
theorem C38_rand_range_numbers (maxLen : Nat) (draws : Nat → Int) (min max count : Int)
    (hlim : (maxLen : Int) < 9223372036854775808)
    (hmin : -9223372036854775808 ≤ min) (hmax : max < 9223372036854775808)
    (hcount : count < 9223372036854775808) :
    (max < min ∨ max - min + 1 < count →
      RandRangeNumbers maxLen draws min max count = some none) ∧
    (min ≤ max → max - min + 1 ≤ maxLen → 0 ≤ count →
      count ≤ max - min + 1 → (∀ i, 0 ≤ draws i ∧ draws i ≤ max - min) →
      ∃ l, RandRangeNumbers maxLen draws min max count = some (some l) ∧
        (l.length : Int) = count ∧ l.Nodup ∧ ∀ x ∈ l, min ≤ x ∧ x ≤ max) :=
  ⟨RandRangeNumbers_nil maxLen draws min max count hcount,
    fun hle hsize hc0 hc hdraws =>
      RandRangeNumbers_result maxLen draws min max count hlim hmin hmax hle hsize hc0 hc
        hdraws⟩

/-- Witness of C38 amended: with slices of up to `2^45` entries and every draw
equal to 2, `RandRangeNumbers(-2, 2, 3)` returns the three numbers 0, -2, -1 of
the range, and `RandRangeNumbers(-2, 2, 6)` returns `nil`. -/
theorem C38_rand_range_numbers_witness :
    RandRangeNumbers 35184372088832 (fun _ => 2) (-2) 2 3 = some (some [0, -2, -1]) ∧
    RandRangeNumbers 35184372088832 (fun _ => 2) (-2) 2 6 = some none ∧
    ∃ l, RandRangeNumbers 35184372088832 (fun _ => 2) (-2) 2 3 = some (some l) ∧
      (l.length : Int) = 3 ∧ l.Nodup ∧ ∀ x ∈ l, (-2 : Int) ≤ x ∧ x ≤ 2 :=
  ⟨by decide,
    (C38_rand_range_numbers 35184372088832 (fun _ => 2) (-2) 2 6 (by decide) (by decide)
      (by decide) (by decide)).1 (Or.inr (by decide)),
    (C38_rand_range_numbers 35184372088832 (fun _ => 2) (-2) 2 3 (by decide) (by decide)
      (by decide) (by decide)).2
      (by decide) (by decide) (by decide) (by decide) (fun _ => by decide)⟩

/-! ## States that the entry points reach with IDs that are keys of the contract -/

/-- A state reached by one more `BeginMultiTXs` call is reachable. -/
theorem Reachable_afterBeginMulti (e : Env B) (okGlobal okChild : String → Prop) (t : Stub B)
    (g c : String) (th : Nat) (f : Bool) (n : Nat) (h : Reachable e okGlobal okChild t)
    (hg : okGlobal g) (hc : okChild c) :
    Reachable e okGlobal okChild (afterBeginMulti e t g c th f n) := by
  unfold afterBeginMulti
  cases hcall : BeginMultiTXs e t g c th f n with
  | none => exact h
  | some p => exact Reachable.beginMulti t g c th f n p.1 p.2 h hg hc hcall

/-- C8, as the specification states it, fails.  After `Begin("c", 10, false)` and
`BeginMultiTXs("g", "c", 10, false, 1)` at height 100 the transaction `g` is
stored at `BEGIN` with the child `c`, and `Report("c", IBTP_RECEIPT_FAILURE)`
finds the record `tx-c` first: it moves the record to `FAILURE`, returns the
change from 0 to 4 and leaves the transaction info as it was.  After
`BeginMultiTXs("g", "global-tx-g", 10, false, 2)` and `BeginMultiTXs("g", "c2",
10, false, 2)` the transaction `g` is stored at `BEGIN` with the child `c2` and
listed twice under `timeout-110`, and `Report("c2", IBTP_RECEIPT_FAILURE)`
panics. -/
theorem C8_counterexample_record_shadows_child :
    Reachable host (fun _ => True) (fun _ => True) afterBeginCThenMulti ∧
    GetObject host afterBeginCThenMulti (GlobalTxInfoKey "g") =
      some ⟨BEGIN, 110, [("c", BEGIN)], 1⟩ ∧
    ((Report host afterBeginCThenMulti "c" IBTP_RECEIPT_FAILURE).map
      fun r => (r.1, GetObject host r.2 (GlobalTxInfoKey "g"), r.2.Get (TxInfoKey "c"))) =
      some (.Success (.change ⟨0, 4, [], [], [], false⟩),
        some ⟨BEGIN, 110, [("c", BEGIN)], 1⟩, some (.record ⟨FAILURE, 110⟩)) ∧
    Reachable host (fun _ => True) (fun _ => True) afterDoubleListing ∧
    GetObject host afterDoubleListing (GlobalTxInfoKey "g") =
      some ⟨BEGIN, 110, [("c2", BEGIN)], 2⟩ ∧
    afterDoubleListing.Get "c2" = some (.raw "g") ∧
    afterDoubleListing.Get (TimeoutKey 110) = some (.raw "g,g") ∧
    (Report host afterDoubleListing "c2" IBTP_RECEIPT_FAILURE).isNone = true := by
  refine ⟨?_, by decide, by decide, ?_, by decide, by decide, by decide, by decide⟩
  · exact Reachable.beginMulti afterBeginC "g" "c" 10 false 1
      (Response.Success (Payload.change ⟨-1, 0, ["c"], [], [], false⟩)) afterBeginCThenMulti
      (Reachable.begin (Stub.empty 100 InterchainContractAddr) "c" 10 false
        (Reachable.empty 100 InterchainContractAddr))
      trivial trivial rfl
  · exact Reachable_afterBeginMulti host _ _ _ "g" "c2" 10 false 2
      (Reachable_afterBeginMulti host _ _ _ "g" "global-tx-g" 10 false 2
        (Reachable.empty 100 InterchainContractAddr) trivial trivial) trivial trivial

/-- C11, as the specification states it, fails.  After `Begin("c", 10, false)`
and `BeginMultiTXs("g", "c", 10, false, 1)` at height 100 the success receipt is
legal for the child `c` of `g`, at `BEGIN`, yet `Report("c",
IBTP_RECEIPT_SUCCESS)` finds the record `tx-c` first and leaves the child and
the global state of `g` at `BEGIN`.  After `BeginMultiTXs("g", "global-tx-g", 10,
false, 1)` and `BeginMultiTXs("g", "c2", 10, false, 1)` the transaction `g` has
its one declared child `c2` at `BEGIN` and is listed twice under `timeout-110`:
`Report("c2", IBTP_RECEIPT_SUCCESS)` finishes the transaction and panics in the
removal from the timeout list. -/
theorem C11_counterexample_record_shadows_child :
    Reachable host (fun _ => True) (fun _ => True) afterBeginCThenMulti ∧
    GetObject host afterBeginCThenMulti (GlobalTxInfoKey "g") =
      some ⟨BEGIN, 110, [("c", BEGIN)], 1⟩ ∧
    setFSM BEGIN (receipt2EventM IBTP_RECEIPT_SUCCESS) = (SUCCESS, none) ∧
    ((Report host afterBeginCThenMulti "c" IBTP_RECEIPT_SUCCESS).map
      fun r => (r.1, GetObject host r.2 (GlobalTxInfoKey "g"))) =
      some (.Success (.change ⟨0, 3, [], [], [], false⟩),
        some ⟨BEGIN, 110, [("c", BEGIN)], 1⟩) ∧
    Reachable host (fun _ => True) (fun _ => True) afterDoubleListingOne ∧
    GetObject host afterDoubleListingOne (GlobalTxInfoKey "g") =
      some ⟨BEGIN, 110, [("c2", BEGIN)], 1⟩ ∧
    afterDoubleListingOne.Get "c2" = some (.raw "g") ∧
    afterDoubleListingOne.Get (TimeoutKey 110) = some (.raw "g,g") ∧
    (Report host afterDoubleListingOne "c2" IBTP_RECEIPT_SUCCESS).isNone = true := by
  refine ⟨?_, by decide, by decide, by decide, ?_, by decide, by decide, by decide,
    by decide⟩
  · exact Reachable.beginMulti afterBeginC "g" "c" 10 false 1
      (Response.Success (Payload.change ⟨-1, 0, ["c"], [], [], false⟩)) afterBeginCThenMulti
      (Reachable.begin (Stub.empty 100 InterchainContractAddr) "c" 10 false
        (Reachable.empty 100 InterchainContractAddr))
      trivial trivial rfl
  · exact Reachable_afterBeginMulti host _ _ _ "g" "c2" 10 false 1
      (Reachable_afterBeginMulti host _ _ _ "g" "global-tx-g" 10 false 1
        (Reachable.empty 100 InterchainContractAddr) trivial trivial) trivial trivial

/-- C12, as the specification states it, fails: the failure event leads to
`FAILURE` from `BEGIN` and to `ROLLBACK` from `BEGIN_ROLLBACK`, and the entry
points take any string as an ID.  On a host that decodes the text
`{"GlobalState":2,"ChildTxInfo":{"d":0},"ChildTxCount":1}` as a transaction info,
after `BeginMultiTXs("g", "d", 10, false, 1)` and `BeginMultiTXs` with that text
as the global ID and `global-tx-g` as the child ID, the entry of `g` is the text:
the transaction `g` at `BEGIN_ROLLBACK` with its one declared child `d` at
`BEGIN`.  `Report("d", IBTP_RECEIPT_FAILURE)` moves the global state to
`ROLLBACK` and stores the child at `FAILURE`. -/
theorem C12_counterexample_child_differs_from_global :
    Reachable hostText (fun _ => True) (fun _ => True) afterTextOverwrite ∧
    afterTextOverwrite.Get "d" = some (.raw "g") ∧
    afterTextOverwrite.Get (GlobalTxInfoKey "g") = some (.raw textWithChild) ∧
    GetObject hostText afterTextOverwrite (GlobalTxInfoKey "g") =
      some ⟨BEGIN_ROLLBACK, 0, [("d", BEGIN)], 1⟩ ∧
    ((Report hostText afterTextOverwrite "d" IBTP_RECEIPT_FAILURE).map
      fun r => (r.1, GetObject hostText r.2 (GlobalTxInfoKey "g"))) =
      some (.Success (.change ⟨2, 5, ["d"], [], [], false⟩),
        some ⟨ROLLBACK, 0, [("d", FAILURE)], 1⟩) := by
  refine ⟨?_, by decide, by decide, by decide, by decide⟩
  exact Reachable_afterBeginMulti hostText _ _ _ textWithChild "global-tx-g" 10 false 1
    (Reachable_afterBeginMulti hostText _ _ _ "g" "d" 10 false 1
      (Reachable.empty 100 InterchainContractAddr) trivial trivial) trivial trivial

/-- C13, as the specification states it, fails: the entry points take any string
as a child ID.  After `BeginMultiTXs("g", "timeout-110", 10, false, 2)` and
`BeginMultiTXs("g", "c2", 10, false, 2)` at height 100 the transaction `g` is at
`BEGIN` with its two declared children registered and at `BEGIN`.  With the
failure receipt for both children, the order `timeout-110`, `c2` ends at
`FAILURE`, and the order `c2`, `timeout-110` ends at `BEGIN_FAILURE`: the first
report rewrites the timeout list under `timeout-110`, which is the reverse index
entry of the other child, and the second report is refused. -/
theorem C13_counterexample_child_id_is_timeout_key :
    Reachable host (fun _ => True) (fun _ => True) afterTimeoutChild ∧
    GetObject host afterTimeoutChild (GlobalTxInfoKey "g") =
      some ⟨BEGIN, 110, [("timeout-110", BEGIN), ("c2", BEGIN)], 2⟩ ∧
    afterTimeoutChild.Get "timeout-110" = some (.raw "g") ∧
    afterTimeoutChild.Get "c2" = some (.raw "g") ∧
    ((deliver host afterTimeoutChild
        [("timeout-110", IBTP_RECEIPT_FAILURE), ("c2", IBTP_RECEIPT_FAILURE)]).bind
      fun t => (GetObject host t (GlobalTxInfoKey "g")).map fun i => i.GlobalState) =
      some FAILURE ∧
    ((deliver host afterTimeoutChild
        [("c2", IBTP_RECEIPT_FAILURE), ("timeout-110", IBTP_RECEIPT_FAILURE)]).bind
      fun t => (GetObject host t (GlobalTxInfoKey "g")).map fun i => i.GlobalState) =
      some BEGIN_FAILURE ∧
    ((Report host afterTimeoutChild "c2" IBTP_RECEIPT_FAILURE).map
      fun r => r.2.Get "timeout-110") = some (some (.raw "")) := by
  refine ⟨?_, by decide, by decide, by decide, by decide, by decide, by decide⟩
  exact Reachable_afterBeginMulti host _ _ _ "g" "c2" 10 false 2
    (Reachable_afterBeginMulti host _ _ _ "g" "timeout-110" 10 false 2
      (Reachable.empty 100 InterchainContractAddr) trivial trivial) trivial trivial

/-- C14, as the specification states it, fails: the reverse index entry is
written last, under the bare child ID.  After `BeginMultiTXs("g", "c1", 10, false,
2)` at height 100 the transaction `g` is stored at `BEGIN` and listed under
`timeout-110`; the failed `BeginMultiTXs("g", "timeout-110", 10, true, 2)`
succeeds, and the entry under `timeout-110` is then `g` again: the global ID is
still listed.  And after `BeginMultiTXs("g", "global-tx-g", 10, false, 2)` and
`BeginMultiTXs("g", "c2", 10, false, 2)` the transaction `g` is stored at `BEGIN`
without the child `c3` and is listed twice under `timeout-110`:
`BeginMultiTXs("g", "c3", 10, true, 2)` panics in the removal from the timeout
list and stores nothing. -/
theorem C14_counterexample_child_id_is_timeout_key :
    Reachable host (fun _ => True) (fun _ => True) afterPlainBegin ∧
    GetObject host afterPlainBegin (GlobalTxInfoKey "g") =
      some ⟨BEGIN, 110, [("c1", BEGIN)], 2⟩ ∧
    timeoutList host afterPlainBegin 110 = ["g"] ∧
    ((BeginMultiTXs host afterPlainBegin "g" "timeout-110" 10 true 2).map
      fun r => (r.1, GetObject host r.2 (GlobalTxInfoKey "g"), timeoutList host r.2 110)) =
      some (.Success (.change ⟨-1, 1, ["c1", "timeout-110"], ["c1"], [], false⟩),
        some ⟨BEGIN_FAILURE, 110, [("c1", BEGIN_FAILURE), ("timeout-110", BEGIN_FAILURE)], 2⟩,
        ["g"]) ∧
    Reachable host (fun _ => True) (fun _ => True) afterDoubleListing ∧
    GetObject host afterDoubleListing (GlobalTxInfoKey "g") =
      some ⟨BEGIN, 110, [("c2", BEGIN)], 2⟩ ∧
    afterDoubleListing.Get (TimeoutKey 110) = some (.raw "g,g") ∧
    (BeginMultiTXs host afterDoubleListing "g" "c3" 10 true 2).isNone = true := by
  refine ⟨?_, by decide, by decide, by decide, ?_, by decide, by decide, by decide⟩
  · exact Reachable.beginMulti (Stub.empty 100 InterchainContractAddr) "g" "c1" 10 false 2
      (Response.Success (Payload.change ⟨-1, 0, ["c1"], [], [], false⟩))
      afterPlainBegin (Reachable.empty 100 InterchainContractAddr) trivial trivial rfl
  · exact Reachable_afterBeginMulti host _ _ _ "g" "c2" 10 false 2
      (Reachable_afterBeginMulti host _ _ _ "g" "global-tx-g" 10 false 2
        (Reachable.empty 100 InterchainContractAddr) trivial trivial) trivial trivial

/-- C16, as the specification states it, fails: the reverse index entry is
written under the bare child ID.  After `BeginMultiTXs("g1", "c1", 10, false, 2)`
and `BeginMultiTXs("g2", "c2", 10, false, 2)` at height 100 the entry under
`timeout-110` is `g1,g2`; `BeginMultiTXs("g1", "timeout-110", 10, false, 2)` adds
the child to `g1` and leaves `g1` alone under `timeout-110`.  And on a host that
decodes the text `{"GlobalState":2}` as a transaction info, with a nil map of
children, after `BeginMultiTXs` with that text as the global ID and the key of
that transaction as the child ID, `BeginMultiTXs` with the new child `c` on that
transaction panics at the assignment to the entry of the nil map. -/
theorem C16_counterexample_child_id_is_timeout_key :
    Reachable host (fun _ => True) (fun _ => True) afterTwoListed ∧
    GetObject host afterTwoListed (GlobalTxInfoKey "g1") =
      some ⟨BEGIN, 110, [("c1", BEGIN)], 2⟩ ∧
    afterTwoListed.Get (TimeoutKey 110) = some (.raw "g1,g2") ∧
    ((BeginMultiTXs host afterTwoListed "g1" "timeout-110" 10 false 2).map
      fun r => (r.1, r.2.Get (TimeoutKey 110))) =
      some (.Success (.change ⟨-1, 0, ["c1", "timeout-110"], [], [], false⟩),
        some (.raw "g1")) ∧
    Reachable hostText (fun _ => True) (fun _ => True) afterTextID ∧
    GetObject hostText afterTextID (GlobalTxInfoKey textID) =
      some ⟨BEGIN_ROLLBACK, 0, [], 0⟩ ∧
    nilMapAt hostText afterTextID (GlobalTxInfoKey textID) = true ∧
    (BeginMultiTXs hostText afterTextID textID "c" 10 false 1).isNone = true := by
  refine ⟨?_, by decide, by decide, by decide, ?_, by decide, by decide, by decide⟩
  · exact Reachable_afterBeginMulti host _ _ _ "g2" "c2" 10 false 2
      (Reachable_afterBeginMulti host _ _ _ "g1" "c1" 10 false 2
        (Reachable.empty 100 InterchainContractAddr) trivial trivial) trivial trivial
  · exact Reachable.beginMulti (Stub.empty 100 InterchainContractAddr) textID
      (GlobalTxInfoKey textID) 10 false 1
      (Response.Success (Payload.change ⟨-1, 0, [GlobalTxInfoKey textID], [], [], false⟩))
      afterTextID (Reachable.empty 100 InterchainContractAddr) trivial trivial rfl

/-- C26, as the specification states it, fails: its cases leave out the bytes
under `tx-<id>` that are no record.  After `BeginMultiTXs("g", "tx-x", 10, false,
1)` at height 100 the reverse index entry of the child is stored under `tx-x`,
and `GetStatus("x")` returns the internal error. -/
theorem C26_counterexample_child_id_is_record_key :
    Reachable host (fun _ => True) (fun _ => True) afterRecordKeyChild ∧
    afterRecordKeyChild.Get (TxInfoKey "x") = some (.raw "g") ∧
    host.unmarshalRecord (.raw "g") = none ∧
    (GetStatus host afterRecordKeyChild "x").1 =
      .Error .TransactionInternalErrCode ["unmarshal record"] := by
  refine ⟨?_, by decide, by decide, by decide⟩
  exact Reachable_afterBeginMulti host _ _ _ "g" "tx-x" 10 false 1
    (Reachable.empty 100 InterchainContractAddr) trivial trivial

/-- C30, as the specification states it, fails.  After `Begin("c", 10, false)`
and `BeginMultiTXs("g", "c", 10, false, 1)` at height 100 the ID `c` is a child
of the transaction `g`, and `Report("c", IBTP_RECEIPT_SUCCESS)` succeeds on the
record `tx-c`: the child list of the change is empty, while the children of `g`
are `c`. -/
theorem C30_counterexample_record_shadows_child :
    Reachable host (fun _ => True) (fun _ => True) afterBeginCThenMulti ∧
    afterBeginCThenMulti.Get "c" = some (.raw "g") ∧
    ((Report host afterBeginCThenMulti "c" IBTP_RECEIPT_SUCCESS).map
      fun r => (r.1, (GetObject host r.2 (GlobalTxInfoKey "g")).map
        fun i => mapKeys i.ChildTxInfo)) =
      some (.Success (.change ⟨0, 3, [], [], [], false⟩), some ["c"]) := by
  refine ⟨?_, by decide, by decide⟩
  exact Reachable.beginMulti afterBeginC "g" "c" 10 false 1
    (Response.Success (Payload.change ⟨-1, 0, ["c"], [], [], false⟩)) afterBeginCThenMulti
    (Reachable.begin (Stub.empty 100 InterchainContractAddr) "c" 10 false
      (Reachable.empty 100 InterchainContractAddr))
    trivial trivial rfl

end Contracts
